import Mathlib

/-!
payment-api: a shallow embedding of the payment saga.

The definitions below follow the Go sources of the repository function by
function (the file and the function are named in each doc comment).

Modelling conventions

* `decimal.Decimal` (arbitrary-precision decimals with exact `Add`, `Sub` and
  comparisons) is embedded in the rationals.  `float64` amounts carried by
  requests and events are embedded in the rationals as well, each as the decimal
  that Go writes for it: `decimal.NewFromFloat` is the identity of the model,
  and `Decimal.Float64`, which rounds the decimals that are not `float64`
  values, is an input (`Env.float64`).
* A Go method with a pointer receiver returns the updated receiver next to its
  results: a failing call still returns the (possibly touched) receiver.
* `time.Now()` and `uuid.New()` are inputs: domain methods take the instant
  `now`, application services take an `Env` that answers the clock reads (by
  call site) and the identifiers drawn during the call.
* Go `error` values keep their code and message.
-/

namespace PaymentApi

/-! ## errors (internal/domain/shared/errors/errors.go) -/

/-- Go errors: `errors.New` / `fmt.Errorf` messages, and `DomainError` values
with their code, message and optional cause. -/
inductive Error where
  | msg (text : String)
  | domain (code : String) (message : String)
  | wrap (code : String) (message : String) (cause : Error)
deriving DecidableEq, Repr

/-- The errors.go helper `GetErrorCode`. -/
def GetErrorCode : Error → String
  | .msg _ => "UNKNOWN_ERROR"
  | .domain code _ => code
  | .wrap code _ _ => code

/-- The errors.go helper `WalletNotFoundError`. -/
def WalletNotFoundError (userID : String) : Error :=
  .domain "WALLET_NOT_FOUND" ("Wallet not found for user: " ++ userID)

/-- The errors.go helper `CurrencyMismatchError`. -/
def CurrencyMismatchError (expected actual : String) : Error :=
  .domain "CURRENCY_MISMATCH"
    ("Currency mismatch: expected " ++ expected ++ " but got " ++ actual)

/-- The errors.go helper `InsufficientFundsError` (the detail map is dropped). -/
def InsufficientFundsError : Error :=
  .domain "INSUFFICIENT_FUNDS" "Insufficient funds in wallet"

/-- The errors.go helper `DatabaseError`. -/
def DatabaseError (operation : String) (cause : Error) : Error :=
  .wrap "DATABASE_ERROR" ("Database error during " ++ operation) cause

/-- The errors.go helper `EventPublishError`. -/
def EventPublishError (eventType : String) (cause : Error) : Error :=
  .wrap "EVENT_PUBLISH_ERROR" ("Failed to publish event: " ++ eventType) cause

/-! ## value objects (internal/domain/shared/valueobjects) -/

/-- Exact decimals. -/
abbrev Decimal := ℚ

/-- The currency.go type `Currency`. -/
structure Currency where
  code : String
deriving DecidableEq, Repr

/-- The currency.go method `Currency.Equals`. -/
def Currency.Equals (c other : Currency) : Bool := c.code == other.code

/-- The currency.go method `Currency.IsEmpty`. -/
def Currency.IsEmpty (c : Currency) : Bool := c.code == ""

/-- The money.go type `Money`. -/
structure Money where
  amount : Decimal
  currency : Currency
deriving DecidableEq, Repr

/-- The Go zero value `Money{}`. -/
def Money.zeroValue : Money := ⟨0, ⟨""⟩⟩

/-- The money.go constructor `NewMoney`. -/
def NewMoney (amount : Decimal) (currency : Currency) : Except Error Money :=
  if amount < 0 then .error (.msg "amount cannot be negative")
  else if currency.IsEmpty then .error (.msg "currency is required")
  else .ok ⟨amount, currency⟩

/-- The money.go method `Money.Add`. -/
def Money.Add (m other : Money) : Except Error Money :=
  if !m.currency.Equals other.currency then
    .error (.msg ("cannot add different currencies: " ++ m.currency.code ++ " and "
      ++ other.currency.code))
  else .ok ⟨m.amount + other.amount, m.currency⟩

/-- The money.go method `Money.Subtract`. -/
def Money.Subtract (m other : Money) : Except Error Money :=
  if !m.currency.Equals other.currency then
    .error (.msg ("cannot subtract different currencies: " ++ m.currency.code ++ " and "
      ++ other.currency.code))
  else
    let result := m.amount - other.amount
    if result < 0 then .error (.msg "result would be negative")
    else .ok ⟨result, m.currency⟩

/-- The money.go method `Money.IsGreaterThanOrEqual`. -/
def Money.IsGreaterThanOrEqual (m other : Money) : Except Error Bool :=
  if !m.currency.Equals other.currency then
    .error (.msg "cannot compare different currencies")
  else .ok (decide (other.amount ≤ m.amount))

/-- The money.go method `Money.IsZero`. -/
def Money.IsZero (m : Money) : Bool := decide (m.amount = 0)

/-- The money.go method `Money.IsPositive`. -/
def Money.IsPositive (m : Money) : Bool := decide (0 < m.amount)

/-- The money.go method `Money.AmountFloat`; `float64` stands for the library
method `decimal.Decimal.Float64`, which returns the `float64` nearest to the
decimal.  A `float64` is given by the decimal that Go writes for it: the
conversion returns an amount that is a `float64` value as it is and rounds any
other (9007199254740993 becomes 9007199254740992). -/
def Money.AmountFloat (m : Money) (float64 : Decimal → ℚ) : ℚ := float64 m.amount

/-- The identifiers.go type `PaymentID`. -/
structure PaymentID where
  value : String
deriving DecidableEq, Repr

/-- The identifiers.go type `UserID`. -/
structure UserID where
  value : String
deriving DecidableEq, Repr

/-- The identifiers.go type `ServiceID`. -/
structure ServiceID where
  value : String
deriving DecidableEq, Repr

/-- The identifiers.go type `IdempotencyKey`. -/
structure IdempotencyKey where
  value : String
deriving DecidableEq, Repr

/-- The identifiers.go method `PaymentID.IsEmpty`. -/
def PaymentID.IsEmpty (id : PaymentID) : Bool := id.value == ""

/-- The identifiers.go method `UserID.IsEmpty`. -/
def UserID.IsEmpty (id : UserID) : Bool := id.value == ""

/-- The identifiers.go method `UserID.Equals`. -/
def UserID.Equals (id other : UserID) : Bool := id.value == other.value

/-- The identifiers.go method `ServiceID.IsEmpty`. -/
def ServiceID.IsEmpty (id : ServiceID) : Bool := id.value == ""

/-- The identifiers.go method `IdempotencyKey.IsEmpty`. -/
def IdempotencyKey.IsEmpty (k : IdempotencyKey) : Bool := k.value == ""

/-- The identifiers.go constructor `NewPaymentID`; `parseUUID` stands for the
success of the library call `uuid.Parse`. -/
def NewPaymentID (parseUUID : String → Bool) (value : String) : Except Error PaymentID :=
  if value == "" then .error (.msg "payment ID cannot be empty")
  else if !parseUUID value then
    .error (.msg "invalid payment ID format: must be valid UUID")
  else .ok ⟨value⟩

/-- The identifiers.go constructor `NewUserID` (`len` counts bytes). -/
def NewUserID (value : String) : Except Error UserID :=
  if value == "" then .error (.msg "user ID cannot be empty")
  else if value.utf8ByteSize > 255 then .error (.msg "user ID too long")
  else .ok ⟨value⟩

/-- The identifiers.go constructor `NewServiceID`. -/
def NewServiceID (value : String) : Except Error ServiceID :=
  if value == "" then .error (.msg "service ID cannot be empty")
  else if value.utf8ByteSize > 255 then .error (.msg "service ID too long")
  else .ok ⟨value⟩

/-- The identifiers.go constructor `NewIdempotencyKey`. -/
def NewIdempotencyKey (value : String) : Except Error IdempotencyKey :=
  if value == "" then .error (.msg "idempotency key cannot be empty")
  else if value.utf8ByteSize > 255 then
    .error (.msg "idempotency key too long (max 255 characters)")
  else .ok ⟨value⟩

/-- The payment_status.go type `PaymentStatus`, a Go `int`. -/
structure PaymentStatus where
  val : Int
deriving DecidableEq, Repr

/-- The constant `PaymentStatusPending` (iota 0). -/
def PaymentStatusPending : PaymentStatus := ⟨0⟩

/-- The constant `PaymentStatusCompleted` (iota 1). -/
def PaymentStatusCompleted : PaymentStatus := ⟨1⟩

/-- The constant `PaymentStatusFailed` (iota 2). -/
def PaymentStatusFailed : PaymentStatus := ⟨2⟩

/-- The payment_status.go method `PaymentStatus.String`. -/
def PaymentStatus.String (s : PaymentStatus) : String :=
  if s = PaymentStatusPending then "PENDING"
  else if s = PaymentStatusCompleted then "COMPLETED"
  else if s = PaymentStatusFailed then "FAILED"
  else "UNKNOWN"

/-- The payment_status.go method `PaymentStatus.IsPending`. -/
def PaymentStatus.IsPending (s : PaymentStatus) : Bool := decide (s = PaymentStatusPending)

/-- The payment_status.go method `PaymentStatus.IsCompleted`. -/
def PaymentStatus.IsCompleted (s : PaymentStatus) : Bool :=
  decide (s = PaymentStatusCompleted)

/-- The payment_status.go method `PaymentStatus.IsFailed`. -/
def PaymentStatus.IsFailed (s : PaymentStatus) : Bool := decide (s = PaymentStatusFailed)

/-- The payment_status.go method `PaymentStatus.IsTerminal`. -/
def PaymentStatus.IsTerminal (s : PaymentStatus) : Bool :=
  decide (s = PaymentStatusCompleted) || decide (s = PaymentStatusFailed)

/-- The payment_status.go method `PaymentStatus.CanTransitionTo`. -/
def PaymentStatus.CanTransitionTo (s target : PaymentStatus) : Bool :=
  if s = PaymentStatusPending then
    decide (target = PaymentStatusCompleted) || decide (target = PaymentStatusFailed)
  else if s = PaymentStatusCompleted then false
  else if s = PaymentStatusFailed then false
  else false

/-- The payment_status.go method `PaymentStatus.ValidateTransition`:
`none` is the nil error. -/
def PaymentStatus.ValidateTransition (s target : PaymentStatus) : Option Error :=
  if !s.CanTransitionTo target then
    some (.msg ("invalid status transition from " ++ s.String ++ " to " ++ target.String))
  else none

/-! ## wallet aggregate (internal/domain/wallet/aggregate.go) -/

/-- The aggregate.go type `Wallet`; instants are natural numbers. -/
structure Wallet where
  userID : UserID
  balance : Money
  updatedAt : Nat
deriving DecidableEq, Repr

/-- The aggregate.go constructor `NewWallet`. -/
def NewWallet (userID : UserID) (initialBalance : Money) (now : Nat) : Except Error Wallet :=
  if userID.IsEmpty then .error (.msg "user ID is required")
  else if initialBalance.amount < 0 then .error (.msg "initial balance cannot be negative")
  else .ok ⟨userID, initialBalance, now⟩

/-- The aggregate.go method `Wallet.CanDebit`. -/
def Wallet.CanDebit (w : Wallet) (amount : Money) : Bool :=
  if !w.balance.currency.Equals amount.currency then false
  else
    match w.balance.IsGreaterThanOrEqual amount with
    | .error _ => false
    | .ok hasEnough => hasEnough

/-- The aggregate.go method `Wallet.Debit`: the result `(previousBalance, newBalance)`
or the error, and the wallet after the call.  When `Subtract` fails the Go
assignment `w.balance, err = ...` has already stored the zero `Money`. -/
def Wallet.Debit (w : Wallet) (amount : Money) (now : Nat) :
    Except Error (Money × Money) × Wallet :=
  if !w.balance.currency.Equals amount.currency then
    (.error (.msg "currency mismatch: cannot debit different currency"), w)
  else if !w.CanDebit amount then (.error (.msg "insufficient funds"), w)
  else
    let previousBalance := w.balance
    match w.balance.Subtract amount with
    | .error err => (.error err, { w with balance := Money.zeroValue })
    | .ok newBalance =>
        (.ok (previousBalance, newBalance), { w with balance := newBalance, updatedAt := now })

/-- The aggregate.go method `Wallet.Credit`. -/
def Wallet.Credit (w : Wallet) (amount : Money) (now : Nat) :
    Except Error (Money × Money) × Wallet :=
  if !w.balance.currency.Equals amount.currency then
    (.error (.msg "currency mismatch: cannot credit different currency"), w)
  else if !amount.IsPositive then (.error (.msg "credit amount must be positive"), w)
  else
    let previousBalance := w.balance
    match w.balance.Add amount with
    | .error err => (.error err, { w with balance := Money.zeroValue })
    | .ok newBalance =>
        (.ok (previousBalance, newBalance), { w with balance := newBalance, updatedAt := now })

/-- One mutating call on a wallet, with its argument and the instant of the call. -/
inductive WalletCall where
  | debit (amount : Money) (now : Nat)
  | credit (amount : Money) (now : Nat)
deriving DecidableEq, Repr

/-- The wallet after one call, whether the call succeeded or not. -/
def Wallet.call (w : Wallet) : WalletCall → Wallet
  | .debit amount now => (w.Debit amount now).2
  | .credit amount now => (w.Credit amount now).2

/-- The wallet after a sequence of calls, first call first. -/
def Wallet.calls (w : Wallet) (cs : List WalletCall) : Wallet :=
  cs.foldl Wallet.call w

/-! ## payment aggregate (internal/domain/payment/aggregate.go) -/

/-- The aggregate.go type `Payment`. -/
structure Payment where
  id : PaymentID
  userID : UserID
  serviceID : ServiceID
  idempotencyKey : IdempotencyKey
  money : Money
  status : PaymentStatus
  failureReason : String
  externalTxID : String
  createdAt : Nat
  updatedAt : Nat
deriving DecidableEq, Repr

/-- The aggregate.go constructor `NewPayment`. -/
def NewPayment (id : PaymentID) (userID : UserID) (serviceID : ServiceID) (money : Money)
    (idempotencyKey : IdempotencyKey) (now : Nat) : Except Error Payment :=
  if id.IsEmpty then .error (.msg "payment ID is required")
  else if userID.IsEmpty then .error (.msg "user ID is required")
  else if serviceID.IsEmpty then .error (.msg "service ID is required")
  else if money.IsZero then .error (.msg "payment amount must be greater than zero")
  else if idempotencyKey.IsEmpty then .error (.msg "idempotency key is required")
  else .ok
    { id := id, userID := userID, serviceID := serviceID, idempotencyKey := idempotencyKey,
      money := money, status := PaymentStatusPending, failureReason := "",
      externalTxID := "", createdAt := now, updatedAt := now }

/-- The aggregate.go method `Payment.MarkCompleted`: the error (`none` is nil)
and the payment after the call. -/
def Payment.MarkCompleted (p : Payment) (externalTxID : String) (now : Nat) :
    Option Error × Payment :=
  match p.status.ValidateTransition PaymentStatusCompleted with
  | some err => (some err, p)
  | none =>
    if externalTxID == "" then
      (some (.msg "external transaction ID is required when completing payment"), p)
    else
      (none, { p with status := PaymentStatusCompleted, externalTxID := externalTxID,
                      updatedAt := now })

/-- The aggregate.go method `Payment.MarkFailed`. -/
def Payment.MarkFailed (p : Payment) (reason : String) (now : Nat) : Option Error × Payment :=
  match p.status.ValidateTransition PaymentStatusFailed with
  | some err => (some err, p)
  | none =>
    if reason == "" then
      (some (.msg "failure reason is required when marking payment as failed"), p)
    else
      (none, { p with status := PaymentStatusFailed, failureReason := reason,
                      updatedAt := now })

/-- The aggregate.go method `Payment.CanBeRefunded`. -/
def Payment.CanBeRefunded (p : Payment) : Bool := p.status.IsFailed

/-- The aggregate.go method `Payment.CanBeProcessed`. -/
def Payment.CanBeProcessed (p : Payment) : Bool := p.status.IsPending

/-! ## domain processor (internal/domain/payment/payment_processor.go) -/

/-- The payment_processor.go type `ProcessResult`; fields a Go literal leaves
out hold their zero value. -/
structure ProcessResult where
  Success : Bool
  FailureReason : String := ""
  WalletDebited : Bool
  PreviousBalance : Money := Money.zeroValue
  NewBalance : Money := Money.zeroValue
deriving DecidableEq, Repr

/-- The payment_processor.go method `Processor.Process`: the result or the hard
error, and the payment and the wallet after the call. -/
def Process (pmt : Payment) (wlt : Wallet) (now : Nat) :
    Except Error ProcessResult × Payment × Wallet :=
  if !pmt.CanBeProcessed then
    (.error (.msg "payment must be in pending status to be processed"), pmt, wlt)
  else if !pmt.userID.Equals wlt.userID then
    (.ok { Success := false, FailureReason := "USER_MISMATCH", WalletDebited := false }, pmt, wlt)
  else if !wlt.balance.currency.Equals pmt.money.currency then
    (.ok { Success := false, FailureReason := "CURRENCY_MISMATCH", WalletDebited := false },
      pmt, wlt)
  else if !wlt.CanDebit pmt.money then
    (.ok { Success := false, FailureReason := "INSUFFICIENT_FUNDS", WalletDebited := false },
      pmt, wlt)
  else
    match wlt.Debit pmt.money now with
    | (.error _, wlt') =>
        (.ok { Success := false, FailureReason := "DEBIT_FAILED", WalletDebited := false },
          pmt, wlt')
    | (.ok (prevBalance, newBalance), wlt') =>
        (.ok { Success := true, WalletDebited := true, PreviousBalance := prevBalance,
               NewBalance := newBalance }, pmt, wlt')

/-- The payment_processor.go type `RefundResult`. -/
structure RefundResult where
  Success : Bool
  PreviousBalance : Money
  NewBalance : Money
deriving DecidableEq, Repr

/-- The payment_processor.go method `Processor.Refund`. -/
def Refund (pmt : Payment) (wlt : Wallet) (now : Nat) :
    Except Error RefundResult × Payment × Wallet :=
  if !pmt.CanBeRefunded then
    (.error (.msg "payment cannot be refunded in current state"), pmt, wlt)
  else if !pmt.userID.Equals wlt.userID then
    (.error (.msg "user ID mismatch: payment and wallet belong to different users"), pmt, wlt)
  else
    match wlt.Credit pmt.money now with
    | (.error err, wlt') => (.error err, pmt, wlt')
    | (.ok (prevBalance, newBalance), wlt') =>
        (.ok { Success := true, PreviousBalance := prevBalance, NewBalance := newBalance },
          pmt, wlt')

/-- The currency.go table `validCurrencies`. -/
def validCurrencies : List String := ["ARS", "USD", "EUR", "BRL", "MXN", "CLP", "COP"]

/-- The currency.go constructor `NewCurrency`; `upperTrim` stands for the library
composition `strings.ToUpper(strings.TrimSpace(code))`. -/
def NewCurrency (upperTrim : String → String) (code : String) : Except Error Currency :=
  let code := upperTrim code
  if code == "" then .error (.msg "currency code cannot be empty")
  else if code.utf8ByteSize != 3 then .error (.msg "currency code must be 3 characters")
  else if !validCurrencies.contains code then .error (.msg ("unsupported currency: " ++ code))
  else .ok ⟨code⟩

/-! ## events (internal/domain/shared/event.go and the event files of
internal/domain/payment and internal/domain/wallet) -/

/-- The event.go type `Metadata`; the `Extra` map is a list of entries. -/
structure Metadata where
  ClientID : String
  RequestID : String
  Source : String
  Extra : List (String × String)
deriving DecidableEq, Repr

/-- The Go zero value `shared.Metadata{}`. -/
def Metadata.zeroValue : Metadata := ⟨"", "", "", []⟩

/-- The event.go type `BaseEvent`. -/
structure BaseEvent where
  eventType : String
  occurredAt : Nat
  metadata : Metadata
deriving DecidableEq, Repr

/-- The event.go constructor `NewBaseEvent`. -/
def NewBaseEvent (eventType : String) (metadata : Metadata) (now : Nat) : BaseEvent :=
  ⟨eventType, now, metadata⟩

/-- The ten event structs, one constructor each, with the fields in the order
of the Go constructors. -/
inductive Event where
  | paymentRequested (base : BaseEvent) (paymentID userID : String) (amount : ℚ)
      (currency serviceID idempotencyKey : String)
  | walletDebited (base : BaseEvent) (paymentID userID : String)
      (amount prevBalance newBalance : ℚ)
  | walletCredited (base : BaseEvent) (paymentID userID : String)
      (amount prevBalance newBalance : ℚ) (reason : String)
  | externalPaymentRequested (base : BaseEvent) (paymentID userID : String) (amount : ℚ)
      (currency serviceID : String)
  | externalPaymentSucceeded (base : BaseEvent) (paymentID externalTransactionID : String)
  | externalPaymentFailed (base : BaseEvent) (paymentID reason errorCode : String)
  | externalPaymentTimeout (base : BaseEvent) (paymentID : String) (timeoutDuration : Int)
  | paymentCompleted (base : BaseEvent) (paymentID userID : String) (amount : ℚ)
      (externalTransactionID : String)
  | paymentFailed (base : BaseEvent) (paymentID userID : String) (amount : ℚ)
      (reason : String)
  | paymentRefundRequested (base : BaseEvent) (paymentID userID : String) (amount : ℚ)
      (reason : String)
deriving DecidableEq, Repr

/-- The embedded `BaseEvent` of an event. -/
def Event.base : Event → BaseEvent
  | .paymentRequested b .. => b
  | .walletDebited b .. => b
  | .walletCredited b .. => b
  | .externalPaymentRequested b .. => b
  | .externalPaymentSucceeded b .. => b
  | .externalPaymentFailed b .. => b
  | .externalPaymentTimeout b .. => b
  | .paymentCompleted b .. => b
  | .paymentFailed b .. => b
  | .paymentRefundRequested b .. => b

/-- The event.go method `BaseEvent.EventType`, through the embedding. -/
def Event.EventType (e : Event) : String := e.base.eventType

/-- The event.go method `BaseEvent.OccurredAt`, through the embedding. -/
def Event.OccurredAt (e : Event) : Nat := e.base.occurredAt

/-- The event.go method `BaseEvent.Metadata`, through the embedding. -/
def Event.Metadata (e : Event) : Metadata := e.base.metadata

/-- The constructor `NewPaymentRequestedEvent`. -/
def NewPaymentRequestedEvent (paymentID userID : String) (amount : ℚ)
    (currency serviceID idempotencyKey : String) (metadata : Metadata) (now : Nat) : Event :=
  .paymentRequested (NewBaseEvent "PaymentRequested" metadata now) paymentID userID amount
    currency serviceID idempotencyKey

/-- The constructor `NewWalletDebitedEvent`. -/
def NewWalletDebitedEvent (paymentID userID : String) (amount prevBalance newBalance : ℚ)
    (metadata : Metadata) (now : Nat) : Event :=
  .walletDebited (NewBaseEvent "WalletDebited" metadata now) paymentID userID amount
    prevBalance newBalance

/-- The constructor `NewWalletCreditedEvent`. -/
def NewWalletCreditedEvent (paymentID userID : String) (amount prevBalance newBalance : ℚ)
    (reason : String) (metadata : Metadata) (now : Nat) : Event :=
  .walletCredited (NewBaseEvent "WalletCredited" metadata now) paymentID userID amount
    prevBalance newBalance reason

/-- The constructor `NewExternalPaymentRequestedEvent`. -/
def NewExternalPaymentRequestedEvent (paymentID userID : String) (amount : ℚ)
    (currency serviceID : String) (metadata : Metadata) (now : Nat) : Event :=
  .externalPaymentRequested (NewBaseEvent "ExternalPaymentRequested" metadata now) paymentID
    userID amount currency serviceID

/-- The constructor `NewExternalPaymentSucceededEvent`. -/
def NewExternalPaymentSucceededEvent (paymentID externalTransactionID : String)
    (metadata : Metadata) (now : Nat) : Event :=
  .externalPaymentSucceeded (NewBaseEvent "ExternalPaymentSucceeded" metadata now) paymentID
    externalTransactionID

/-- The constructor `NewExternalPaymentFailedEvent`. -/
def NewExternalPaymentFailedEvent (paymentID reason errorCode : String)
    (metadata : Metadata) (now : Nat) : Event :=
  .externalPaymentFailed (NewBaseEvent "ExternalPaymentFailed" metadata now) paymentID reason
    errorCode

/-- The constructor `NewExternalPaymentTimeoutEvent`. -/
def NewExternalPaymentTimeoutEvent (paymentID : String) (timeoutDuration : Int)
    (metadata : Metadata) (now : Nat) : Event :=
  .externalPaymentTimeout (NewBaseEvent "ExternalPaymentTimeout" metadata now) paymentID
    timeoutDuration

/-- The constructor `NewPaymentCompletedEvent`. -/
def NewPaymentCompletedEvent (paymentID userID : String) (amount : ℚ)
    (externalTransactionID : String) (metadata : Metadata) (now : Nat) : Event :=
  .paymentCompleted (NewBaseEvent "PaymentCompleted" metadata now) paymentID userID amount
    externalTransactionID

/-- The constructor `NewPaymentFailedEvent`. -/
def NewPaymentFailedEvent (paymentID userID : String) (amount : ℚ) (reason : String)
    (metadata : Metadata) (now : Nat) : Event :=
  .paymentFailed (NewBaseEvent "PaymentFailed" metadata now) paymentID userID amount reason

/-- The constructor `NewPaymentRefundRequestedEvent`. -/
def NewPaymentRefundRequestedEvent (paymentID userID : String) (amount : ℚ) (reason : String)
    (metadata : Metadata) (now : Nat) : Event :=
  .paymentRefundRequested (NewBaseEvent "PaymentRefundRequested" metadata now) paymentID
    userID amount reason

/-! ## stores (tests/unit/fakes, behind the repository interfaces)

The repositories, the idempotency store, the event store and the publisher are
interfaces whose calls return an `error`.  The stores below are the in-memory
maps of `tests/unit/fakes`; `Env.fails` says which calls of the current
invocation return an error instead (such a call leaves the store as it was),
and the fakes themselves are the case where none does.  A store holds values,
as the DynamoDB repositories do: an aggregate changed in memory reaches the
store through `Save` / `Update`. -/

/-- The repositories.go type `StoredEvent`; the JSON payload is the event. -/
structure StoredEvent where
  EventID : String
  EventType : String
  PaymentID : String
  Payload : Event
  OccurredAt : Nat
  Metadata : Metadata
deriving DecidableEq, Repr

/-- The four stores and the list of published events. -/
structure Stores where
  payments : String → Option Payment
  wallets : String → Option Wallet
  keys : String → Option String
  events : String → List StoredEvent
  published : List Event

/-- The calls on the collaborators; appends and publishes are numbered in the
order of the invocation. -/
inductive StoreCall where
  | paymentSave
  | paymentFind
  | paymentUpdate
  | walletGet
  | walletUpdate
  | keyGet
  | keySave
  | eventAppend (k : Nat)
  | eventPublish (k : Nat)
deriving DecidableEq, Repr

/-- The inputs of one invocation of a service: the instants read from the clock
(by call site), the identifiers drawn from `uuid.New`, the library functions
`uuid.Parse` (its success) and `strings.ToUpper ∘ strings.TrimSpace`, the
collaborator calls that return an error, and the library method
`decimal.Decimal.Float64` (see `Money.AmountFloat`). -/
structure Env where
  clock : Nat → Nat
  uuid : Nat → String
  parseUUID : String → Bool
  upperTrim : String → String
  fails : StoreCall → Bool
  float64 : Decimal → ℚ

/-- The error of a collaborator call that fails. -/
def ioError : Error := .msg "i/o failure"

/-- The fake `PaymentRepositoryFake.Save`. -/
def PaymentRepository.Save (fail : Bool) (s : Stores) (pmt : Payment) : Option Error × Stores :=
  if fail then (some ioError, s)
  else (none, { s with payments := Function.update s.payments pmt.id.value (some pmt) })

/-- The fake `PaymentRepositoryFake.FindByID`. -/
def PaymentRepository.FindByID (fail : Bool) (s : Stores) (paymentID : String) :
    Except Error Payment :=
  if fail then .error ioError
  else
    match s.payments paymentID with
    | none => .error (.msg "payment not found")
    | some pmt => .ok pmt

/-- The fake `PaymentRepositoryFake.Update` (same as `Save`). -/
def PaymentRepository.Update (fail : Bool) (s : Stores) (pmt : Payment) :
    Option Error × Stores :=
  PaymentRepository.Save fail s pmt

/-- The fake `WalletRepositoryFake.GetByUserID`. -/
def WalletRepository.GetByUserID (fail : Bool) (s : Stores) (userID : String) :
    Except Error Wallet :=
  if fail then .error ioError
  else
    match s.wallets userID with
    | none => .error (.msg "wallet not found")
    | some wlt => .ok wlt

/-- The fake `WalletRepositoryFake.Save`. -/
def WalletRepository.Save (fail : Bool) (s : Stores) (wlt : Wallet) : Option Error × Stores :=
  if fail then (some ioError, s)
  else (none, { s with wallets := Function.update s.wallets wlt.userID.value (some wlt) })

/-- The fake `WalletRepositoryFake.Update` (same as `Save`). -/
def WalletRepository.Update (fail : Bool) (s : Stores) (wlt : Wallet) : Option Error × Stores :=
  WalletRepository.Save fail s wlt

/-- The fake `IdempotencyStoreFake.GetPaymentIDByKey`. -/
def IdempotencyStore.GetPaymentIDByKey (fail : Bool) (s : Stores) (idempotencyKey : String) :
    Except Error String :=
  if fail then .error ioError
  else
    match s.keys idempotencyKey with
    | none => .error (.msg "key not found")
    | some paymentID => .ok paymentID

/-- The fake `IdempotencyStoreFake.SaveKey`. -/
def IdempotencyStore.SaveKey (fail : Bool) (s : Stores) (idempotencyKey paymentID : String) :
    Option Error × Stores :=
  if fail then (some ioError, s)
  else (none, { s with keys := Function.update s.keys idempotencyKey (some paymentID) })

/-- The fake `EventStoreFake.Append`; `eventID` is the identifier it draws. -/
def EventStore.Append (fail : Bool) (s : Stores) (event : Event) (paymentID eventID : String) :
    Option Error × Stores :=
  if fail then (some ioError, s)
  else
    let storedEvent : StoredEvent :=
      { EventID := eventID, EventType := event.EventType, PaymentID := paymentID,
        Payload := event, OccurredAt := event.OccurredAt, Metadata := event.Metadata }
    (none, { s with events := Function.update s.events paymentID
                                (s.events paymentID ++ [storedEvent]) })

/-- The fake `EventPublisherFake.Publish`. -/
def EventPublisher.Publish (fail : Bool) (s : Stores) (event : Event) : Option Error × Stores :=
  if fail then (some ioError, s)
  else (none, { s with published := s.published ++ [event] })

/-- The fake `EventPublisherFake.GetEventsByType`. -/
def GetEventsByType (s : Stores) (eventType : String) : List Event :=
  s.published.filter (fun event => event.EventType == eventType)

/-! ## saga coordinator (internal/application/orchestrator/payment_orchestrator.go) -/

/-- The orchestrator helper `publishEvent`, for the `k`-th event of the invocation. -/
def publishEvent (env : Env) (k : Nat) (s : Stores) (event : Event) (paymentID : String) :
    Option Error × Stores :=
  match EventStore.Append (env.fails (.eventAppend k)) s event paymentID (env.uuid k) with
  | (some err, s1) => (some (.wrap "EVENT_STORE_ERROR" "failed to store event" err), s1)
  | (none, s1) =>
    match EventPublisher.Publish (env.fails (.eventPublish k)) s1 event with
    | (some err, s2) => (some (EventPublishError event.EventType err), s2)
    | (none, s2) => (none, s2)

/-- The orchestrator helper `failPayment`: the error of `MarkFailed` is only logged. -/
def failPayment (env : Env) (s : Stores) (pmt : Payment) (reason : String) :
    Option Error × Stores :=
  let pmt1 := (pmt.MarkFailed reason (env.clock 0)).2
  match PaymentRepository.Update (env.fails .paymentUpdate) s pmt1 with
  | (some err, s1) => (some (DatabaseError "update payment status" err), s1)
  | (none, s1) =>
    let failedEvent := NewPaymentFailedEvent pmt1.id.value pmt1.userID.value
      (pmt1.money.AmountFloat env.float64) reason Metadata.zeroValue (env.clock 1)
    publishEvent env 0 s1 failedEvent pmt1.id.value

/-- The orchestrator helper `initiateRefund`. -/
def initiateRefund (env : Env) (s : Stores) (paymentID reason : String) (metadata : Metadata) :
    Option Error × Stores :=
  match PaymentRepository.FindByID (env.fails .paymentFind) s paymentID with
  | .error err => (some err, s)
  | .ok pmt =>
    let pmt1 := (pmt.MarkFailed reason (env.clock 0)).2
    match PaymentRepository.Update (env.fails .paymentUpdate) s pmt1 with
    | (some err, s1) => (some err, s1)
    | (none, s1) =>
      let refundEvent := NewPaymentRefundRequestedEvent pmt1.id.value pmt1.userID.value
        (pmt1.money.AmountFloat env.float64) reason metadata (env.clock 1)
      publishEvent env 0 s1 refundEvent pmt1.id.value

/-- The orchestrator method `HandlePaymentRequested`. -/
def HandlePaymentRequested (env : Env) (s : Stores) (event : Event) : Option Error × Stores :=
  match event with
  | .paymentRequested _ paymentID userID _ _ _ _ =>
    match PaymentRepository.FindByID (env.fails .paymentFind) s paymentID with
    | .error err => (some (.wrap "PAYMENT_NOT_FOUND" "payment not found" err), s)
    | .ok pmt =>
      match WalletRepository.GetByUserID (env.fails .walletGet) s userID with
      | .error _ => failPayment env s pmt "WALLET_NOT_FOUND"
      | .ok wlt =>
        match Process pmt wlt (env.clock 0) with
        | (.error err, _, _) => (some err, s)
        | (.ok result, pmt1, wlt1) =>
          if !result.Success then failPayment env s pmt1 result.FailureReason
          else
            match WalletRepository.Update (env.fails .walletUpdate) s wlt1 with
            | (some err, s1) => (some (DatabaseError "update wallet" err), s1)
            | (none, s1) =>
              let debitedEvent := NewWalletDebitedEvent pmt1.id.value pmt1.userID.value
                (pmt1.money.AmountFloat env.float64)
                (result.PreviousBalance.AmountFloat env.float64)
                (result.NewBalance.AmountFloat env.float64) event.Metadata (env.clock 1)
              match publishEvent env 0 s1 debitedEvent pmt1.id.value with
              | (some err, s2) => (some err, s2)
              | (none, s2) =>
                let externalEvent := NewExternalPaymentRequestedEvent pmt1.id.value
                  pmt1.userID.value (pmt1.money.AmountFloat env.float64)
                  pmt1.money.currency.code pmt1.serviceID.value event.Metadata (env.clock 2)
                publishEvent env 1 s2 externalEvent pmt1.id.value
  | _ => (some (.msg "unexpected event type"), s)

/-- The orchestrator method `HandleExternalPaymentSucceeded`. -/
def HandleExternalPaymentSucceeded (env : Env) (s : Stores) (event : Event) :
    Option Error × Stores :=
  match event with
  | .externalPaymentSucceeded _ paymentID externalTransactionID =>
    match PaymentRepository.FindByID (env.fails .paymentFind) s paymentID with
    | .error err => (some err, s)
    | .ok pmt =>
      match pmt.MarkCompleted externalTransactionID (env.clock 0) with
      | (some err, _) => (some err, s)
      | (none, pmt1) =>
        match PaymentRepository.Update (env.fails .paymentUpdate) s pmt1 with
        | (some err, s1) => (some err, s1)
        | (none, s1) =>
          let completedEvent := NewPaymentCompletedEvent pmt1.id.value pmt1.userID.value
            (pmt1.money.AmountFloat env.float64) pmt1.externalTxID event.Metadata (env.clock 1)
          publishEvent env 0 s1 completedEvent pmt1.id.value
  | _ => (some (.msg "unexpected event type"), s)

/-- The orchestrator method `HandleExternalPaymentFailed`. -/
def HandleExternalPaymentFailed (env : Env) (s : Stores) (event : Event) :
    Option Error × Stores :=
  match event with
  | .externalPaymentFailed _ paymentID reason _ =>
    initiateRefund env s paymentID reason event.Metadata
  | _ => (some (.msg "unexpected event type"), s)

/-- The orchestrator method `HandleExternalPaymentTimeout`. -/
def HandleExternalPaymentTimeout (env : Env) (s : Stores) (event : Event) :
    Option Error × Stores :=
  match event with
  | .externalPaymentTimeout _ paymentID _ =>
    initiateRefund env s paymentID "TIMEOUT" event.Metadata
  | _ => (some (.msg "unexpected event type"), s)

/-- The orchestrator method `HandlePaymentRefundRequested`; a `NewPaymentID` error
is dropped and leaves the zero `PaymentID`. -/
def HandlePaymentRefundRequested (env : Env) (s : Stores) (event : Event) :
    Option Error × Stores :=
  match event with
  | .paymentRefundRequested _ refundPaymentID refundUserID refundAmount _ =>
    let paymentID : PaymentID :=
      match NewPaymentID env.parseUUID refundPaymentID with
      | .ok id => id
      | .error _ => ⟨""⟩
    match PaymentRepository.FindByID (env.fails .paymentFind) s paymentID.value with
    | .error err => (some err, s)
    | .ok pmt =>
      match WalletRepository.GetByUserID (env.fails .walletGet) s refundUserID with
      | .error err => (some err, s)
      | .ok wlt =>
        match Refund pmt wlt (env.clock 0) with
        | (.error err, _, _) => (some err, s)
        | (.ok result, _, wlt1) =>
          match WalletRepository.Update (env.fails .walletUpdate) s wlt1 with
          | (some err, s1) => (some err, s1)
          | (none, s1) =>
            let creditedEvent := NewWalletCreditedEvent refundPaymentID refundUserID
              refundAmount (result.PreviousBalance.AmountFloat env.float64)
              (result.NewBalance.AmountFloat env.float64) "REFUND" event.Metadata (env.clock 1)
            publishEvent env 0 s1 creditedEvent refundPaymentID
  | _ => (some (.msg "unexpected event type"), s)

/-! ## intake service (internal/application/command/create_payment.go) -/

/-- The create_payment.go type `CreatePaymentRequest`. -/
structure CreatePaymentRequest where
  UserID : String
  Amount : ℚ
  Currency : String
  ServiceID : String
  IdempotencyKey : String
  ClientID : String
deriving DecidableEq, Repr

/-- The create_payment.go type `CreatePaymentResponse`. -/
structure CreatePaymentResponse where
  PaymentID : String
  Status : String
deriving DecidableEq, Repr

/-- The create_payment.go method `validateRequest`. -/
def validateRequest (req : CreatePaymentRequest) : Option Error :=
  if req.UserID == "" then some (.msg "userID is required")
  else if req.Amount ≤ 0 then some (.msg "amount must be greater than zero")
  else if req.Currency == "" then some (.msg "currency is required")
  else if req.ServiceID == "" then some (.msg "serviceID is required")
  else if req.IdempotencyKey == "" then some (.msg "idempotencyKey is required")
  else none

/-- The create_payment.go method `validateWalletBalance`. -/
def validateWalletBalance (env : Env) (s : Stores) (req : CreatePaymentRequest) :
    Option Error :=
  match WalletRepository.GetByUserID (env.fails .walletGet) s req.UserID with
  | .error _ => some (WalletNotFoundError req.UserID)
  | .ok wlt =>
    match NewCurrency env.upperTrim req.Currency with
    | .error err => some err
    | .ok currency =>
      match NewMoney req.Amount currency with
      | .error err => some err
      | .ok money =>
        if !wlt.balance.currency.Equals money.currency then
          some (CurrencyMismatchError wlt.balance.currency.code money.currency.code)
        else if !wlt.CanDebit money then some InsufficientFundsError
        else none

/-- The part of `Execute` after the idempotency check: affordability check,
value objects, payment, then store-payment, store-key, append-event and
publish-event. -/
def createPayment (env : Env) (s : Stores) (req : CreatePaymentRequest) :
    Except Error CreatePaymentResponse × Stores :=
  match validateWalletBalance env s req with
  | some err => (.error err, s)
  | none =>
    let paymentID : PaymentID := ⟨env.uuid 0⟩
    match NewUserID req.UserID with
    | .error err => (.error err, s)
    | .ok userID =>
    match NewServiceID req.ServiceID with
    | .error err => (.error err, s)
    | .ok serviceID =>
    match NewCurrency env.upperTrim req.Currency with
    | .error err => (.error err, s)
    | .ok currency =>
    match NewMoney req.Amount currency with
    | .error err => (.error err, s)
    | .ok money =>
    match NewIdempotencyKey req.IdempotencyKey with
    | .error err => (.error err, s)
    | .ok idempKey =>
    match NewPayment paymentID userID serviceID money idempKey (env.clock 0) with
    | .error err => (.error err, s)
    | .ok pmt =>
    match PaymentRepository.Save (env.fails .paymentSave) s pmt with
    | (some err, s1) => (.error err, s1)
    | (none, s1) =>
    match IdempotencyStore.SaveKey (env.fails .keySave) s1 req.IdempotencyKey
        paymentID.value with
    | (some err, s2) => (.error err, s2)
    | (none, s2) =>
    let metadata : Metadata :=
      { ClientID := req.ClientID, RequestID := env.uuid 1, Source := "payment-api",
        Extra := [] }
    let event := NewPaymentRequestedEvent paymentID.value req.UserID req.Amount req.Currency
      req.ServiceID req.IdempotencyKey metadata (env.clock 1)
    match EventStore.Append (env.fails (.eventAppend 0)) s2 event paymentID.value
        (env.uuid 2) with
    | (some err, s3) => (.error err, s3)
    | (none, s3) =>
    match EventPublisher.Publish (env.fails (.eventPublish 0)) s3 event with
    | (some err, s4) => (.error err, s4)
    | (none, s4) => (.ok ⟨paymentID.value, PaymentStatusPending.String⟩, s4)

/-- The create_payment.go method `CreatePaymentService.Execute`. -/
def Execute (env : Env) (s : Stores) (req : CreatePaymentRequest) :
    Except Error CreatePaymentResponse × Stores :=
  match validateRequest req with
  | some err => (.error err, s)
  | none =>
    match IdempotencyStore.GetPaymentIDByKey (env.fails .keyGet) s req.IdempotencyKey with
    | .ok existingPaymentID =>
      if existingPaymentID != "" then (.ok ⟨existingPaymentID, "ALREADY_PROCESSED"⟩, s)
      else createPayment env s req
    | .error _ => createPayment env s req

/-- No collaborator call of the invocation returns an error. -/
def Env.NoFaults (env : Env) : Prop := ∀ c, env.fails c = false

/-- The record the event store keeps for an event. -/
def storedEventOf (eventID paymentID : String) (event : Event) : StoredEvent :=
  { EventID := eventID, EventType := event.EventType, PaymentID := paymentID,
    Payload := event, OccurredAt := event.OccurredAt, Metadata := event.Metadata }

/-- The published PaymentRequested events that carry the idempotency key `key`. -/
def paymentRequestedFor (key : String) (events : List Event) : List Event :=
  events.filter fun event =>
    match event with
    | .paymentRequested _ _ _ _ _ _ idempotencyKey => idempotencyKey == key
    | _ => false

/-! ## concrete inputs

The scenarios of `tests/unit` (wallet `user-123` in ARS, a payment of 100 ARS).
On these inputs the library functions are replaced by the two functions below. -/

/-- The hexadecimal digits. -/
def isHexDigit (c : Char) : Bool :=
  c.isDigit || ('a' ≤ c && c ≤ 'f') || ('A' ≤ c && c ≤ 'F')

/-- The canonical textual form of a UUID, 8-4-4-4-12 hexadecimal digits, which
`uuid.Parse` accepts and `uuid.New().String()` produces. -/
def canonicalUUID (s : String) : Bool :=
  s.data.length == 36 &&
    (List.range 36).all fun i =>
      if i == 8 || i == 13 || i == 18 || i == 23 then s.data.get? i == some '-'
      else (s.data.get? i).any isHexDigit

/-- Trimming of ASCII white space and ASCII upper-casing, which is what
`strings.ToUpper(strings.TrimSpace(code))` does on ASCII text. -/
def asciiUpperTrim (s : String) : String :=
  String.mk
    (((s.data.dropWhile Char.isWhitespace).reverse.dropWhile Char.isWhitespace).reverse.map
      Char.toUpper)

/-- The library method `decimal.Decimal.Float64` at the amounts of the samples:
9007199254740993, which is 2^53 + 1 and not a `float64` value, becomes the
nearest one, 9007199254740992; the other amounts of the samples are `float64`
values, which the conversion returns as they are. -/
def sampleFloat64 (amount : Decimal) : ℚ :=
  if amount = 9007199254740993 then 9007199254740992 else amount

/-- An invocation with working collaborators. -/
def sampleEnv : Env where
  clock := fun k => 1000 + k
  uuid := fun k =>
    match k with
    | 0 => "123e4567-e89b-12d3-a456-426614174000"
    | 1 => "7d444840-9dc0-11d1-b245-5ffdce74fad2"
    | _ => "e902893a-9d22-3c7e-a7b8-d6e313b71d9f"
  parseUUID := canonicalUUID
  upperTrim := asciiUpperTrim
  fails := fun _ => false
  float64 := sampleFloat64

/-- The metadata used by the unit tests. -/
def sampleMetadata : Metadata := ⟨"test-client", "req-123", "test", []⟩

/-- A PENDING payment of 100 ARS of `user-123`. -/
def samplePayment : Payment where
  id := ⟨"123e4567-e89b-12d3-a456-426614174000"⟩
  userID := ⟨"user-123"⟩
  serviceID := ⟨"service-123"⟩
  idempotencyKey := ⟨"key-123"⟩
  money := ⟨100, ⟨"ARS"⟩⟩
  status := PaymentStatusPending
  failureReason := ""
  externalTxID := ""
  createdAt := 0
  updatedAt := 0

/-- The wallet of `user-123` with a balance in ARS. -/
def sampleWallet (balance : ℚ) : Wallet := ⟨⟨"user-123"⟩, ⟨balance, ⟨"ARS"⟩⟩, 0⟩

/-- Stores that hold one payment and one wallet, each under its own key. -/
def storesWith (p : Payment) (w : Wallet) : Stores where
  payments := fun id => if id = p.id.value then some p else none
  wallets := fun userID => if userID = w.userID.value then some w else none
  keys := fun _ => none
  events := fun _ => []
  published := []

/-- Stores that hold one wallet and nothing else. -/
def storesWithWallet (w : Wallet) : Stores where
  payments := fun _ => none
  wallets := fun userID => if userID = w.userID.value then some w else none
  keys := fun _ => none
  events := fun _ => []
  published := []

/-- The PaymentRequested event of `samplePayment`. -/
def sampleRequested : Event :=
  .paymentRequested ⟨"PaymentRequested", 0, sampleMetadata⟩
    "123e4567-e89b-12d3-a456-426614174000" "user-123" 100 "ARS" "service-123" "key-123"

/-- The gateway rejects `samplePayment`. -/
def sampleGatewayFailed : Event :=
  .externalPaymentFailed ⟨"ExternalPaymentFailed", 5, sampleMetadata⟩
    "123e4567-e89b-12d3-a456-426614174000" "GATEWAY_REJECTED" "E42"

/-- The gateway times out on `samplePayment`. -/
def sampleGatewayTimeout : Event :=
  .externalPaymentTimeout ⟨"ExternalPaymentTimeout", 5, sampleMetadata⟩
    "123e4567-e89b-12d3-a456-426614174000" 30

/-- `samplePayment` after it FAILED, as in the refund test. -/
def sampleFailedPayment : Payment :=
  { samplePayment with status := PaymentStatusFailed, failureReason := "EXTERNAL_FAILURE" }

/-- The PaymentRefundRequested event of `sampleFailedPayment`. -/
def sampleRefundRequested : Event :=
  .paymentRefundRequested ⟨"PaymentRefundRequested", 6, sampleMetadata⟩
    "123e4567-e89b-12d3-a456-426614174000" "user-123" 100 "EXTERNAL_FAILURE"

/-- A PENDING payment of 1 ARS of `user-123`. -/
def sampleSmallPayment : Payment := { samplePayment with money := ⟨1, ⟨"ARS"⟩⟩ }

/-- The PaymentRequested event of `sampleSmallPayment`. -/
def sampleSmallRequested : Event :=
  .paymentRequested ⟨"PaymentRequested", 0, sampleMetadata⟩
    "123e4567-e89b-12d3-a456-426614174000" "user-123" 1 "ARS" "service-123" "key-123"

/-- `sampleSmallPayment` after it FAILED. -/
def sampleSmallFailedPayment : Payment :=
  { sampleSmallPayment with status := PaymentStatusFailed, failureReason := "EXTERNAL_FAILURE" }

/-- The PaymentRefundRequested event of `sampleSmallFailedPayment`. -/
def sampleSmallRefundRequested : Event :=
  .paymentRefundRequested ⟨"PaymentRefundRequested", 6, sampleMetadata⟩
    "123e4567-e89b-12d3-a456-426614174000" "user-123" 1 "EXTERNAL_FAILURE"

/-- The intake request of the unit tests, for 100 ARS. -/
def sampleRequest : CreatePaymentRequest where
  UserID := "user-123"
  Amount := 100
  Currency := "ARS"
  ServiceID := "service-123"
  IdempotencyKey := "unique-key-123"
  ClientID := "web-app"

/-- The three declared status constants. -/
def PaymentStatus.Declared (s : PaymentStatus) : Prop :=
  s = PaymentStatusPending ∨ s = PaymentStatusCompleted ∨ s = PaymentStatusFailed

/-- One status-changing call on a payment, with its argument and the instant of
the call. -/
inductive PaymentCall where
  | markCompleted (externalTxID : String) (now : Nat)
  | markFailed (reason : String) (now : Nat)
deriving DecidableEq, Repr

/-- The payment after one call, whether the call succeeded or not. -/
def Payment.call (p : Payment) : PaymentCall → Payment
  | .markCompleted externalTxID now => (p.MarkCompleted externalTxID now).2
  | .markFailed reason now => (p.MarkFailed reason now).2

/-- The payment after a sequence of calls, first call first. -/
def Payment.calls (p : Payment) (cs : List PaymentCall) : Payment :=
  cs.foldl Payment.call p

/-- The number of calls of the sequence that change the status of the payment
they are made on. -/
def Payment.statusChanges (p : Payment) : List PaymentCall → Nat
  | [] => 0
  | c :: cs => (if (p.call c).status = p.status then 0 else 1) + (p.call c).statusChanges cs

/-- The outcome "the payment `p` is failed with `reason`" of a handler that ran
on the stores `s`: no error, `p` stored FAILED with that reason, exactly one
PaymentFailed event carrying the reason appended to the log of `p` and
published, no wallet and no idempotency record changed. -/
def PaymentFailedOutcome (env : Env) (s : Stores) (p : Payment) (reason : String)
    (out : Option Error × Stores) : Prop :=
  out.1 = none ∧
  out.2.payments = Function.update s.payments p.id.value
    (some { p with status := PaymentStatusFailed, failureReason := reason,
                   updatedAt := env.clock 0 }) ∧
  out.2.wallets = s.wallets ∧
  out.2.keys = s.keys ∧
  out.2.events = Function.update s.events p.id.value
    (s.events p.id.value ++
      [storedEventOf (env.uuid 0) p.id.value
        (NewPaymentFailedEvent p.id.value p.userID.value
          (p.money.AmountFloat env.float64) reason
          Metadata.zeroValue (env.clock 1))]) ∧
  out.2.published = s.published ++
    [NewPaymentFailedEvent p.id.value p.userID.value
      (p.money.AmountFloat env.float64) reason
      Metadata.zeroValue (env.clock 1)]

/-- The outcome "a refund of `p` is requested for `reason`" of a handler that
ran on the stores `s`: no error, `p` stored FAILED with that reason, exactly one
PaymentRefundRequested event with the ID, the user ID and the amount of `p` (as
`AmountFloat` gives it) and the reason appended to the log of `p` and published,
no wallet and no idempotency record changed. -/
def RefundRequestedOutcome (env : Env) (s : Stores) (p : Payment) (reason : String)
    (metadata : Metadata) (out : Option Error × Stores) : Prop :=
  out.1 = none ∧
  out.2.payments = Function.update s.payments p.id.value
    (some { p with status := PaymentStatusFailed, failureReason := reason,
                   updatedAt := env.clock 0 }) ∧
  out.2.wallets = s.wallets ∧
  out.2.keys = s.keys ∧
  out.2.events = Function.update s.events p.id.value
    (s.events p.id.value ++
      [storedEventOf (env.uuid 0) p.id.value
        (NewPaymentRefundRequestedEvent p.id.value p.userID.value
          (p.money.AmountFloat env.float64) reason
          metadata (env.clock 1))]) ∧
  out.2.published = s.published ++
    [NewPaymentRefundRequestedEvent p.id.value p.userID.value
      (p.money.AmountFloat env.float64) reason
      metadata (env.clock 1)]

/-- `samplePayment` after the gateway confirmed it. -/
def sampleCompletedPayment : Payment :=
  { samplePayment with status := PaymentStatusCompleted, externalTxID := "external-tx-456" }

/-- The gateway confirms `samplePayment`. -/
def sampleGatewaySucceeded : Event :=
  .externalPaymentSucceeded ⟨"ExternalPaymentSucceeded", 5, sampleMetadata⟩
    "123e4567-e89b-12d3-a456-426614174000" "external-tx-456"

/-- The gateway rejects `samplePayment` and gives no reason. -/
def sampleGatewayFailedNoReason : Event :=
  .externalPaymentFailed ⟨"ExternalPaymentFailed", 5, sampleMetadata⟩
    "123e4567-e89b-12d3-a456-426614174000" "" "E42"

/-- An invocation in which the publisher returns an error. -/
def sampleEnvPublishFails : Env :=
  { sampleEnv with fails := fun c => decide (c = StoreCall.eventPublish 0) }

/-- A later invocation, which draws other identifiers, and in which the lookup
of the idempotency key returns an error. -/
def sampleEnvLookupFails : Env where
  clock := fun k => 2000 + k
  uuid := fun k =>
    match k with
    | 0 => "0b0e7a2c-5d3f-4c1a-9e8b-7f6a5d4c3b2a"
    | 1 => "6fa459ea-ee8a-3ca4-894e-db77e160355e"
    | _ => "16fd2706-8baf-433b-82eb-8c7fada847da"
  parseUUID := canonicalUUID
  upperTrim := asciiUpperTrim
  fails := fun c => decide (c = StoreCall.keyGet)
  float64 := sampleFloat64

/-- The stores after a sequence of `Execute` calls, each with its invocation
and its request, first call first. -/
def ExecuteAll (s : Stores) : List (Env × CreatePaymentRequest) → Stores
  | [] => s
  | (env, req) :: rest => ExecuteAll (Execute env s req).2 rest

/-! ## gateway simulator (internal/application/orchestrator/external_gateway_mock.go) -/

/-- The constant `0.8` of the gateway simulator as the `float32` it is compared
in: the nearest `float32`, 13421773 / 2^24. -/
def gatewaySuccessRate : ℚ := 13421773 / 16777216

/-- The simulator method `ExternalGatewayMock.HandleExternalPaymentRequested`;
`draw` is the value of `rand.Float32()`, `env.uuid 0` the external transaction
ID and `env.uuid 1` the identifier the event store draws. -/
def ExternalGatewayMock.HandleExternalPaymentRequested (alwaysSuccess : Bool) (draw : ℚ)
    (env : Env) (s : Stores) (event : Event) : Option Error × Stores :=
  match event with
  | .externalPaymentRequested _ paymentID _ _ _ _ =>
    let resultEvent : Event :=
      if alwaysSuccess then
        NewExternalPaymentSucceededEvent paymentID (env.uuid 0) event.Metadata (env.clock 0)
      else if draw < gatewaySuccessRate then
        NewExternalPaymentSucceededEvent paymentID (env.uuid 0) event.Metadata (env.clock 0)
      else
        NewExternalPaymentFailedEvent paymentID "GATEWAY_REJECTED" "ERR_RANDOM_FAILURE"
          event.Metadata (env.clock 0)
    match EventStore.Append (env.fails (.eventAppend 0)) s resultEvent paymentID
        (env.uuid 1) with
    | (some err, s1) => (some err, s1)
    | (none, s1) => EventPublisher.Publish (env.fails (.eventPublish 0)) s1 resultEvent
  | _ => (some (.msg "unexpected event type"), s)

/-- The method `PaymentID` of the ten event structs. -/
def Event.PaymentID : Event → String
  | .paymentRequested _ paymentID .. => paymentID
  | .walletDebited _ paymentID .. => paymentID
  | .walletCredited _ paymentID .. => paymentID
  | .externalPaymentRequested _ paymentID .. => paymentID
  | .externalPaymentSucceeded _ paymentID .. => paymentID
  | .externalPaymentFailed _ paymentID .. => paymentID
  | .externalPaymentTimeout _ paymentID .. => paymentID
  | .paymentCompleted _ paymentID .. => paymentID
  | .paymentFailed _ paymentID .. => paymentID
  | .paymentRefundRequested _ paymentID .. => paymentID

/-- Between the stores `s` before an invocation and `out` after it: every event
log has only grown, the publisher has only received events, and each event it
received is the payload of a record appended by the invocation to the log of
the payment ID of that event. -/
def PublishedAfterAppend (s out : Stores) : Prop :=
  (∀ k, ∃ added, out.events k = s.events k ++ added) ∧
  ∃ new, out.published = s.published ++ new ∧
    ∀ e ∈ new, ∀ added, out.events e.PaymentID = s.events e.PaymentID ++ added →
      ∃ se ∈ added, se.Payload = e ∧ se.PaymentID = e.PaymentID

/-- The publish discipline of an invocation `env` that takes the stores from
`s` to `out`: `PublishedAfterAppend`, and nothing is published when the appends
of the invocation fail. -/
def PublishDiscipline (env : Env) (s out : Stores) : Prop :=
  PublishedAfterAppend s out ∧
  ((∀ k, env.fails (.eventAppend k) = true) → out.published = s.published)

/-- The gateway-reject saga: intake, then each consumer handles the event the
step before published last; the gateway simulator runs in random mode with the
draw `draw`.  The result is `none` when a step returns an error or publishes
nothing. -/
def gatewayRejectSaga (env0 env1 env2 env3 env4 : Env) (draw : ℚ) (s : Stores)
    (req : CreatePaymentRequest) : Option Stores :=
  match Execute env0 s req with
  | (.error _, _) => none
  | (.ok _, s1) =>
    match s1.published.getLast? with
    | none => none
    | some requested =>
      match HandlePaymentRequested env1 s1 requested with
      | (some _, _) => none
      | (none, s2) =>
        match s2.published.getLast? with
        | none => none
        | some externalRequested =>
          match ExternalGatewayMock.HandleExternalPaymentRequested false draw env2 s2
              externalRequested with
          | (some _, _) => none
          | (none, s3) =>
            match s3.published.getLast? with
            | none => none
            | some gatewayAnswer =>
              match HandleExternalPaymentFailed env3 s3 gatewayAnswer with
              | (some _, _) => none
              | (none, s4) =>
                match s4.published.getLast? with
                | none => none
                | some refundRequested =>
                  match HandlePaymentRefundRequested env4 s4 refundRequested with
                  | (some _, _) => none
                  | (none, s5) => some s5

/-- The event types of the log of a payment, in the order of the appends. -/
def eventTypesOf (s : Stores) (paymentID : String) : List String :=
  (s.events paymentID).map fun storedEvent => storedEvent.EventType

/-! ## value objects, the rest of money.go and identifiers.go -/

/-- The money.go method `Money.IsGreaterThan`. -/
def Money.IsGreaterThan (m other : Money) : Except Error Bool :=
  if !m.currency.Equals other.currency then
    .error (.msg "cannot compare different currencies")
  else .ok (decide (other.amount < m.amount))

/-- The money.go method `Money.IsLessThan`. -/
def Money.IsLessThan (m other : Money) : Except Error Bool :=
  if !m.currency.Equals other.currency then
    .error (.msg "cannot compare different currencies")
  else .ok (decide (m.amount < other.amount))

/-- The money.go method `Money.Multiply`. -/
def Money.Multiply (m : Money) (factor : Decimal) : Except Error Money :=
  let result := m.amount * factor
  if result < 0 then .error (.msg "result would be negative")
  else .ok ⟨result, m.currency⟩

/-- The money.go function `Zero`. -/
def Money.Zero (currency : Currency) : Money := ⟨0, currency⟩

/-- The money.go constructor `NewMoneyFromString`; `parseDecimal` stands for the
library function `decimal.NewFromString`. -/
def NewMoneyFromString (parseDecimal : String → Option Decimal) (amount : String)
    (currency : Currency) : Except Error Money :=
  match parseDecimal amount with
  | none => .error (.msg "invalid amount format")
  | some dec => NewMoney dec currency

/-- The identifiers.go method `IdempotencyKey.String`. -/
def IdempotencyKey.String (k : IdempotencyKey) : String := k.value

/-- A key of 128 letters é (U+00E9), two bytes each in UTF-8. -/
def sampleAccentedKey : String := String.mk (List.replicate 128 (Char.ofNat 233))

/-! ## JSON (encoding/json, as far as the event codec and `Money.UnmarshalJSON` use it)

A payload is a well-formed JSON text, given as the value it denotes.
`json.Unmarshal` rejects a text whose arrays and objects nest deeper than
`maxNestingDepth`.  Into a struct it ignores the keys that match no field,
matches the others under Unicode simple case folding (`bytes.EqualFold`), lets a
later key override an earlier one, leaves a field alone on `null`, and fails
when a value has not the type of its field or is a number that the field cannot
hold. -/

/-- A JSON value.  A number within the range of `float64` is given by the
`float64` that it decodes to (`number`); a number beyond that range, such as
`1e400`, is `numberOutOfRange`. -/
inductive JSON where
  | null
  | bool (b : Bool)
  | number (q : ℚ)
  | numberOutOfRange
  | string (s : String)
  | array (items : List JSON)
  | object (members : List (String × JSON))

/-- The constant `maxNestingDepth` of the scanner of encoding/json. -/
def maxNestingDepth : Nat := 10000

mutual
/-- How deep the arrays and objects of a value nest. -/
def JSON.depth : JSON → Nat
  | .array items => 1 + JSON.depthOfItems items
  | .object members => 1 + JSON.depthOfMembers members
  | _ => 0
/-- The depth of the deepest item of an array. -/
def JSON.depthOfItems : List JSON → Nat
  | [] => 0
  | item :: rest => max item.depth (JSON.depthOfItems rest)
/-- The depth of the deepest value of an object. -/
def JSON.depthOfMembers : List (String × JSON) → Nat
  | [] => 0
  | member :: rest => max member.2.depth (JSON.depthOfMembers rest)
end

/-- A rune of a key, folded for the comparison with a field name.  The field
names of this program are ASCII letters; a rune equals an ASCII letter under
Unicode simple case folding when it is that letter in either case, or U+017F
(long s) for `s`, or U+212A (Kelvin sign) for `k`. -/
def foldRune (c : Char) : Char :=
  if c = Char.ofNat 383 then 's' else if c = Char.ofNat 8490 then 'k' else c.toLower

/-- The key of a member, folded for the comparison with a field name. -/
def foldKey (s : String) : List Char := s.data.map foldRune

/-- The values of the members of an object that match a field name, in the order
of the text. -/
def JSON.valuesFor (members : List (String × JSON)) (name : String) : List JSON :=
  (members.filter fun member => foldKey member.1 == foldKey name).map Prod.snd

/-- The error of `json.Unmarshal` for a value of the wrong type. -/
def jsonTypeError : Error := .msg "json: cannot unmarshal value into Go value"

/-- The error of `json.Unmarshal` for a text that nests too deep. -/
def jsonDepthError : Error := .msg "exceeded max depth"

/-- The members that `json.Unmarshal` decodes into a struct: those of an object,
none for `null`; a text that nests too deep is rejected before any decoding. -/
def JSON.members (v : JSON) : Except Error (List (String × JSON)) :=
  if maxNestingDepth < v.depth then .error jsonDepthError
  else
    match v with
    | .object members => .ok members
    | .null => .ok []
    | _ => .error jsonTypeError

/-- Decoding into a Go `string` field that holds `current`. -/
def decodeString (current : String) : List JSON → Except Error String
  | [] => .ok current
  | .string s :: rest => decodeString s rest
  | .null :: rest => decodeString current rest
  | _ :: _ => .error jsonTypeError

/-- Decoding into a Go `float64` field that holds `current`; a number beyond the
range of `float64` is an error. -/
def decodeFloat64 (current : ℚ) : List JSON → Except Error ℚ
  | [] => .ok current
  | .number q :: rest => decodeFloat64 q rest
  | .null :: rest => decodeFloat64 current rest
  | _ :: _ => .error jsonTypeError

/-- The Go map assignment `m[key] = value` on the list of entries. -/
def setEntry (m : List (String × String)) (key value : String) : List (String × String) :=
  match m with
  | [] => [(key, value)]
  | entry :: rest =>
    if entry.1 = key then (key, value) :: rest else entry :: setEntry rest key value

/-- Decoding the members of an object into a Go `map[string]string`. -/
def decodeEntries (current : List (String × String)) :
    List (String × JSON) → Except Error (List (String × String))
  | [] => .ok current
  | (key, .string s) :: rest => decodeEntries (setEntry current key s) rest
  | (key, .null) :: rest => decodeEntries (setEntry current key "") rest
  | _ :: _ => .error jsonTypeError

/-- Decoding into a Go `map[string]string` field that holds `current`. -/
def decodeStringMap (current : List (String × String)) :
    List JSON → Except Error (List (String × String))
  | [] => .ok current
  | .null :: rest => decodeStringMap current rest
  | .object entries :: rest =>
    match decodeEntries current entries with
    | .error err => .error err
    | .ok m => decodeStringMap m rest
  | _ :: _ => .error jsonTypeError

/-- Decoding into a field of the event.go type `Metadata`, with its tags
`clientId`, `requestId`, `source` and `extra`. -/
def decodeMetadata (current : Metadata) : List JSON → Except Error Metadata
  | [] => .ok current
  | .null :: rest => decodeMetadata current rest
  | .object members :: rest =>
    match decodeString current.ClientID (JSON.valuesFor members "clientId") with
    | .error err => .error err
    | .ok clientID =>
    match decodeString current.RequestID (JSON.valuesFor members "requestId") with
    | .error err => .error err
    | .ok requestID =>
    match decodeString current.Source (JSON.valuesFor members "source") with
    | .error err => .error err
    | .ok source =>
    match decodeStringMap current.Extra (JSON.valuesFor members "extra") with
    | .error err => .error err
    | .ok extra => decodeMetadata ⟨clientID, requestID, source, extra⟩ rest
  | _ :: _ => .error jsonTypeError

/-- What `json.Marshal` writes for a `Metadata`: `extra` is left out when empty. -/
def encodeMetadata (m : Metadata) : JSON :=
  .object
    ([("clientId", .string m.ClientID), ("requestId", .string m.RequestID),
      ("source", .string m.Source)] ++
      (if m.Extra.isEmpty then []
       else [("extra", .object (m.Extra.map fun entry => (entry.1, JSON.string entry.2)))]))

/-! ## event codec (internal/infrastructure/messaging/sns/publisher.go and
internal/application/orchestrator/event_parser.go) -/

/-- The JSON object that `SNSPublisher.Publish` builds in `eventData` and sends
as `messageBytes`; `formatTime` and `durationString` stand for the library
methods `time.Time.MarshalJSON` and `time.Duration.String`.  The members are
listed in the order of the assignments (`json.Marshal` sorts them by key). -/
def SNSPublisher.messageBytes (formatTime : Nat → String) (durationString : Int → String)
    (event : Event) : JSON :=
  let eventData : List (String × JSON) :=
    [("eventType", .string event.EventType),
     ("occurredAt", .string (formatTime event.OccurredAt)),
     ("metadata", encodeMetadata event.Metadata)]
  match event with
  | .paymentRequested _ paymentID userID amount currency serviceID idempotencyKey =>
    .object (eventData ++
      [("paymentID", .string paymentID), ("userID", .string userID),
       ("amount", .number amount), ("currency", .string currency),
       ("serviceID", .string serviceID), ("idempotencyKey", .string idempotencyKey)])
  | .walletDebited _ paymentID userID amount prevBalance newBalance =>
    .object (eventData ++
      [("paymentID", .string paymentID), ("userID", .string userID),
       ("amount", .number amount), ("prevBalance", .number prevBalance),
       ("newBalance", .number newBalance)])
  | .walletCredited _ paymentID userID amount prevBalance newBalance reason =>
    .object (eventData ++
      [("paymentID", .string paymentID), ("userID", .string userID),
       ("amount", .number amount), ("prevBalance", .number prevBalance),
       ("newBalance", .number newBalance), ("reason", .string reason)])
  | .externalPaymentRequested _ paymentID userID amount currency serviceID =>
    .object (eventData ++
      [("paymentID", .string paymentID), ("userID", .string userID),
       ("amount", .number amount), ("currency", .string currency),
       ("serviceID", .string serviceID)])
  | .externalPaymentSucceeded _ paymentID externalTransactionID =>
    .object (eventData ++
      [("paymentID", .string paymentID),
       ("externalTransactionID", .string externalTransactionID)])
  | .externalPaymentFailed _ paymentID reason errorCode =>
    .object (eventData ++
      [("paymentID", .string paymentID), ("reason", .string reason),
       ("errorCode", .string errorCode)])
  | .externalPaymentTimeout _ paymentID timeoutDuration =>
    .object (eventData ++
      [("paymentID", .string paymentID),
       ("timeoutDuration", .string (durationString timeoutDuration))])
  | .paymentCompleted _ paymentID userID amount externalTransactionID =>
    .object (eventData ++
      [("paymentID", .string paymentID), ("userID", .string userID),
       ("amount", .number amount),
       ("externalTransactionID", .string externalTransactionID)])
  | .paymentFailed _ paymentID userID amount reason =>
    .object (eventData ++
      [("paymentID", .string paymentID), ("userID", .string userID),
       ("amount", .number amount), ("reason", .string reason)])
  | .paymentRefundRequested _ paymentID userID amount reason =>
    .object (eventData ++
      [("paymentID", .string paymentID), ("userID", .string userID),
       ("amount", .number amount), ("reason", .string reason)])

/-- The event_parser.go function `ParseEvent`; `parseDuration` stands for the
library function `time.ParseDuration`, whose error is dropped (the duration is
then zero), and `now` is the instant the constructors read. -/
def ParseEvent (parseDuration : String → Option Int) (now : Nat) (eventType : String)
    (payload : JSON) : Except Error Event :=
  match eventType with
  | "PaymentRequested" => do
    let members ← payload.members
    let paymentID ← decodeString "" (JSON.valuesFor members "paymentID")
    let userID ← decodeString "" (JSON.valuesFor members "userID")
    let amount ← decodeFloat64 0 (JSON.valuesFor members "amount")
    let currency ← decodeString "" (JSON.valuesFor members "currency")
    let serviceID ← decodeString "" (JSON.valuesFor members "serviceID")
    let idempotencyKey ← decodeString "" (JSON.valuesFor members "idempotencyKey")
    let metadata ← decodeMetadata Metadata.zeroValue (JSON.valuesFor members "metadata")
    pure (NewPaymentRequestedEvent paymentID userID amount currency serviceID
      idempotencyKey metadata now)
  | "ExternalPaymentSucceeded" => do
    let members ← payload.members
    let paymentID ← decodeString "" (JSON.valuesFor members "paymentID")
    let externalTransactionID ←
      decodeString "" (JSON.valuesFor members "externalTransactionID")
    let metadata ← decodeMetadata Metadata.zeroValue (JSON.valuesFor members "metadata")
    pure (NewExternalPaymentSucceededEvent paymentID externalTransactionID metadata now)
  | "ExternalPaymentFailed" => do
    let members ← payload.members
    let paymentID ← decodeString "" (JSON.valuesFor members "paymentID")
    let reason ← decodeString "" (JSON.valuesFor members "reason")
    let errorCode ← decodeString "" (JSON.valuesFor members "errorCode")
    let metadata ← decodeMetadata Metadata.zeroValue (JSON.valuesFor members "metadata")
    pure (NewExternalPaymentFailedEvent paymentID reason errorCode metadata now)
  | "ExternalPaymentRequested" => do
    let members ← payload.members
    let paymentID ← decodeString "" (JSON.valuesFor members "paymentID")
    let userID ← decodeString "" (JSON.valuesFor members "userID")
    let amount ← decodeFloat64 0 (JSON.valuesFor members "amount")
    let currency ← decodeString "" (JSON.valuesFor members "currency")
    let serviceID ← decodeString "" (JSON.valuesFor members "serviceID")
    let metadata ← decodeMetadata Metadata.zeroValue (JSON.valuesFor members "metadata")
    pure (NewExternalPaymentRequestedEvent paymentID userID amount currency serviceID
      metadata now)
  | "PaymentRefundRequested" => do
    let members ← payload.members
    let paymentID ← decodeString "" (JSON.valuesFor members "paymentID")
    let userID ← decodeString "" (JSON.valuesFor members "userID")
    let amount ← decodeFloat64 0 (JSON.valuesFor members "amount")
    let reason ← decodeString "" (JSON.valuesFor members "reason")
    let metadata ← decodeMetadata Metadata.zeroValue (JSON.valuesFor members "metadata")
    pure (NewPaymentRefundRequestedEvent paymentID userID amount reason metadata now)
  | "PaymentCompleted" => do
    let members ← payload.members
    let paymentID ← decodeString "" (JSON.valuesFor members "paymentID")
    let userID ← decodeString "" (JSON.valuesFor members "userID")
    let amount ← decodeFloat64 0 (JSON.valuesFor members "amount")
    let externalTransactionID ←
      decodeString "" (JSON.valuesFor members "externalTransactionID")
    let metadata ← decodeMetadata Metadata.zeroValue (JSON.valuesFor members "metadata")
    pure (NewPaymentCompletedEvent paymentID userID amount externalTransactionID
      metadata now)
  | "PaymentFailed" => do
    let members ← payload.members
    let paymentID ← decodeString "" (JSON.valuesFor members "paymentID")
    let userID ← decodeString "" (JSON.valuesFor members "userID")
    let amount ← decodeFloat64 0 (JSON.valuesFor members "amount")
    let reason ← decodeString "" (JSON.valuesFor members "reason")
    let metadata ← decodeMetadata Metadata.zeroValue (JSON.valuesFor members "metadata")
    pure (NewPaymentFailedEvent paymentID userID amount reason metadata now)
  | "WalletDebited" => do
    let members ← payload.members
    let paymentID ← decodeString "" (JSON.valuesFor members "paymentID")
    let userID ← decodeString "" (JSON.valuesFor members "userID")
    let amount ← decodeFloat64 0 (JSON.valuesFor members "amount")
    let prevBalance ← decodeFloat64 0 (JSON.valuesFor members "prevBalance")
    let newBalance ← decodeFloat64 0 (JSON.valuesFor members "newBalance")
    let metadata ← decodeMetadata Metadata.zeroValue (JSON.valuesFor members "metadata")
    pure (NewWalletDebitedEvent paymentID userID amount prevBalance newBalance metadata now)
  | "WalletCredited" => do
    let members ← payload.members
    let paymentID ← decodeString "" (JSON.valuesFor members "paymentID")
    let userID ← decodeString "" (JSON.valuesFor members "userID")
    let amount ← decodeFloat64 0 (JSON.valuesFor members "amount")
    let prevBalance ← decodeFloat64 0 (JSON.valuesFor members "prevBalance")
    let newBalance ← decodeFloat64 0 (JSON.valuesFor members "newBalance")
    let reason ← decodeString "" (JSON.valuesFor members "reason")
    let metadata ← decodeMetadata Metadata.zeroValue (JSON.valuesFor members "metadata")
    pure (NewWalletCreditedEvent paymentID userID amount prevBalance newBalance reason
      metadata now)
  | "ExternalPaymentTimeout" => do
    let members ← payload.members
    let paymentID ← decodeString "" (JSON.valuesFor members "paymentID")
    let timeoutDuration ← decodeString "" (JSON.valuesFor members "timeoutDuration")
    let metadata ← decodeMetadata Metadata.zeroValue (JSON.valuesFor members "metadata")
    let duration := (parseDuration timeoutDuration).getD 0
    pure (NewExternalPaymentTimeoutEvent paymentID duration metadata now)
  | _ => .error (.msg ("unknown event type: " ++ eventType))

/-- The ten event types of the payload schema. -/
def eventTypes : List String :=
  ["PaymentRequested", "WalletDebited", "WalletCredited", "ExternalPaymentRequested",
   "ExternalPaymentSucceeded", "ExternalPaymentFailed", "ExternalPaymentTimeout",
   "PaymentCompleted", "PaymentFailed", "PaymentRefundRequested"]

/-- The Go types of the fields that `ParseEvent` decodes. -/
inductive FieldKind where
  | text
  | number
  | metadata
deriving DecidableEq, Repr

/-- The fields of the struct that `ParseEvent` decodes for an event type, with
their JSON names. -/
def payloadFields (eventType : String) : List (String × FieldKind) :=
  match eventType with
  | "PaymentRequested" =>
    [("paymentID", .text), ("userID", .text), ("amount", .number), ("currency", .text),
     ("serviceID", .text), ("idempotencyKey", .text), ("metadata", .metadata)]
  | "ExternalPaymentSucceeded" =>
    [("paymentID", .text), ("externalTransactionID", .text), ("metadata", .metadata)]
  | "ExternalPaymentFailed" =>
    [("paymentID", .text), ("reason", .text), ("errorCode", .text), ("metadata", .metadata)]
  | "ExternalPaymentRequested" =>
    [("paymentID", .text), ("userID", .text), ("amount", .number), ("currency", .text),
     ("serviceID", .text), ("metadata", .metadata)]
  | "PaymentRefundRequested" =>
    [("paymentID", .text), ("userID", .text), ("amount", .number), ("reason", .text),
     ("metadata", .metadata)]
  | "PaymentCompleted" =>
    [("paymentID", .text), ("userID", .text), ("amount", .number),
     ("externalTransactionID", .text), ("metadata", .metadata)]
  | "PaymentFailed" =>
    [("paymentID", .text), ("userID", .text), ("amount", .number), ("reason", .text),
     ("metadata", .metadata)]
  | "WalletDebited" =>
    [("paymentID", .text), ("userID", .text), ("amount", .number),
     ("prevBalance", .number), ("newBalance", .number), ("metadata", .metadata)]
  | "WalletCredited" =>
    [("paymentID", .text), ("userID", .text), ("amount", .number),
     ("prevBalance", .number), ("newBalance", .number), ("reason", .text),
     ("metadata", .metadata)]
  | "ExternalPaymentTimeout" =>
    [("paymentID", .text), ("timeoutDuration", .text), ("metadata", .metadata)]
  | _ => []

/-- A value that decodes into a `string`: a string or `null`. -/
def JSON.isText : JSON → Bool
  | .string _ => true
  | .null => true
  | _ => false

/-- A value that decodes into a `float64`: a number within its range or `null`. -/
def JSON.isNumber : JSON → Bool
  | .number _ => true
  | .null => true
  | _ => false

/-- A value that decodes into a `map[string]string`: `null`, or an object whose
values are strings or `null`. -/
def JSON.isTextMap : JSON → Bool
  | .null => true
  | .object entries => entries.all fun entry => entry.2.isText
  | _ => false

/-- A value that decodes into a `Metadata`: `null`, or an object whose members
for `clientId`, `requestId` and `source` are strings and whose members for
`extra` are maps of strings. -/
def JSON.isMetadata : JSON → Bool
  | .null => true
  | .object members =>
    (JSON.valuesFor members "clientId").all JSON.isText &&
    (JSON.valuesFor members "requestId").all JSON.isText &&
    (JSON.valuesFor members "source").all JSON.isText &&
    (JSON.valuesFor members "extra").all JSON.isTextMap
  | _ => false

/-- A value that decodes into a field of the given kind. -/
def FieldKind.accepts : FieldKind → JSON → Bool
  | .text, v => v.isText
  | .number, v => v.isNumber
  | .metadata, v => v.isMetadata

/-- The members of an object that are decoded for the event type hold values of
the types of their fields. -/
def payloadConforms (eventType : String) (members : List (String × JSON)) : Bool :=
  (payloadFields eventType).all fun field =>
    (JSON.valuesFor members field.1).all field.2.accepts

/-- The name of the Go type of an event. -/
def Event.typeName : Event → String
  | .paymentRequested .. => "PaymentRequested"
  | .walletDebited .. => "WalletDebited"
  | .walletCredited .. => "WalletCredited"
  | .externalPaymentRequested .. => "ExternalPaymentRequested"
  | .externalPaymentSucceeded .. => "ExternalPaymentSucceeded"
  | .externalPaymentFailed .. => "ExternalPaymentFailed"
  | .externalPaymentTimeout .. => "ExternalPaymentTimeout"
  | .paymentCompleted .. => "PaymentCompleted"
  | .paymentFailed .. => "PaymentFailed"
  | .paymentRefundRequested .. => "PaymentRefundRequested"

/-- An event with its embedded `BaseEvent` replaced. -/
def Event.withBase (b : BaseEvent) : Event → Event
  | .paymentRequested _ paymentID userID amount currency serviceID idempotencyKey =>
    .paymentRequested b paymentID userID amount currency serviceID idempotencyKey
  | .walletDebited _ paymentID userID amount prevBalance newBalance =>
    .walletDebited b paymentID userID amount prevBalance newBalance
  | .walletCredited _ paymentID userID amount prevBalance newBalance reason =>
    .walletCredited b paymentID userID amount prevBalance newBalance reason
  | .externalPaymentRequested _ paymentID userID amount currency serviceID =>
    .externalPaymentRequested b paymentID userID amount currency serviceID
  | .externalPaymentSucceeded _ paymentID externalTransactionID =>
    .externalPaymentSucceeded b paymentID externalTransactionID
  | .externalPaymentFailed _ paymentID reason errorCode =>
    .externalPaymentFailed b paymentID reason errorCode
  | .externalPaymentTimeout _ paymentID timeoutDuration =>
    .externalPaymentTimeout b paymentID timeoutDuration
  | .paymentCompleted _ paymentID userID amount externalTransactionID =>
    .paymentCompleted b paymentID userID amount externalTransactionID
  | .paymentFailed _ paymentID userID amount reason =>
    .paymentFailed b paymentID userID amount reason
  | .paymentRefundRequested _ paymentID userID amount reason =>
    .paymentRefundRequested b paymentID userID amount reason

/-- The money.go method `Money.UnmarshalJSON`: the error, and the receiver after
the call. -/
def Money.UnmarshalJSON (parseDecimal : String → Option Decimal)
    (upperTrim : String → String) (m : Money) (data : JSON) : Option Error × Money :=
  let tmp : Except Error (String × String) := do
    let members ← data.members
    let amount ← decodeString "" (JSON.valuesFor members "amount")
    let currency ← decodeString "" (JSON.valuesFor members "currency")
    pure (amount, currency)
  match tmp with
  | .error err => (some err, m)
  | .ok (tmpAmount, tmpCurrency) =>
    match parseDecimal tmpAmount with
    | none => (some (.msg "invalid amount"), m)
    | some amount =>
      match NewCurrency upperTrim tmpCurrency with
      | .error err => (some err, m)
      | .ok currency =>
        match NewMoney amount currency with
        | .error err => (some err, m)
        | .ok money => (none, money)

/-- The Money values that the constructors of money.go return without error,
and those that `Add`, `Subtract` and `Multiply` return from such values. -/
inductive Money.Built (parseDecimal : String → Option Decimal)
    (upperTrim : String → String) : Money → Prop where
  | newMoney (amount : Decimal) (currency : Currency) (m : Money) :
      NewMoney amount currency = .ok m → Money.Built parseDecimal upperTrim m
  | newMoneyFromString (amount : String) (currency : Currency) (m : Money) :
      NewMoneyFromString parseDecimal amount currency = .ok m →
      Money.Built parseDecimal upperTrim m
  | zero (currency : Currency) : Money.Built parseDecimal upperTrim (Money.Zero currency)
  | unmarshalJSON (receiver : Money) (data : JSON) (m : Money) :
      Money.UnmarshalJSON parseDecimal upperTrim receiver data = (none, m) →
      Money.Built parseDecimal upperTrim m
  | add (a b m : Money) : Money.Built parseDecimal upperTrim a →
      Money.Built parseDecimal upperTrim b → a.Add b = .ok m →
      Money.Built parseDecimal upperTrim m
  | subtract (a b m : Money) : Money.Built parseDecimal upperTrim a →
      Money.Built parseDecimal upperTrim b → a.Subtract b = .ok m →
      Money.Built parseDecimal upperTrim m
  | multiply (a : Money) (factor : Decimal) (m : Money) :
      Money.Built parseDecimal upperTrim a → a.Multiply factor = .ok m →
      Money.Built parseDecimal upperTrim m

/-- The library method `time.Duration.String` at the durations of the samples. -/
def sampleDurationString (d : Int) : String := if d = 30 then "30ns" else "0s"

/-- The library function `time.ParseDuration` at the strings of the samples. -/
def sampleParseDuration (s : String) : Option Int :=
  if s = "30ns" then some 30 else if s = "0s" then some 0 else none

/-- The library method `time.Time.MarshalJSON` at the instants of the samples. -/
def sampleFormatTime (t : Nat) : String :=
  if t = 5 then "2024-01-01T00:00:05Z" else "2024-01-01T00:00:00Z"

/-! ## payment persistence mapping
(internal/infrastructure/persistence/dynamodb/mappers/payment_mapper.go) -/

/-- The payment_status.go function `ParsePaymentStatus`. -/
def ParsePaymentStatus (s : String) : Except Error PaymentStatus :=
  match s with
  | "PENDING" => .ok PaymentStatusPending
  | "COMPLETED" => .ok PaymentStatusCompleted
  | "FAILED" => .ok PaymentStatusFailed
  | _ => .error (.msg ("unknown payment status: " ++ s))

/-- The aggregate.go function `ReconstructPayment`. -/
def ReconstructPayment (id : PaymentID) (userID : UserID) (serviceID : ServiceID)
    (money : Money) (idempotencyKey : IdempotencyKey) (status : PaymentStatus)
    (failureReason externalTxID : String) (createdAt updatedAt : Nat) : Payment :=
  { id := id, userID := userID, serviceID := serviceID, idempotencyKey := idempotencyKey,
    money := money, status := status, failureReason := failureReason,
    externalTxID := externalTxID, createdAt := createdAt, updatedAt := updatedAt }

/-- The payment_mapper.go type `PaymentDBModel`. -/
structure PaymentDBModel where
  ID : String
  UserID : String
  Amount : String
  Currency : String
  ServiceID : String
  Status : String
  IdempotencyKey : String
  FailureReason : String
  ExternalTxID : String
  CreatedAt : String
  UpdatedAt : String
deriving DecidableEq, Repr

/-- The library functions of the mapping: `decimal.Decimal.String`,
`decimal.NewFromString`, `time.Time.Format(time.RFC3339)` and
`time.Parse(time.RFC3339, _)`. -/
structure MapperLibrary where
  decimalString : Decimal → String
  parseDecimal : String → Option Decimal
  formatTime : Nat → String
  parseTime : String → Option Nat

/-- The payment_mapper.go method `PaymentMapper.ToDBModel` (on a payment that is
not nil). -/
def PaymentMapper.ToDBModel (lib : MapperLibrary) (pmt : Payment) :
    Except Error PaymentDBModel :=
  .ok
    { ID := pmt.id.value, UserID := pmt.userID.value,
      Amount := lib.decimalString pmt.money.amount, Currency := pmt.money.currency.code,
      ServiceID := pmt.serviceID.value, Status := pmt.status.String,
      IdempotencyKey := pmt.idempotencyKey.value, FailureReason := pmt.failureReason,
      ExternalTxID := pmt.externalTxID, CreatedAt := lib.formatTime pmt.createdAt,
      UpdatedAt := lib.formatTime pmt.updatedAt }

/-- The payment_mapper.go method `PaymentMapper.ToDomain` (on a model that is not
nil); the causes of the wrapped errors are left out. -/
def PaymentMapper.ToDomain (parseUUID : String → Bool) (upperTrim : String → String)
    (lib : MapperLibrary) (model : PaymentDBModel) : Except Error Payment :=
  match NewPaymentID parseUUID model.ID with
  | .error _ => .error (.msg "invalid payment ID")
  | .ok paymentID =>
  match NewUserID model.UserID with
  | .error _ => .error (.msg "invalid user ID")
  | .ok userID =>
  match NewServiceID model.ServiceID with
  | .error _ => .error (.msg "invalid service ID")
  | .ok serviceID =>
  match NewIdempotencyKey model.IdempotencyKey with
  | .error _ => .error (.msg "invalid idempotency key")
  | .ok idempotencyKey =>
  match lib.parseDecimal model.Amount with
  | none => .error (.msg "invalid amount")
  | some amount =>
  match NewCurrency upperTrim model.Currency with
  | .error _ => .error (.msg "invalid currency")
  | .ok currency =>
  match NewMoney amount currency with
  | .error _ => .error (.msg "invalid money")
  | .ok money =>
  match ParsePaymentStatus model.Status with
  | .error _ => .error (.msg "invalid status")
  | .ok status =>
  match lib.parseTime model.CreatedAt with
  | none => .error (.msg "invalid createdAt")
  | some createdAt =>
  match lib.parseTime model.UpdatedAt with
  | none => .error (.msg "invalid updatedAt")
  | some updatedAt =>
    .ok (ReconstructPayment paymentID userID serviceID money idempotencyKey status
      model.FailureReason model.ExternalTxID createdAt updatedAt)

/-- The library functions of the mapping at the values of the samples: the
amount 100, instants in whole seconds. -/
def sampleMapperLibrary : MapperLibrary where
  decimalString := fun d => if d = 100 then "100" else "0"
  parseDecimal := fun s => if s = "100" then some 100 else if s = "0" then some 0 else none
  formatTime := fun t => if t = 1000 then "1970-01-01T00:16:40Z" else "1970-01-01T00:00:00Z"
  parseTime := fun s =>
    if s = "1970-01-01T00:16:40Z" then some 1000
    else if s = "1970-01-01T00:00:00Z" then some 0 else none

/-- Between the stores `s` before an invocation and `out` after it: the payments
other than the one stored under `paymentID` and the wallets other than the one
stored under `userID` are as they were. -/
def FrameFor (paymentID userID : String) (s out : Stores) : Prop :=
  (∀ k, k ≠ paymentID → out.payments k = s.payments k) ∧
  (∀ u, u ≠ userID → out.wallets u = s.wallets u)

/-- The changes of an invocation are confined to the payment that the lookup
found and to the wallet stored under the user ID of that payment; when the
lookup found no payment, no payment and no wallet is changed. -/
def ChangesOnlyFor (found : Option Payment) (s out : Stores) : Prop :=
  (found = none → out.payments = s.payments ∧ out.wallets = s.wallets) ∧
  (∀ p, found = some p → FrameFor p.id.value p.userID.value s out)

/-- Every wallet that does not belong to the user of the payment found is stored
after the invocation as it was before. -/
def OtherWalletsKept (found : Option Payment) (s out : Stores) : Prop :=
  ∀ u w, s.wallets u = some w → (∀ p, found = some p → w.userID ≠ p.userID) →
    out.wallets u = some w

/-- The frame of a handler: its changes are confined to the payment found and
to the wallet of the user of that payment, the wallets of other users are kept,
and at most one stored wallet is changed. -/
def HandlerFrame (found : Option Payment) (s out : Stores) : Prop :=
  ChangesOnlyFor found s out ∧ OtherWalletsKept found s out ∧
  ∀ u1 u2, out.wallets u1 ≠ s.wallets u1 → out.wallets u2 ≠ s.wallets u2 → u1 = u2

/-- Every payment is stored under its own ID, and no payment is stored under
the empty ID (the ID of the zero value of `PaymentID`). -/
def PaymentsKeyed (s : Stores) : Prop :=
  ∀ k p, s.payments k = some p → p.id.value = k ∧ k ≠ ""

/-- The frame of a handler, told from the payment ID of its event: the payments
stored under other IDs are as they were, every wallet that does not belong to
the user of the payment stored under that ID is as it was, and at most one
stored wallet is changed. -/
def EventFrame (paymentID : String) (s out : Stores) : Prop :=
  (∀ k, k ≠ paymentID → out.payments k = s.payments k) ∧
  OtherWalletsKept (s.payments paymentID) s out ∧
  ∀ u1 u2, out.wallets u1 ≠ s.wallets u1 → out.wallets u2 ≠ s.wallets u2 → u1 = u2

/-! ## two invocations of `HandlePaymentRequested` at once

Each invocation loads the payment and the wallet into its own memory, runs
`Process` there, and writes the wallet back later: the stores are shared, the
loaded values are not. -/

/-- `HandlePaymentRequested` up to the check of the result of `Process`: either
the handler has returned (its result and the stores then), or it holds the
payment, the debited wallet and the result in memory and the stores are as they
were. -/
def HandlePaymentRequested.readPhase (env : Env) (s : Stores) (event : Event) :
    (Option Error × Stores) ⊕ (Payment × Wallet × ProcessResult) :=
  match event with
  | .paymentRequested _ paymentID userID _ _ _ _ =>
    match PaymentRepository.FindByID (env.fails .paymentFind) s paymentID with
    | .error err => .inl (some (.wrap "PAYMENT_NOT_FOUND" "payment not found" err), s)
    | .ok pmt =>
      match WalletRepository.GetByUserID (env.fails .walletGet) s userID with
      | .error _ => .inl (failPayment env s pmt "WALLET_NOT_FOUND")
      | .ok wlt =>
        match Process pmt wlt (env.clock 0) with
        | (.error err, _, _) => .inl (some err, s)
        | (.ok result, pmt1, wlt1) =>
          if !result.Success then .inl (failPayment env s pmt1 result.FailureReason)
          else .inr (pmt1, wlt1, result)
  | _ => .inl (some (.msg "unexpected event type"), s)

/-- `HandlePaymentRequested` from the update of the wallet on, with the payment,
the wallet and the result it holds in memory. -/
def HandlePaymentRequested.writePhase (env : Env) (s : Stores) (event : Event)
    (held : Payment × Wallet × ProcessResult) : Option Error × Stores :=
  match WalletRepository.Update (env.fails .walletUpdate) s held.2.1 with
  | (some err, s1) => (some (DatabaseError "update wallet" err), s1)
  | (none, s1) =>
    let debitedEvent := NewWalletDebitedEvent held.1.id.value held.1.userID.value
      (held.1.money.AmountFloat env.float64)
      (held.2.2.PreviousBalance.AmountFloat env.float64)
      (held.2.2.NewBalance.AmountFloat env.float64) event.Metadata (env.clock 1)
    match publishEvent env 0 s1 debitedEvent held.1.id.value with
    | (some err, s2) => (some err, s2)
    | (none, s2) =>
      let externalEvent := NewExternalPaymentRequestedEvent held.1.id.value
        held.1.userID.value (held.1.money.AmountFloat env.float64)
        held.1.money.currency.code held.1.serviceID.value event.Metadata (env.clock 2)
      publishEvent env 1 s2 externalEvent held.1.id.value

/-- Where an invocation of `HandlePaymentRequested` stands: not started, holding
its loaded values, or returned (with its error, and whether it returned from
the debit path). -/
inductive HandlerPhase where
  | start
  | loaded (held : Payment × Wallet × ProcessResult)
  | returned (err : Option Error) (debitPath : Bool)

/-- One step of an invocation on the shared stores: the read phase, then the
write phase. -/
def stepHandler (env : Env) (event : Event) (s : Stores) (phase : HandlerPhase) :
    Stores × HandlerPhase :=
  match phase with
  | .start =>
    match HandlePaymentRequested.readPhase env s event with
    | .inl out => (out.2, .returned out.1 false)
    | .inr held => (s, .loaded held)
  | .loaded held =>
    ((HandlePaymentRequested.writePhase env s event held).2,
      .returned (HandlePaymentRequested.writePhase env s event held).1 true)
  | .returned err debitPath => (s, .returned err debitPath)

/-- Two invocations, A and B, run under a schedule: `false` lets A take its next
step, `true` lets B take its next step. -/
def runInterleaved (envA : Env) (eventA : Event) (envB : Env) (eventB : Event) :
    List Bool → Stores × HandlerPhase × HandlerPhase → Stores × HandlerPhase × HandlerPhase
  | [], state => state
  | false :: rest, (s, phaseA, phaseB) =>
    runInterleaved envA eventA envB eventB rest
      ((stepHandler envA eventA s phaseA).1, (stepHandler envA eventA s phaseA).2, phaseB)
  | true :: rest, (s, phaseA, phaseB) =>
    runInterleaved envA eventA envB eventB rest
      ((stepHandler envB eventB s phaseB).1, phaseA, (stepHandler envB eventB s phaseB).2)

/-- The invocation reports a successful debit: it has returned without error
from the debit path. -/
def HandlerPhase.ReportsDebit : HandlerPhase → Prop
  | .returned none true => True
  | _ => False

/-- A second PENDING payment of `user-123`, of 200 ARS. -/
def sampleSecondPayment : Payment where
  id := ⟨"7d444840-9dc0-11d1-b245-5ffdce74fad2"⟩
  userID := ⟨"user-123"⟩
  serviceID := ⟨"service-123"⟩
  idempotencyKey := ⟨"key-456"⟩
  money := ⟨200, ⟨"ARS"⟩⟩
  status := PaymentStatusPending
  failureReason := ""
  externalTxID := ""
  createdAt := 0
  updatedAt := 0

/-- The PaymentRequested event of `sampleSecondPayment`. -/
def sampleSecondRequested : Event :=
  .paymentRequested ⟨"PaymentRequested", 0, sampleMetadata⟩
    "7d444840-9dc0-11d1-b245-5ffdce74fad2" "user-123" 200 "ARS" "service-123" "key-456"

/-- Stores that hold two payments and one wallet, each under its own key. -/
def storesWithTwo (p q : Payment) (w : Wallet) : Stores where
  payments := fun id =>
    if id = p.id.value then some p else if id = q.id.value then some q else none
  wallets := fun userID => if userID = w.userID.value then some w else none
  keys := fun _ => none
  events := fun _ => []
  published := []

/-! ## theorems -/

/-! ### helper lemmas -/

theorem Currency_Equals_iff (c d : Currency) : c.Equals d = true ↔ c = d := by
  cases c; cases d; simp [Currency.Equals]

theorem Currency_Equals_false_iff (c d : Currency) : c.Equals d = false ↔ c ≠ d := by
  cases c; cases d; simp [Currency.Equals]

theorem UserID_Equals_iff (a b : UserID) : a.Equals b = true ↔ a = b := by
  cases a; cases b; simp [UserID.Equals]

theorem UserID_Equals_false_iff (a b : UserID) : a.Equals b = false ↔ a ≠ b := by
  cases a; cases b; simp [UserID.Equals]

theorem Wallet_CanDebit_iff (w : Wallet) (a : Money) :
    w.CanDebit a = true ↔ a.currency = w.balance.currency ∧ a.amount ≤ w.balance.amount := by
  unfold Wallet.CanDebit Money.IsGreaterThanOrEqual
  by_cases h : w.balance.currency = a.currency
  · simp [Currency_Equals_iff, Currency_Equals_false_iff, h]
  · have h' : a.currency ≠ w.balance.currency := fun e => h e.symm
    simp [Currency_Equals_iff, Currency_Equals_false_iff, h, h']

/-- A debit that `CanDebit` allows: the wallet after it and the pair returned. -/
theorem Wallet_Debit_of_canDebit (w : Wallet) (a : Money) (now : Nat)
    (h : w.CanDebit a = true) :
    w.Debit a now =
      (.ok (w.balance, ⟨w.balance.amount - a.amount, w.balance.currency⟩),
        { w with balance := ⟨w.balance.amount - a.amount, w.balance.currency⟩,
                 updatedAt := now }) := by
  obtain ⟨hc, hle⟩ := (Wallet_CanDebit_iff w a).1 h
  have hnn : ¬ (w.balance.amount - a.amount < 0) := by linarith
  simp [Wallet.Debit, h, Money.Subtract, (Currency_Equals_iff _ _).2 hc.symm, hnn]

/-- A debit that `CanDebit` refuses fails and leaves the wallet as it was. -/
theorem Wallet_Debit_of_not_canDebit (w : Wallet) (a : Money) (now : Nat)
    (h : w.CanDebit a = false) :
    ∃ e, w.Debit a now = (.error e, w) := by
  unfold Wallet.Debit
  by_cases hc : w.balance.currency.Equals a.currency = true
  · simp [hc, h]
  · simp [hc]

/-- A credit in the wallet currency of a positive amount. -/
theorem Wallet_Credit_of_ok (w : Wallet) (a : Money) (now : Nat)
    (hc : a.currency = w.balance.currency) (hp : 0 < a.amount) :
    w.Credit a now =
      (.ok (w.balance, ⟨w.balance.amount + a.amount, w.balance.currency⟩),
        { w with balance := ⟨w.balance.amount + a.amount, w.balance.currency⟩,
                 updatedAt := now }) := by
  simp [Wallet.Credit, Money.Add, Money.IsPositive, (Currency_Equals_iff _ _).2 hc.symm, hp]

/-- A credit in another currency or of a non-positive amount fails and leaves
the wallet as it was. -/
theorem Wallet_Credit_of_not_ok (w : Wallet) (a : Money) (now : Nat)
    (h : ¬ (a.currency = w.balance.currency ∧ 0 < a.amount)) :
    ∃ e, w.Credit a now = (.error e, w) := by
  unfold Wallet.Credit
  by_cases hc : w.balance.currency.Equals a.currency = true
  · have hc' : a.currency = w.balance.currency := ((Currency_Equals_iff _ _).1 hc).symm
    have hp : ¬ (0 < a.amount) := fun hp => h ⟨hc', hp⟩
    simp [hc, Money.IsPositive, hp]
  · simp [hc]

/-! ### C5 -/

/-- C5: `Debit` succeeds exactly when the amount is in the balance currency and
the balance covers it, which is `CanDebit`; on success the pair returned is the
balance before the call and that balance minus the amount, and the latter is
the balance after the call; on failure the wallet, hence its balance, is
unchanged. -/
theorem C5_debit_contract (w : Wallet) (a : Money) (now : Nat) :
    ((∃ r, (w.Debit a now).1 = .ok r) ↔
        (a.currency = w.balance.currency ∧ a.amount ≤ w.balance.amount)) ∧
    (w.CanDebit a = true ↔
        (a.currency = w.balance.currency ∧ a.amount ≤ w.balance.amount)) ∧
    (∀ previousBalance newBalance,
        (w.Debit a now).1 = .ok (previousBalance, newBalance) →
          previousBalance = w.balance ∧
          newBalance = ⟨previousBalance.amount - a.amount, previousBalance.currency⟩ ∧
          (w.Debit a now).2.balance = newBalance) ∧
    ((∀ r, (w.Debit a now).1 ≠ .ok r) → (w.Debit a now).2 = w) := by
  by_cases h : w.CanDebit a = true
  · have hd := Wallet_Debit_of_canDebit w a now h
    refine ⟨?_, Wallet_CanDebit_iff w a, ?_, ?_⟩
    · rw [hd]; exact ⟨fun _ => (Wallet_CanDebit_iff w a).1 h, fun _ => ⟨_, rfl⟩⟩
    · intro pb nb hr
      rw [hd] at hr ⊢
      simp only [Except.ok.injEq, Prod.mk.injEq] at hr
      obtain ⟨rfl, rfl⟩ := hr
      exact ⟨rfl, rfl, rfl⟩
    · intro hne
      rw [hd] at hne
      exact absurd rfl (hne _)
  · have hf : w.CanDebit a = false := by simpa using h
    obtain ⟨e, he⟩ := Wallet_Debit_of_not_canDebit w a now hf
    have hn : ¬ (a.currency = w.balance.currency ∧ a.amount ≤ w.balance.amount) :=
      fun hh => h ((Wallet_CanDebit_iff w a).2 hh)
    refine ⟨?_, Wallet_CanDebit_iff w a, ?_, ?_⟩
    · rw [he]; constructor
      · rintro ⟨r, hr⟩; cases hr
      · intro hh; exact absurd hh hn
    · intro pb nb hr; rw [he] at hr; cases hr
    · intro _; rw [he]

/-! ### C6 -/

/-- C6: `Credit` succeeds exactly when the amount is in the balance currency and
strictly positive; on success the pair returned is the balance before the call
and that balance plus the amount, and the latter is the balance after the call;
on failure the wallet, hence its balance, is unchanged. -/
theorem C6_credit_contract (w : Wallet) (a : Money) (now : Nat) :
    ((∃ r, (w.Credit a now).1 = .ok r) ↔
        (a.currency = w.balance.currency ∧ 0 < a.amount)) ∧
    (∀ previousBalance newBalance,
        (w.Credit a now).1 = .ok (previousBalance, newBalance) →
          previousBalance = w.balance ∧
          newBalance = ⟨previousBalance.amount + a.amount, previousBalance.currency⟩ ∧
          (w.Credit a now).2.balance = newBalance) ∧
    ((∀ r, (w.Credit a now).1 ≠ .ok r) → (w.Credit a now).2 = w) := by
  by_cases h : a.currency = w.balance.currency ∧ 0 < a.amount
  · have hd := Wallet_Credit_of_ok w a now h.1 h.2
    refine ⟨?_, ?_, ?_⟩
    · rw [hd]; exact ⟨fun _ => h, fun _ => ⟨_, rfl⟩⟩
    · intro pb nb hr
      rw [hd] at hr ⊢
      simp only [Except.ok.injEq, Prod.mk.injEq] at hr
      obtain ⟨rfl, rfl⟩ := hr
      exact ⟨rfl, rfl, rfl⟩
    · intro hne
      rw [hd] at hne
      exact absurd rfl (hne _)
  · obtain ⟨e, he⟩ := Wallet_Credit_of_not_ok w a now h
    refine ⟨?_, ?_, ?_⟩
    · rw [he]; constructor
      · rintro ⟨r, hr⟩; cases hr
      · intro hh; exact absurd hh h
    · intro pb nb hr; rw [he] at hr; cases hr
    · intro _; rw [he]

/-! ### C7 -/

/-- One call keeps a non-negative balance non-negative and keeps the currency
and the owner. -/
theorem Wallet_call_invariant (w : Wallet) (c : WalletCall) (h : 0 ≤ w.balance.amount) :
    0 ≤ (w.call c).balance.amount ∧ (w.call c).balance.currency = w.balance.currency ∧
      (w.call c).userID = w.userID := by
  cases c with
  | debit a now =>
    show 0 ≤ (w.Debit a now).2.balance.amount ∧
      (w.Debit a now).2.balance.currency = w.balance.currency ∧
      (w.Debit a now).2.userID = w.userID
    by_cases hd : w.CanDebit a = true
    · have hle := ((Wallet_CanDebit_iff w a).1 hd).2
      rw [Wallet_Debit_of_canDebit w a now hd]
      exact ⟨sub_nonneg.2 hle, rfl, rfl⟩
    · have hf : w.CanDebit a = false := by simpa using hd
      obtain ⟨e, he⟩ := Wallet_Debit_of_not_canDebit w a now hf
      rw [he]
      exact ⟨h, rfl, rfl⟩
  | credit a now =>
    show 0 ≤ (w.Credit a now).2.balance.amount ∧
      (w.Credit a now).2.balance.currency = w.balance.currency ∧
      (w.Credit a now).2.userID = w.userID
    by_cases hc : a.currency = w.balance.currency ∧ 0 < a.amount
    · rw [Wallet_Credit_of_ok w a now hc.1 hc.2]
      exact ⟨add_nonneg h (le_of_lt hc.2), rfl, rfl⟩
    · obtain ⟨e, he⟩ := Wallet_Credit_of_not_ok w a now hc
      rw [he]
      exact ⟨h, rfl, rfl⟩

/-- A sequence of calls keeps a non-negative balance non-negative and keeps the
currency and the owner. -/
theorem Wallet_calls_invariant (cs : List WalletCall) (w : Wallet)
    (h : 0 ≤ w.balance.amount) :
    0 ≤ (w.calls cs).balance.amount ∧ (w.calls cs).balance.currency = w.balance.currency ∧
      (w.calls cs).userID = w.userID := by
  induction cs generalizing w with
  | nil => exact ⟨h, rfl, rfl⟩
  | cons c cs ih =>
    obtain ⟨h1, h2, h3⟩ := Wallet_call_invariant w c h
    obtain ⟨k1, k2, k3⟩ := ih (w.call c) h1
    simp only [Wallet.calls, List.foldl_cons] at k1 k2 k3 ⊢
    exact ⟨k1, k2.trans h2, k3.trans h3⟩

/-- C7: after `NewWallet` and any sequence of `Debit` and `Credit` calls, successful
or not, the balance amount is not negative and the balance currency and the
user ID are those given at creation. -/
theorem C7_wallet_invariant (userID : UserID) (initialBalance : Money) (now : Nat)
    (w : Wallet) (cs : List WalletCall)
    (h : NewWallet userID initialBalance now = .ok w) :
    0 ≤ (w.calls cs).balance.amount ∧
      (w.calls cs).balance.currency = initialBalance.currency ∧
      (w.calls cs).userID = userID := by
  unfold NewWallet at h
  split at h
  · cases h
  · split at h
    · cases h
    · rename_i _ hneg
      simp only [Except.ok.injEq] at h
      subst h
      exact Wallet_calls_invariant cs _ (not_lt.1 hneg)

/-- C7 at a wallet of 500 ARS that is debited 100, over-debited 1000, credited in
another currency and credited 50. -/
theorem C7_wallet_invariant_witness :
    NewWallet ⟨"user-123"⟩ ⟨500, ⟨"ARS"⟩⟩ 0 = .ok ⟨⟨"user-123"⟩, ⟨500, ⟨"ARS"⟩⟩, 0⟩ ∧
    (0 ≤ ((⟨⟨"user-123"⟩, ⟨500, ⟨"ARS"⟩⟩, 0⟩ : Wallet).calls
            [.debit ⟨100, ⟨"ARS"⟩⟩ 1, .debit ⟨1000, ⟨"ARS"⟩⟩ 2, .credit ⟨5, ⟨"USD"⟩⟩ 3,
             .credit ⟨50, ⟨"ARS"⟩⟩ 4]).balance.amount ∧
      ((⟨⟨"user-123"⟩, ⟨500, ⟨"ARS"⟩⟩, 0⟩ : Wallet).calls
            [.debit ⟨100, ⟨"ARS"⟩⟩ 1, .debit ⟨1000, ⟨"ARS"⟩⟩ 2, .credit ⟨5, ⟨"USD"⟩⟩ 3,
             .credit ⟨50, ⟨"ARS"⟩⟩ 4]).balance.currency = (⟨500, ⟨"ARS"⟩⟩ : Money).currency ∧
      ((⟨⟨"user-123"⟩, ⟨500, ⟨"ARS"⟩⟩, 0⟩ : Wallet).calls
            [.debit ⟨100, ⟨"ARS"⟩⟩ 1, .debit ⟨1000, ⟨"ARS"⟩⟩ 2, .credit ⟨5, ⟨"USD"⟩⟩ 3,
             .credit ⟨50, ⟨"ARS"⟩⟩ 4]).userID = ⟨"user-123"⟩) :=
  ⟨by rfl, C7_wallet_invariant ⟨"user-123"⟩ ⟨500, ⟨"ARS"⟩⟩ 0 _ _ (by rfl)⟩

/-! ### C8 -/

/-- C8: `Process` returns a hard error, with payment and wallet untouched,
exactly when the payment is not PENDING; otherwise it reports, in this order,
USER_MISMATCH, CURRENCY_MISMATCH or INSUFFICIENT_FUNDS (no debit, wallet
untouched), and else debits: success, the balance before, the balance before
minus the amount, and the wallet balance set to the latter. -/
theorem C8_process_contract (p : Payment) (w : Wallet) (now : Nat) :
    (p.status ≠ PaymentStatusPending → ∃ e, Process p w now = (.error e, p, w)) ∧
    (p.status = PaymentStatusPending →
      (p.userID ≠ w.userID →
        Process p w now =
          (.ok { Success := false, FailureReason := "USER_MISMATCH", WalletDebited := false },
            p, w)) ∧
      (p.userID = w.userID → w.balance.currency ≠ p.money.currency →
        Process p w now =
          (.ok { Success := false, FailureReason := "CURRENCY_MISMATCH",
                 WalletDebited := false }, p, w)) ∧
      (p.userID = w.userID → w.balance.currency = p.money.currency →
        w.balance.amount < p.money.amount →
        Process p w now =
          (.ok { Success := false, FailureReason := "INSUFFICIENT_FUNDS",
                 WalletDebited := false }, p, w)) ∧
      (p.userID = w.userID → w.balance.currency = p.money.currency →
        p.money.amount ≤ w.balance.amount →
        Process p w now =
          (.ok { Success := true, WalletDebited := true, PreviousBalance := w.balance,
                 NewBalance := ⟨w.balance.amount - p.money.amount, w.balance.currency⟩ },
            p,
            { w with balance := ⟨w.balance.amount - p.money.amount, w.balance.currency⟩,
                     updatedAt := now }))) := by
  refine ⟨?_, ?_⟩
  · intro hs
    exact ⟨.msg "payment must be in pending status to be processed",
      by simp [Process, Payment.CanBeProcessed, PaymentStatus.IsPending, hs]⟩
  · intro hs
    have hp : p.CanBeProcessed = true := by
      simp [Payment.CanBeProcessed, PaymentStatus.IsPending, hs]
    refine ⟨?_, ?_, ?_, ?_⟩
    · intro hu
      simp [Process, hp, (UserID_Equals_false_iff _ _).2 hu]
    · intro hu hc
      simp [Process, hp, (UserID_Equals_iff _ _).2 hu, (Currency_Equals_false_iff _ _).2 hc]
    · intro hu hc hlt
      have hcd : w.CanDebit p.money = false := by
        rw [Bool.eq_false_iff]
        intro h
        have := ((Wallet_CanDebit_iff _ _).1 h).2
        linarith
      simp [Process, hp, (UserID_Equals_iff _ _).2 hu, (Currency_Equals_iff _ _).2 hc, hcd]
    · intro hu hc hle
      have hcd : w.CanDebit p.money = true := (Wallet_CanDebit_iff _ _).2 ⟨hc.symm, hle⟩
      simp [Process, hp, (UserID_Equals_iff _ _).2 hu, (Currency_Equals_iff _ _).2 hc, hcd,
        Wallet_Debit_of_canDebit w p.money now hcd]

/-! ### C9 -/

/-- C9: `Refund` succeeds exactly when the payment is FAILED, payment and wallet
have the same user ID, the payment currency is the balance currency and the
payment amount is positive; on success the balance becomes the old balance
plus the amount and the result carries the old and the new balance; on failure
the wallet is unchanged; the payment is never modified. -/
theorem C9_refund_contract (p : Payment) (w : Wallet) (now : Nat) :
    ((∃ r, (Refund p w now).1 = .ok r) ↔
        (p.status = PaymentStatusFailed ∧ p.userID = w.userID ∧
          p.money.currency = w.balance.currency ∧ 0 < p.money.amount)) ∧
    (∀ r, (Refund p w now).1 = .ok r →
        (Refund p w now).2.2.balance =
            ⟨w.balance.amount + p.money.amount, w.balance.currency⟩ ∧
          r.Success = true ∧ r.PreviousBalance = w.balance ∧
          r.NewBalance = (Refund p w now).2.2.balance) ∧
    ((∀ r, (Refund p w now).1 ≠ .ok r) → (Refund p w now).2.2 = w) ∧
    (Refund p w now).2.1 = p := by
  by_cases hs : p.status = PaymentStatusFailed
  · have hr : p.CanBeRefunded = true := by
      simp [Payment.CanBeRefunded, PaymentStatus.IsFailed, hs]
    by_cases hu : p.userID = w.userID
    · by_cases hc : p.money.currency = w.balance.currency ∧ 0 < p.money.amount
      · have hk := Wallet_Credit_of_ok w p.money now hc.1 hc.2
        have hR : Refund p w now =
            (.ok { Success := true, PreviousBalance := w.balance,
                   NewBalance := ⟨w.balance.amount + p.money.amount, w.balance.currency⟩ },
              p, { w with balance := ⟨w.balance.amount + p.money.amount, w.balance.currency⟩,
                          updatedAt := now }) := by
          simp [Refund, hr, (UserID_Equals_iff _ _).2 hu, hk]
        rw [hR]
        refine ⟨⟨fun _ => ⟨hs, hu, hc.1, hc.2⟩, fun _ => ⟨_, rfl⟩⟩, ?_, ?_, rfl⟩
        · intro r hr'
          simp only [Except.ok.injEq] at hr'
          subst hr'
          exact ⟨rfl, rfl, rfl, rfl⟩
        · intro hne; exact absurd rfl (hne _)
      · obtain ⟨e, he⟩ := Wallet_Credit_of_not_ok w p.money now hc
        have hR : Refund p w now = (.error e, p, w) := by
          simp [Refund, hr, (UserID_Equals_iff _ _).2 hu, he]
        rw [hR]
        refine ⟨⟨?_, fun hh => absurd ⟨hh.2.2.1, hh.2.2.2⟩ hc⟩, ?_, fun _ => rfl, rfl⟩
        · rintro ⟨r, h⟩; cases h
        · intro r h; cases h
    · have hR : ∃ e, Refund p w now = (.error e, p, w) :=
        ⟨.msg "user ID mismatch: payment and wallet belong to different users",
          by simp [Refund, hr, (UserID_Equals_false_iff _ _).2 hu]⟩
      obtain ⟨e, hR⟩ := hR
      rw [hR]
      refine ⟨⟨?_, fun hh => absurd hh.2.1 hu⟩, ?_, fun _ => rfl, rfl⟩
      · rintro ⟨r, h⟩; cases h
      · intro r h; cases h
  · have hR : ∃ e, Refund p w now = (.error e, p, w) :=
      ⟨.msg "payment cannot be refunded in current state",
        by simp [Refund, Payment.CanBeRefunded, PaymentStatus.IsFailed, hs]⟩
    obtain ⟨e, hR⟩ := hR
    rw [hR]
    refine ⟨⟨?_, fun hh => absurd hh.1 hs⟩, ?_, fun _ => rfl, rfl⟩
    · rintro ⟨r, h⟩; cases h
    · intro r h; cases h

/-! ### C10 -/

/-- C10: for the three declared statuses, `CanTransitionTo` holds exactly from
PENDING to COMPLETED or FAILED; `IsTerminal` holds exactly when no transition
out of the status is allowed; and `ValidateTransition` returns an error exactly
when `CanTransitionTo` is false. -/
theorem C10_status_transitions (s t : PaymentStatus) (hs : s.Declared) (ht : t.Declared) :
    (s.CanTransitionTo t = true ↔
        (s = PaymentStatusPending ∧
          (t = PaymentStatusCompleted ∨ t = PaymentStatusFailed))) ∧
    (s.IsTerminal = true ↔ ∀ u : PaymentStatus, u.Declared → s.CanTransitionTo u = false) ∧
    ((∃ e, s.ValidateTransition t = some e) ↔ s.CanTransitionTo t = false) := by
  have key : ∀ a b : PaymentStatus, a.Declared → b.Declared →
      ((a.CanTransitionTo b = true ↔
        (a = PaymentStatusPending ∧
          (b = PaymentStatusCompleted ∨ b = PaymentStatusFailed))) ∧
      ((∃ e, a.ValidateTransition b = some e) ↔ a.CanTransitionTo b = false)) := by
    intro a b ha hb
    rcases ha with rfl | rfl | rfl <;> rcases hb with rfl | rfl | rfl <;>
      simp [PaymentStatus.ValidateTransition, PaymentStatus.CanTransitionTo,
        PaymentStatusPending, PaymentStatusCompleted, PaymentStatusFailed]
  refine ⟨(key s t hs ht).1, ?_, (key s t hs ht).2⟩
  rcases hs with rfl | rfl | rfl
  · constructor
    · intro h; simp [PaymentStatus.IsTerminal, PaymentStatusPending, PaymentStatusCompleted,
        PaymentStatusFailed] at h
    · intro h
      have := h PaymentStatusCompleted (Or.inr (Or.inl rfl))
      simp [PaymentStatus.CanTransitionTo] at this
  · constructor
    · intro _ u _
      simp [PaymentStatus.CanTransitionTo, PaymentStatusPending, PaymentStatusCompleted]
    · intro _; simp [PaymentStatus.IsTerminal]
  · constructor
    · intro _ u _
      simp [PaymentStatus.CanTransitionTo, PaymentStatusPending, PaymentStatusCompleted,
        PaymentStatusFailed]
    · intro _; simp [PaymentStatus.IsTerminal]

/-- C10 at the transition from PENDING to FAILED. -/
theorem C10_status_transitions_witness :
    PaymentStatusPending.Declared ∧ PaymentStatusFailed.Declared ∧
    ((PaymentStatusPending.CanTransitionTo PaymentStatusFailed = true ↔
        (PaymentStatusPending = PaymentStatusPending ∧
          (PaymentStatusFailed = PaymentStatusCompleted ∨
            PaymentStatusFailed = PaymentStatusFailed))) ∧
    (PaymentStatusPending.IsTerminal = true ↔
        ∀ u : PaymentStatus, u.Declared → PaymentStatusPending.CanTransitionTo u = false) ∧
    ((∃ e, PaymentStatusPending.ValidateTransition PaymentStatusFailed = some e) ↔
        PaymentStatusPending.CanTransitionTo PaymentStatusFailed = false)) :=
  ⟨Or.inl rfl, Or.inr (Or.inr rfl),
    C10_status_transitions PaymentStatusPending PaymentStatusFailed (Or.inl rfl)
      (Or.inr (Or.inr rfl))⟩

/-! ### the handlers on their main paths -/

/-- The debit of `Process`: PENDING payment, same user, same currency, balance
that covers the amount. -/
theorem Process_debit (p : Payment) (w : Wallet) (now : Nat)
    (hs : p.status = PaymentStatusPending) (hu : p.userID = w.userID)
    (hc : w.balance.currency = p.money.currency) (hle : p.money.amount ≤ w.balance.amount) :
    Process p w now =
      (.ok { Success := true, WalletDebited := true, PreviousBalance := w.balance,
             NewBalance := ⟨w.balance.amount - p.money.amount, w.balance.currency⟩ },
        p,
        { w with balance := ⟨w.balance.amount - p.money.amount, w.balance.currency⟩,
                 updatedAt := now }) := by
  have hp : p.CanBeProcessed = true := by
    simp [Payment.CanBeProcessed, PaymentStatus.IsPending, hs]
  have hcd : w.CanDebit p.money = true := (Wallet_CanDebit_iff _ _).2 ⟨hc.symm, hle⟩
  simp [Process, hp, (UserID_Equals_iff _ _).2 hu, (Currency_Equals_iff _ _).2 hc, hcd,
    Wallet_Debit_of_canDebit w p.money now hcd]

/-- With working collaborators `publishEvent` appends the event to the log of
the payment and then to the published events. -/
theorem publishEvent_noFaults (env : Env) (h : env.NoFaults) (k : Nat) (s : Stores)
    (event : Event) (paymentID : String) :
    publishEvent env k s event paymentID =
      (none, { s with
        events := Function.update s.events paymentID
          (s.events paymentID ++ [storedEventOf (env.uuid k) paymentID event]),
        published := s.published ++ [event] }) := by
  simp [publishEvent, EventStore.Append, EventPublisher.Publish, h _, storedEventOf]

/-- The debit path of `HandlePaymentRequested`: a stored PENDING payment, the
wallet of its user in its currency, a balance that covers the amount. -/
theorem HandlePaymentRequested_debit (env : Env) (h : env.NoFaults) (s : Stores)
    (p : Payment) (w : Wallet) (b : BaseEvent) (amount : ℚ)
    (currency serviceID idempotencyKey : String)
    (hp : s.payments p.id.value = some p) (hs : p.status = PaymentStatusPending)
    (hw : s.wallets p.userID.value = some w) (hu : w.userID = p.userID)
    (hc : w.balance.currency = p.money.currency)
    (hle : p.money.amount ≤ w.balance.amount) :
    HandlePaymentRequested env s
        (.paymentRequested b p.id.value p.userID.value amount currency serviceID
          idempotencyKey) =
      (none, { s with
        wallets := Function.update s.wallets p.userID.value
          (some { w with balance := ⟨w.balance.amount - p.money.amount, w.balance.currency⟩,
                         updatedAt := env.clock 0 }),
        events := Function.update s.events p.id.value
          (s.events p.id.value ++
            [storedEventOf (env.uuid 0) p.id.value
               (NewWalletDebitedEvent p.id.value p.userID.value
                 (p.money.AmountFloat env.float64)
                 (w.balance.AmountFloat env.float64)
                 (env.float64 (w.balance.amount - p.money.amount)) b.metadata
                 (env.clock 1)),
             storedEventOf (env.uuid 1) p.id.value
               (NewExternalPaymentRequestedEvent p.id.value p.userID.value
                 (p.money.AmountFloat env.float64)
                 p.money.currency.code p.serviceID.value b.metadata (env.clock 2))]),
        published := s.published ++
          [NewWalletDebitedEvent p.id.value p.userID.value
             (p.money.AmountFloat env.float64)
             (w.balance.AmountFloat env.float64)
             (env.float64 (w.balance.amount - p.money.amount)) b.metadata (env.clock 1),
           NewExternalPaymentRequestedEvent p.id.value p.userID.value
             (p.money.AmountFloat env.float64)
             p.money.currency.code p.serviceID.value b.metadata (env.clock 2)] }) := by
  have hP := Process_debit p w (env.clock 0) hs hu.symm hc hle
  simp [HandlePaymentRequested, PaymentRepository.FindByID, WalletRepository.GetByUserID,
    WalletRepository.Update, WalletRepository.Save, h _, hp, hw, hP,
    publishEvent_noFaults env h, Event.Metadata, Event.base, Money.AmountFloat, hu, hc]

/-- The main path of `initiateRefund`: a stored PENDING payment and a non-empty
reason. -/
theorem initiateRefund_pending (env : Env) (h : env.NoFaults) (s : Stores) (p : Payment)
    (reason : String) (metadata : Metadata)
    (hp : s.payments p.id.value = some p) (hs : p.status = PaymentStatusPending)
    (hr : reason ≠ "") :
    initiateRefund env s p.id.value reason metadata =
      (none, { s with
        payments := Function.update s.payments p.id.value
          (some { p with status := PaymentStatusFailed, failureReason := reason,
                         updatedAt := env.clock 0 }),
        events := Function.update s.events p.id.value
          (s.events p.id.value ++
            [storedEventOf (env.uuid 0) p.id.value
               (NewPaymentRefundRequestedEvent p.id.value p.userID.value
                 (p.money.AmountFloat env.float64)
                 reason metadata (env.clock 1))]),
        published := s.published ++
          [NewPaymentRefundRequestedEvent p.id.value p.userID.value
             (p.money.AmountFloat env.float64) reason
             metadata (env.clock 1)] }) := by
  have hm : p.MarkFailed reason (env.clock 0) =
      (none, { p with status := PaymentStatusFailed, failureReason := reason,
                      updatedAt := env.clock 0 }) := by
    simp [Payment.MarkFailed, PaymentStatus.ValidateTransition, PaymentStatus.CanTransitionTo,
      hs, hr]
  simp [initiateRefund, PaymentRepository.FindByID, PaymentRepository.Update,
    PaymentRepository.Save, h _, hp, hm, publishEvent_noFaults env h, Money.AmountFloat]

/-- The credit path of `HandlePaymentRefundRequested`: a stored FAILED payment
whose ID parses as a UUID, the wallet of its user in its currency, a positive
amount. -/
theorem HandlePaymentRefundRequested_credit (env : Env) (h : env.NoFaults) (s : Stores)
    (p : Payment) (w : Wallet) (b : BaseEvent) (amount : ℚ) (reason : String)
    (hne : p.id.value ≠ "") (hid : env.parseUUID p.id.value = true)
    (hp : s.payments p.id.value = some p) (hs : p.status = PaymentStatusFailed)
    (hw : s.wallets p.userID.value = some w) (hu : w.userID = p.userID)
    (hc : p.money.currency = w.balance.currency) (hpos : 0 < p.money.amount) :
    HandlePaymentRefundRequested env s
        (.paymentRefundRequested b p.id.value p.userID.value amount reason) =
      (none, { s with
        wallets := Function.update s.wallets p.userID.value
          (some { w with balance := ⟨w.balance.amount + p.money.amount, w.balance.currency⟩,
                         updatedAt := env.clock 0 }),
        events := Function.update s.events p.id.value
          (s.events p.id.value ++
            [storedEventOf (env.uuid 0) p.id.value
               (NewWalletCreditedEvent p.id.value p.userID.value amount
                 (w.balance.AmountFloat env.float64)
                 (env.float64 (w.balance.amount + p.money.amount))
                 "REFUND" b.metadata (env.clock 1))]),
        published := s.published ++
          [NewWalletCreditedEvent p.id.value p.userID.value amount
             (w.balance.AmountFloat env.float64)
             (env.float64 (w.balance.amount + p.money.amount))
             "REFUND" b.metadata (env.clock 1)] }) := by
  have hr : p.CanBeRefunded = true := by
    simp [Payment.CanBeRefunded, PaymentStatus.IsFailed, hs]
  have hk := Wallet_Credit_of_ok w p.money (env.clock 0) hc hpos
  simp [HandlePaymentRefundRequested, NewPaymentID, hne, hid, PaymentRepository.FindByID,
    WalletRepository.GetByUserID, WalletRepository.Update, WalletRepository.Save, h _, hp, hw,
    Refund, hr, hu, UserID.Equals, hk, publishEvent_noFaults env h, Event.Metadata, Event.base,
    Money.AmountFloat]

/-- `Refund` of an amount that is not positive fails. -/
theorem Refund_not_positive (p : Payment) (w : Wallet) (now : Nat)
    (hpos : ¬ 0 < p.money.amount) : ∃ e, Refund p w now = (.error e, p, w) := by
  obtain ⟨e, he⟩ := Wallet_Credit_of_not_ok w p.money now (fun hh => hpos hh.2)
  unfold Refund
  by_cases h1 : p.CanBeRefunded = true
  · by_cases h2 : p.userID.Equals w.userID = true
    · exact ⟨e, by simp [h1, h2, he]⟩
    · exact ⟨.msg "user ID mismatch: payment and wallet belong to different users",
        by simp [h1, h2]⟩
  · exact ⟨.msg "payment cannot be refunded in current state", by simp [h1]⟩

/-- A refund request for an amount that is not positive fails in `Credit` and
changes no store. -/
theorem HandlePaymentRefundRequested_not_positive (env : Env) (h : env.NoFaults) (s : Stores)
    (p : Payment) (w : Wallet) (b : BaseEvent) (amount : ℚ) (reason : String)
    (hne : p.id.value ≠ "") (hid : env.parseUUID p.id.value = true)
    (hp : s.payments p.id.value = some p)
    (hw : s.wallets p.userID.value = some w) (hpos : ¬ 0 < p.money.amount) :
    (HandlePaymentRefundRequested env s
        (.paymentRefundRequested b p.id.value p.userID.value amount reason)).2 = s := by
  obtain ⟨e, he⟩ := Refund_not_positive p w (env.clock 0) hpos
  simp [HandlePaymentRefundRequested, NewPaymentID, hne, hid, PaymentRepository.FindByID,
    WalletRepository.GetByUserID, h _, hp, hw, he]

/-! ### C4 -/

/-- Debit, then `initiateRefund` with a non-empty reason, then the refund event
that was published: the stored balance is the initial one and the payment is
stored FAILED with that reason. -/
theorem compensation_core (env1 env2 env3 : Env) (h1 : env1.NoFaults) (h2 : env2.NoFaults)
    (h3 : env3.NoFaults) (s : Stores) (p : Payment) (w : Wallet)
    (b1 : BaseEvent) (amount1 : ℚ) (currency serviceID idempotencyKey : String)
    (reason : String) (metadata : Metadata)
    (hp : s.payments p.id.value = some p) (hs : p.status = PaymentStatusPending)
    (hw : s.wallets p.userID.value = some w) (hu : w.userID = p.userID)
    (hc : w.balance.currency = p.money.currency)
    (hle : p.money.amount ≤ w.balance.amount) (hnn : 0 ≤ p.money.amount)
    (hne : p.id.value ≠ "") (hid : env3.parseUUID p.id.value = true)
    (hr : reason ≠ "") :
    ∃ ev3 w' p',
      (initiateRefund env2
        (HandlePaymentRequested env1 s
          (.paymentRequested b1 p.id.value p.userID.value amount1 currency serviceID
            idempotencyKey)).2 p.id.value reason metadata).2.published.getLast? = some ev3 ∧
      ev3.EventType = "PaymentRefundRequested" ∧
      (HandlePaymentRefundRequested env3
        (initiateRefund env2
          (HandlePaymentRequested env1 s
            (.paymentRequested b1 p.id.value p.userID.value amount1 currency serviceID
              idempotencyKey)).2 p.id.value reason metadata).2 ev3).2.wallets p.userID.value
          = some w' ∧
      w'.balance = w.balance ∧
      (HandlePaymentRefundRequested env3
        (initiateRefund env2
          (HandlePaymentRequested env1 s
            (.paymentRequested b1 p.id.value p.userID.value amount1 currency serviceID
              idempotencyKey)).2 p.id.value reason metadata).2 ev3).2.payments p.id.value
          = some p' ∧
      p'.status = PaymentStatusFailed ∧ p'.failureReason = reason := by
  have e1 := HandlePaymentRequested_debit env1 h1 s p w b1 amount1 currency serviceID
    idempotencyKey hp hs hw hu hc hle
  generalize hs1 : (HandlePaymentRequested env1 s
    (.paymentRequested b1 p.id.value p.userID.value amount1 currency serviceID
      idempotencyKey)).2 = s1
  rw [e1] at hs1
  have hp1 : s1.payments p.id.value = some p := by rw [← hs1]; exact hp
  have hw1 : s1.wallets p.userID.value =
      some { w with balance := ⟨w.balance.amount - p.money.amount, w.balance.currency⟩,
                    updatedAt := env1.clock 0 } := by
    rw [← hs1]; simp
  clear hs1 e1
  have e2 := initiateRefund_pending env2 h2 s1 p reason metadata hp1 hs hr
  generalize hs2 : (initiateRefund env2 s1 p.id.value reason metadata).2 = s2
  rw [e2] at hs2
  have hp2 : s2.payments p.id.value =
      some { p with status := PaymentStatusFailed, failureReason := reason,
                    updatedAt := env2.clock 0 } := by
    rw [← hs2]; simp
  have hw2 : s2.wallets p.userID.value =
      some { w with balance := ⟨w.balance.amount - p.money.amount, w.balance.currency⟩,
                    updatedAt := env1.clock 0 } := by
    rw [← hs2]; exact hw1
  have hlast : s2.published.getLast? =
      some (.paymentRefundRequested (NewBaseEvent "PaymentRefundRequested" metadata
        (env2.clock 1)) p.id.value p.userID.value (p.money.AmountFloat env2.float64)
        reason) := by
    rw [← hs2]; simp [NewPaymentRefundRequestedEvent]
  clear hs2 e2
  by_cases hpos : 0 < p.money.amount
  · have e3 := HandlePaymentRefundRequested_credit env3 h3 s2
      { p with status := PaymentStatusFailed, failureReason := reason,
               updatedAt := env2.clock 0 }
      { w with balance := ⟨w.balance.amount - p.money.amount, w.balance.currency⟩,
               updatedAt := env1.clock 0 }
      (NewBaseEvent "PaymentRefundRequested" metadata (env2.clock 1))
      (p.money.AmountFloat env2.float64) reason hne hid hp2 rfl hw2 hu hc.symm hpos
    simp only at e3
    refine ⟨_, { w with balance := ⟨w.balance.amount - p.money.amount + p.money.amount,
                                     w.balance.currency⟩,
                        updatedAt := env3.clock 0 },
      { p with status := PaymentStatusFailed, failureReason := reason,
               updatedAt := env2.clock 0 }, hlast, rfl, ?_, ?_, ?_, rfl, rfl⟩
    · rw [e3]; simp
    · show (⟨w.balance.amount - p.money.amount + p.money.amount, w.balance.currency⟩ : Money)
        = w.balance
      rw [sub_add_cancel]
    · rw [e3]; exact hp2
  · have hz : p.money.amount = 0 := le_antisymm (not_lt.1 hpos) hnn
    have e3 := HandlePaymentRefundRequested_not_positive env3 h3 s2
      { p with status := PaymentStatusFailed, failureReason := reason,
               updatedAt := env2.clock 0 }
      { w with balance := ⟨w.balance.amount - p.money.amount, w.balance.currency⟩,
               updatedAt := env1.clock 0 }
      (NewBaseEvent "PaymentRefundRequested" metadata (env2.clock 1))
      (p.money.AmountFloat env2.float64) reason hne hid hp2 hw2 hpos
    simp only at e3
    refine ⟨_, { w with balance := ⟨w.balance.amount - p.money.amount, w.balance.currency⟩,
                        updatedAt := env1.clock 0 },
      { p with status := PaymentStatusFailed, failureReason := reason,
               updatedAt := env2.clock 0 }, hlast, rfl, ?_, ?_, ?_, rfl, rfl⟩
    · rw [e3]; exact hw2
    · show (⟨w.balance.amount - p.money.amount, w.balance.currency⟩ : Money) = w.balance
      rw [hz, sub_zero]
    · rw [e3]; exact hp2

/-- C4: a stored PENDING payment of amount `a ≥ 0` whose ID parses as a UUID,
the stored wallet of its user in its currency with balance `b ≥ a`, working
collaborators.  After `HandlePaymentRequested`, then
`HandleExternalPaymentFailed` with a non-empty reason `r` (respectively
`HandleExternalPaymentTimeout`), then `HandlePaymentRefundRequested` on the
PaymentRefundRequested event published last, the stored wallet balance is `b`
again and the payment is stored FAILED with failure reason `r` (respectively
"TIMEOUT"). -/
theorem C4_failure_is_compensated (env1 env2 env3 : Env) (h1 : env1.NoFaults)
    (h2 : env2.NoFaults) (h3 : env3.NoFaults) (s : Stores) (p : Payment) (w : Wallet)
    (b1 : BaseEvent) (amount1 : ℚ) (currency serviceID idempotencyKey : String)
    (b2 : BaseEvent) (r errorCode : String) (timeoutDuration : Int)
    (hp : s.payments p.id.value = some p) (hs : p.status = PaymentStatusPending)
    (hw : s.wallets p.userID.value = some w) (hu : w.userID = p.userID)
    (hc : w.balance.currency = p.money.currency)
    (hle : p.money.amount ≤ w.balance.amount) (hnn : 0 ≤ p.money.amount)
    (hne : p.id.value ≠ "") (hid : env3.parseUUID p.id.value = true)
    (hr : r ≠ "") :
    (∃ ev3 w' p',
      (HandleExternalPaymentFailed env2
        (HandlePaymentRequested env1 s
          (.paymentRequested b1 p.id.value p.userID.value amount1 currency serviceID
            idempotencyKey)).2
        (.externalPaymentFailed b2 p.id.value r errorCode)).2.published.getLast? = some ev3 ∧
      ev3.EventType = "PaymentRefundRequested" ∧
      (HandlePaymentRefundRequested env3
        (HandleExternalPaymentFailed env2
          (HandlePaymentRequested env1 s
            (.paymentRequested b1 p.id.value p.userID.value amount1 currency serviceID
              idempotencyKey)).2
          (.externalPaymentFailed b2 p.id.value r errorCode)).2 ev3).2.wallets p.userID.value
          = some w' ∧
      w'.balance = w.balance ∧
      (HandlePaymentRefundRequested env3
        (HandleExternalPaymentFailed env2
          (HandlePaymentRequested env1 s
            (.paymentRequested b1 p.id.value p.userID.value amount1 currency serviceID
              idempotencyKey)).2
          (.externalPaymentFailed b2 p.id.value r errorCode)).2 ev3).2.payments p.id.value
          = some p' ∧
      p'.status = PaymentStatusFailed ∧ p'.failureReason = r) ∧
    (∃ ev3 w' p',
      (HandleExternalPaymentTimeout env2
        (HandlePaymentRequested env1 s
          (.paymentRequested b1 p.id.value p.userID.value amount1 currency serviceID
            idempotencyKey)).2
        (.externalPaymentTimeout b2 p.id.value timeoutDuration)).2.published.getLast?
          = some ev3 ∧
      ev3.EventType = "PaymentRefundRequested" ∧
      (HandlePaymentRefundRequested env3
        (HandleExternalPaymentTimeout env2
          (HandlePaymentRequested env1 s
            (.paymentRequested b1 p.id.value p.userID.value amount1 currency serviceID
              idempotencyKey)).2
          (.externalPaymentTimeout b2 p.id.value timeoutDuration)).2 ev3).2.wallets
            p.userID.value = some w' ∧
      w'.balance = w.balance ∧
      (HandlePaymentRefundRequested env3
        (HandleExternalPaymentTimeout env2
          (HandlePaymentRequested env1 s
            (.paymentRequested b1 p.id.value p.userID.value amount1 currency serviceID
              idempotencyKey)).2
          (.externalPaymentTimeout b2 p.id.value timeoutDuration)).2 ev3).2.payments
            p.id.value = some p' ∧
      p'.status = PaymentStatusFailed ∧ p'.failureReason = "TIMEOUT") :=
  ⟨compensation_core env1 env2 env3 h1 h2 h3 s p w b1 amount1 currency serviceID
      idempotencyKey r b2.metadata hp hs hw hu hc hle hnn hne hid hr,
   compensation_core env1 env2 env3 h1 h2 h3 s p w b1 amount1 currency serviceID
      idempotencyKey "TIMEOUT" b2.metadata hp hs hw hu hc hle hnn hne hid (by decide)⟩

/-- The sample invocation has working collaborators. -/
theorem sampleEnv_noFaults : sampleEnv.NoFaults := fun _ => rfl

/-- C4 at the sample payment of 100 ARS and a wallet of 500 ARS. -/
theorem C4_failure_is_compensated_witness :
    (sampleEnv.NoFaults ∧
      (storesWith samplePayment (sampleWallet 500)).payments samplePayment.id.value
        = some samplePayment ∧
      samplePayment.status = PaymentStatusPending ∧
      (storesWith samplePayment (sampleWallet 500)).wallets samplePayment.userID.value
        = some (sampleWallet 500) ∧
      (sampleWallet 500).userID = samplePayment.userID ∧
      (sampleWallet 500).balance.currency = samplePayment.money.currency ∧
      samplePayment.money.amount ≤ (sampleWallet 500).balance.amount ∧
      0 ≤ samplePayment.money.amount ∧
      samplePayment.id.value ≠ "" ∧
      sampleEnv.parseUUID samplePayment.id.value = true ∧
      "GATEWAY_REJECTED" ≠ "") ∧
    ((∃ ev3 w' p',
      (HandleExternalPaymentFailed sampleEnv
        (HandlePaymentRequested sampleEnv (storesWith samplePayment (sampleWallet 500))
          sampleRequested).2 sampleGatewayFailed).2.published.getLast? = some ev3 ∧
      ev3.EventType = "PaymentRefundRequested" ∧
      (HandlePaymentRefundRequested sampleEnv
        (HandleExternalPaymentFailed sampleEnv
          (HandlePaymentRequested sampleEnv (storesWith samplePayment (sampleWallet 500))
            sampleRequested).2 sampleGatewayFailed).2 ev3).2.wallets "user-123" = some w' ∧
      w'.balance = (sampleWallet 500).balance ∧
      (HandlePaymentRefundRequested sampleEnv
        (HandleExternalPaymentFailed sampleEnv
          (HandlePaymentRequested sampleEnv (storesWith samplePayment (sampleWallet 500))
            sampleRequested).2 sampleGatewayFailed).2 ev3).2.payments
          "123e4567-e89b-12d3-a456-426614174000" = some p' ∧
      p'.status = PaymentStatusFailed ∧ p'.failureReason = "GATEWAY_REJECTED") ∧
    (∃ ev3 w' p',
      (HandleExternalPaymentTimeout sampleEnv
        (HandlePaymentRequested sampleEnv (storesWith samplePayment (sampleWallet 500))
          sampleRequested).2 sampleGatewayTimeout).2.published.getLast? = some ev3 ∧
      ev3.EventType = "PaymentRefundRequested" ∧
      (HandlePaymentRefundRequested sampleEnv
        (HandleExternalPaymentTimeout sampleEnv
          (HandlePaymentRequested sampleEnv (storesWith samplePayment (sampleWallet 500))
            sampleRequested).2 sampleGatewayTimeout).2 ev3).2.wallets "user-123" = some w' ∧
      w'.balance = (sampleWallet 500).balance ∧
      (HandlePaymentRefundRequested sampleEnv
        (HandleExternalPaymentTimeout sampleEnv
          (HandlePaymentRequested sampleEnv (storesWith samplePayment (sampleWallet 500))
            sampleRequested).2 sampleGatewayTimeout).2 ev3).2.payments
          "123e4567-e89b-12d3-a456-426614174000" = some p' ∧
      p'.status = PaymentStatusFailed ∧ p'.failureReason = "TIMEOUT")) :=
  ⟨⟨sampleEnv_noFaults, rfl, rfl, rfl, rfl, rfl, by decide, by decide, by decide, by decide,
      by decide⟩,
    C4_failure_is_compensated sampleEnv sampleEnv sampleEnv sampleEnv_noFaults
      sampleEnv_noFaults sampleEnv_noFaults (storesWith samplePayment (sampleWallet 500))
      samplePayment (sampleWallet 500) ⟨"PaymentRequested", 0, sampleMetadata⟩ 100 "ARS"
      "service-123" "key-123" ⟨"ExternalPaymentFailed", 5, sampleMetadata⟩ "GATEWAY_REJECTED"
      "E42" 30 rfl rfl rfl rfl rfl (by decide) (by decide) (by decide) (by decide)
      (by decide)⟩

/-! ### C2 -/

/-- A PaymentRequested event that is handled twice debits twice: the debit path
leaves the payment PENDING, so the second delivery takes the debit path again
whenever the balance still covers the amount. -/
theorem HandlePaymentRequested_redelivered (env1 env2 : Env) (h1 : env1.NoFaults)
    (h2 : env2.NoFaults) (s : Stores) (p : Payment) (w : Wallet) (b : BaseEvent) (amount : ℚ)
    (currency serviceID idempotencyKey : String)
    (hp : s.payments p.id.value = some p) (hs : p.status = PaymentStatusPending)
    (hw : s.wallets p.userID.value = some w) (hu : w.userID = p.userID)
    (hc : w.balance.currency = p.money.currency) (hnn : 0 ≤ p.money.amount)
    (hle : p.money.amount ≤ w.balance.amount - p.money.amount) :
    (HandlePaymentRequested env1 s
        (.paymentRequested b p.id.value p.userID.value amount currency serviceID
          idempotencyKey)).2.wallets p.userID.value =
      some { w with balance := ⟨w.balance.amount - p.money.amount, w.balance.currency⟩,
                    updatedAt := env1.clock 0 } ∧
    (HandlePaymentRequested env2
        (HandlePaymentRequested env1 s
          (.paymentRequested b p.id.value p.userID.value amount currency serviceID
            idempotencyKey)).2
        (.paymentRequested b p.id.value p.userID.value amount currency serviceID
          idempotencyKey)).1 = none ∧
    (HandlePaymentRequested env2
        (HandlePaymentRequested env1 s
          (.paymentRequested b p.id.value p.userID.value amount currency serviceID
            idempotencyKey)).2
        (.paymentRequested b p.id.value p.userID.value amount currency serviceID
          idempotencyKey)).2.wallets p.userID.value =
      some { w with
        balance := ⟨w.balance.amount - p.money.amount - p.money.amount, w.balance.currency⟩,
        updatedAt := env2.clock 0 } := by
  have hle1 : p.money.amount ≤ w.balance.amount := by linarith
  have e1 := HandlePaymentRequested_debit env1 h1 s p w b amount currency serviceID
    idempotencyKey hp hs hw hu hc hle1
  generalize hs1 : (HandlePaymentRequested env1 s
    (.paymentRequested b p.id.value p.userID.value amount currency serviceID
      idempotencyKey)).2 = s1
  rw [e1] at hs1
  have hp1 : s1.payments p.id.value = some p := by rw [← hs1]; exact hp
  have hw1 : s1.wallets p.userID.value =
      some { w with balance := ⟨w.balance.amount - p.money.amount, w.balance.currency⟩,
                    updatedAt := env1.clock 0 } := by
    rw [← hs1]; simp
  clear hs1 e1
  have e2 := HandlePaymentRequested_debit env2 h2 s1 p
    { w with balance := ⟨w.balance.amount - p.money.amount, w.balance.currency⟩,
             updatedAt := env1.clock 0 }
    b amount currency serviceID idempotencyKey hp1 hs hw1 hu hc hle
  simp only at e2
  rw [e2]
  exact ⟨hw1, rfl, by simp⟩

/-- C2, the code at the failing input: the PENDING payment of 100 ARS and the
wallet of 500 ARS; the first delivery of PaymentRequested leaves 400 ARS, the
second delivery of the same event returns no error and leaves 300 ARS. -/
theorem C2_redelivery_debits_twice :
    ((HandlePaymentRequested sampleEnv (storesWith samplePayment (sampleWallet 500))
        sampleRequested).2.wallets "user-123").map Wallet.balance
      = some ⟨400, ⟨"ARS"⟩⟩ ∧
    (HandlePaymentRequested sampleEnv
        (HandlePaymentRequested sampleEnv (storesWith samplePayment (sampleWallet 500))
          sampleRequested).2 sampleRequested).1 = none ∧
    ((HandlePaymentRequested sampleEnv
        (HandlePaymentRequested sampleEnv (storesWith samplePayment (sampleWallet 500))
          sampleRequested).2 sampleRequested).2.wallets "user-123").map Wallet.balance
      = some ⟨300, ⟨"ARS"⟩⟩ := by
  obtain ⟨a1, a2, a3⟩ := HandlePaymentRequested_redelivered sampleEnv sampleEnv
    sampleEnv_noFaults sampleEnv_noFaults (storesWith samplePayment (sampleWallet 500))
    samplePayment (sampleWallet 500) ⟨"PaymentRequested", 0, sampleMetadata⟩ 100 "ARS"
    "service-123" "key-123" rfl rfl rfl rfl rfl (by decide)
    (by show (100 : ℚ) ≤ 500 - 100; norm_num)
  refine ⟨?_, a2, ?_⟩
  · have := congrArg (Option.map Wallet.balance) a1
    refine this.trans ?_
    show some (⟨(500 : ℚ) - 100, ⟨"ARS"⟩⟩ : Money) = some ⟨400, ⟨"ARS"⟩⟩
    norm_num
  · have := congrArg (Option.map Wallet.balance) a3
    refine this.trans ?_
    show some (⟨(500 : ℚ) - 100 - 100, ⟨"ARS"⟩⟩ : Money) = some ⟨300, ⟨"ARS"⟩⟩
    norm_num

/-! ### C3 -/

/-- A PaymentRefundRequested event that is handled twice credits twice: the
credit leaves the payment FAILED, so `CanBeRefunded` still holds at the second
delivery. -/
theorem HandlePaymentRefundRequested_redelivered (env1 env2 : Env) (h1 : env1.NoFaults)
    (h2 : env2.NoFaults) (s : Stores) (p : Payment) (w : Wallet) (b : BaseEvent) (amount : ℚ)
    (reason : String)
    (hne : p.id.value ≠ "") (hid1 : env1.parseUUID p.id.value = true)
    (hid2 : env2.parseUUID p.id.value = true)
    (hp : s.payments p.id.value = some p) (hs : p.status = PaymentStatusFailed)
    (hw : s.wallets p.userID.value = some w) (hu : w.userID = p.userID)
    (hc : p.money.currency = w.balance.currency) (hpos : 0 < p.money.amount) :
    (HandlePaymentRefundRequested env1 s
        (.paymentRefundRequested b p.id.value p.userID.value amount reason)).2.wallets
        p.userID.value =
      some { w with balance := ⟨w.balance.amount + p.money.amount, w.balance.currency⟩,
                    updatedAt := env1.clock 0 } ∧
    (HandlePaymentRefundRequested env2
        (HandlePaymentRefundRequested env1 s
          (.paymentRefundRequested b p.id.value p.userID.value amount reason)).2
        (.paymentRefundRequested b p.id.value p.userID.value amount reason)).1 = none ∧
    (HandlePaymentRefundRequested env2
        (HandlePaymentRefundRequested env1 s
          (.paymentRefundRequested b p.id.value p.userID.value amount reason)).2
        (.paymentRefundRequested b p.id.value p.userID.value amount reason)).2.wallets
        p.userID.value =
      some { w with
        balance := ⟨w.balance.amount + p.money.amount + p.money.amount, w.balance.currency⟩,
        updatedAt := env2.clock 0 } := by
  have e1 := HandlePaymentRefundRequested_credit env1 h1 s p w b amount reason hne hid1 hp hs
    hw hu hc hpos
  generalize hs1 : (HandlePaymentRefundRequested env1 s
    (.paymentRefundRequested b p.id.value p.userID.value amount reason)).2 = s1
  rw [e1] at hs1
  have hp1 : s1.payments p.id.value = some p := by rw [← hs1]; exact hp
  have hw1 : s1.wallets p.userID.value =
      some { w with balance := ⟨w.balance.amount + p.money.amount, w.balance.currency⟩,
                    updatedAt := env1.clock 0 } := by
    rw [← hs1]; simp
  clear hs1 e1
  have e2 := HandlePaymentRefundRequested_credit env2 h2 s1 p
    { w with balance := ⟨w.balance.amount + p.money.amount, w.balance.currency⟩,
             updatedAt := env1.clock 0 }
    b amount reason hne hid2 hp1 hs hw1 hu hc hpos
  simp only at e2
  rw [e2]
  exact ⟨hw1, rfl, by simp⟩

/-- C3, the code at the failing input: the FAILED payment of 100 ARS and the
wallet of 400 ARS; the first delivery of PaymentRefundRequested leaves 500 ARS,
the second delivery of the same event returns no error and leaves 600 ARS. -/
theorem C3_redelivery_credits_twice :
    ((HandlePaymentRefundRequested sampleEnv
        (storesWith sampleFailedPayment (sampleWallet 400))
        sampleRefundRequested).2.wallets "user-123").map Wallet.balance
      = some ⟨500, ⟨"ARS"⟩⟩ ∧
    (HandlePaymentRefundRequested sampleEnv
        (HandlePaymentRefundRequested sampleEnv
          (storesWith sampleFailedPayment (sampleWallet 400)) sampleRefundRequested).2
        sampleRefundRequested).1 = none ∧
    ((HandlePaymentRefundRequested sampleEnv
        (HandlePaymentRefundRequested sampleEnv
          (storesWith sampleFailedPayment (sampleWallet 400)) sampleRefundRequested).2
        sampleRefundRequested).2.wallets "user-123").map Wallet.balance
      = some ⟨600, ⟨"ARS"⟩⟩ := by
  obtain ⟨a1, a2, a3⟩ := HandlePaymentRefundRequested_redelivered sampleEnv sampleEnv
    sampleEnv_noFaults sampleEnv_noFaults (storesWith sampleFailedPayment (sampleWallet 400))
    sampleFailedPayment (sampleWallet 400) ⟨"PaymentRefundRequested", 6, sampleMetadata⟩ 100
    "EXTERNAL_FAILURE" (by decide) (by decide) (by decide) rfl rfl rfl rfl rfl (by decide)
  refine ⟨?_, a2, ?_⟩
  · have := congrArg (Option.map Wallet.balance) a1
    refine this.trans ?_
    show some (⟨(400 : ℚ) + 100, ⟨"ARS"⟩⟩ : Money) = some ⟨500, ⟨"ARS"⟩⟩
    norm_num
  · have := congrArg (Option.map Wallet.balance) a3
    refine this.trans ?_
    show some (⟨(400 : ℚ) + 100 + 100, ⟨"ARS"⟩⟩ : Money) = some ⟨600, ⟨"ARS"⟩⟩
    norm_num

/-! ### C1 -/

/-- A request that passes validation and whose key is on record with a
non-empty payment ID is answered from the record, and no store changes. -/
theorem Execute_replay (env : Env) (s : Stores) (req : CreatePaymentRequest) (P : String)
    (hv : validateRequest req = none) (hget : env.fails .keyGet = false)
    (hk : s.keys req.IdempotencyKey = some P) (hP : P ≠ "") :
    Execute env s req = (.ok ⟨P, "ALREADY_PROCESSED"⟩, s) := by
  simp [Execute, hv, IdempotencyStore.GetPaymentIDByKey, hget, hk, hP]

/-- What a successful `createPayment` has done. -/
theorem createPayment_ok (env : Env) (s s1 : Stores) (req : CreatePaymentRequest)
    (resp : CreatePaymentResponse) (h : createPayment env s req = (.ok resp, s1)) :
    resp = ⟨env.uuid 0, "PENDING"⟩ ∧ env.uuid 0 ≠ "" ∧
    s1.keys req.IdempotencyKey = some (env.uuid 0) ∧
    s1.published = s.published ++
      [NewPaymentRequestedEvent (env.uuid 0) req.UserID req.Amount req.Currency req.ServiceID
        req.IdempotencyKey ⟨req.ClientID, env.uuid 1, "payment-api", []⟩ (env.clock 1)] := by
  unfold createPayment at h
  split at h
  · simp at h
  split at h
  · simp at h
  split at h
  · simp at h
  split at h
  · simp at h
  split at h
  · simp at h
  split at h
  · simp at h
  simp only at h
  split at h
  · simp at h
  rename_i pmt hNP
  have hid : env.uuid 0 ≠ "" := by
    intro he
    simp [NewPayment, PaymentID.IsEmpty, he] at hNP
  cases hf1 : env.fails StoreCall.paymentSave <;>
    cases hf2 : env.fails StoreCall.keySave <;>
    cases hf3 : env.fails (StoreCall.eventAppend 0) <;>
    cases hf4 : env.fails (StoreCall.eventPublish 0) <;>
    simp [PaymentRepository.Save, IdempotencyStore.SaveKey, EventStore.Append,
      EventPublisher.Publish, hf1, hf2, hf3, hf4] at h
  obtain ⟨h1, h2⟩ := h
  subst h1 h2
  exact ⟨by simp [PaymentStatus.String], hid, by simp, rfl⟩

/-- What a successful `Execute` has done: the key is on record with the payment
ID returned, which is not empty; an answer PENDING comes with exactly one
more published event, the PaymentRequested event of the request. -/
theorem Execute_ok (env : Env) (s s1 : Stores) (req : CreatePaymentRequest)
    (P status : String) (h : Execute env s req = (.ok ⟨P, status⟩, s1)) :
    s1.keys req.IdempotencyKey = some P ∧ P ≠ "" ∧
    (status = "PENDING" →
      s1.published = s.published ++
        [NewPaymentRequestedEvent P req.UserID req.Amount req.Currency req.ServiceID
          req.IdempotencyKey ⟨req.ClientID, env.uuid 1, "payment-api", []⟩
          (env.clock 1)]) := by
  unfold Execute at h
  split at h
  · simp at h
  split at h
  · rename_i existing hget
    split at h
    · rename_i hne
      simp only [Prod.mk.injEq, Except.ok.injEq, CreatePaymentResponse.mk.injEq] at h
      obtain ⟨⟨h1, h2⟩, h3⟩ := h
      subst h1 h2 h3
      refine ⟨?_, by simpa using hne, fun hc => absurd hc (by decide)⟩
      unfold IdempotencyStore.GetPaymentIDByKey at hget
      split at hget
      · simp at hget
      · split at hget
        · simp at hget
        · rename_i hk
          simp only [Except.ok.injEq] at hget
          rw [hk, hget]
    · obtain ⟨e1, e2, e3, e4⟩ := createPayment_ok env s s1 req _ h
      simp only [CreatePaymentResponse.mk.injEq] at e1
      obtain ⟨rfl, rfl⟩ := e1
      exact ⟨e3, e2, fun _ => e4⟩
  · obtain ⟨e1, e2, e3, e4⟩ := createPayment_ok env s s1 req _ h
    simp only [CreatePaymentResponse.mk.injEq] at e1
    obtain ⟨rfl, rfl⟩ := e1
    exact ⟨e3, e2, fun _ => e4⟩

/-- C1, as amended: after an `Execute` that succeeded with payment ID `P`, a
following `Execute` of any request with the same idempotency key that passes
validation (the first request is one), its idempotency lookup not failing,
returns `P` with status "ALREADY_PROCESSED" and leaves all the stores and the
published events as the first call left them; so the published PaymentRequested
events for that key are those of the first call, and exactly one when the first
call answered PENDING and none had been published before it. -/
theorem C1_replay_is_idempotent (env1 env2 : Env) (s s1 : Stores)
    (r r2 : CreatePaymentRequest) (P status : String)
    (h1 : Execute env1 s r = (.ok ⟨P, status⟩, s1))
    (hkey : r2.IdempotencyKey = r.IdempotencyKey)
    (hv : validateRequest r2 = none)
    (hget : env2.fails .keyGet = false) :
    Execute env2 s1 r2 = (.ok ⟨P, "ALREADY_PROCESSED"⟩, s1) ∧
    paymentRequestedFor r.IdempotencyKey (Execute env2 s1 r2).2.published =
      paymentRequestedFor r.IdempotencyKey s1.published ∧
    (status = "PENDING" → paymentRequestedFor r.IdempotencyKey s.published = [] →
      (paymentRequestedFor r.IdempotencyKey (Execute env2 s1 r2).2.published).length = 1) := by
  obtain ⟨hk, hP, hpub⟩ := Execute_ok env1 s s1 r P status h1
  have h2 := Execute_replay env2 s1 r2 P hv hget (by rw [hkey]; exact hk) hP
  refine ⟨h2, by rw [h2], ?_⟩
  intro hst hnone
  rw [h2, hpub hst]
  unfold paymentRequestedFor at hnone ⊢
  rw [List.filter_append, hnone]
  simp [NewPaymentRequestedEvent]

/-- The first intake call of the unit test succeeds with a fresh payment. -/
theorem sampleRequest_accepted :
    (Execute sampleEnv (storesWithWallet (sampleWallet 500)) sampleRequest).1 =
      .ok ⟨"123e4567-e89b-12d3-a456-426614174000", "PENDING"⟩ := by
  rfl

/-- C1 (amended) at the unit test: the same request, sent twice. -/
theorem C1_replay_is_idempotent_witness :
    (Execute sampleEnv (storesWithWallet (sampleWallet 500)) sampleRequest =
        (.ok ⟨"123e4567-e89b-12d3-a456-426614174000", "PENDING"⟩,
          (Execute sampleEnv (storesWithWallet (sampleWallet 500)) sampleRequest).2) ∧
      sampleRequest.IdempotencyKey = sampleRequest.IdempotencyKey ∧
      validateRequest sampleRequest = none ∧
      sampleEnv.fails .keyGet = false) ∧
    (Execute sampleEnv
        (Execute sampleEnv (storesWithWallet (sampleWallet 500)) sampleRequest).2
        sampleRequest =
      (.ok ⟨"123e4567-e89b-12d3-a456-426614174000", "ALREADY_PROCESSED"⟩,
        (Execute sampleEnv (storesWithWallet (sampleWallet 500)) sampleRequest).2) ∧
    paymentRequestedFor sampleRequest.IdempotencyKey
        (Execute sampleEnv
          (Execute sampleEnv (storesWithWallet (sampleWallet 500)) sampleRequest).2
          sampleRequest).2.published =
      paymentRequestedFor sampleRequest.IdempotencyKey
        (Execute sampleEnv (storesWithWallet (sampleWallet 500)) sampleRequest).2.published ∧
    ("PENDING" = "PENDING" →
      paymentRequestedFor sampleRequest.IdempotencyKey
        (storesWithWallet (sampleWallet 500)).published = [] →
      (paymentRequestedFor sampleRequest.IdempotencyKey
        (Execute sampleEnv
          (Execute sampleEnv (storesWithWallet (sampleWallet 500)) sampleRequest).2
          sampleRequest).2.published).length = 1)) :=
  ⟨⟨Prod.ext sampleRequest_accepted rfl, rfl, by rfl, rfl⟩,
    C1_replay_is_idempotent sampleEnv sampleEnv (storesWithWallet (sampleWallet 500))
      (Execute sampleEnv (storesWithWallet (sampleWallet 500)) sampleRequest).2
      sampleRequest sampleRequest "123e4567-e89b-12d3-a456-426614174000" "PENDING"
      (Prod.ext sampleRequest_accepted rfl) rfl (by rfl) rfl⟩

/-- C1 as stated fails: after the accepted request, a request with the same
idempotency key and an empty userID is rejected by validation, before the key
is looked up; it is not answered with the payment ID of the first call. -/
theorem C1_replay_with_same_key_rejected :
    (Execute sampleEnv (storesWithWallet (sampleWallet 500)) sampleRequest).1 =
      .ok ⟨"123e4567-e89b-12d3-a456-426614174000", "PENDING"⟩ ∧
    ({ sampleRequest with UserID := "" } : CreatePaymentRequest).IdempotencyKey =
      sampleRequest.IdempotencyKey ∧
    (Execute sampleEnv
        (Execute sampleEnv (storesWithWallet (sampleWallet 500)) sampleRequest).2
        { sampleRequest with UserID := "" }).1 = .error (.msg "userID is required") :=
  ⟨by rfl, rfl, by rfl⟩

/-! ### the payment aggregate -/

/-- `MarkCompleted` on a PENDING payment with a non-empty transaction ID. -/
theorem MarkCompleted_pending (p : Payment) (x : String) (now : Nat)
    (hs : p.status = PaymentStatusPending) (hx : x ≠ "") :
    p.MarkCompleted x now =
      (none, { p with status := PaymentStatusCompleted, externalTxID := x,
                      updatedAt := now }) := by
  simp [Payment.MarkCompleted, PaymentStatus.ValidateTransition,
    PaymentStatus.CanTransitionTo, hs, hx]

/-- `MarkCompleted` fails and leaves the payment as it was in every other case. -/
theorem MarkCompleted_rejected (p : Payment) (x : String) (now : Nat)
    (h : ¬ (p.status = PaymentStatusPending ∧ x ≠ "")) :
    ∃ e, p.MarkCompleted x now = (some e, p) := by
  by_cases hs : p.status = PaymentStatusPending
  · have hx : x = "" := by
      by_contra hx
      exact h ⟨hs, hx⟩
    exact ⟨.msg "external transaction ID is required when completing payment",
      by simp [Payment.MarkCompleted, PaymentStatus.ValidateTransition,
        PaymentStatus.CanTransitionTo, hs, hx]⟩
  · exact ⟨.msg ("invalid status transition from " ++ p.status.String ++ " to "
        ++ PaymentStatusCompleted.String),
      by simp [Payment.MarkCompleted, PaymentStatus.ValidateTransition,
        PaymentStatus.CanTransitionTo, hs]⟩

/-- `MarkFailed` on a PENDING payment with a non-empty reason. -/
theorem MarkFailed_pending (p : Payment) (r : String) (now : Nat)
    (hs : p.status = PaymentStatusPending) (hr : r ≠ "") :
    p.MarkFailed r now =
      (none, { p with status := PaymentStatusFailed, failureReason := r,
                      updatedAt := now }) := by
  simp [Payment.MarkFailed, PaymentStatus.ValidateTransition,
    PaymentStatus.CanTransitionTo, hs, hr]

/-- `MarkFailed` fails and leaves the payment as it was in every other case. -/
theorem MarkFailed_rejected (p : Payment) (r : String) (now : Nat)
    (h : ¬ (p.status = PaymentStatusPending ∧ r ≠ "")) :
    ∃ e, p.MarkFailed r now = (some e, p) := by
  by_cases hs : p.status = PaymentStatusPending
  · have hr : r = "" := by
      by_contra hr
      exact h ⟨hs, hr⟩
    exact ⟨.msg "failure reason is required when marking payment as failed",
      by simp [Payment.MarkFailed, PaymentStatus.ValidateTransition,
        PaymentStatus.CanTransitionTo, hs, hr]⟩
  · exact ⟨.msg ("invalid status transition from " ++ p.status.String ++ " to "
        ++ PaymentStatusFailed.String),
      by simp [Payment.MarkFailed, PaymentStatus.ValidateTransition,
        PaymentStatus.CanTransitionTo, hs]⟩

/-! ### C11 -/

/-- C11: `MarkCompleted(x)` succeeds exactly when the payment is PENDING and `x`
is not empty; on success the status is COMPLETED and the external transaction
ID is `x` (and `updatedAt` is the instant of the call), while id, userID,
serviceID, money, idempotencyKey, failureReason and createdAt are unchanged. -/
theorem C11_mark_completed (p : Payment) (x : String) (now : Nat) :
    ((p.MarkCompleted x now).1 = none ↔ (p.status = PaymentStatusPending ∧ x ≠ "")) ∧
    ((p.MarkCompleted x now).1 = none →
      (p.MarkCompleted x now).2.status = PaymentStatusCompleted ∧
      (p.MarkCompleted x now).2.externalTxID = x ∧
      (p.MarkCompleted x now).2.updatedAt = now ∧
      (p.MarkCompleted x now).2.id = p.id ∧
      (p.MarkCompleted x now).2.userID = p.userID ∧
      (p.MarkCompleted x now).2.serviceID = p.serviceID ∧
      (p.MarkCompleted x now).2.money = p.money ∧
      (p.MarkCompleted x now).2.idempotencyKey = p.idempotencyKey ∧
      (p.MarkCompleted x now).2.failureReason = p.failureReason ∧
      (p.MarkCompleted x now).2.createdAt = p.createdAt) := by
  by_cases h : p.status = PaymentStatusPending ∧ x ≠ ""
  · rw [MarkCompleted_pending p x now h.1 h.2]
    exact ⟨⟨fun _ => h, fun _ => rfl⟩, fun _ => ⟨rfl, rfl, rfl, rfl, rfl, rfl, rfl, rfl, rfl, rfl⟩⟩
  · obtain ⟨e, he⟩ := MarkCompleted_rejected p x now h
    rw [he]
    exact ⟨⟨fun hn => (by cases hn), fun hh => absurd hh h⟩, fun hn => (by cases hn)⟩

/-! ### C12 -/

/-- C12: `MarkFailed(r)` succeeds exactly when the payment is PENDING and `r` is
not empty; on success the status is FAILED and the failure reason is `r` (and
`updatedAt` is the instant of the call), while id, userID, serviceID, money,
idempotencyKey, externalTxID and createdAt are unchanged. -/
theorem C12_mark_failed (p : Payment) (r : String) (now : Nat) :
    ((p.MarkFailed r now).1 = none ↔ (p.status = PaymentStatusPending ∧ r ≠ "")) ∧
    ((p.MarkFailed r now).1 = none →
      (p.MarkFailed r now).2.status = PaymentStatusFailed ∧
      (p.MarkFailed r now).2.failureReason = r ∧
      (p.MarkFailed r now).2.updatedAt = now ∧
      (p.MarkFailed r now).2.id = p.id ∧
      (p.MarkFailed r now).2.userID = p.userID ∧
      (p.MarkFailed r now).2.serviceID = p.serviceID ∧
      (p.MarkFailed r now).2.money = p.money ∧
      (p.MarkFailed r now).2.idempotencyKey = p.idempotencyKey ∧
      (p.MarkFailed r now).2.externalTxID = p.externalTxID ∧
      (p.MarkFailed r now).2.createdAt = p.createdAt) := by
  by_cases h : p.status = PaymentStatusPending ∧ r ≠ ""
  · rw [MarkFailed_pending p r now h.1 h.2]
    exact ⟨⟨fun _ => h, fun _ => rfl⟩, fun _ => ⟨rfl, rfl, rfl, rfl, rfl, rfl, rfl, rfl, rfl, rfl⟩⟩
  · obtain ⟨e, he⟩ := MarkFailed_rejected p r now h
    rw [he]
    exact ⟨⟨fun hn => (by cases hn), fun hh => absurd hh h⟩, fun hn => (by cases hn)⟩

/-! ### C13 -/

/-- One call keeps: a COMPLETED payment has an external transaction ID and a
FAILED payment has a failure reason. -/
theorem Payment_call_invariant (p : Payment) (c : PaymentCall)
    (h : (p.status = PaymentStatusCompleted → p.externalTxID ≠ "") ∧
         (p.status = PaymentStatusFailed → p.failureReason ≠ "")) :
    ((p.call c).status = PaymentStatusCompleted → (p.call c).externalTxID ≠ "") ∧
    ((p.call c).status = PaymentStatusFailed → (p.call c).failureReason ≠ "") := by
  cases c with
  | markCompleted x now =>
    show ((p.MarkCompleted x now).2.status = PaymentStatusCompleted →
        (p.MarkCompleted x now).2.externalTxID ≠ "") ∧
      ((p.MarkCompleted x now).2.status = PaymentStatusFailed →
        (p.MarkCompleted x now).2.failureReason ≠ "")
    by_cases hc : p.status = PaymentStatusPending ∧ x ≠ ""
    · rw [MarkCompleted_pending p x now hc.1 hc.2]
      exact ⟨fun _ => hc.2,
        fun hf => absurd (show PaymentStatusCompleted = PaymentStatusFailed from hf)
          (by decide)⟩
    · obtain ⟨e, he⟩ := MarkCompleted_rejected p x now hc
      rw [he]
      exact h
  | markFailed r now =>
    show ((p.MarkFailed r now).2.status = PaymentStatusCompleted →
        (p.MarkFailed r now).2.externalTxID ≠ "") ∧
      ((p.MarkFailed r now).2.status = PaymentStatusFailed →
        (p.MarkFailed r now).2.failureReason ≠ "")
    by_cases hc : p.status = PaymentStatusPending ∧ r ≠ ""
    · rw [MarkFailed_pending p r now hc.1 hc.2]
      exact ⟨fun hf => absurd (show PaymentStatusFailed = PaymentStatusCompleted from hf)
          (by decide),
        fun _ => hc.2⟩
    · obtain ⟨e, he⟩ := MarkFailed_rejected p r now hc
      rw [he]
      exact h

/-- A sequence of calls keeps the same two facts. -/
theorem Payment_calls_invariant (cs : List PaymentCall) (p : Payment)
    (h : (p.status = PaymentStatusCompleted → p.externalTxID ≠ "") ∧
         (p.status = PaymentStatusFailed → p.failureReason ≠ "")) :
    ((p.calls cs).status = PaymentStatusCompleted → (p.calls cs).externalTxID ≠ "") ∧
    ((p.calls cs).status = PaymentStatusFailed → (p.calls cs).failureReason ≠ "") := by
  induction cs generalizing p with
  | nil => exact h
  | cons c cs ih => exact ih (p.call c) (Payment_call_invariant p c h)

/-- What `NewPayment` returns when it succeeds. -/
theorem NewPayment_ok (id : PaymentID) (userID : UserID) (serviceID : ServiceID)
    (money : Money) (idempotencyKey : IdempotencyKey) (now : Nat) (p : Payment)
    (h : NewPayment id userID serviceID money idempotencyKey now = .ok p) :
    p = { id := id, userID := userID, serviceID := serviceID,
          idempotencyKey := idempotencyKey, money := money, status := PaymentStatusPending,
          failureReason := "", externalTxID := "", createdAt := now, updatedAt := now } ∧
    id.value ≠ "" ∧ userID.value ≠ "" ∧ serviceID.value ≠ "" ∧ money.amount ≠ 0 ∧
    idempotencyKey.value ≠ "" := by
  unfold NewPayment at h
  split at h
  · cases h
  split at h
  · cases h
  split at h
  · cases h
  split at h
  · cases h
  split at h
  · cases h
  rename_i h1 h2 h3 h4 h5
  simp only [Except.ok.injEq] at h
  refine ⟨h.symm, ?_, ?_, ?_, ?_, ?_⟩
  · simpa [PaymentID.IsEmpty] using h1
  · simpa [UserID.IsEmpty] using h2
  · simpa [ServiceID.IsEmpty] using h3
  · simpa [Money.IsZero] using h4
  · simpa [IdempotencyKey.IsEmpty] using h5

/-- C13: after `NewPayment` and any sequence of `MarkCompleted` and `MarkFailed`
calls, a COMPLETED payment has a non-empty external transaction ID and a FAILED
payment has a non-empty failure reason. -/
theorem C13_terminal_fields (id : PaymentID) (userID : UserID) (serviceID : ServiceID)
    (money : Money) (idempotencyKey : IdempotencyKey) (now : Nat) (p : Payment)
    (cs : List PaymentCall)
    (h : NewPayment id userID serviceID money idempotencyKey now = .ok p) :
    ((p.calls cs).status = PaymentStatusCompleted → (p.calls cs).externalTxID ≠ "") ∧
    ((p.calls cs).status = PaymentStatusFailed → (p.calls cs).failureReason ≠ "") := by
  have hp := (NewPayment_ok id userID serviceID money idempotencyKey now p h).1
  have hs : p.status = PaymentStatusPending := by rw [hp]
  exact Payment_calls_invariant cs p
    ⟨fun hc => absurd (hs.symm.trans hc) (by decide),
     fun hf => absurd (hs.symm.trans hf) (by decide)⟩

/-- C13 at the payment of the unit tests: it is completed, then a failure and a
second completion are attempted. -/
theorem C13_terminal_fields_witness :
    NewPayment ⟨"123e4567-e89b-12d3-a456-426614174000"⟩ ⟨"user-123"⟩ ⟨"service-123"⟩
        ⟨100, ⟨"ARS"⟩⟩ ⟨"key-123"⟩ 0 = .ok samplePayment ∧
    ((samplePayment.calls [.markCompleted "external-tx-456" 1, .markFailed "LATE" 2,
        .markCompleted "" 3]).status = PaymentStatusCompleted →
      (samplePayment.calls [.markCompleted "external-tx-456" 1, .markFailed "LATE" 2,
        .markCompleted "" 3]).externalTxID ≠ "") ∧
    ((samplePayment.calls [.markCompleted "external-tx-456" 1, .markFailed "LATE" 2,
        .markCompleted "" 3]).status = PaymentStatusFailed →
      (samplePayment.calls [.markCompleted "external-tx-456" 1, .markFailed "LATE" 2,
        .markCompleted "" 3]).failureReason ≠ "") :=
  ⟨by rfl,
    C13_terminal_fields ⟨"123e4567-e89b-12d3-a456-426614174000"⟩ ⟨"user-123"⟩
      ⟨"service-123"⟩ ⟨100, ⟨"ARS"⟩⟩ ⟨"key-123"⟩ 0 samplePayment _ (by rfl)⟩

/-! ### C14 -/

/-- A payment that is not PENDING is left as it was by every call. -/
theorem Payment_call_not_pending (p : Payment) (c : PaymentCall)
    (h : p.status ≠ PaymentStatusPending) : p.call c = p := by
  cases c with
  | markCompleted x now =>
    obtain ⟨e, he⟩ := MarkCompleted_rejected p x now (fun hh => h hh.1)
    show (p.MarkCompleted x now).2 = p
    rw [he]
  | markFailed r now =>
    obtain ⟨e, he⟩ := MarkFailed_rejected p r now (fun hh => h hh.1)
    show (p.MarkFailed r now).2 = p
    rw [he]

/-- A payment that is not PENDING is left as it was by every sequence of calls,
and no call of the sequence changes the status. -/
theorem Payment_calls_not_pending (cs : List PaymentCall) (p : Payment)
    (h : p.status ≠ PaymentStatusPending) : p.calls cs = p ∧ p.statusChanges cs = 0 := by
  induction cs with
  | nil => exact ⟨rfl, rfl⟩
  | cons c cs ih =>
    have hc := Payment_call_not_pending p c h
    constructor
    · show (p.call c).calls cs = p
      rw [hc]; exact ih.1
    · show (if (p.call c).status = p.status then 0 else 1) + (p.call c).statusChanges cs = 0
      rw [hc, ih.2]; simp

/-- A call on a PENDING payment leaves it PENDING or moves it out of PENDING. -/
theorem Payment_statusChanges_le_one (cs : List PaymentCall) (p : Payment) :
    p.statusChanges cs ≤ 1 := by
  induction cs generalizing p with
  | nil => exact Nat.zero_le _
  | cons c cs ih =>
    show (if (p.call c).status = p.status then 0 else 1) + (p.call c).statusChanges cs ≤ 1
    by_cases hst : (p.call c).status = p.status
    · rw [if_pos hst, Nat.zero_add]; exact ih (p.call c)
    · have hnp : (p.call c).status ≠ PaymentStatusPending := by
        intro hpend
        by_cases hp : p.status = PaymentStatusPending
        · exact hst (hpend.trans hp.symm)
        · rw [Payment_call_not_pending p c hp] at hst
          exact hst rfl
      rw [if_neg hst, (Payment_calls_not_pending cs (p.call c) hnp).2]

/-- C14: on a COMPLETED or FAILED payment `MarkCompleted` and `MarkFailed`, with
any argument, return an error and leave every field of the payment unchanged,
and so does every sequence of such calls; over any sequence of calls on any
payment the status changes at most once. -/
theorem C14_terminal_is_sink (p : Payment)
    (h : p.status = PaymentStatusCompleted ∨ p.status = PaymentStatusFailed)
    (arg : String) (now : Nat) (cs : List PaymentCall) (q : Payment)
    (ds : List PaymentCall) :
    (∃ e, p.MarkCompleted arg now = (some e, p)) ∧
    (∃ e, p.MarkFailed arg now = (some e, p)) ∧
    p.calls cs = p ∧
    q.statusChanges ds ≤ 1 := by
  have hnp : p.status ≠ PaymentStatusPending := by
    rcases h with h | h <;> rw [h] <;> decide
  exact ⟨MarkCompleted_rejected p arg now (fun hh => hnp hh.1),
    MarkFailed_rejected p arg now (fun hh => hnp hh.1),
    (Payment_calls_not_pending cs p hnp).1,
    Payment_statusChanges_le_one ds q⟩

/-- C14 at the FAILED payment of the refund test, and at the sequence of calls
complete, fail, complete on the PENDING payment. -/
theorem C14_terminal_is_sink_witness :
    (sampleFailedPayment.status = PaymentStatusCompleted ∨
      sampleFailedPayment.status = PaymentStatusFailed) ∧
    ((∃ e, sampleFailedPayment.MarkCompleted "external-tx-456" 7 =
        (some e, sampleFailedPayment)) ∧
    (∃ e, sampleFailedPayment.MarkFailed "AGAIN" 7 = (some e, sampleFailedPayment)) ∧
    sampleFailedPayment.calls [.markCompleted "external-tx-456" 8, .markFailed "AGAIN" 9]
      = sampleFailedPayment ∧
    samplePayment.statusChanges [.markCompleted "external-tx-456" 1, .markFailed "LATE" 2,
        .markCompleted "other" 3] ≤ 1) :=
  ⟨Or.inr rfl,
    C14_terminal_is_sink sampleFailedPayment (Or.inr rfl) _ 7 _ samplePayment _⟩

/-! ### C15 -/

/-- C15: for a `Money` value, whose amount is never negative, `NewPayment`
succeeds exactly when id, userID, serviceID and idempotencyKey are not empty
and the amount is strictly positive; on success the payment carries those five
values, is PENDING, has empty failureReason and externalTxID, and its createdAt
equals its updatedAt. -/
theorem C15_new_payment (id : PaymentID) (userID : UserID) (serviceID : ServiceID)
    (money : Money) (idempotencyKey : IdempotencyKey) (now : Nat)
    (hnn : 0 ≤ money.amount) :
    ((∃ p, NewPayment id userID serviceID money idempotencyKey now = .ok p) ↔
      (id.value ≠ "" ∧ userID.value ≠ "" ∧ serviceID.value ≠ "" ∧
        idempotencyKey.value ≠ "" ∧ 0 < money.amount)) ∧
    (∀ p, NewPayment id userID serviceID money idempotencyKey now = .ok p →
      p.id = id ∧ p.userID = userID ∧ p.serviceID = serviceID ∧ p.money = money ∧
      p.idempotencyKey = idempotencyKey ∧ p.status = PaymentStatusPending ∧
      p.failureReason = "" ∧ p.externalTxID = "" ∧ p.createdAt = p.updatedAt) := by
  constructor
  · constructor
    · rintro ⟨p, hp⟩
      obtain ⟨_, h1, h2, h3, h4, h5⟩ :=
        NewPayment_ok id userID serviceID money idempotencyKey now p hp
      exact ⟨h1, h2, h3, h5, lt_of_le_of_ne hnn (Ne.symm h4)⟩
    · rintro ⟨h1, h2, h3, h5, h4⟩
      exact ⟨{ id := id, userID := userID, serviceID := serviceID,
               idempotencyKey := idempotencyKey, money := money,
               status := PaymentStatusPending, failureReason := "", externalTxID := "",
               createdAt := now, updatedAt := now },
        by simp [NewPayment, PaymentID.IsEmpty, UserID.IsEmpty, ServiceID.IsEmpty,
          IdempotencyKey.IsEmpty, Money.IsZero, h1, h2, h3, h5, ne_of_gt h4]⟩
  · intro p hp
    have h := (NewPayment_ok id userID serviceID money idempotencyKey now p hp).1
    subst h
    exact ⟨rfl, rfl, rfl, rfl, rfl, rfl, rfl, rfl, rfl⟩

/-- C15 at the payment of the unit tests. -/
theorem C15_new_payment_witness :
    (0 : ℚ) ≤ (⟨100, ⟨"ARS"⟩⟩ : Money).amount ∧
    (((∃ p, NewPayment ⟨"123e4567-e89b-12d3-a456-426614174000"⟩ ⟨"user-123"⟩
          ⟨"service-123"⟩ ⟨100, ⟨"ARS"⟩⟩ ⟨"key-123"⟩ 0 = .ok p) ↔
      ((⟨"123e4567-e89b-12d3-a456-426614174000"⟩ : PaymentID).value ≠ "" ∧
        (⟨"user-123"⟩ : UserID).value ≠ "" ∧ (⟨"service-123"⟩ : ServiceID).value ≠ "" ∧
        (⟨"key-123"⟩ : IdempotencyKey).value ≠ "" ∧
        0 < (⟨100, ⟨"ARS"⟩⟩ : Money).amount)) ∧
    (∀ p, NewPayment ⟨"123e4567-e89b-12d3-a456-426614174000"⟩ ⟨"user-123"⟩
          ⟨"service-123"⟩ ⟨100, ⟨"ARS"⟩⟩ ⟨"key-123"⟩ 0 = .ok p →
      p.id = ⟨"123e4567-e89b-12d3-a456-426614174000"⟩ ∧ p.userID = ⟨"user-123"⟩ ∧
      p.serviceID = ⟨"service-123"⟩ ∧ p.money = ⟨100, ⟨"ARS"⟩⟩ ∧
      p.idempotencyKey = ⟨"key-123"⟩ ∧ p.status = PaymentStatusPending ∧
      p.failureReason = "" ∧ p.externalTxID = "" ∧ p.createdAt = p.updatedAt)) :=
  ⟨by decide,
    C15_new_payment ⟨"123e4567-e89b-12d3-a456-426614174000"⟩ ⟨"user-123"⟩ ⟨"service-123"⟩
      ⟨100, ⟨"ARS"⟩⟩ ⟨"key-123"⟩ 0 (by decide)⟩

/-! ### C16 -/

/-- What the code does on the debit path: for a stored PENDING payment and the
stored wallet of its user, in its currency and with a balance that covers its
amount, `HandlePaymentRequested` (collaborators working) returns no error,
stores the wallet with the balance reduced by exactly the amount, and appends
to the log of the payment and publishes exactly two events, in this order:
WalletDebited and ExternalPaymentRequested; payments and idempotency records
are untouched.  The events carry the amount and the balances as `AmountFloat`
converts them to `float64`. -/
theorem HandlePaymentRequested_debit_outcome (env : Env) (h : env.NoFaults) (s : Stores) (p : Payment)
    (w : Wallet) (b : BaseEvent) (amount : ℚ) (currency serviceID idempotencyKey : String)
    (hp : s.payments p.id.value = some p) (hs : p.status = PaymentStatusPending)
    (hw : s.wallets p.userID.value = some w) (hu : w.userID = p.userID)
    (hc : w.balance.currency = p.money.currency)
    (hle : p.money.amount ≤ w.balance.amount)
    (out : Option Error × Stores)
    (hout : out = HandlePaymentRequested env s
      (.paymentRequested b p.id.value p.userID.value amount currency serviceID
        idempotencyKey)) :
    out.1 = none ∧
    out.2.wallets = Function.update s.wallets p.userID.value
      (some { w with balance := ⟨w.balance.amount - p.money.amount, w.balance.currency⟩,
                     updatedAt := env.clock 0 }) ∧
    out.2.payments = s.payments ∧
    out.2.keys = s.keys ∧
    out.2.events = Function.update s.events p.id.value
      (s.events p.id.value ++
        [storedEventOf (env.uuid 0) p.id.value
           (NewWalletDebitedEvent p.id.value p.userID.value
             (p.money.AmountFloat env.float64)
             (w.balance.AmountFloat env.float64)
             (env.float64 (w.balance.amount - p.money.amount)) b.metadata (env.clock 1)),
         storedEventOf (env.uuid 1) p.id.value
           (NewExternalPaymentRequestedEvent p.id.value p.userID.value
             (p.money.AmountFloat env.float64)
             p.money.currency.code p.serviceID.value b.metadata (env.clock 2))]) ∧
    out.2.published = s.published ++
      [NewWalletDebitedEvent p.id.value p.userID.value
         (p.money.AmountFloat env.float64)
         (w.balance.AmountFloat env.float64)
         (env.float64 (w.balance.amount - p.money.amount)) b.metadata (env.clock 1),
       NewExternalPaymentRequestedEvent p.id.value p.userID.value
         (p.money.AmountFloat env.float64)
         p.money.currency.code p.serviceID.value b.metadata (env.clock 2)] := by
  rw [hout, HandlePaymentRequested_debit env h s p w b amount currency serviceID
    idempotencyKey hp hs hw hu hc hle]
  exact ⟨rfl, rfl, rfl, rfl, rfl, rfl⟩

/-- C16, where the code breaks it: the stored wallet of user-123 holds
9007199254740993 ARS and the PENDING payment is of 1 ARS.
`HandlePaymentRequested` returns no error, stores the balance 9007199254740992
and publishes WalletDebited, then ExternalPaymentRequested; the WalletDebited
event gives 9007199254740992 as the previous balance, which is the new balance
and not the balance of 9007199254740993 that was stored before: `AmountFloat`
has rounded it to a `float64`. -/
theorem C16_debited_event_rounds_balance :
    (storesWith sampleSmallPayment (sampleWallet 9007199254740993)).wallets "user-123" =
      some (sampleWallet 9007199254740993) ∧
    (HandlePaymentRequested sampleEnv
      (storesWith sampleSmallPayment (sampleWallet 9007199254740993))
      sampleSmallRequested).1 = none ∧
    (HandlePaymentRequested sampleEnv
      (storesWith sampleSmallPayment (sampleWallet 9007199254740993))
      sampleSmallRequested).2.wallets "user-123" =
      some { sampleWallet 9007199254740993 with
        balance := ⟨9007199254740992, ⟨"ARS"⟩⟩, updatedAt := 1000 } ∧
    (HandlePaymentRequested sampleEnv
      (storesWith sampleSmallPayment (sampleWallet 9007199254740993))
      sampleSmallRequested).2.published =
      [NewWalletDebitedEvent "123e4567-e89b-12d3-a456-426614174000" "user-123" 1
         9007199254740992 9007199254740992 sampleMetadata 1001,
       NewExternalPaymentRequestedEvent "123e4567-e89b-12d3-a456-426614174000" "user-123"
         1 "ARS" "service-123" sampleMetadata 1002] := by
  have hnew : (9007199254740993 : ℚ) - 1 = 9007199254740992 := by norm_num
  have e : HandlePaymentRequested sampleEnv
      (storesWith sampleSmallPayment (sampleWallet 9007199254740993))
      sampleSmallRequested = _ :=
    HandlePaymentRequested_debit sampleEnv sampleEnv_noFaults
      (storesWith sampleSmallPayment (sampleWallet 9007199254740993)) sampleSmallPayment
      (sampleWallet 9007199254740993) ⟨"PaymentRequested", 0, sampleMetadata⟩ 1 "ARS"
      "service-123" "key-123" rfl rfl rfl rfl rfl (by decide)
  have hf : sampleEnv.float64 ((9007199254740993 : ℚ) - 1) = 9007199254740992 := by
    rw [hnew]
    rfl
  refine ⟨rfl, by rw [e], ?_, ?_⟩
  · rw [e]
    show Function.update (storesWith sampleSmallPayment (sampleWallet 9007199254740993)).wallets
      "user-123" (some ({ sampleWallet 9007199254740993 with
        balance := ⟨(9007199254740993 : ℚ) - 1, ⟨"ARS"⟩⟩, updatedAt := 1000 } : Wallet))
      "user-123" = _
    rw [Function.update_same, hnew]
  · rw [e]
    show [NewWalletDebitedEvent "123e4567-e89b-12d3-a456-426614174000" "user-123"
        (sampleEnv.float64 1) (sampleEnv.float64 9007199254740993)
        (sampleEnv.float64 ((9007199254740993 : ℚ) - 1)) sampleMetadata 1001,
      NewExternalPaymentRequestedEvent "123e4567-e89b-12d3-a456-426614174000" "user-123"
        (sampleEnv.float64 1) "ARS" "service-123" sampleMetadata 1002] = _
    rw [hf]
    rfl

/-! ### C17 -/

/-- `failPayment` on a PENDING payment with a non-empty reason. -/
theorem failPayment_pending (env : Env) (h : env.NoFaults) (s : Stores) (p : Payment)
    (reason : String) (hs : p.status = PaymentStatusPending) (hr : reason ≠ "") :
    PaymentFailedOutcome env s p reason (failPayment env s p reason) := by
  simp [PaymentFailedOutcome, failPayment, MarkFailed_pending p reason (env.clock 0) hs hr,
    PaymentRepository.Update, PaymentRepository.Save, h _, publishEvent_noFaults env h,
    Money.AmountFloat]

/-- A business failure of `Process` on a PENDING payment: the wallet and the
payment are untouched and the reason is one of three. -/
theorem Process_business_failure (p : Payment) (w : Wallet) (now : Nat)
    (result : ProcessResult) (hs : p.status = PaymentStatusPending)
    (hres : (Process p w now).1 = .ok result) (hf : result.Success = false) :
    Process p w now = (.ok result, p, w) ∧
    (result.FailureReason = "USER_MISMATCH" ∨ result.FailureReason = "CURRENCY_MISMATCH" ∨
      result.FailureReason = "INSUFFICIENT_FUNDS") := by
  have hp : p.CanBeProcessed = true := by
    simp [Payment.CanBeProcessed, PaymentStatus.IsPending, hs]
  by_cases hu : p.userID = w.userID
  · by_cases hc : w.balance.currency = p.money.currency
    · by_cases hle : p.money.amount ≤ w.balance.amount
      · rw [Process_debit p w now hs hu hc hle] at hres
        simp only [Except.ok.injEq] at hres
        rw [← hres] at hf
        cases hf
      · have hcd : w.CanDebit p.money = false := by
          rw [Bool.eq_false_iff]
          intro hh
          exact hle ((Wallet_CanDebit_iff _ _).1 hh).2
        have e : Process p w now =
            (.ok { Success := false, FailureReason := "INSUFFICIENT_FUNDS",
                   WalletDebited := false }, p, w) := by
          simp [Process, hp, (UserID_Equals_iff _ _).2 hu, (Currency_Equals_iff _ _).2 hc, hcd]
        rw [e] at hres ⊢
        simp only [Except.ok.injEq] at hres
        subst hres
        exact ⟨rfl, Or.inr (Or.inr rfl)⟩
    · have e : Process p w now =
          (.ok { Success := false, FailureReason := "CURRENCY_MISMATCH",
                 WalletDebited := false }, p, w) := by
        simp [Process, hp, (UserID_Equals_iff _ _).2 hu, (Currency_Equals_false_iff _ _).2 hc]
      rw [e] at hres ⊢
      simp only [Except.ok.injEq] at hres
      subst hres
      exact ⟨rfl, Or.inr (Or.inl rfl)⟩
  · have e : Process p w now =
        (.ok { Success := false, FailureReason := "USER_MISMATCH",
               WalletDebited := false }, p, w) := by
      simp [Process, hp, (UserID_Equals_false_iff _ _).2 hu]
    rw [e] at hres ⊢
    simp only [Except.ok.injEq] at hres
    subst hres
    exact ⟨rfl, Or.inl rfl⟩

/-- `HandlePaymentRequested` when no wallet is stored for the user ID of the event. -/
theorem HandlePaymentRequested_wallet_missing (env : Env) (h : env.NoFaults) (s : Stores)
    (p : Payment) (b : BaseEvent) (userID : String) (amount : ℚ)
    (currency serviceID idempotencyKey : String)
    (hp : s.payments p.id.value = some p) (hw : s.wallets userID = none) :
    HandlePaymentRequested env s
        (.paymentRequested b p.id.value userID amount currency serviceID idempotencyKey) =
      failPayment env s p "WALLET_NOT_FOUND" := by
  simp [HandlePaymentRequested, PaymentRepository.FindByID, WalletRepository.GetByUserID,
    h _, hp, hw]

/-- `HandlePaymentRequested` when `Process` reports a business failure. -/
theorem HandlePaymentRequested_process_failure (env : Env) (h : env.NoFaults) (s : Stores)
    (p : Payment) (w : Wallet) (b : BaseEvent) (userID : String) (amount : ℚ)
    (currency serviceID idempotencyKey : String) (result : ProcessResult)
    (hp : s.payments p.id.value = some p) (hw : s.wallets userID = some w)
    (hres : Process p w (env.clock 0) = (.ok result, p, w))
    (hf : result.Success = false) :
    HandlePaymentRequested env s
        (.paymentRequested b p.id.value userID amount currency serviceID idempotencyKey) =
      failPayment env s p result.FailureReason := by
  simp [HandlePaymentRequested, PaymentRepository.FindByID, WalletRepository.GetByUserID,
    h _, hp, hw, hres, hf]

/-- C17: for a stored PENDING payment and collaborators that work,
`HandlePaymentRequested` fails the payment when no wallet is stored for the
user ID of the event (reason WALLET_NOT_FOUND) and when `Process` reports a
business failure (its reason: USER_MISMATCH, CURRENCY_MISMATCH or
INSUFFICIENT_FUNDS): no error is returned, the payment is stored FAILED with
the reason, exactly one PaymentFailed event carrying the reason is appended
and published, and no wallet changes. -/
theorem C17_business_failure (env : Env) (h : env.NoFaults) (s : Stores) (p : Payment)
    (b : BaseEvent) (userID : String) (amount : ℚ)
    (currency serviceID idempotencyKey : String)
    (hp : s.payments p.id.value = some p) (hs : p.status = PaymentStatusPending)
    (out : Option Error × Stores)
    (hout : out = HandlePaymentRequested env s
      (.paymentRequested b p.id.value userID amount currency serviceID idempotencyKey)) :
    (s.wallets userID = none → PaymentFailedOutcome env s p "WALLET_NOT_FOUND" out) ∧
    (∀ w, s.wallets userID = some w → p.userID ≠ w.userID →
      PaymentFailedOutcome env s p "USER_MISMATCH" out) ∧
    (∀ w, s.wallets userID = some w → p.userID = w.userID →
      w.balance.currency ≠ p.money.currency →
      PaymentFailedOutcome env s p "CURRENCY_MISMATCH" out) ∧
    (∀ w, s.wallets userID = some w → p.userID = w.userID →
      w.balance.currency = p.money.currency → w.balance.amount < p.money.amount →
      PaymentFailedOutcome env s p "INSUFFICIENT_FUNDS" out) ∧
    (∀ w result, s.wallets userID = some w →
      (Process p w (env.clock 0)).1 = .ok result → result.Success = false →
      (result.FailureReason = "USER_MISMATCH" ∨ result.FailureReason = "CURRENCY_MISMATCH" ∨
        result.FailureReason = "INSUFFICIENT_FUNDS") ∧
      PaymentFailedOutcome env s p result.FailureReason out) := by
  have hp' : p.CanBeProcessed = true := by
    simp [Payment.CanBeProcessed, PaymentStatus.IsPending, hs]
  have general : ∀ w result, s.wallets userID = some w →
      (Process p w (env.clock 0)).1 = .ok result → result.Success = false →
      (result.FailureReason = "USER_MISMATCH" ∨ result.FailureReason = "CURRENCY_MISMATCH" ∨
        result.FailureReason = "INSUFFICIENT_FUNDS") ∧
      PaymentFailedOutcome env s p result.FailureReason out := by
    intro w result hw hres hf
    obtain ⟨e, hreason⟩ := Process_business_failure p w (env.clock 0) result hs hres hf
    refine ⟨hreason, ?_⟩
    rw [hout, HandlePaymentRequested_process_failure env h s p w b userID amount currency
      serviceID idempotencyKey result hp hw e hf]
    apply failPayment_pending env h s p _ hs
    rcases hreason with hr | hr | hr <;> rw [hr] <;> decide
  refine ⟨?_, ?_, ?_, ?_, general⟩
  · intro hw
    rw [hout, HandlePaymentRequested_wallet_missing env h s p b userID amount currency
      serviceID idempotencyKey hp hw]
    exact failPayment_pending env h s p _ hs (by decide)
  · intro w hw hu
    have e : (Process p w (env.clock 0)).1 =
        .ok { Success := false, FailureReason := "USER_MISMATCH", WalletDebited := false } := by
      simp [Process, hp', (UserID_Equals_false_iff _ _).2 hu]
    exact (general w _ hw e rfl).2
  · intro w hw hu hc
    have e : (Process p w (env.clock 0)).1 =
        .ok { Success := false, FailureReason := "CURRENCY_MISMATCH",
              WalletDebited := false } := by
      simp [Process, hp', (UserID_Equals_iff _ _).2 hu, (Currency_Equals_false_iff _ _).2 hc]
    exact (general w _ hw e rfl).2
  · intro w hw hu hc hlt
    have hcd : w.CanDebit p.money = false := by
      rw [Bool.eq_false_iff]
      intro hh
      exact absurd ((Wallet_CanDebit_iff _ _).1 hh).2 (not_le.2 hlt)
    have e : (Process p w (env.clock 0)).1 =
        .ok { Success := false, FailureReason := "INSUFFICIENT_FUNDS",
              WalletDebited := false } := by
      simp [Process, hp', (UserID_Equals_iff _ _).2 hu, (Currency_Equals_iff _ _).2 hc, hcd]
    exact (general w _ hw e rfl).2

/-- C17 at the unit test: the payment of 100 ARS and a wallet of 50 ARS. -/
theorem C17_business_failure_witness :
    (sampleEnv.NoFaults ∧
      (storesWith samplePayment (sampleWallet 50)).payments samplePayment.id.value
        = some samplePayment ∧
      samplePayment.status = PaymentStatusPending) ∧
    PaymentFailedOutcome sampleEnv (storesWith samplePayment (sampleWallet 50)) samplePayment
      "INSUFFICIENT_FUNDS"
      (HandlePaymentRequested sampleEnv (storesWith samplePayment (sampleWallet 50))
        sampleRequested) :=
  ⟨⟨sampleEnv_noFaults, rfl, rfl⟩,
    (C17_business_failure sampleEnv sampleEnv_noFaults
      (storesWith samplePayment (sampleWallet 50)) samplePayment
      ⟨"PaymentRequested", 0, sampleMetadata⟩ "user-123" 100 "ARS" "service-123" "key-123"
      rfl rfl _ rfl).2.2.2.1 (sampleWallet 50) rfl rfl rfl (by decide)⟩

/-! ### C18 -/

/-- The main path of `HandleExternalPaymentSucceeded`: a stored PENDING payment
and a non-empty external transaction ID. -/
theorem HandleExternalPaymentSucceeded_pending (env : Env) (h : env.NoFaults) (s : Stores)
    (p : Payment) (b : BaseEvent) (x : String)
    (hp : s.payments p.id.value = some p) (hs : p.status = PaymentStatusPending)
    (hx : x ≠ "") :
    HandleExternalPaymentSucceeded env s (.externalPaymentSucceeded b p.id.value x) =
      (none, { s with
        payments := Function.update s.payments p.id.value
          (some { p with status := PaymentStatusCompleted, externalTxID := x,
                         updatedAt := env.clock 0 }),
        events := Function.update s.events p.id.value
          (s.events p.id.value ++
            [storedEventOf (env.uuid 0) p.id.value
               (NewPaymentCompletedEvent p.id.value p.userID.value
                 (p.money.AmountFloat env.float64) x
                 b.metadata (env.clock 1))]),
        published := s.published ++
          [NewPaymentCompletedEvent p.id.value p.userID.value
             (p.money.AmountFloat env.float64) x b.metadata
             (env.clock 1)] }) := by
  simp [HandleExternalPaymentSucceeded, PaymentRepository.FindByID,
    PaymentRepository.Update, PaymentRepository.Save, h _, hp,
    MarkCompleted_pending p x (env.clock 0) hs hx, publishEvent_noFaults env h,
    Money.AmountFloat, Event.Metadata, Event.base]

/-- C18: for a stored PENDING payment and an ExternalPaymentSucceeded event for
it with a non-empty external transaction ID `x`, `HandleExternalPaymentSucceeded`
(collaborators working) returns no error, stores the payment COMPLETED with
externalTxID `x`, appends to the log of the payment and publishes exactly one
PaymentCompleted event with the ID, the user ID and the amount of the payment
and `x`, and changes no wallet.  The event holds the amount as `AmountFloat`
gives it, which is the amount itself when that is a `float64` value, as
`decimal.NewFromFloat` makes the amount of a payment. -/
theorem C18_external_success (env : Env) (h : env.NoFaults) (s : Stores) (p : Payment)
    (b : BaseEvent) (x : String)
    (hp : s.payments p.id.value = some p) (hs : p.status = PaymentStatusPending)
    (hx : x ≠ "")
    (out : Option Error × Stores)
    (hout : out =
      HandleExternalPaymentSucceeded env s (.externalPaymentSucceeded b p.id.value x)) :
    out.1 = none ∧
    out.2.payments = Function.update s.payments p.id.value
      (some { p with status := PaymentStatusCompleted, externalTxID := x,
                     updatedAt := env.clock 0 }) ∧
    out.2.wallets = s.wallets ∧
    out.2.keys = s.keys ∧
    out.2.events = Function.update s.events p.id.value
      (s.events p.id.value ++
        [storedEventOf (env.uuid 0) p.id.value
           (NewPaymentCompletedEvent p.id.value p.userID.value
             (p.money.AmountFloat env.float64) x b.metadata
             (env.clock 1))]) ∧
    out.2.published = s.published ++
      [NewPaymentCompletedEvent p.id.value p.userID.value
         (p.money.AmountFloat env.float64) x b.metadata (env.clock 1)] ∧
    (p.money.AmountFloat env.float64 = p.money.amount →
      out.2.published = s.published ++
        [NewPaymentCompletedEvent p.id.value p.userID.value p.money.amount x b.metadata
           (env.clock 1)]) := by
  rw [hout, HandleExternalPaymentSucceeded_pending env h s p b x hp hs hx]
  exact ⟨rfl, rfl, rfl, rfl, rfl, rfl, fun hf => hf ▸ rfl⟩

/-- C18 at the unit test: the payment of 100 ARS is confirmed with
`external-tx-456`. -/
theorem C18_external_success_witness :
    (sampleEnv.NoFaults ∧
      (storesWith samplePayment (sampleWallet 500)).payments samplePayment.id.value
        = some samplePayment ∧
      samplePayment.status = PaymentStatusPending ∧ "external-tx-456" ≠ "") ∧
    (HandleExternalPaymentSucceeded sampleEnv (storesWith samplePayment (sampleWallet 500))
        sampleGatewaySucceeded).1 = none ∧
    (HandleExternalPaymentSucceeded sampleEnv (storesWith samplePayment (sampleWallet 500))
        sampleGatewaySucceeded).2.published =
      [NewPaymentCompletedEvent "123e4567-e89b-12d3-a456-426614174000" "user-123" 100
         "external-tx-456" sampleMetadata 1001] :=
  have hall := C18_external_success sampleEnv sampleEnv_noFaults
    (storesWith samplePayment (sampleWallet 500)) samplePayment
    ⟨"ExternalPaymentSucceeded", 5, sampleMetadata⟩ "external-tx-456" rfl rfl (by decide)
    _ rfl
  ⟨⟨sampleEnv_noFaults, rfl, rfl, by decide⟩, hall.1, hall.2.2.2.2.2.1⟩

/-! ### C19 -/

/-- C19, as amended: for a stored COMPLETED payment, an ExternalPaymentSucceeded
event for it, with the external transaction ID it already has or any other, is
rejected: the handler returns the error of the status transition from COMPLETED
to COMPLETED (the lookup of the payment not failing), and the payment store,
the wallet store, the event log and the published events are unchanged. -/
theorem C19_repeated_success_rejected (env : Env) (s : Stores) (p : Payment)
    (b : BaseEvent) (x : String)
    (hfind : env.fails .paymentFind = false)
    (hp : s.payments p.id.value = some p) (hs : p.status = PaymentStatusCompleted) :
    HandleExternalPaymentSucceeded env s (.externalPaymentSucceeded b p.id.value x) =
      (some (.msg "invalid status transition from COMPLETED to COMPLETED"), s) := by
  have hm : p.MarkCompleted x (env.clock 0) =
      (some (.msg "invalid status transition from COMPLETED to COMPLETED"), p) := by
    unfold Payment.MarkCompleted
    rw [hs]
    rfl
  simp [HandleExternalPaymentSucceeded, PaymentRepository.FindByID, hfind, hp, hm]

/-- C19 (amended) at the payment already COMPLETED with `external-tx-456` and the
event that carries the same transaction ID. -/
theorem C19_repeated_success_rejected_witness :
    (sampleEnv.fails .paymentFind = false ∧
      (storesWith sampleCompletedPayment (sampleWallet 400)).payments
        sampleCompletedPayment.id.value = some sampleCompletedPayment ∧
      sampleCompletedPayment.status = PaymentStatusCompleted) ∧
    HandleExternalPaymentSucceeded sampleEnv
        (storesWith sampleCompletedPayment (sampleWallet 400)) sampleGatewaySucceeded =
      (some (.msg "invalid status transition from COMPLETED to COMPLETED"),
        storesWith sampleCompletedPayment (sampleWallet 400)) :=
  ⟨⟨rfl, rfl, rfl⟩,
    C19_repeated_success_rejected sampleEnv
      (storesWith sampleCompletedPayment (sampleWallet 400)) sampleCompletedPayment
      ⟨"ExternalPaymentSucceeded", 5, sampleMetadata⟩ "external-tx-456" rfl rfl rfl⟩

/-- C19 as stated fails: the payment is stored COMPLETED with `external-tx-456`,
the event carries the same transaction ID, and the handler returns an error. -/
theorem C19_repeated_success_returns_error :
    (storesWith sampleCompletedPayment (sampleWallet 400)).payments
        "123e4567-e89b-12d3-a456-426614174000" = some sampleCompletedPayment ∧
    sampleCompletedPayment.status = PaymentStatusCompleted ∧
    sampleCompletedPayment.externalTxID = "external-tx-456" ∧
    (HandleExternalPaymentSucceeded sampleEnv
        (storesWith sampleCompletedPayment (sampleWallet 400)) sampleGatewaySucceeded).1 ≠
      none := by
  refine ⟨rfl, rfl, rfl, ?_⟩
  have e : (HandleExternalPaymentSucceeded sampleEnv
      (storesWith sampleCompletedPayment (sampleWallet 400)) sampleGatewaySucceeded).1 =
      some (.msg "invalid status transition from COMPLETED to COMPLETED") := by rfl
  rw [e]
  exact Option.some_ne_none _

/-! ### C20 -/

/-- C20, as amended: for a stored PENDING payment and collaborators that work,
`HandleExternalPaymentFailed` with an event for it carrying a non-empty reason
`r` stores it FAILED with failure reason `r`, and `HandleExternalPaymentTimeout`
stores it FAILED with failure reason "TIMEOUT"; each returns no error, appends
to the log of the payment and publishes exactly one PaymentRefundRequested
event with the ID, the user ID and the amount of the payment and that reason,
and changes no wallet.  The event holds the amount as `AmountFloat` gives it,
which is the amount itself when that is a `float64` value, as
`decimal.NewFromFloat` makes the amount of a payment. -/
theorem C20_refund_requested (env : Env) (h : env.NoFaults) (s : Stores) (p : Payment)
    (b : BaseEvent) (r errorCode : String) (timeoutDuration : Int)
    (hp : s.payments p.id.value = some p) (hs : p.status = PaymentStatusPending)
    (hr : r ≠ "") :
    RefundRequestedOutcome env s p r b.metadata
      (HandleExternalPaymentFailed env s (.externalPaymentFailed b p.id.value r errorCode)) ∧
    RefundRequestedOutcome env s p "TIMEOUT" b.metadata
      (HandleExternalPaymentTimeout env s
        (.externalPaymentTimeout b p.id.value timeoutDuration)) ∧
    (p.money.AmountFloat env.float64 = p.money.amount →
      (HandleExternalPaymentFailed env s
          (.externalPaymentFailed b p.id.value r errorCode)).2.published =
        s.published ++
          [NewPaymentRefundRequestedEvent p.id.value p.userID.value p.money.amount r
             b.metadata (env.clock 1)] ∧
      (HandleExternalPaymentTimeout env s
          (.externalPaymentTimeout b p.id.value timeoutDuration)).2.published =
        s.published ++
          [NewPaymentRefundRequestedEvent p.id.value p.userID.value p.money.amount "TIMEOUT"
             b.metadata (env.clock 1)]) := by
  have hfailed : HandleExternalPaymentFailed env s
      (.externalPaymentFailed b p.id.value r errorCode) = _ :=
    initiateRefund_pending env h s p r b.metadata hp hs hr
  have htimeout : HandleExternalPaymentTimeout env s
      (.externalPaymentTimeout b p.id.value timeoutDuration) = _ :=
    initiateRefund_pending env h s p "TIMEOUT" b.metadata hp hs (by decide)
  refine ⟨?_, ?_, fun hf => ⟨?_, ?_⟩⟩
  · rw [hfailed]
    exact ⟨rfl, rfl, rfl, rfl, rfl, rfl⟩
  · rw [htimeout]
    exact ⟨rfl, rfl, rfl, rfl, rfl, rfl⟩
  · rw [hfailed, ← hf]
  · rw [htimeout, ← hf]

/-- C20 (amended) at the payment of 100 ARS, rejected with GATEWAY_REJECTED
respectively timed out. -/
theorem C20_refund_requested_witness :
    (sampleEnv.NoFaults ∧
      (storesWith samplePayment (sampleWallet 400)).payments samplePayment.id.value
        = some samplePayment ∧
      samplePayment.status = PaymentStatusPending ∧ "GATEWAY_REJECTED" ≠ "") ∧
    (RefundRequestedOutcome sampleEnv (storesWith samplePayment (sampleWallet 400))
        samplePayment "GATEWAY_REJECTED" sampleMetadata
        (HandleExternalPaymentFailed sampleEnv (storesWith samplePayment (sampleWallet 400))
          sampleGatewayFailed) ∧
      RefundRequestedOutcome sampleEnv (storesWith samplePayment (sampleWallet 400))
        samplePayment "TIMEOUT" sampleMetadata
        (HandleExternalPaymentTimeout sampleEnv (storesWith samplePayment (sampleWallet 400))
          sampleGatewayTimeout)) :=
  have hall := C20_refund_requested sampleEnv sampleEnv_noFaults
    (storesWith samplePayment (sampleWallet 400)) samplePayment
    ⟨"ExternalPaymentFailed", 5, sampleMetadata⟩ "GATEWAY_REJECTED" "E42" 30 rfl rfl
    (by decide)
  ⟨⟨sampleEnv_noFaults, rfl, rfl, by decide⟩, hall.1, hall.2.1⟩

/-- C20 as stated fails: an ExternalPaymentFailed event whose reason is empty
leaves the stored payment PENDING, with no failure reason, and a
PaymentRefundRequested event is published all the same. -/
theorem C20_empty_reason_stays_pending :
    (storesWith samplePayment (sampleWallet 400)).payments
        "123e4567-e89b-12d3-a456-426614174000" = some samplePayment ∧
    samplePayment.status = PaymentStatusPending ∧
    (HandleExternalPaymentFailed sampleEnv (storesWith samplePayment (sampleWallet 400))
        sampleGatewayFailedNoReason).1 = none ∧
    (HandleExternalPaymentFailed sampleEnv (storesWith samplePayment (sampleWallet 400))
        sampleGatewayFailedNoReason).2.payments "123e4567-e89b-12d3-a456-426614174000" =
      some samplePayment ∧
    (HandleExternalPaymentFailed sampleEnv (storesWith samplePayment (sampleWallet 400))
        sampleGatewayFailedNoReason).2.published =
      [NewPaymentRefundRequestedEvent "123e4567-e89b-12d3-a456-426614174000" "user-123" 100
        "" sampleMetadata 1001] := by
  refine ⟨rfl, rfl, ?_, ?_, ?_⟩ <;> rfl

/-! ### C21 -/

/-- The credit path of `HandlePaymentRefundRequested` for an event that names
any user ID: the wallet found under that user ID is credited and written back
under its own user ID. -/
theorem HandlePaymentRefundRequested_credit_at (env : Env) (h : env.NoFaults) (s : Stores)
    (p : Payment) (w : Wallet) (b : BaseEvent) (userID : String) (amount : ℚ)
    (reason : String)
    (hne : p.id.value ≠ "") (hid : env.parseUUID p.id.value = true)
    (hp : s.payments p.id.value = some p) (hs : p.status = PaymentStatusFailed)
    (hw : s.wallets userID = some w) (hu : w.userID = p.userID)
    (hc : p.money.currency = w.balance.currency) (hpos : 0 < p.money.amount) :
    HandlePaymentRefundRequested env s
        (.paymentRefundRequested b p.id.value userID amount reason) =
      (none, { s with
        wallets := Function.update s.wallets w.userID.value
          (some { w with balance := ⟨w.balance.amount + p.money.amount, w.balance.currency⟩,
                         updatedAt := env.clock 0 }),
        events := Function.update s.events p.id.value
          (s.events p.id.value ++
            [storedEventOf (env.uuid 0) p.id.value
               (NewWalletCreditedEvent p.id.value userID amount
                 (w.balance.AmountFloat env.float64)
                 (env.float64 (w.balance.amount + p.money.amount))
                 "REFUND" b.metadata (env.clock 1))]),
        published := s.published ++
          [NewWalletCreditedEvent p.id.value userID amount
             (w.balance.AmountFloat env.float64)
             (env.float64 (w.balance.amount + p.money.amount))
             "REFUND" b.metadata (env.clock 1)] }) := by
  have hr : p.CanBeRefunded = true := by
    simp [Payment.CanBeRefunded, PaymentStatus.IsFailed, hs]
  have hk := Wallet_Credit_of_ok w p.money (env.clock 0) hc hpos
  simp [HandlePaymentRefundRequested, NewPaymentID, hne, hid, PaymentRepository.FindByID,
    WalletRepository.GetByUserID, WalletRepository.Update, WalletRepository.Save, h _, hp, hw,
    Refund, hr, hu, UserID.Equals, hk, publishEvent_noFaults env h, Event.Metadata, Event.base,
    Money.AmountFloat]

/-- `HandlePaymentRefundRequested` for a stored payment that is not FAILED:
an error is returned and no store changes, whatever the collaborators do. -/
theorem HandlePaymentRefundRequested_not_failed (env : Env) (s : Stores) (p : Payment)
    (b : BaseEvent) (userID : String) (amount : ℚ) (reason : String)
    (hne : p.id.value ≠ "") (hid : env.parseUUID p.id.value = true)
    (hp : s.payments p.id.value = some p) (hs : p.status ≠ PaymentStatusFailed) :
    ∃ e, HandlePaymentRefundRequested env s
        (.paymentRefundRequested b p.id.value userID amount reason) = (some e, s) := by
  have hr : p.CanBeRefunded = false := by
    simp [Payment.CanBeRefunded, PaymentStatus.IsFailed, hs]
  cases hf : env.fails StoreCall.paymentFind
  · cases hg : WalletRepository.GetByUserID (env.fails StoreCall.walletGet) s userID with
    | error e =>
      exact ⟨e, by simp [HandlePaymentRefundRequested, NewPaymentID, hne, hid,
        PaymentRepository.FindByID, hf, hp, hg]⟩
    | ok w =>
      exact ⟨.msg "payment cannot be refunded in current state",
        by simp [HandlePaymentRefundRequested, NewPaymentID, hne, hid,
          PaymentRepository.FindByID, hf, hp, hg, Refund, hr]⟩
  · exact ⟨ioError, by simp [HandlePaymentRefundRequested, NewPaymentID, hne, hid,
      PaymentRepository.FindByID, hf]⟩

/-- What the code does: for a stored payment whose ID is a non-empty string that
parses as a UUID and a PaymentRefundRequested event for it.  If the payment is
FAILED, of a positive amount, and the wallet stored for the user ID of the event
(under its own user ID) belongs to the user of the payment and is in its
currency, then `HandlePaymentRefundRequested` (collaborators working) returns
no error, adds exactly the amount of the payment to the stored balance, and
appends and publishes one WalletCredited event with reason "REFUND" and the
previous and new balances as `AmountFloat` converts them to `float64`.  If the
payment is not FAILED, in particular PENDING or COMPLETED, the handler returns
an error and changes no store, so nothing is credited and nothing is
published. -/
theorem HandlePaymentRefundRequested_outcome (env : Env) (s : Stores) (p : Payment) (b : BaseEvent)
    (userID : String) (amount : ℚ) (reason : String)
    (hne : p.id.value ≠ "") (hid : env.parseUUID p.id.value = true)
    (hp : s.payments p.id.value = some p)
    (out : Option Error × Stores)
    (hout : out = HandlePaymentRefundRequested env s
      (.paymentRefundRequested b p.id.value userID amount reason)) :
    (∀ w, env.NoFaults → p.status = PaymentStatusFailed → 0 < p.money.amount →
      s.wallets userID = some w → w.userID.value = userID → w.userID = p.userID →
      p.money.currency = w.balance.currency →
      out.1 = none ∧
      out.2.wallets = Function.update s.wallets userID
        (some { w with balance := ⟨w.balance.amount + p.money.amount, w.balance.currency⟩,
                       updatedAt := env.clock 0 }) ∧
      out.2.payments = s.payments ∧
      out.2.keys = s.keys ∧
      out.2.events = Function.update s.events p.id.value
        (s.events p.id.value ++
          [storedEventOf (env.uuid 0) p.id.value
             (NewWalletCreditedEvent p.id.value userID amount
               (w.balance.AmountFloat env.float64)
               (env.float64 (w.balance.amount + p.money.amount))
               "REFUND" b.metadata (env.clock 1))]) ∧
      out.2.published = s.published ++
        [NewWalletCreditedEvent p.id.value userID amount
           (w.balance.AmountFloat env.float64)
           (env.float64 (w.balance.amount + p.money.amount)) "REFUND" b.metadata (env.clock 1)]) ∧
    (p.status ≠ PaymentStatusFailed → (∃ e, out.1 = some e) ∧ out.2 = s) := by
  constructor
  · intro w h hs hpos hw hown hu hc
    rw [hout, HandlePaymentRefundRequested_credit_at env h s p w b userID amount reason hne
      hid hp hs hw hu hc hpos, hown]
    exact ⟨rfl, rfl, rfl, rfl, rfl, rfl⟩
  · intro hs
    obtain ⟨e, he⟩ := HandlePaymentRefundRequested_not_failed env s p b userID amount reason
      hne hid hp hs
    rw [hout, he]
    exact ⟨⟨e, rfl⟩, rfl⟩

/-- C21, where the code breaks it: the payment of 1 ARS is stored FAILED and the
wallet of user-123 holds 9007199254740992 ARS.  `HandlePaymentRefundRequested`
returns no error and stores the balance 9007199254740993, and the WalletCredited
event that it publishes gives 9007199254740992 as the new balance, which is the
previous balance and not the balance that is stored: `AmountFloat` has rounded
it to a `float64`. -/
theorem C21_credited_event_rounds_balance :
    (HandlePaymentRefundRequested sampleEnv
      (storesWith sampleSmallFailedPayment (sampleWallet 9007199254740992))
      sampleSmallRefundRequested).1 = none ∧
    (HandlePaymentRefundRequested sampleEnv
      (storesWith sampleSmallFailedPayment (sampleWallet 9007199254740992))
      sampleSmallRefundRequested).2.wallets "user-123" =
      some { sampleWallet 9007199254740992 with
        balance := ⟨9007199254740993, ⟨"ARS"⟩⟩, updatedAt := 1000 } ∧
    (HandlePaymentRefundRequested sampleEnv
      (storesWith sampleSmallFailedPayment (sampleWallet 9007199254740992))
      sampleSmallRefundRequested).2.published =
      [NewWalletCreditedEvent "123e4567-e89b-12d3-a456-426614174000" "user-123" 1
         9007199254740992 9007199254740992 "REFUND" sampleMetadata 1001] := by
  have hnew : (9007199254740992 : ℚ) + 1 = 9007199254740993 := by norm_num
  have e : HandlePaymentRefundRequested sampleEnv
      (storesWith sampleSmallFailedPayment (sampleWallet 9007199254740992))
      sampleSmallRefundRequested = _ :=
    HandlePaymentRefundRequested_credit_at sampleEnv sampleEnv_noFaults
      (storesWith sampleSmallFailedPayment (sampleWallet 9007199254740992))
      sampleSmallFailedPayment (sampleWallet 9007199254740992)
      ⟨"PaymentRefundRequested", 6, sampleMetadata⟩ "user-123" 1 "EXTERNAL_FAILURE"
      (by decide) (by decide) rfl rfl rfl rfl rfl (by decide)
  have hf : sampleEnv.float64 ((9007199254740992 : ℚ) + 1) = 9007199254740992 := by
    rw [hnew]
    rfl
  refine ⟨by rw [e], ?_, ?_⟩
  · rw [e]
    show Function.update (storesWith sampleSmallFailedPayment
        (sampleWallet 9007199254740992)).wallets
      "user-123" (some ({ sampleWallet 9007199254740992 with
        balance := ⟨(9007199254740992 : ℚ) + 1, ⟨"ARS"⟩⟩, updatedAt := 1000 } : Wallet))
      "user-123" = _
    rw [Function.update_same, hnew]
  · rw [e]
    show [NewWalletCreditedEvent "123e4567-e89b-12d3-a456-426614174000" "user-123" 1
        (sampleEnv.float64 9007199254740992)
        (sampleEnv.float64 ((9007199254740992 : ℚ) + 1)) "REFUND" sampleMetadata 1001] = _
    rw [hf]
    rfl

/-! ### C22 -/

/-- C22, the code at the failing inputs.  The payment is stored FAILED (reason
EXTERNAL_FAILURE) and an ExternalPaymentFailed event for it is handled again:
the handler returns no error, appends a PaymentRefundRequested event to the
log of the payment and publishes it.  The same happens with an
ExternalPaymentTimeout event for the payment stored COMPLETED. -/
theorem C22_terminal_payment_events_published :
    ((HandleExternalPaymentFailed sampleEnv
        (storesWith sampleFailedPayment (sampleWallet 400)) sampleGatewayFailed).1 = none ∧
      (HandleExternalPaymentFailed sampleEnv
        (storesWith sampleFailedPayment (sampleWallet 400)) sampleGatewayFailed).2.published =
        [NewPaymentRefundRequestedEvent "123e4567-e89b-12d3-a456-426614174000" "user-123"
          100 "GATEWAY_REJECTED" sampleMetadata 1001] ∧
      ((HandleExternalPaymentFailed sampleEnv
        (storesWith sampleFailedPayment (sampleWallet 400)) sampleGatewayFailed).2.events
          "123e4567-e89b-12d3-a456-426614174000").map StoredEvent.EventType =
        ["PaymentRefundRequested"]) ∧
    ((HandleExternalPaymentTimeout sampleEnv
        (storesWith sampleCompletedPayment (sampleWallet 400)) sampleGatewayTimeout).1
          = none ∧
      (HandleExternalPaymentTimeout sampleEnv
        (storesWith sampleCompletedPayment (sampleWallet 400))
          sampleGatewayTimeout).2.published =
        [NewPaymentRefundRequestedEvent "123e4567-e89b-12d3-a456-426614174000" "user-123"
          100 "TIMEOUT" sampleMetadata 1001]) := by
  refine ⟨⟨?_, ?_, ?_⟩, ⟨?_, ?_⟩⟩ <;> rfl

/-! ### C23 -/

/-- `validateRequest` accepts exactly the requests with non-empty userID,
currency, serviceID and idempotencyKey and a positive amount. -/
theorem validateRequest_none_iff (req : CreatePaymentRequest) :
    validateRequest req = none ↔
      (req.UserID ≠ "" ∧ 0 < req.Amount ∧ req.Currency ≠ "" ∧ req.ServiceID ≠ "" ∧
        req.IdempotencyKey ≠ "") := by
  unfold validateRequest
  by_cases h1 : req.UserID = ""
  · simp [h1]
  by_cases h2 : req.Amount ≤ 0
  · simp [h1, h2]
  by_cases h3 : req.Currency = ""
  · simp [h1, h2, h3]
  by_cases h4 : req.ServiceID = ""
  · simp [h1, h2, h3, h4]
  by_cases h5 : req.IdempotencyKey = ""
  · simp [h1, h2, h3, h4, h5]
  · simp [h1, h2, h3, h4, h5, not_le.1 h2]

/-- A key without a record, or with a failing lookup, sends `Execute` to the
creation of a payment. -/
theorem Execute_no_record (env : Env) (s : Stores) (req : CreatePaymentRequest)
    (hv : validateRequest req = none) (hk : s.keys req.IdempotencyKey = none) :
    Execute env s req = createPayment env s req := by
  cases hf : env.fails StoreCall.keyGet <;>
    simp [Execute, hv, IdempotencyStore.GetPaymentIDByKey, hf, hk]

/-- The affordability check passes for a wallet in the request currency whose
balance covers the amount. -/
theorem validateWalletBalance_passes (env : Env) (s : Stores) (req : CreatePaymentRequest)
    (w : Wallet) (c : Currency)
    (hget : env.fails .walletGet = false) (hw : s.wallets req.UserID = some w)
    (hcur : NewCurrency env.upperTrim req.Currency = .ok c) (hpos : 0 < req.Amount)
    (hne : c.code ≠ "") (hc : w.balance.currency = c) (hle : req.Amount ≤ w.balance.amount) :
    validateWalletBalance env s req = none := by
  have hm : NewMoney req.Amount c = .ok ⟨req.Amount, c⟩ := by
    simp [NewMoney, not_lt.2 (le_of_lt hpos), Currency.IsEmpty, hne]
  have hcd : w.CanDebit ⟨req.Amount, c⟩ = true :=
    (Wallet_CanDebit_iff _ _).2 ⟨hc.symm, hle⟩
  simp [validateWalletBalance, WalletRepository.GetByUserID, hget, hw, hcur, hm,
    (Currency_Equals_iff _ _).2 hc, hcd]

/-- A currency that `NewCurrency` returns has a non-empty code. -/
theorem NewCurrency_code_ne (upperTrim : String → String) (code : String) (c : Currency)
    (h : NewCurrency upperTrim code = .ok c) : c.code ≠ "" := by
  unfold NewCurrency at h
  simp only at h
  split at h
  · cases h
  split at h
  · cases h
  split at h
  · cases h
  rename_i h1 _ _
  simp only [Except.ok.injEq] at h
  rw [← h]
  simpa using h1

/-- The accepted request: what `createPayment` does with working collaborators. -/
theorem createPayment_accepted (env : Env) (h : env.NoFaults) (s : Stores)
    (req : CreatePaymentRequest) (w : Wallet) (c : Currency)
    (hu : req.UserID ≠ "") (hul : req.UserID.utf8ByteSize ≤ 255)
    (hsv : req.ServiceID ≠ "") (hsl : req.ServiceID.utf8ByteSize ≤ 255)
    (hk : req.IdempotencyKey ≠ "") (hkl : req.IdempotencyKey.utf8ByteSize ≤ 255)
    (hcur : NewCurrency env.upperTrim req.Currency = .ok c) (hpos : 0 < req.Amount)
    (hid : env.uuid 0 ≠ "")
    (hw : s.wallets req.UserID = some w) (hc : w.balance.currency = c)
    (hle : req.Amount ≤ w.balance.amount) :
    createPayment env s req =
      (.ok ⟨env.uuid 0, "PENDING"⟩,
        { s with
          payments := Function.update s.payments (env.uuid 0)
            (some { id := ⟨env.uuid 0⟩, userID := ⟨req.UserID⟩,
                    serviceID := ⟨req.ServiceID⟩, idempotencyKey := ⟨req.IdempotencyKey⟩,
                    money := ⟨req.Amount, c⟩, status := PaymentStatusPending,
                    failureReason := "", externalTxID := "", createdAt := env.clock 0,
                    updatedAt := env.clock 0 }),
          keys := Function.update s.keys req.IdempotencyKey (some (env.uuid 0)),
          events := Function.update s.events (env.uuid 0)
            (s.events (env.uuid 0) ++
              [storedEventOf (env.uuid 2) (env.uuid 0)
                (NewPaymentRequestedEvent (env.uuid 0) req.UserID req.Amount req.Currency
                  req.ServiceID req.IdempotencyKey
                  ⟨req.ClientID, env.uuid 1, "payment-api", []⟩ (env.clock 1))]),
          published := s.published ++
            [NewPaymentRequestedEvent (env.uuid 0) req.UserID req.Amount req.Currency
              req.ServiceID req.IdempotencyKey
              ⟨req.ClientID, env.uuid 1, "payment-api", []⟩ (env.clock 1)] }) := by
  have hne := NewCurrency_code_ne _ _ _ hcur
  have hvw := validateWalletBalance_passes env s req w c (h _) hw hcur hpos hne hc hle
  have hm : NewMoney req.Amount c = .ok ⟨req.Amount, c⟩ := by
    simp [NewMoney, not_lt.2 (le_of_lt hpos), Currency.IsEmpty, hne]
  simp [createPayment, hvw, NewUserID, hu, not_lt.2 hul, NewServiceID, hsv, not_lt.2 hsl,
    hcur, hm, NewIdempotencyKey, hk, not_lt.2 hkl, NewPayment, PaymentID.IsEmpty, hid,
    UserID.IsEmpty, ServiceID.IsEmpty, IdempotencyKey.IsEmpty, Money.IsZero, ne_of_gt hpos,
    PaymentRepository.Save, IdempotencyStore.SaveKey, EventStore.Append,
    EventPublisher.Publish, h _, storedEventOf, PaymentStatus.String]

/-- C23: a request with non-empty userID, serviceID and idempotencyKey of at most
255 bytes each, a currency that `NewCurrency` accepts and a positive amount,
whose key has no idempotency record and whose user has a stored wallet in that
currency with a balance that covers the amount.  `Execute`, with working
collaborators (and a generated payment ID `P` that is not empty), returns `P`
with status "PENDING"; the payment store then holds under `P` a PENDING payment
with the userID and the amount of the request, the idempotency store maps the
key to `P`, exactly one PaymentRequested event for `P` is appended to the log
of `P` and published, and no wallet is changed. -/
theorem C23_intake_accepts (env : Env) (h : env.NoFaults) (s : Stores)
    (req : CreatePaymentRequest) (w : Wallet) (c : Currency)
    (hu : req.UserID ≠ "") (hul : req.UserID.utf8ByteSize ≤ 255)
    (hsv : req.ServiceID ≠ "") (hsl : req.ServiceID.utf8ByteSize ≤ 255)
    (hk : req.IdempotencyKey ≠ "") (hkl : req.IdempotencyKey.utf8ByteSize ≤ 255)
    (hraw : req.Currency ≠ "")
    (hcur : NewCurrency env.upperTrim req.Currency = .ok c) (hpos : 0 < req.Amount)
    (hid : env.uuid 0 ≠ "")
    (hnone : s.keys req.IdempotencyKey = none)
    (hw : s.wallets req.UserID = some w) (hc : w.balance.currency = c)
    (hle : req.Amount ≤ w.balance.amount)
    (out : Except Error CreatePaymentResponse × Stores) (hout : out = Execute env s req) :
    out.1 = .ok ⟨env.uuid 0, "PENDING"⟩ ∧
    (∃ p, out.2.payments (env.uuid 0) = some p ∧ p.id = ⟨env.uuid 0⟩ ∧
      p.status = PaymentStatusPending ∧ p.userID = ⟨req.UserID⟩ ∧
      p.money = ⟨req.Amount, c⟩) ∧
    out.2.keys req.IdempotencyKey = some (env.uuid 0) ∧
    out.2.events (env.uuid 0) = s.events (env.uuid 0) ++
      [storedEventOf (env.uuid 2) (env.uuid 0)
        (NewPaymentRequestedEvent (env.uuid 0) req.UserID req.Amount req.Currency
          req.ServiceID req.IdempotencyKey ⟨req.ClientID, env.uuid 1, "payment-api", []⟩
          (env.clock 1))] ∧
    (∀ k, k ≠ env.uuid 0 → out.2.events k = s.events k) ∧
    out.2.published = s.published ++
      [NewPaymentRequestedEvent (env.uuid 0) req.UserID req.Amount req.Currency
        req.ServiceID req.IdempotencyKey ⟨req.ClientID, env.uuid 1, "payment-api", []⟩
        (env.clock 1)] ∧
    out.2.wallets = s.wallets := by
  have hv : validateRequest req = none :=
    (validateRequest_none_iff req).2 ⟨hu, hpos, hraw, hsv, hk⟩
  rw [hout, Execute_no_record env s req hv hnone,
    createPayment_accepted env h s req w c hu hul hsv hsl hk hkl hcur hpos hid hw hc hle]
  refine ⟨rfl,
    ⟨{ id := ⟨env.uuid 0⟩, userID := ⟨req.UserID⟩, serviceID := ⟨req.ServiceID⟩,
       idempotencyKey := ⟨req.IdempotencyKey⟩, money := ⟨req.Amount, c⟩,
       status := PaymentStatusPending, failureReason := "", externalTxID := "",
       createdAt := env.clock 0, updatedAt := env.clock 0 },
      by simp, rfl, rfl, rfl, rfl⟩, by simp, by simp, ?_, rfl, rfl⟩
  intro k hk'
  simp [Function.update_noteq hk']

/-- C23 at the happy path of the unit tests, for 100 ARS. -/
theorem C23_intake_accepts_witness :
    (sampleEnv.NoFaults ∧
      sampleRequest.UserID ≠ "" ∧ sampleRequest.UserID.utf8ByteSize ≤ 255 ∧
      sampleRequest.ServiceID ≠ "" ∧ sampleRequest.ServiceID.utf8ByteSize ≤ 255 ∧
      sampleRequest.IdempotencyKey ≠ "" ∧ sampleRequest.IdempotencyKey.utf8ByteSize ≤ 255 ∧
      sampleRequest.Currency ≠ "" ∧
      NewCurrency sampleEnv.upperTrim sampleRequest.Currency = .ok ⟨"ARS"⟩ ∧
      0 < sampleRequest.Amount ∧ sampleEnv.uuid 0 ≠ "" ∧
      (storesWithWallet (sampleWallet 500)).keys sampleRequest.IdempotencyKey = none ∧
      (storesWithWallet (sampleWallet 500)).wallets sampleRequest.UserID
        = some (sampleWallet 500) ∧
      (sampleWallet 500).balance.currency = ⟨"ARS"⟩ ∧
      sampleRequest.Amount ≤ (sampleWallet 500).balance.amount) ∧
    (Execute sampleEnv (storesWithWallet (sampleWallet 500)) sampleRequest).1 =
      .ok ⟨"123e4567-e89b-12d3-a456-426614174000", "PENDING"⟩ ∧
    (Execute sampleEnv (storesWithWallet (sampleWallet 500)) sampleRequest).2.keys
      "unique-key-123" = some "123e4567-e89b-12d3-a456-426614174000" ∧
    (Execute sampleEnv (storesWithWallet (sampleWallet 500)) sampleRequest).2.wallets =
      (storesWithWallet (sampleWallet 500)).wallets :=
  have hall := C23_intake_accepts sampleEnv sampleEnv_noFaults
    (storesWithWallet (sampleWallet 500)) sampleRequest (sampleWallet 500) ⟨"ARS"⟩
    (by decide) (by decide) (by decide) (by decide) (by decide) (by decide) (by decide)
    (by rfl) (by decide) (by decide) rfl rfl rfl (by decide) _ rfl
  ⟨⟨sampleEnv_noFaults, by decide, by decide, by decide, by decide, by decide, by decide,
      by decide, by rfl, by decide, by decide, rfl, rfl, rfl, by decide⟩,
    hall.1, hall.2.2.1, hall.2.2.2.2.2.2⟩

/-! ### C24 -/

/-- C24: for a request that passes validation and whose key has no idempotency
record, `Execute` fails with an error of code WALLET_NOT_FOUND when no wallet
is stored for the userID, of code CURRENCY_MISMATCH when the stored wallet is
not in the currency of the request (a currency `NewCurrency` accepts), and of
code INSUFFICIENT_FUNDS when the balance is below the amount; in each case all
the stores and the published events are unchanged. -/
theorem C24_intake_rejects (env : Env) (s : Stores) (req : CreatePaymentRequest)
    (hv : validateRequest req = none) (hk : s.keys req.IdempotencyKey = none)
    (out : Except Error CreatePaymentResponse × Stores) (hout : out = Execute env s req) :
    (s.wallets req.UserID = none →
      ∃ e, out = (.error e, s) ∧ GetErrorCode e = "WALLET_NOT_FOUND") ∧
    (∀ w c, env.fails .walletGet = false → s.wallets req.UserID = some w →
      NewCurrency env.upperTrim req.Currency = .ok c → w.balance.currency ≠ c →
      ∃ e, out = (.error e, s) ∧ GetErrorCode e = "CURRENCY_MISMATCH") ∧
    (∀ w c, env.fails .walletGet = false → s.wallets req.UserID = some w →
      NewCurrency env.upperTrim req.Currency = .ok c → w.balance.currency = c →
      w.balance.amount < req.Amount →
      ∃ e, out = (.error e, s) ∧ GetErrorCode e = "INSUFFICIENT_FUNDS") := by
  have hpos : 0 < req.Amount := ((validateRequest_none_iff req).1 hv).2.1
  rw [hout, Execute_no_record env s req hv hk]
  refine ⟨?_, ?_, ?_⟩
  · intro hw
    refine ⟨WalletNotFoundError req.UserID, ?_, rfl⟩
    cases hf : env.fails StoreCall.walletGet <;>
      simp [createPayment, validateWalletBalance, WalletRepository.GetByUserID, hf, hw]
  · intro w c hget hw hcur hc
    have hm : NewMoney req.Amount c = .ok ⟨req.Amount, c⟩ := by
      simp [NewMoney, not_lt.2 (le_of_lt hpos), Currency.IsEmpty,
        NewCurrency_code_ne _ _ _ hcur]
    refine ⟨CurrencyMismatchError w.balance.currency.code c.code, ?_, rfl⟩
    simp [createPayment, validateWalletBalance, WalletRepository.GetByUserID, hget, hw,
      hcur, hm, (Currency_Equals_false_iff _ _).2 hc]
  · intro w c hget hw hcur hc hlt
    have hm : NewMoney req.Amount c = .ok ⟨req.Amount, c⟩ := by
      simp [NewMoney, not_lt.2 (le_of_lt hpos), Currency.IsEmpty,
        NewCurrency_code_ne _ _ _ hcur]
    have hcd : w.CanDebit ⟨req.Amount, c⟩ = false := by
      rw [Bool.eq_false_iff]
      intro hh
      exact absurd ((Wallet_CanDebit_iff _ _).1 hh).2 (not_le.2 hlt)
    refine ⟨InsufficientFundsError, ?_, rfl⟩
    simp [createPayment, validateWalletBalance, WalletRepository.GetByUserID, hget, hw,
      hcur, hm, (Currency_Equals_iff _ _).2 hc, hcd]

/-- C24 at the unit test: 100 ARS requested from a wallet of 50 ARS. -/
theorem C24_intake_rejects_witness :
    (validateRequest sampleRequest = none ∧
      (storesWithWallet (sampleWallet 50)).keys sampleRequest.IdempotencyKey = none) ∧
    (∃ e, Execute sampleEnv (storesWithWallet (sampleWallet 50)) sampleRequest =
        (.error e, storesWithWallet (sampleWallet 50)) ∧
      GetErrorCode e = "INSUFFICIENT_FUNDS") :=
  ⟨⟨by rfl, rfl⟩,
    (C24_intake_rejects sampleEnv (storesWithWallet (sampleWallet 50)) sampleRequest (by rfl)
      rfl _ rfl).2.2 (sampleWallet 50) ⟨"ARS"⟩ rfl rfl (by rfl) rfl (by decide)⟩

/-! ### C25 -/

/-- C25, as amended: `validateRequest` rejects exactly the requests whose
userID, currency, serviceID or idempotencyKey is empty or whose amount is not
positive; `Execute` then returns the error of the first failing check, a plain
error that carries no code (`GetErrorCode` gives UNKNOWN_ERROR, not
VALIDATION_FAILED), whatever the stores hold and the collaborators do, and
leaves every store and the published events unchanged. -/
theorem C25_validation_rejects (env : Env) (s : Stores) (req : CreatePaymentRequest) :
    ((∃ e, validateRequest req = some e) ↔
      (req.UserID = "" ∨ req.Currency = "" ∨ req.ServiceID = "" ∨
        req.IdempotencyKey = "" ∨ req.Amount ≤ 0)) ∧
    (∀ e, validateRequest req = some e →
      Execute env s req = (.error e, s) ∧ GetErrorCode e = "UNKNOWN_ERROR" ∧
      (e = .msg "userID is required" ∨ e = .msg "amount must be greater than zero" ∨
        e = .msg "currency is required" ∨ e = .msg "serviceID is required" ∨
        e = .msg "idempotencyKey is required")) := by
  constructor
  · constructor
    · rintro ⟨e, he⟩
      by_contra hcon
      simp only [not_or, not_le] at hcon
      have := (validateRequest_none_iff req).2
        ⟨hcon.1, hcon.2.2.2.2, hcon.2.1, hcon.2.2.1, hcon.2.2.2.1⟩
      rw [this] at he
      cases he
    · intro hbad
      cases hv : validateRequest req with
      | some e => exact ⟨e, rfl⟩
      | none =>
        have hgood := (validateRequest_none_iff req).1 hv
        rcases hbad with h | h | h | h | h
        · exact absurd h hgood.1
        · exact absurd h hgood.2.2.1
        · exact absurd h hgood.2.2.2.1
        · exact absurd h hgood.2.2.2.2
        · exact absurd hgood.2.1 (not_lt.2 h)
  · intro e he
    refine ⟨by simp [Execute, he], ?_⟩
    unfold validateRequest at he
    split at he
    · cases he; exact ⟨rfl, Or.inl rfl⟩
    split at he
    · cases he; exact ⟨rfl, Or.inr (Or.inl rfl)⟩
    split at he
    · cases he; exact ⟨rfl, Or.inr (Or.inr (Or.inl rfl))⟩
    split at he
    · cases he; exact ⟨rfl, Or.inr (Or.inr (Or.inr (Or.inl rfl)))⟩
    split at he
    · cases he; exact ⟨rfl, Or.inr (Or.inr (Or.inr (Or.inr rfl)))⟩
    · cases he

/-- C25 as stated fails: the request of the unit test without userID is
rejected with the plain error "userID is required", whose code is not
VALIDATION_FAILED. -/
theorem C25_validation_error_has_no_code :
    Execute sampleEnv (storesWithWallet (sampleWallet 500))
        { sampleRequest with UserID := "" } =
      (.error (.msg "userID is required"), storesWithWallet (sampleWallet 500)) ∧
    GetErrorCode (.msg "userID is required") ≠ "VALIDATION_FAILED" :=
  ⟨by rfl, by decide⟩

/-! ### C26 -/

/-- `createPayment` leaves the idempotency records as they were, or it has saved
the payment and then written the record of the request key, with the generated
payment ID, which is not empty. -/
theorem createPayment_keys (env : Env) (s : Stores) (req : CreatePaymentRequest) :
    (createPayment env s req).2.keys = s.keys ∨
    (env.fails .paymentSave = false ∧ env.fails .keySave = false ∧ env.uuid 0 ≠ "" ∧
      (createPayment env s req).2.keys =
        Function.update s.keys req.IdempotencyKey (some (env.uuid 0))) := by
  unfold createPayment
  split
  · exact Or.inl rfl
  split
  · exact Or.inl rfl
  split
  · exact Or.inl rfl
  split
  · exact Or.inl rfl
  split
  · exact Or.inl rfl
  split
  · exact Or.inl rfl
  simp only
  split
  · exact Or.inl rfl
  rename_i pmt hNP
  have hid : env.uuid 0 ≠ "" := by
    intro he
    simp [NewPayment, PaymentID.IsEmpty, he] at hNP
  cases hf1 : env.fails StoreCall.paymentSave <;>
    cases hf2 : env.fails StoreCall.keySave <;>
    cases hf3 : env.fails (StoreCall.eventAppend 0) <;>
    cases hf4 : env.fails (StoreCall.eventPublish 0) <;>
    simp [PaymentRepository.Save, IdempotencyStore.SaveKey, EventStore.Append,
      EventPublisher.Publish, hf1, hf2, hf3, hf4, hid]

/-- The same for `Execute`. -/
theorem Execute_keys (env : Env) (s : Stores) (req : CreatePaymentRequest) :
    (Execute env s req).2.keys = s.keys ∨
    (env.fails .paymentSave = false ∧ env.fails .keySave = false ∧ env.uuid 0 ≠ "" ∧
      (Execute env s req).2.keys =
        Function.update s.keys req.IdempotencyKey (some (env.uuid 0))) := by
  unfold Execute
  split
  · exact Or.inl rfl
  split
  · split
    · exact Or.inl rfl
    · exact createPayment_keys env s req
  · exact createPayment_keys env s req

/-- An `Execute` that finds no record for the key of the request answers PENDING
when it succeeds. -/
theorem Execute_fresh_status (env : Env) (s s1 : Stores) (req : CreatePaymentRequest)
    (resp : CreatePaymentResponse) (hk : s.keys req.IdempotencyKey = none)
    (h : Execute env s req = (.ok resp, s1)) : resp.Status = "PENDING" := by
  cases hv : validateRequest req with
  | some e => simp [Execute, hv] at h
  | none =>
    rw [Execute_no_record env s req hv hk] at h
    rw [(createPayment_ok env s s1 req resp h).1]

/-- C26, as amended: when the save of the payment or the save of the
idempotency key fails, `Execute` leaves the idempotency records as they were;
if the key of the request had no record, a retry with the same key is then
processed as a new request: when it succeeds its status is PENDING, not
ALREADY_PROCESSED. -/
theorem C26_failed_save_leaves_no_record (env : Env) (s : Stores)
    (req : CreatePaymentRequest)
    (hstep : env.fails .paymentSave = true ∨ env.fails .keySave = true) :
    (Execute env s req).2.keys = s.keys ∧
    (s.keys req.IdempotencyKey = none →
      ∀ env2 resp s2, Execute env2 (Execute env s req).2 req = (.ok resp, s2) →
        resp.Status = "PENDING") := by
  have hkeys : (Execute env s req).2.keys = s.keys := by
    rcases Execute_keys env s req with h | ⟨h1, h2, _, _⟩
    · exact h
    · rcases hstep with h' | h'
      · rw [h1] at h'; cases h'
      · rw [h2] at h'; cases h'
  refine ⟨hkeys, ?_⟩
  intro hnone env2 resp s2 h2
  exact Execute_fresh_status env2 _ s2 req resp (by rw [hkeys]; exact hnone) h2

/-- C26 (amended) at the request of the unit tests, with a failing save of the
idempotency key. -/
theorem C26_failed_save_leaves_no_record_witness :
    (({ sampleEnv with fails := fun c => decide (c = StoreCall.keySave) } : Env).fails
        .paymentSave = true ∨
      ({ sampleEnv with fails := fun c => decide (c = StoreCall.keySave) } : Env).fails
        .keySave = true) ∧
    (Execute { sampleEnv with fails := fun c => decide (c = StoreCall.keySave) }
        (storesWithWallet (sampleWallet 500)) sampleRequest).2.keys =
      (storesWithWallet (sampleWallet 500)).keys :=
  ⟨Or.inr rfl,
    (C26_failed_save_leaves_no_record
      { sampleEnv with fails := fun c => decide (c = StoreCall.keySave) }
      (storesWithWallet (sampleWallet 500)) sampleRequest (Or.inr rfl)).1⟩

/-- C26 as stated fails: the publish fails, so `Execute` fails after the payment
was built; the idempotency record of the key has been written all the same,
nothing has been published, and the retry is answered ALREADY_PROCESSED. -/
theorem C26_failed_publish_keeps_record :
    (Execute sampleEnvPublishFails (storesWithWallet (sampleWallet 500)) sampleRequest).1 =
      .error ioError ∧
    (Execute sampleEnvPublishFails (storesWithWallet (sampleWallet 500))
        sampleRequest).2.keys "unique-key-123" =
      some "123e4567-e89b-12d3-a456-426614174000" ∧
    (Execute sampleEnvPublishFails (storesWithWallet (sampleWallet 500))
        sampleRequest).2.published = [] ∧
    (Execute sampleEnv
        (Execute sampleEnvPublishFails (storesWithWallet (sampleWallet 500))
          sampleRequest).2 sampleRequest).1 =
      .ok ⟨"123e4567-e89b-12d3-a456-426614174000", "ALREADY_PROCESSED"⟩ := by
  refine ⟨?_, ?_, ?_, ?_⟩ <;> rfl

/-! ### C27 -/

/-- One `Execute` whose lookup of the idempotency key does not fail keeps every
record that holds a non-empty payment ID. -/
theorem Execute_keeps_record (env : Env) (s : Stores) (req : CreatePaymentRequest)
    (key P : String) (hget : env.fails .keyGet = false)
    (hrec : s.keys key = some P) (hP : P ≠ "") :
    (Execute env s req).2.keys key = some P := by
  by_cases hk : req.IdempotencyKey = key
  · cases hv : validateRequest req with
    | some e => simp [Execute, hv, hrec]
    | none =>
      rw [Execute_replay env s req P hv hget (by rw [hk]; exact hrec) hP]
      exact hrec
  · rcases Execute_keys env s req with h | ⟨_, _, _, h⟩
    · rw [h]; exact hrec
    · rw [h, Function.update_noteq (Ne.symm hk)]; exact hrec

/-- C27, as amended: across every sequence of `Execute` calls whose lookups of
the idempotency key do not fail, a record that maps a key to a non-empty
payment ID is never changed, and a later lookup of the key returns that payment
ID; and every record an `Execute` call writes holds a non-empty payment ID. -/
theorem C27_record_is_kept (s : Stores) (calls : List (Env × CreatePaymentRequest))
    (key P : String) (hrec : s.keys key = some P) (hP : P ≠ "")
    (hget : ∀ c ∈ calls, c.1.fails .keyGet = false) :
    (ExecuteAll s calls).keys key = some P ∧
    IdempotencyStore.GetPaymentIDByKey false (ExecuteAll s calls) key = .ok P ∧
    (∀ (env : Env) (s0 : Stores) (req : CreatePaymentRequest) (k Q : String),
      (Execute env s0 req).2.keys k = some Q → s0.keys k ≠ some Q → Q ≠ "") := by
  have hkeep : (ExecuteAll s calls).keys key = some P := by
    induction calls generalizing s with
    | nil => exact hrec
    | cons c rest ih =>
      obtain ⟨env, req⟩ := c
      show (ExecuteAll (Execute env s req).2 rest).keys key = some P
      apply ih
      · exact Execute_keeps_record env s req key P
          (hget (env, req) (List.mem_cons_self _ _)) hrec hP
      · intro c hc
        exact hget c (List.mem_cons_of_mem _ hc)
  refine ⟨hkeep, by simp [IdempotencyStore.GetPaymentIDByKey, hkeep], ?_⟩
  intro env s0 req k Q hQ hne
  rcases Execute_keys env s0 req with h | ⟨_, _, hid, h⟩
  · rw [h] at hQ; exact absurd hQ hne
  · rw [h] at hQ
    by_cases hk : k = req.IdempotencyKey
    · rw [hk, Function.update_same] at hQ
      simp only [Option.some.injEq] at hQ
      rw [← hQ]; exact hid
    · rw [Function.update_noteq hk] at hQ
      exact absurd hQ hne

/-- C27 (amended) at the request of the unit tests, sent three times. -/
theorem C27_record_is_kept_witness :
    ((Execute sampleEnv (storesWithWallet (sampleWallet 500)) sampleRequest).2.keys
        "unique-key-123" = some "123e4567-e89b-12d3-a456-426614174000" ∧
      "123e4567-e89b-12d3-a456-426614174000" ≠ "" ∧
      (∀ c ∈ [(sampleEnv, sampleRequest), (sampleEnv, sampleRequest)],
        c.1.fails .keyGet = false)) ∧
    (ExecuteAll (Execute sampleEnv (storesWithWallet (sampleWallet 500)) sampleRequest).2
        [(sampleEnv, sampleRequest), (sampleEnv, sampleRequest)]).keys "unique-key-123" =
      some "123e4567-e89b-12d3-a456-426614174000" :=
  have hget : ∀ c ∈ [(sampleEnv, sampleRequest), (sampleEnv, sampleRequest)],
      c.1.fails .keyGet = false := by
    intro c hc
    simp only [List.mem_cons, List.mem_singleton, List.not_mem_nil, or_false, or_self] at hc
    rw [hc]; rfl
  ⟨⟨rfl, by decide, hget⟩,
    (C27_record_is_kept
      (Execute sampleEnv (storesWithWallet (sampleWallet 500)) sampleRequest).2
      [(sampleEnv, sampleRequest), (sampleEnv, sampleRequest)] "unique-key-123"
      "123e4567-e89b-12d3-a456-426614174000" rfl (by decide) hget).1⟩

/-- C27 as stated fails: the key of the unit test is on record with the payment
ID of the first call; in a second call the lookup of the key returns an error,
`Execute` takes that for a missing record, creates a second payment and
replaces the record. -/
theorem C27_failed_lookup_replaces_record :
    (Execute sampleEnv (storesWithWallet (sampleWallet 500)) sampleRequest).2.keys
        "unique-key-123" = some "123e4567-e89b-12d3-a456-426614174000" ∧
    (Execute sampleEnvLookupFails
        (Execute sampleEnv (storesWithWallet (sampleWallet 500)) sampleRequest).2
        sampleRequest).1 = .ok ⟨"0b0e7a2c-5d3f-4c1a-9e8b-7f6a5d4c3b2a", "PENDING"⟩ ∧
    (Execute sampleEnvLookupFails
        (Execute sampleEnv (storesWithWallet (sampleWallet 500)) sampleRequest).2
        sampleRequest).2.keys "unique-key-123" =
      some "0b0e7a2c-5d3f-4c1a-9e8b-7f6a5d4c3b2a" := by
  refine ⟨?_, ?_, ?_⟩ <;> rfl

/-! ### C28 -/

/-- Stores with the same logs and the same published events. -/
theorem PublishedAfterAppend_of_eq (s out : Stores) (h1 : out.events = s.events)
    (h2 : out.published = s.published) : PublishedAfterAppend s out := by
  refine ⟨fun k => ⟨[], by rw [h1]; simp⟩, [], by rw [h2]; simp, ?_⟩
  intro e he
  cases he

/-- Two invocations in a row. -/
theorem PublishedAfterAppend_trans (s s1 s2 : Stores) (h1 : PublishedAfterAppend s s1)
    (h2 : PublishedAfterAppend s1 s2) : PublishedAfterAppend s s2 := by
  obtain ⟨g1, new1, hp1, hr1⟩ := h1
  obtain ⟨g2, new2, hp2, hr2⟩ := h2
  refine ⟨?_, new1 ++ new2, by rw [hp2, hp1, List.append_assoc], ?_⟩
  · intro k
    obtain ⟨a1, ha1⟩ := g1 k
    obtain ⟨a2, ha2⟩ := g2 k
    exact ⟨a1 ++ a2, by rw [ha2, ha1, List.append_assoc]⟩
  · intro e he added hadded
    obtain ⟨a1, ha1⟩ := g1 e.PaymentID
    obtain ⟨a2, ha2⟩ := g2 e.PaymentID
    have hsplit : added = a1 ++ a2 := by
      have h : s.events e.PaymentID ++ added = s.events e.PaymentID ++ (a1 ++ a2) := by
        rw [← hadded, ha2, ha1, List.append_assoc]
      exact List.append_cancel_left h
    rcases List.mem_append.mp he with he1 | he2
    · obtain ⟨se, hse, hrest⟩ := hr1 e he1 a1 ha1
      exact ⟨se, by rw [hsplit]; exact List.mem_append_left _ hse, hrest⟩
    · obtain ⟨se, hse, hrest⟩ := hr2 e he2 a2 ha2
      exact ⟨se, by rw [hsplit]; exact List.mem_append_right _ hse, hrest⟩

/-- A successful append of an event under its payment ID, then the publish of
that event, whether it succeeds or not. -/
theorem PublishedAfterAppend_append_publish (s : Stores) (event : Event)
    (paymentID eventID : String) (hpid : event.PaymentID = paymentID) (f : Bool) :
    PublishedAfterAppend s
      (EventPublisher.Publish f (EventStore.Append false s event paymentID eventID).2
        event).2 := by
  subst hpid
  have hgrow : ∀ k, ∃ added,
      (Function.update s.events event.PaymentID
        (s.events event.PaymentID ++ [storedEventOf eventID event.PaymentID event])) k =
        s.events k ++ added := by
    intro k
    by_cases hk : k = event.PaymentID
    · exact ⟨[storedEventOf eventID event.PaymentID event], by rw [hk, Function.update_same]⟩
    · exact ⟨[], by rw [Function.update_noteq hk]; simp⟩
  cases f
  · refine ⟨hgrow, [event], rfl, ?_⟩
    intro e he added hadded
    rw [List.mem_singleton] at he
    subst he
    have h : s.events e.PaymentID ++ [storedEventOf eventID e.PaymentID e] =
        s.events e.PaymentID ++ added := by
      rw [← hadded]
      show _ = Function.update s.events e.PaymentID _ e.PaymentID
      rw [Function.update_same]
      rfl
    have hadd := List.append_cancel_left h
    exact ⟨storedEventOf eventID e.PaymentID e, by rw [← hadd]; simp, rfl, rfl⟩
  · refine ⟨hgrow, [], by simp [EventPublisher.Publish, EventStore.Append], ?_⟩
    intro e he
    cases he

/-- An invocation that leaves the logs and the published events alone. -/
theorem PublishDiscipline_of_eq (env : Env) (s out : Stores) (h1 : out.events = s.events)
    (h2 : out.published = s.published) : PublishDiscipline env s out :=
  ⟨PublishedAfterAppend_of_eq s out h1 h2, fun _ => h2⟩

/-- The discipline only looks at the logs and the published events of the
stores before. -/
theorem PublishDiscipline_congr_left (env : Env) (s s1 out : Stores)
    (h1 : s1.events = s.events) (h2 : s1.published = s.published)
    (h : PublishDiscipline env s1 out) : PublishDiscipline env s out :=
  ⟨PublishedAfterAppend_trans s s1 out (PublishedAfterAppend_of_eq s s1 h1 h2) h.1,
    fun hf => by rw [h.2 hf, h2]⟩

/-- Two steps of one invocation. -/
theorem PublishDiscipline_trans (env : Env) (s s1 s2 : Stores)
    (h1 : PublishDiscipline env s s1) (h2 : PublishDiscipline env s1 s2) :
    PublishDiscipline env s s2 :=
  ⟨PublishedAfterAppend_trans s s1 s2 h1.1 h2.1, fun hf => by rw [h2.2 hf, h1.2 hf]⟩

/-- An append under the payment ID of the event, followed by the publish only
when the append succeeded. -/
theorem PublishDiscipline_append_publish (env : Env) (k j : Nat) (s : Stores) (event : Event)
    (paymentID eventID : String) (hpid : event.PaymentID = paymentID) :
    (env.fails (.eventAppend k) = true →
      PublishDiscipline env s (EventStore.Append true s event paymentID eventID).2) ∧
    (env.fails (.eventAppend k) = false →
      PublishDiscipline env s
        (EventPublisher.Publish (env.fails (.eventPublish j))
          (EventStore.Append false s event paymentID eventID).2 event).2) := by
  refine ⟨fun _ => PublishDiscipline_of_eq env s _ rfl rfl, fun hf => ⟨?_, ?_⟩⟩
  · exact PublishedAfterAppend_append_publish s event paymentID eventID hpid _
  · intro hall
    rw [hall k] at hf
    cases hf

/-- The helper `publishEvent` keeps the discipline. -/
theorem PublishDiscipline_publishEvent (env : Env) (k : Nat) (s : Stores) (event : Event)
    (paymentID : String) (hpid : event.PaymentID = paymentID) :
    PublishDiscipline env s (publishEvent env k s event paymentID).2 := by
  have h := PublishDiscipline_append_publish env k k s event paymentID (env.uuid k) hpid
  unfold publishEvent
  cases hf : env.fails (StoreCall.eventAppend k)
  · have h2 := h.2 hf
    cases hg : env.fails (StoreCall.eventPublish k) <;> rw [hg] at h2 <;> exact h2
  · exact h.1 hf

/-- The helper `publishEvent` keeps the discipline, from its result. -/
theorem PublishDiscipline_publishEvent_eq (env : Env) (k : Nat) (s : Stores) (event : Event)
    (paymentID : String) (r : Option Error) (s2 : Stores)
    (heq : publishEvent env k s event paymentID = (r, s2))
    (hpid : event.PaymentID = paymentID) : PublishDiscipline env s s2 := by
  have h := PublishDiscipline_publishEvent env k s event paymentID hpid
  rw [heq] at h
  exact h

/-- A save or update of a payment touches neither the logs nor the published
events. -/
theorem PaymentRepository_Save_frame (f : Bool) (s : Stores) (pmt : Payment) :
    (PaymentRepository.Save f s pmt).2.events = s.events ∧
    (PaymentRepository.Save f s pmt).2.published = s.published := by
  cases f <;> exact ⟨rfl, rfl⟩

/-- An update of a wallet touches neither the logs nor the published events. -/
theorem WalletRepository_Save_frame (f : Bool) (s : Stores) (wlt : Wallet) :
    (WalletRepository.Save f s wlt).2.events = s.events ∧
    (WalletRepository.Save f s wlt).2.published = s.published := by
  cases f <;> exact ⟨rfl, rfl⟩

/-- A save of an idempotency record touches neither the logs nor the published
events. -/
theorem IdempotencyStore_SaveKey_frame (f : Bool) (s : Stores) (key paymentID : String) :
    (IdempotencyStore.SaveKey f s key paymentID).2.events = s.events ∧
    (IdempotencyStore.SaveKey f s key paymentID).2.published = s.published := by
  cases f <;> exact ⟨rfl, rfl⟩

/-- The helper `failPayment` keeps the discipline. -/
theorem PublishDiscipline_failPayment (env : Env) (s : Stores) (pmt : Payment)
    (reason : String) : PublishDiscipline env s (failPayment env s pmt reason).2 := by
  have hfr := PaymentRepository_Save_frame (env.fails .paymentUpdate) s
    (pmt.MarkFailed reason (env.clock 0)).2
  unfold failPayment
  simp only [PaymentRepository.Update]
  split
  · rename_i err s1 heq
    rw [heq] at hfr
    exact PublishDiscipline_of_eq env s s1 hfr.1 hfr.2
  · rename_i s1 heq
    rw [heq] at hfr
    exact PublishDiscipline_congr_left env s s1 _ hfr.1 hfr.2
      (PublishDiscipline_publishEvent env 0 s1 _ _ rfl)

/-- The helper `initiateRefund` keeps the discipline. -/
theorem PublishDiscipline_initiateRefund (env : Env) (s : Stores) (paymentID reason : String)
    (metadata : Metadata) :
    PublishDiscipline env s (initiateRefund env s paymentID reason metadata).2 := by
  unfold initiateRefund
  split
  · exact PublishDiscipline_of_eq env s s rfl rfl
  · rename_i pmt _
    have hfr := PaymentRepository_Save_frame (env.fails .paymentUpdate) s
      (pmt.MarkFailed reason (env.clock 0)).2
    simp only [PaymentRepository.Update]
    split
    · rename_i err s1 heq
      rw [heq] at hfr
      exact PublishDiscipline_of_eq env s s1 hfr.1 hfr.2
    · rename_i s1 heq
      rw [heq] at hfr
      exact PublishDiscipline_congr_left env s s1 _ hfr.1 hfr.2
        (PublishDiscipline_publishEvent env 0 s1 _ _ rfl)

/-- The handler `HandlePaymentRequested` keeps the discipline. -/
theorem PublishDiscipline_HandlePaymentRequested (env : Env) (s : Stores) (event : Event) :
    PublishDiscipline env s (HandlePaymentRequested env s event).2 := by
  unfold HandlePaymentRequested
  split
  · split
    · exact PublishDiscipline_of_eq env s s rfl rfl
    · split
      · exact PublishDiscipline_failPayment env s _ _
      · split
        · exact PublishDiscipline_of_eq env s s rfl rfl
        · rename_i result pmt1 wlt1 _
          split
          · exact PublishDiscipline_failPayment env s _ _
          · have hfr := WalletRepository_Save_frame (env.fails .walletUpdate) s wlt1
            simp only [WalletRepository.Update]
            split
            · rename_i err s1 heq
              rw [heq] at hfr
              exact PublishDiscipline_of_eq env s s1 hfr.1 hfr.2
            · rename_i s1 heq
              rw [heq] at hfr
              apply PublishDiscipline_congr_left env s s1 _ hfr.1 hfr.2
              split
              · rename_i err s2 heq2
                exact PublishDiscipline_publishEvent_eq env 0 s1 _ _ _ s2 heq2 rfl
              · rename_i s2 heq2
                exact PublishDiscipline_trans env s1 s2 _
                  (PublishDiscipline_publishEvent_eq env 0 s1 _ _ _ s2 heq2 rfl)
                  (PublishDiscipline_publishEvent env 1 s2 _ _ rfl)
  · exact PublishDiscipline_of_eq env s s rfl rfl

/-- The handler `HandleExternalPaymentSucceeded` keeps the discipline. -/
theorem PublishDiscipline_HandleExternalPaymentSucceeded (env : Env) (s : Stores)
    (event : Event) :
    PublishDiscipline env s (HandleExternalPaymentSucceeded env s event).2 := by
  unfold HandleExternalPaymentSucceeded
  split
  · split
    · exact PublishDiscipline_of_eq env s s rfl rfl
    · split
      · exact PublishDiscipline_of_eq env s s rfl rfl
      · rename_i pmt1 _
        have hfr := PaymentRepository_Save_frame (env.fails .paymentUpdate) s pmt1
        simp only [PaymentRepository.Update]
        split
        · rename_i err s1 heq
          rw [heq] at hfr
          exact PublishDiscipline_of_eq env s s1 hfr.1 hfr.2
        · rename_i s1 heq
          rw [heq] at hfr
          exact PublishDiscipline_congr_left env s s1 _ hfr.1 hfr.2
            (PublishDiscipline_publishEvent env 0 s1 _ _ rfl)
  · exact PublishDiscipline_of_eq env s s rfl rfl

/-- The handler `HandleExternalPaymentFailed` keeps the discipline. -/
theorem PublishDiscipline_HandleExternalPaymentFailed (env : Env) (s : Stores)
    (event : Event) :
    PublishDiscipline env s (HandleExternalPaymentFailed env s event).2 := by
  unfold HandleExternalPaymentFailed
  split
  · exact PublishDiscipline_initiateRefund env s _ _ _
  · exact PublishDiscipline_of_eq env s s rfl rfl

/-- The handler `HandleExternalPaymentTimeout` keeps the discipline. -/
theorem PublishDiscipline_HandleExternalPaymentTimeout (env : Env) (s : Stores)
    (event : Event) :
    PublishDiscipline env s (HandleExternalPaymentTimeout env s event).2 := by
  unfold HandleExternalPaymentTimeout
  split
  · exact PublishDiscipline_initiateRefund env s _ _ _
  · exact PublishDiscipline_of_eq env s s rfl rfl

/-- The handler `HandlePaymentRefundRequested` keeps the discipline. -/
theorem PublishDiscipline_HandlePaymentRefundRequested (env : Env) (s : Stores)
    (event : Event) :
    PublishDiscipline env s (HandlePaymentRefundRequested env s event).2 := by
  unfold HandlePaymentRefundRequested
  split
  · simp only
    split
    · exact PublishDiscipline_of_eq env s s rfl rfl
    · split
      · exact PublishDiscipline_of_eq env s s rfl rfl
      · split
        · exact PublishDiscipline_of_eq env s s rfl rfl
        · rename_i result _ wlt1 _
          have hfr := WalletRepository_Save_frame (env.fails .walletUpdate) s wlt1
          simp only [WalletRepository.Update]
          split
          · rename_i err s1 heq
            rw [heq] at hfr
            exact PublishDiscipline_of_eq env s s1 hfr.1 hfr.2
          · rename_i s1 heq
            rw [heq] at hfr
            exact PublishDiscipline_congr_left env s s1 _ hfr.1 hfr.2
              (PublishDiscipline_publishEvent env 0 s1 _ _ rfl)
  · exact PublishDiscipline_of_eq env s s rfl rfl

/-- The gateway simulator keeps the discipline. -/
theorem PublishDiscipline_gateway (alwaysSuccess : Bool) (draw : ℚ) (env : Env) (s : Stores)
    (event : Event) :
    PublishDiscipline env s
      (ExternalGatewayMock.HandleExternalPaymentRequested alwaysSuccess draw env s event).2 := by
  unfold ExternalGatewayMock.HandleExternalPaymentRequested
  split
  · rename_i b paymentID userID amount currency serviceID
    simp only
    generalize hre : (if alwaysSuccess = true then
        NewExternalPaymentSucceededEvent paymentID (env.uuid 0)
          (Event.externalPaymentRequested b paymentID userID amount currency
            serviceID).Metadata (env.clock 0)
      else if draw < gatewaySuccessRate then
        NewExternalPaymentSucceededEvent paymentID (env.uuid 0)
          (Event.externalPaymentRequested b paymentID userID amount currency
            serviceID).Metadata (env.clock 0)
      else
        NewExternalPaymentFailedEvent paymentID "GATEWAY_REJECTED" "ERR_RANDOM_FAILURE"
          (Event.externalPaymentRequested b paymentID userID amount currency
            serviceID).Metadata (env.clock 0)) = resultEvent
    have hpid : resultEvent.PaymentID = paymentID := by
      rw [← hre]
      split
      · rfl
      · split <;> rfl
    have h := PublishDiscipline_append_publish env 0 0 s resultEvent paymentID (env.uuid 1) hpid
    cases hf : env.fails (StoreCall.eventAppend 0)
    · exact h.2 hf
    · exact h.1 hf
  · exact PublishDiscipline_of_eq env s s rfl rfl

/-- The part of `Execute` after the idempotency check keeps the discipline. -/
theorem PublishDiscipline_createPayment (env : Env) (s : Stores)
    (req : CreatePaymentRequest) :
    PublishDiscipline env s (createPayment env s req).2 := by
  unfold createPayment
  split
  · exact PublishDiscipline_of_eq env s s rfl rfl
  split
  · exact PublishDiscipline_of_eq env s s rfl rfl
  split
  · exact PublishDiscipline_of_eq env s s rfl rfl
  split
  · exact PublishDiscipline_of_eq env s s rfl rfl
  split
  · exact PublishDiscipline_of_eq env s s rfl rfl
  split
  · exact PublishDiscipline_of_eq env s s rfl rfl
  simp only
  split
  · exact PublishDiscipline_of_eq env s s rfl rfl
  rename_i pmt _
  have hfr1 := PaymentRepository_Save_frame (env.fails .paymentSave) s pmt
  split
  · rename_i err s1 heq
    rw [heq] at hfr1
    exact PublishDiscipline_of_eq env s s1 hfr1.1 hfr1.2
  rename_i s1 heq1
  rw [heq1] at hfr1
  have hfr2 := IdempotencyStore_SaveKey_frame (env.fails .keySave) s1 req.IdempotencyKey
    (env.uuid 0)
  split
  · rename_i err s2 heq
    rw [heq] at hfr2
    exact PublishDiscipline_of_eq env s s2 (hfr2.1.trans hfr1.1) (hfr2.2.trans hfr1.2)
  rename_i s2 heq2
  rw [heq2] at hfr2
  apply PublishDiscipline_congr_left env s s2 _ (hfr2.1.trans hfr1.1) (hfr2.2.trans hfr1.2)
  have h := PublishDiscipline_append_publish env 0 0 s2
    (NewPaymentRequestedEvent (env.uuid 0) req.UserID req.Amount req.Currency req.ServiceID
      req.IdempotencyKey
      { ClientID := req.ClientID, RequestID := env.uuid 1, Source := "payment-api",
        Extra := [] } (env.clock 1)) (env.uuid 0) (env.uuid 2) rfl
  cases hf : env.fails (StoreCall.eventAppend 0)
  · have h2 := h.2 hf
    cases hg : env.fails (StoreCall.eventPublish 0) <;> rw [hg] at h2 <;> exact h2
  · exact h.1 hf

/-- The method `Execute` keeps the discipline. -/
theorem PublishDiscipline_Execute (env : Env) (s : Stores) (req : CreatePaymentRequest) :
    PublishDiscipline env s (Execute env s req).2 := by
  unfold Execute
  split
  · exact PublishDiscipline_of_eq env s s rfl rfl
  split
  · split
    · exact PublishDiscipline_of_eq env s s rfl rfl
    · exact PublishDiscipline_createPayment env s req
  · exact PublishDiscipline_createPayment env s req

/-- C28: in `Execute`, in each of the five coordinator handlers and in the
gateway simulator, for every invocation (whichever collaborator calls fail),
every event the publisher has received is the payload of a record that the same
invocation appended to the event log of the payment ID of the event, and when
the appends fail nothing is published; in the helper `publishEvent` a failed
append returns the error with the stores as they were. -/
theorem C28_append_before_publish (env : Env) (s : Stores) :
    (∀ req, PublishDiscipline env s (Execute env s req).2) ∧
    (∀ event, PublishDiscipline env s (HandlePaymentRequested env s event).2) ∧
    (∀ event, PublishDiscipline env s (HandleExternalPaymentSucceeded env s event).2) ∧
    (∀ event, PublishDiscipline env s (HandleExternalPaymentFailed env s event).2) ∧
    (∀ event, PublishDiscipline env s (HandleExternalPaymentTimeout env s event).2) ∧
    (∀ event, PublishDiscipline env s (HandlePaymentRefundRequested env s event).2) ∧
    (∀ alwaysSuccess draw event, PublishDiscipline env s
      (ExternalGatewayMock.HandleExternalPaymentRequested alwaysSuccess draw env s event).2) ∧
    (∀ k event paymentID, env.fails (.eventAppend k) = true →
      publishEvent env k s event paymentID =
        (some (.wrap "EVENT_STORE_ERROR" "failed to store event" ioError), s)) := by
  refine ⟨PublishDiscipline_Execute env s, PublishDiscipline_HandlePaymentRequested env s,
    PublishDiscipline_HandleExternalPaymentSucceeded env s,
    PublishDiscipline_HandleExternalPaymentFailed env s,
    PublishDiscipline_HandleExternalPaymentTimeout env s,
    PublishDiscipline_HandlePaymentRefundRequested env s,
    fun a d e => PublishDiscipline_gateway a d env s e, ?_⟩
  intro k event paymentID hf
  simp [publishEvent, EventStore.Append, hf]

/-- The discipline is not met by a publish without an append. -/
theorem PublishedAfterAppend_rejects_unlogged (s : Stores) (event : Event) :
    ¬ PublishedAfterAppend s { s with published := s.published ++ [event] } := by
  rintro ⟨_, new, hp, hr⟩
  have hnew : [event] = new := List.append_cancel_left hp
  obtain ⟨se, hse, _⟩ := hr event (by rw [← hnew]; simp) [] (by simp)
  cases hse

/-! ### C29 -/

/-- C29 fails on the code: the PaymentRequested event of the unit tests, with
the metadata (test-client, req-123, test), is handled for a payment of 100 ARS
and a wallet of 50 ARS; the handler publishes one event, PaymentFailed with
reason INSUFFICIENT_FUNDS, and that event carries the empty metadata, not the
metadata of the event being handled. -/
theorem C29_payment_failed_drops_metadata :
    sampleRequested.Metadata = sampleMetadata ∧
    (HandlePaymentRequested sampleEnv (storesWith samplePayment (sampleWallet 50))
        sampleRequested).2.published =
      [NewPaymentFailedEvent "123e4567-e89b-12d3-a456-426614174000" "user-123" 100
        "INSUFFICIENT_FUNDS" Metadata.zeroValue 1001] ∧
    (NewPaymentFailedEvent "123e4567-e89b-12d3-a456-426614174000" "user-123" 100
        "INSUFFICIENT_FUNDS" Metadata.zeroValue 1001).Metadata = ⟨"", "", "", []⟩ ∧
    (NewPaymentFailedEvent "123e4567-e89b-12d3-a456-426614174000" "user-123" 100
        "INSUFFICIENT_FUNDS" Metadata.zeroValue 1001).Metadata ≠ sampleRequested.Metadata := by
  refine ⟨rfl, ?_, rfl, by decide⟩
  rfl

/-! ### C30 -/

/-- The gateway simulator in random mode with a draw that is not below the
success rate: ExternalPaymentFailed with reason GATEWAY_REJECTED is appended
and published. -/
theorem gateway_rejects (draw : ℚ) (env : Env) (h : env.NoFaults) (s : Stores)
    (b : BaseEvent) (paymentID userID : String) (amount : ℚ) (currency serviceID : String)
    (hdraw : ¬ draw < gatewaySuccessRate) :
    ExternalGatewayMock.HandleExternalPaymentRequested false draw env s
        (.externalPaymentRequested b paymentID userID amount currency serviceID) =
      (none, { s with
        events := Function.update s.events paymentID
          (s.events paymentID ++
            [storedEventOf (env.uuid 1) paymentID
              (NewExternalPaymentFailedEvent paymentID "GATEWAY_REJECTED" "ERR_RANDOM_FAILURE"
                b.metadata (env.clock 0))]),
        published := s.published ++
          [NewExternalPaymentFailedEvent paymentID "GATEWAY_REJECTED" "ERR_RANDOM_FAILURE"
            b.metadata (env.clock 0)] }) := by
  simp [ExternalGatewayMock.HandleExternalPaymentRequested, hdraw, EventStore.Append,
    EventPublisher.Publish, h _, storedEventOf, Event.Metadata, Event.base]

/-- The gateway-reject saga for an accepted request: it runs to its end, the
log of the payment gains six events, the payment ends FAILED with reason
GATEWAY_REJECTED and the wallet balance is the one before. -/
theorem gatewayRejectSaga_core (env0 env1 env2 env3 env4 : Env) (h0 : env0.NoFaults)
    (h1 : env1.NoFaults) (h2 : env2.NoFaults) (h3 : env3.NoFaults) (h4 : env4.NoFaults)
    (draw : ℚ) (s : Stores) (req : CreatePaymentRequest) (w : Wallet) (c : Currency)
    (hu : req.UserID ≠ "") (hul : req.UserID.utf8ByteSize ≤ 255)
    (hsv : req.ServiceID ≠ "") (hsl : req.ServiceID.utf8ByteSize ≤ 255)
    (hk : req.IdempotencyKey ≠ "") (hkl : req.IdempotencyKey.utf8ByteSize ≤ 255)
    (hraw : req.Currency ≠ "")
    (hcur : NewCurrency env0.upperTrim req.Currency = .ok c) (hpos : 0 < req.Amount)
    (hid : env0.uuid 0 ≠ "") (hparse : env4.parseUUID (env0.uuid 0) = true)
    (hnone : s.keys req.IdempotencyKey = none)
    (hw : s.wallets req.UserID = some w) (hown : w.userID = ⟨req.UserID⟩)
    (hc : w.balance.currency = c) (hle : req.Amount ≤ w.balance.amount)
    (hdraw : ¬ draw < gatewaySuccessRate) :
    ∃ s5, gatewayRejectSaga env0 env1 env2 env3 env4 draw s req = some s5 ∧
      eventTypesOf s5 (env0.uuid 0) = eventTypesOf s (env0.uuid 0) ++
        ["PaymentRequested", "WalletDebited", "ExternalPaymentRequested",
          "ExternalPaymentFailed", "PaymentRefundRequested", "WalletCredited"] ∧
      (∃ p, s5.payments (env0.uuid 0) = some p ∧ p.status = PaymentStatusFailed ∧
        p.failureReason = "GATEWAY_REJECTED") ∧
      (∃ w5, s5.wallets req.UserID = some w5 ∧ w5.balance = w.balance) := by
  have hv : validateRequest req = none :=
    (validateRequest_none_iff req).2 ⟨hu, hpos, hraw, hsv, hk⟩
  -- intake
  obtain ⟨s1, e1, hp1, hw1, hev1, hlast1⟩ : ∃ s1,
      Execute env0 s req = (.ok ⟨env0.uuid 0, "PENDING"⟩, s1) ∧
      s1.payments (env0.uuid 0) =
        some { id := ⟨env0.uuid 0⟩, userID := ⟨req.UserID⟩, serviceID := ⟨req.ServiceID⟩,
               idempotencyKey := ⟨req.IdempotencyKey⟩, money := ⟨req.Amount, c⟩,
               status := PaymentStatusPending, failureReason := "", externalTxID := "",
               createdAt := env0.clock 0, updatedAt := env0.clock 0 } ∧
      s1.wallets req.UserID = some w ∧
      eventTypesOf s1 (env0.uuid 0) = eventTypesOf s (env0.uuid 0) ++ ["PaymentRequested"] ∧
      s1.published.getLast? =
        some (.paymentRequested
          (NewBaseEvent "PaymentRequested" ⟨req.ClientID, env0.uuid 1, "payment-api", []⟩
            (env0.clock 1))
          (env0.uuid 0) req.UserID req.Amount req.Currency req.ServiceID
          req.IdempotencyKey) := by
    refine ⟨_, (Execute_no_record env0 s req hv hnone).trans
      (createPayment_accepted env0 h0 s req w c hu hul hsv hsl hk hkl hcur hpos hid hw hc
        hle), by simp, hw, ?_, ?_⟩
    · simp [eventTypesOf, storedEventOf, Event.EventType, Event.base,
        NewPaymentRequestedEvent, NewBaseEvent]
    · simp [NewPaymentRequestedEvent]
  -- the coordinator debits the wallet and asks the gateway
  obtain ⟨s2, e2, hp2, hw2, hev2, hlast2⟩ : ∃ s2,
      HandlePaymentRequested env1 s1
        (.paymentRequested
          (NewBaseEvent "PaymentRequested" ⟨req.ClientID, env0.uuid 1, "payment-api", []⟩
            (env0.clock 1))
          (env0.uuid 0) req.UserID req.Amount req.Currency req.ServiceID
          req.IdempotencyKey) = (none, s2) ∧
      s2.payments (env0.uuid 0) = s1.payments (env0.uuid 0) ∧
      s2.wallets req.UserID =
        some { w with balance := ⟨w.balance.amount - req.Amount, w.balance.currency⟩,
                      updatedAt := env1.clock 0 } ∧
      eventTypesOf s2 (env0.uuid 0) = eventTypesOf s1 (env0.uuid 0) ++
        ["WalletDebited", "ExternalPaymentRequested"] ∧
      s2.published.getLast? =
        some (.externalPaymentRequested
          (NewBaseEvent "ExternalPaymentRequested"
            ⟨req.ClientID, env0.uuid 1, "payment-api", []⟩ (env1.clock 2))
          (env0.uuid 0) req.UserID (env1.float64 req.Amount) c.code req.ServiceID) := by
    refine ⟨_, HandlePaymentRequested_debit env1 h1 s1
      { id := ⟨env0.uuid 0⟩, userID := ⟨req.UserID⟩, serviceID := ⟨req.ServiceID⟩,
        idempotencyKey := ⟨req.IdempotencyKey⟩, money := ⟨req.Amount, c⟩,
        status := PaymentStatusPending, failureReason := "", externalTxID := "",
        createdAt := env0.clock 0, updatedAt := env0.clock 0 } w
      (NewBaseEvent "PaymentRequested" ⟨req.ClientID, env0.uuid 1, "payment-api", []⟩
        (env0.clock 1)) req.Amount req.Currency req.ServiceID req.IdempotencyKey
      hp1 rfl hw1 hown hc hle, rfl, by simp, ?_, ?_⟩
    · simp [eventTypesOf, storedEventOf, Event.EventType, Event.base,
        NewWalletDebitedEvent, NewExternalPaymentRequestedEvent, NewBaseEvent]
    · simp [NewExternalPaymentRequestedEvent, NewBaseEvent, Money.AmountFloat]
  rw [hp1] at hp2
  -- the gateway rejects
  obtain ⟨s3, e3, hp3, hw3, hev3, hlast3⟩ : ∃ s3,
      ExternalGatewayMock.HandleExternalPaymentRequested false draw env2 s2
        (.externalPaymentRequested
          (NewBaseEvent "ExternalPaymentRequested"
            ⟨req.ClientID, env0.uuid 1, "payment-api", []⟩ (env1.clock 2))
          (env0.uuid 0) req.UserID (env1.float64 req.Amount) c.code req.ServiceID) = (none, s3) ∧
      s3.payments (env0.uuid 0) = s2.payments (env0.uuid 0) ∧
      s3.wallets req.UserID = s2.wallets req.UserID ∧
      eventTypesOf s3 (env0.uuid 0) = eventTypesOf s2 (env0.uuid 0) ++
        ["ExternalPaymentFailed"] ∧
      s3.published.getLast? =
        some (.externalPaymentFailed
          (NewBaseEvent "ExternalPaymentFailed"
            ⟨req.ClientID, env0.uuid 1, "payment-api", []⟩ (env2.clock 0))
          (env0.uuid 0) "GATEWAY_REJECTED" "ERR_RANDOM_FAILURE") := by
    refine ⟨_, gateway_rejects draw env2 h2 s2 _ _ _ _ _ _ hdraw, rfl, rfl, ?_, ?_⟩
    · simp [eventTypesOf, storedEventOf, Event.EventType, Event.base,
        NewExternalPaymentFailedEvent, NewBaseEvent]
    · simp [NewExternalPaymentFailedEvent, NewBaseEvent]
  rw [hp2] at hp3
  rw [hw2] at hw3
  -- the coordinator marks the payment FAILED and asks for the refund
  obtain ⟨s4, e4, hp4, hw4, hev4, hlast4⟩ : ∃ s4,
      HandleExternalPaymentFailed env3 s3
        (.externalPaymentFailed
          (NewBaseEvent "ExternalPaymentFailed"
            ⟨req.ClientID, env0.uuid 1, "payment-api", []⟩ (env2.clock 0))
          (env0.uuid 0) "GATEWAY_REJECTED" "ERR_RANDOM_FAILURE") = (none, s4) ∧
      s4.payments (env0.uuid 0) =
        some { id := ⟨env0.uuid 0⟩, userID := ⟨req.UserID⟩, serviceID := ⟨req.ServiceID⟩,
               idempotencyKey := ⟨req.IdempotencyKey⟩, money := ⟨req.Amount, c⟩,
               status := PaymentStatusFailed, failureReason := "GATEWAY_REJECTED",
               externalTxID := "", createdAt := env0.clock 0, updatedAt := env3.clock 0 } ∧
      s4.wallets req.UserID = s3.wallets req.UserID ∧
      eventTypesOf s4 (env0.uuid 0) = eventTypesOf s3 (env0.uuid 0) ++
        ["PaymentRefundRequested"] ∧
      s4.published.getLast? =
        some (.paymentRefundRequested
          (NewBaseEvent "PaymentRefundRequested"
            ⟨req.ClientID, env0.uuid 1, "payment-api", []⟩ (env3.clock 1))
          (env0.uuid 0) req.UserID (env3.float64 req.Amount) "GATEWAY_REJECTED") := by
    refine ⟨_, initiateRefund_pending env3 h3 s3
      { id := ⟨env0.uuid 0⟩, userID := ⟨req.UserID⟩, serviceID := ⟨req.ServiceID⟩,
        idempotencyKey := ⟨req.IdempotencyKey⟩, money := ⟨req.Amount, c⟩,
        status := PaymentStatusPending, failureReason := "", externalTxID := "",
        createdAt := env0.clock 0, updatedAt := env0.clock 0 } "GATEWAY_REJECTED"
      ⟨req.ClientID, env0.uuid 1, "payment-api", []⟩ hp3 rfl (by decide), by simp, rfl,
      ?_, ?_⟩
    · simp [eventTypesOf, storedEventOf, Event.EventType, Event.base,
        NewPaymentRefundRequestedEvent, NewBaseEvent]
    · simp [NewPaymentRefundRequestedEvent, NewBaseEvent, Money.AmountFloat]
  rw [hw3] at hw4
  -- the coordinator credits the wallet
  obtain ⟨s5, e5, hp5, hw5, hev5⟩ : ∃ s5,
      HandlePaymentRefundRequested env4 s4
        (.paymentRefundRequested
          (NewBaseEvent "PaymentRefundRequested"
            ⟨req.ClientID, env0.uuid 1, "payment-api", []⟩ (env3.clock 1))
          (env0.uuid 0) req.UserID (env3.float64 req.Amount) "GATEWAY_REJECTED") = (none, s5) ∧
      s5.payments (env0.uuid 0) = s4.payments (env0.uuid 0) ∧
      s5.wallets req.UserID =
        some { w with
          balance := ⟨w.balance.amount - req.Amount + req.Amount, w.balance.currency⟩,
          updatedAt := env4.clock 0 } ∧
      eventTypesOf s5 (env0.uuid 0) = eventTypesOf s4 (env0.uuid 0) ++ ["WalletCredited"] := by
    refine ⟨_, HandlePaymentRefundRequested_credit env4 h4 s4
      { id := ⟨env0.uuid 0⟩, userID := ⟨req.UserID⟩, serviceID := ⟨req.ServiceID⟩,
        idempotencyKey := ⟨req.IdempotencyKey⟩, money := ⟨req.Amount, c⟩,
        status := PaymentStatusFailed, failureReason := "GATEWAY_REJECTED",
        externalTxID := "", createdAt := env0.clock 0, updatedAt := env3.clock 0 }
      { w with balance := ⟨w.balance.amount - req.Amount, w.balance.currency⟩,
               updatedAt := env1.clock 0 }
      (NewBaseEvent "PaymentRefundRequested"
        ⟨req.ClientID, env0.uuid 1, "payment-api", []⟩ (env3.clock 1))
      (env3.float64 req.Amount) "GATEWAY_REJECTED" hid hparse hp4 rfl hw4 hown hc.symm hpos,
      rfl, by simp,
      ?_⟩
    simp [eventTypesOf, storedEventOf, Event.EventType, Event.base,
      NewWalletCreditedEvent, NewBaseEvent]
  refine ⟨s5, ?_, ?_, ⟨_, hp5.trans hp4, rfl, rfl⟩, ⟨_, hw5, ?_⟩⟩
  · simp only [gatewayRejectSaga, e1, hlast1, e2, hlast2, e3, hlast3, e4, hlast4, e5]
  · rw [hev5, hev4, hev3, hev2, hev1]
    simp
  · show (⟨w.balance.amount - req.Amount + req.Amount, w.balance.currency⟩ : Money) =
      w.balance
    rw [sub_add_cancel]

/-- C30, as amended: in the gateway-reject saga (intake accepts the request with
working collaborators; PaymentRequested is handled; the gateway simulator, whose
draw is not below its success rate, answers ExternalPaymentFailed with reason
GATEWAY_REJECTED; ExternalPaymentFailed is handled; the resulting
PaymentRefundRequested is handled), every step succeeds and the event log of
the payment ends up containing events of the six types PaymentRequested,
WalletDebited, ExternalPaymentRequested, ExternalPaymentFailed,
PaymentRefundRequested and WalletCredited; the saga adds one event of each of
the six and no other (whatever the order in which the store lists them), so the
log contains a PaymentFailed event only if it did before the saga.  The payment
ends FAILED with reason GATEWAY_REJECTED and the wallet balance is the one
before. -/
theorem C30_gateway_reject_log (env0 env1 env2 env3 env4 : Env) (h0 : env0.NoFaults)
    (h1 : env1.NoFaults) (h2 : env2.NoFaults) (h3 : env3.NoFaults) (h4 : env4.NoFaults)
    (draw : ℚ) (s : Stores) (req : CreatePaymentRequest) (w : Wallet) (c : Currency)
    (hu : req.UserID ≠ "") (hul : req.UserID.utf8ByteSize ≤ 255)
    (hsv : req.ServiceID ≠ "") (hsl : req.ServiceID.utf8ByteSize ≤ 255)
    (hk : req.IdempotencyKey ≠ "") (hkl : req.IdempotencyKey.utf8ByteSize ≤ 255)
    (hraw : req.Currency ≠ "")
    (hcur : NewCurrency env0.upperTrim req.Currency = .ok c) (hpos : 0 < req.Amount)
    (hid : env0.uuid 0 ≠ "") (hparse : env4.parseUUID (env0.uuid 0) = true)
    (hnone : s.keys req.IdempotencyKey = none)
    (hw : s.wallets req.UserID = some w) (hown : w.userID = ⟨req.UserID⟩)
    (hc : w.balance.currency = c) (hle : req.Amount ≤ w.balance.amount)
    (hdraw : ¬ draw < gatewaySuccessRate) :
    ∃ s5, gatewayRejectSaga env0 env1 env2 env3 env4 draw s req = some s5 ∧
      (∀ t ∈ ["PaymentRequested", "WalletDebited", "ExternalPaymentRequested",
          "ExternalPaymentFailed", "PaymentRefundRequested", "WalletCredited"],
        t ∈ eventTypesOf s5 (env0.uuid 0)) ∧
      (eventTypesOf s5 (env0.uuid 0)).Perm (eventTypesOf s (env0.uuid 0) ++
        ["PaymentRequested", "WalletDebited", "ExternalPaymentRequested",
          "ExternalPaymentFailed", "PaymentRefundRequested", "WalletCredited"]) ∧
      ("PaymentFailed" ∈ eventTypesOf s5 (env0.uuid 0) ↔
        "PaymentFailed" ∈ eventTypesOf s (env0.uuid 0)) ∧
      (∃ p, s5.payments (env0.uuid 0) = some p ∧ p.status = PaymentStatusFailed ∧
        p.failureReason = "GATEWAY_REJECTED") ∧
      (∃ w5, s5.wallets req.UserID = some w5 ∧ w5.balance = w.balance) := by
  obtain ⟨s5, hrun, hlog, hpay, hwal⟩ := gatewayRejectSaga_core env0 env1 env2 env3 env4 h0 h1
    h2 h3 h4 draw s req w c hu hul hsv hsl hk hkl hraw hcur hpos hid hparse hnone hw hown hc
    hle hdraw
  refine ⟨s5, hrun, ?_, ?_, ?_, hpay, hwal⟩
  · intro t ht
    rw [hlog]
    exact List.mem_append_right _ ht
  · rw [hlog]
  · rw [hlog, List.mem_append]
    constructor
    · rintro (h | h)
      · exact h
      · exact absurd h (by decide)
    · exact Or.inl

/-- C30 (amended) at the request of the unit tests (100 ARS) with a wallet of
400 ARS and the draw 7/8. -/
theorem C30_gateway_reject_log_witness :
    (sampleEnv.NoFaults ∧
      NewCurrency sampleEnv.upperTrim sampleRequest.Currency = .ok ⟨"ARS"⟩ ∧
      0 < sampleRequest.Amount ∧
      sampleEnv.parseUUID (sampleEnv.uuid 0) = true ∧
      (storesWithWallet (sampleWallet 400)).keys sampleRequest.IdempotencyKey = none ∧
      (storesWithWallet (sampleWallet 400)).wallets sampleRequest.UserID
        = some (sampleWallet 400) ∧
      (sampleWallet 400).userID = ⟨sampleRequest.UserID⟩ ∧
      sampleRequest.Amount ≤ (sampleWallet 400).balance.amount ∧
      ¬ (7 / 8 : ℚ) < gatewaySuccessRate) ∧
    ∃ s5, gatewayRejectSaga sampleEnv sampleEnv sampleEnv sampleEnv sampleEnv (7 / 8)
        (storesWithWallet (sampleWallet 400)) sampleRequest = some s5 ∧
      ∀ t ∈ ["PaymentRequested", "WalletDebited", "ExternalPaymentRequested",
          "ExternalPaymentFailed", "PaymentRefundRequested", "WalletCredited"],
        t ∈ eventTypesOf s5 "123e4567-e89b-12d3-a456-426614174000" :=
  have hdraw : ¬ (7 / 8 : ℚ) < gatewaySuccessRate := by
    unfold gatewaySuccessRate
    norm_num
  have hall := C30_gateway_reject_log sampleEnv sampleEnv sampleEnv sampleEnv sampleEnv
    sampleEnv_noFaults sampleEnv_noFaults sampleEnv_noFaults sampleEnv_noFaults
    sampleEnv_noFaults (7 / 8) (storesWithWallet (sampleWallet 400)) sampleRequest
    (sampleWallet 400) ⟨"ARS"⟩
    (by decide) (by decide) (by decide) (by decide) (by decide) (by decide) (by decide)
    (by rfl) (by decide) (by decide) (by decide) rfl rfl rfl rfl (by decide) hdraw
  ⟨⟨sampleEnv_noFaults, by rfl, by decide, by decide, rfl, rfl, rfl, by decide, hdraw⟩,
    hall.elim fun s5 h => ⟨s5, h.1, h.2.1⟩⟩

/-- C30 as stated fails: the gateway-reject saga for the request of the unit
tests (100 ARS) and a wallet of 400 ARS runs to its end, the event log of the
payment then holds six events, one of each of six types, and none of them is a
PaymentFailed event (the draw of the gateway simulator is 7/8). -/
theorem C30_no_payment_failed_event :
    ∃ s5, gatewayRejectSaga sampleEnv sampleEnv sampleEnv sampleEnv sampleEnv (7 / 8)
        (storesWithWallet (sampleWallet 400)) sampleRequest = some s5 ∧
      (eventTypesOf s5 "123e4567-e89b-12d3-a456-426614174000").Perm
        ["PaymentRequested", "WalletDebited", "ExternalPaymentRequested",
          "ExternalPaymentFailed", "PaymentRefundRequested", "WalletCredited"] ∧
      "PaymentFailed" ∉ eventTypesOf s5 "123e4567-e89b-12d3-a456-426614174000" := by
  have hdraw : ¬ (7 / 8 : ℚ) < gatewaySuccessRate := by
    unfold gatewaySuccessRate
    norm_num
  obtain ⟨s5, hrun, hlog, _, _⟩ := gatewayRejectSaga_core sampleEnv sampleEnv sampleEnv
    sampleEnv sampleEnv sampleEnv_noFaults sampleEnv_noFaults sampleEnv_noFaults
    sampleEnv_noFaults sampleEnv_noFaults (7 / 8) (storesWithWallet (sampleWallet 400))
    sampleRequest (sampleWallet 400) ⟨"ARS"⟩
    (by decide) (by decide) (by decide) (by decide) (by decide) (by decide) (by decide)
    (by rfl) (by decide) (by decide) (by decide) rfl rfl rfl rfl (by decide) hdraw
  have hlog2 : eventTypesOf s5 "123e4567-e89b-12d3-a456-426614174000" =
      ["PaymentRequested", "WalletDebited", "ExternalPaymentRequested",
        "ExternalPaymentFailed", "PaymentRefundRequested", "WalletCredited"] := hlog
  exact ⟨s5, hrun, by rw [hlog2], by rw [hlog2]; decide⟩

/-! ### C31 -/

/-- C31: for all Money values a, b, c.  If the currencies of a and b differ,
`Add`, `Subtract`, `IsGreaterThan`, `IsGreaterThanOrEqual` and `IsLessThan`
all return an error.  If a, b and c share one currency, `Add` succeeds on
them, `a.Add b = b.Add a`, and adding c to the sum of a and b gives the same
Money as adding the sum of b and c to a. -/
theorem C31_money_arithmetic (a b c : Money) :
    (a.currency ≠ b.currency →
      (∃ e, a.Add b = .error e) ∧ (∃ e, a.Subtract b = .error e) ∧
      (∃ e, a.IsGreaterThan b = .error e) ∧ (∃ e, a.IsGreaterThanOrEqual b = .error e) ∧
      (∃ e, a.IsLessThan b = .error e)) ∧
    (a.currency = b.currency → b.currency = c.currency →
      a.Add b = b.Add a ∧
      ∃ ab bc abc, a.Add b = .ok ab ∧ b.Add c = .ok bc ∧
        ab.Add c = .ok abc ∧ a.Add bc = .ok abc) := by
  constructor
  · intro h
    have hne : a.currency.Equals b.currency = false := (Currency_Equals_false_iff _ _).2 h
    refine ⟨?_, ?_, ?_, ?_, ?_⟩ <;>
      simp [Money.Add, Money.Subtract, Money.IsGreaterThan, Money.IsGreaterThanOrEqual,
        Money.IsLessThan, hne]
  · intro hab hbc
    have e1 : a.currency.Equals b.currency = true := (Currency_Equals_iff _ _).2 hab
    have e2 : b.currency.Equals c.currency = true := (Currency_Equals_iff _ _).2 hbc
    have e3 : b.currency.Equals a.currency = true := (Currency_Equals_iff _ _).2 hab.symm
    have e4 : a.currency.Equals c.currency = true :=
      (Currency_Equals_iff _ _).2 (hab.trans hbc)
    constructor
    · simp [Money.Add, e1, e3, hab, add_comm]
    · refine ⟨⟨a.amount + b.amount, a.currency⟩, ⟨b.amount + c.amount, b.currency⟩,
        ⟨a.amount + b.amount + c.amount, a.currency⟩, ?_, ?_, ?_, ?_⟩
      · simp [Money.Add, e1]
      · simp [Money.Add, e2]
      · simp [Money.Add, e4]
      · simp [Money.Add, e1, add_assoc]

/-! ### C33 -/

/-- The codes of the table are three characters long. -/
theorem validCurrencies_length (x : String) (h : x ∈ validCurrencies) :
    x.length = 3 ∧ x.utf8ByteSize = 3 ∧ x ≠ "" := by
  simp only [validCurrencies, List.mem_cons, List.mem_singleton, List.not_mem_nil,
    or_false] at h
  rcases h with rfl | rfl | rfl | rfl | rfl | rfl | rfl <;> decide

/-- What `NewCurrency` accepts and what it returns. -/
theorem NewCurrency_ok_iff (upperTrim : String → String) (s : String) (c : Currency) :
    NewCurrency upperTrim s = .ok c ↔ (upperTrim s ∈ validCurrencies ∧ c = ⟨upperTrim s⟩) := by
  unfold NewCurrency
  simp only
  constructor
  · intro h
    split at h
    · cases h
    split at h
    · cases h
    split at h
    · cases h
    rename_i _ _ hc
    refine ⟨?_, (Except.ok.inj h).symm⟩
    simpa using hc
  · rintro ⟨hm, rfl⟩
    obtain ⟨_, h3, hne⟩ := validCurrencies_length _ hm
    have hc : validCurrencies.contains (upperTrim s) = true := by simpa using hm
    rw [if_neg (by simpa using hne), if_neg (by simp [h3]), if_neg (by rw [hc]; decide)]

/-- C33: `NewCurrency s` succeeds exactly when `s`, trimmed of surrounding white
space and upper-cased, is one of ARS, USD, EUR, BRL, MXN, CLP, COP; the code of
the result is that normalised string, of three letters, and `NewCurrency`
applied to the code of a currency it returned gives that currency again
(trimming and upper-casing leave the seven codes as they are). -/
theorem C33_new_currency (upperTrim : String → String)
    (hfix : ∀ x ∈ validCurrencies, upperTrim x = x) (s : String) :
    ((∃ c, NewCurrency upperTrim s = .ok c) ↔ upperTrim s ∈ validCurrencies) ∧
    (∀ c, NewCurrency upperTrim s = .ok c →
      c.code = upperTrim s ∧ c.code.length = 3 ∧ NewCurrency upperTrim c.code = .ok c) := by
  constructor
  · constructor
    · rintro ⟨c, hc⟩
      exact ((NewCurrency_ok_iff upperTrim s c).1 hc).1
    · intro hm
      exact ⟨⟨upperTrim s⟩, (NewCurrency_ok_iff upperTrim s _).2 ⟨hm, rfl⟩⟩
  · intro c hc
    obtain ⟨hm, rfl⟩ := (NewCurrency_ok_iff upperTrim s c).1 hc
    refine ⟨rfl, (validCurrencies_length _ hm).1, ?_⟩
    exact (NewCurrency_ok_iff upperTrim _ _).2
      ⟨by rw [hfix _ hm]; exact hm, by rw [hfix _ hm]⟩

/-- C33 at the input " ars ": it is accepted as ARS. -/
theorem C33_new_currency_witness :
    (∀ x ∈ validCurrencies, asciiUpperTrim x = x) ∧
    NewCurrency asciiUpperTrim " ars " = .ok ⟨"ARS"⟩ ∧
    ((∃ c, NewCurrency asciiUpperTrim " ars " = .ok c) ↔
      asciiUpperTrim " ars " ∈ validCurrencies) :=
  ⟨by decide, by rfl, (C33_new_currency asciiUpperTrim (by decide) " ars ").1⟩

/-! ### C34 -/

/-- What the code does: `NewIdempotencyKey s` succeeds exactly when `s` is
non-empty and its Go `len`, the number of bytes of its UTF-8 encoding, is at
most 255; `String()` then returns `s` unchanged. -/
theorem NewIdempotencyKey_ok_iff (s : String) :
    ((∃ k, NewIdempotencyKey s = .ok k) ↔ (s ≠ "" ∧ s.utf8ByteSize ≤ 255)) ∧
    (∀ k, NewIdempotencyKey s = .ok k → k.String = s) := by
  unfold NewIdempotencyKey
  by_cases h1 : s = ""
  · simp [h1]
  · by_cases h2 : s.utf8ByteSize ≤ 255
    · simp [h1, not_lt.2 h2, h2, IdempotencyKey.String]
    · simp [h1, not_le.1 h2, h2]

set_option maxRecDepth 100000 in
/-- C34, where the code breaks it: a key of 128 characters, each of two bytes in
UTF-8, is non-empty and at most 255 characters long, and `NewIdempotencyKey`
rejects it, with the message that states a limit of 255 characters. -/
theorem C34_accented_key_rejected :
    sampleAccentedKey ≠ "" ∧ sampleAccentedKey.length = 128 ∧
    sampleAccentedKey.utf8ByteSize = 256 ∧
    NewIdempotencyKey sampleAccentedKey =
      .error (.msg "idempotency key too long (max 255 characters)") := by
  refine ⟨by decide, by decide, by decide, by rfl⟩

/-! ### C39 -/

/-- C39: for every wallet w and Money a, if `w.CanDebit a` holds then `w.Debit a`
succeeds.  So the subtraction of `Debit` fails only where `CanDebit` is false,
which `Debit` has ruled out before it subtracts; a `Debit` that returns an error
leaves the wallet as it was (the balance is never overwritten with the zero
Money); and `Process` never reports DEBIT_FAILED. -/
theorem C39_can_debit_implies_debit (w : Wallet) (a : Money) (now : Nat) :
    (w.CanDebit a = true →
      w.Debit a now =
        (.ok (w.balance, ⟨w.balance.amount - a.amount, w.balance.currency⟩),
          { w with balance := ⟨w.balance.amount - a.amount, w.balance.currency⟩,
                   updatedAt := now })) ∧
    (∀ e, w.balance.Subtract a = .error e → w.CanDebit a = false) ∧
    (∀ e w1, w.Debit a now = (.error e, w1) → w1 = w) ∧
    (∀ p r p1 w1, Process p w now = (.ok r, p1, w1) → r.FailureReason ≠ "DEBIT_FAILED") := by
  refine ⟨Wallet_Debit_of_canDebit w a now, ?_, ?_, ?_⟩
  · intro e he
    cases hcd : w.CanDebit a
    · rfl
    · obtain ⟨hc, hle⟩ := (Wallet_CanDebit_iff w a).1 hcd
      have hnn : ¬ (w.balance.amount - a.amount < 0) := by linarith
      simp [Money.Subtract, (Currency_Equals_iff _ _).2 hc.symm, hnn] at he
  · intro e w1 he
    cases hcd : w.CanDebit a
    · obtain ⟨e2, h2⟩ := Wallet_Debit_of_not_canDebit w a now hcd
      rw [h2] at he
      exact (Prod.mk.inj he).2.symm
    · rw [Wallet_Debit_of_canDebit w a now hcd] at he
      cases (Prod.mk.inj he).1
  · intro p r p1 w1 hP
    unfold Process at hP
    split at hP
    · cases (Prod.mk.inj hP).1
    split at hP
    · rw [← Except.ok.inj (Prod.mk.inj hP).1]; decide
    split at hP
    · rw [← Except.ok.inj (Prod.mk.inj hP).1]; decide
    split at hP
    · rw [← Except.ok.inj (Prod.mk.inj hP).1]; decide
    rename_i _ _ _ hcd
    have hcd2 : w.CanDebit p.money = true := by simpa using hcd
    rw [Wallet_Debit_of_canDebit w p.money now hcd2] at hP
    simp only at hP
    rw [← Except.ok.inj (Prod.mk.inj hP).1]
    show ("" : String) ≠ "DEBIT_FAILED"
    decide

/-! ### C32 -/

/-- A Money that `NewMoney` returns has the amount given, which is not negative. -/
theorem NewMoney_nonneg (amount : Decimal) (currency : Currency) (m : Money)
    (h : NewMoney amount currency = .ok m) : 0 ≤ m.amount := by
  unfold NewMoney at h
  split at h
  · cases h
  split at h
  · cases h
  rename_i hn _
  rw [← Except.ok.inj h]
  exact not_lt.1 hn

/-- `Subtract` on equal currencies. -/
theorem Money_Subtract_same_currency (a b : Money) (hc : a.currency = b.currency) :
    a.Subtract b =
      if a.amount - b.amount < 0 then .error (.msg "result would be negative")
      else .ok ⟨a.amount - b.amount, a.currency⟩ := by
  simp [Money.Subtract, (Currency_Equals_iff _ _).2 hc]

/-- C32: every Money value returned without error by `NewMoney`,
`NewMoneyFromString`, `Zero`, `UnmarshalJSON`, and by `Add`, `Subtract` or
`Multiply` applied to such values, has an amount that is not negative; and
`a.Subtract b` on equal currencies succeeds exactly when the amount of `a` is at
least the amount of `b`, and its result then has the amount of `a` minus the
amount of `b`. -/
theorem C32_money_never_negative (parseDecimal : String → Option Decimal)
    (upperTrim : String → String) :
    (∀ m, Money.Built parseDecimal upperTrim m → 0 ≤ m.amount) ∧
    (∀ a b : Money, a.currency = b.currency →
      ((∃ m, a.Subtract b = .ok m) ↔ b.amount ≤ a.amount) ∧
      (∀ m, a.Subtract b = .ok m → m.amount = a.amount - b.amount)) := by
  constructor
  · intro m hm
    induction hm with
    | newMoney amount currency m h => exact NewMoney_nonneg amount currency m h
    | newMoneyFromString amount currency m h =>
      unfold NewMoneyFromString at h
      split at h
      · cases h
      · exact NewMoney_nonneg _ currency m h
    | zero currency => exact le_refl _
    | unmarshalJSON receiver data m h =>
      unfold Money.UnmarshalJSON at h
      simp only at h
      split at h
      · cases (Prod.mk.inj h).1
      split at h
      · cases (Prod.mk.inj h).1
      split at h
      · cases (Prod.mk.inj h).1
      split at h
      · cases (Prod.mk.inj h).1
      rename_i money hnew
      rw [← (Prod.mk.inj h).2]
      exact NewMoney_nonneg _ _ _ hnew
    | add a b m _ _ h iha ihb =>
      unfold Money.Add at h
      split at h
      · cases h
      · rw [← Except.ok.inj h]
        exact add_nonneg iha ihb
    | subtract a b m _ _ h _ _ =>
      unfold Money.Subtract at h
      split at h
      · cases h
      simp only at h
      split at h
      · cases h
      rename_i hn
      rw [← Except.ok.inj h]
      exact not_lt.1 hn
    | multiply a factor m _ h _ =>
      unfold Money.Multiply at h
      simp only at h
      split at h
      · cases h
      rename_i hn
      rw [← Except.ok.inj h]
      exact not_lt.1 hn
  · intro a b hc
    rw [Money_Subtract_same_currency a b hc]
    by_cases hn : a.amount - b.amount < 0
    · rw [if_pos hn]
      constructor
      · constructor
        · rintro ⟨m, hm⟩
          cases hm
        · intro hle
          linarith
      · intro m hm
        cases hm
    · rw [if_neg hn]
      constructor
      · constructor
        · intro _
          linarith
        · intro _
          exact ⟨_, rfl⟩
      · intro m hm
        rw [← Except.ok.inj hm]

/-! ### C35 -/

/-- A bind in `Except` that returns a value. -/
theorem Except_bind_ok_iff {α β : Type} (x : Except Error α) (f : α → Except Error β) (b : β) :
    (x >>= f) = .ok b ↔ ∃ a, x = .ok a ∧ f a = .ok b := by
  cases x <;> simp [bind, Except.bind]

/-- A `pure` in `Except` returns its value. -/
theorem Except_pure_ok_iff {α : Type} (a b : α) :
    (pure a : Except Error α) = .ok b ↔ a = b := by
  simp [pure, Except.pure]

/-- Decoding into a `string` succeeds exactly on strings and `null`. -/
theorem decodeString_ok_iff (vs : List JSON) (cur : String) :
    (∃ s, decodeString cur vs = .ok s) ↔ vs.all JSON.isText = true := by
  induction vs generalizing cur with
  | nil => simp [decodeString]
  | cons v rest ih =>
    cases v <;> simp [decodeString, JSON.isText, ih]

/-- Decoding into a `float64` succeeds exactly on numbers and `null`. -/
theorem decodeFloat64_ok_iff (vs : List JSON) (cur : ℚ) :
    (∃ q, decodeFloat64 cur vs = .ok q) ↔ vs.all JSON.isNumber = true := by
  induction vs generalizing cur with
  | nil => simp [decodeFloat64]
  | cons v rest ih =>
    cases v <;> simp [decodeFloat64, JSON.isNumber, ih]

/-- Decoding the members of a map of strings. -/
theorem decodeEntries_ok_iff (entries : List (String × JSON)) (cur : List (String × String)) :
    (∃ m, decodeEntries cur entries = .ok m) ↔
      (entries.all fun entry => entry.2.isText) = true := by
  induction entries generalizing cur with
  | nil => simp [decodeEntries]
  | cons entry rest ih =>
    obtain ⟨key, v⟩ := entry
    cases v <;> simp [decodeEntries, JSON.isText, ih]

/-- Decoding into a map of strings. -/
theorem decodeStringMap_ok_iff (vs : List JSON) (cur : List (String × String)) :
    (∃ m, decodeStringMap cur vs = .ok m) ↔ vs.all JSON.isTextMap = true := by
  induction vs generalizing cur with
  | nil => simp [decodeStringMap]
  | cons v rest ih =>
    cases v with
    | object entries =>
      cases h : decodeEntries cur entries with
      | error err =>
        have hno : ¬ ((entries.all fun entry => entry.2.isText) = true) := by
          rw [← decodeEntries_ok_iff entries cur, h]
          simp
        simp [decodeStringMap, h, JSON.isTextMap, hno]
      | ok m =>
        have hyes : (entries.all fun entry => entry.2.isText) = true := by
          rw [← decodeEntries_ok_iff entries cur, h]
          exact ⟨m, rfl⟩
        simp [decodeStringMap, h, JSON.isTextMap, ih]
        intro _
        simpa using hyes
    | _ => simp [decodeStringMap, JSON.isTextMap, ih]

/-- Decoding into a `Metadata`. -/
theorem decodeMetadata_ok_iff (vs : List JSON) (cur : Metadata) :
    (∃ m, decodeMetadata cur vs = .ok m) ↔ vs.all JSON.isMetadata = true := by
  induction vs generalizing cur with
  | nil => simp [decodeMetadata]
  | cons v rest ih =>
    cases v with
    | object members =>
      have h1 := decodeString_ok_iff (JSON.valuesFor members "clientId") cur.ClientID
      have h2 := decodeString_ok_iff (JSON.valuesFor members "requestId") cur.RequestID
      have h3 := decodeString_ok_iff (JSON.valuesFor members "source") cur.Source
      have h4 := decodeStringMap_ok_iff (JSON.valuesFor members "extra") cur.Extra
      simp only [decodeMetadata, List.all_cons, JSON.isMetadata, Bool.and_eq_true]
      rw [← h1, ← h2, ← h3, ← h4]
      cases e1 : decodeString cur.ClientID (JSON.valuesFor members "clientId") with
      | error err => simp
      | ok a1 =>
      cases e2 : decodeString cur.RequestID (JSON.valuesFor members "requestId") with
      | error err => simp
      | ok a2 =>
      cases e3 : decodeString cur.Source (JSON.valuesFor members "source") with
      | error err => simp
      | ok a3 =>
      cases e4 : decodeStringMap cur.Extra (JSON.valuesFor members "extra") with
      | error err => simp
      | ok a4 => simp [ih]
    | _ => simp [decodeMetadata, JSON.isMetadata, ih]

/-- A bind in `Except` succeeds when both steps do. -/
theorem Except_isOk_bind {α β : Type} (x : Except Error α) (f : α → Except Error β) :
    (∃ b, (x >>= f) = .ok b) ↔ ∃ a, x = .ok a ∧ ∃ b, f a = .ok b := by
  cases x <;> simp [bind, Except.bind]

/-- A map in `Except` succeeds when its argument does. -/
theorem Except_isOk_map {α β : Type} (x : Except Error α) (g : α → β) :
    (∃ b, (g <$> x) = .ok b) ↔ ∃ a, x = .ok a := by
  cases x <;> simp [Functor.map, Except.map]

/-- A `pure` in `Except` succeeds. -/
theorem Except_isOk_pure {α : Type} (a : α) :
    ∃ b, (pure a : Except Error α) = .ok b := ⟨a, rfl⟩

/-- Within the nesting limit `json.Unmarshal` decodes the members of an object
and no member for `null`. -/
theorem JSON_members_of_depth (v : JSON) :
    v.depth ≤ maxNestingDepth →
    v.members =
      match v with
      | .object members => .ok members
      | .null => .ok []
      | _ => .error jsonTypeError := by
  intro h
  unfold JSON.members
  rw [if_neg (not_lt.2 h)]

/-- For each of the ten event types `ParseEvent` accepts exactly the objects
that nest no deeper than the limit and whose decoded members have the types of
their fields. -/
theorem ParseEvent_conforms (parseDuration : String → Option Int) (now : Nat)
    (t : String) (ht : t ∈ eventTypes) (members : List (String × JSON)) :
    (∃ e, ParseEvent parseDuration now t (.object members) = .ok e) ↔
      ((JSON.object members).depth ≤ maxNestingDepth ∧
        payloadConforms t members = true) := by
  simp only [eventTypes, List.mem_cons, List.mem_singleton, List.not_mem_nil, or_false] at ht
  by_cases hd : (JSON.object members).depth ≤ maxNestingDepth
  · have hm : (JSON.object members).members = .ok members :=
      JSON_members_of_depth _ hd
    rcases ht with rfl | rfl | rfl | rfl | rfl | rfl | rfl | rfl | rfl | rfl <;>
    simp [ParseEvent, hm, hd, Except_isOk_bind, Except_isOk_map, Except_isOk_pure,
      payloadConforms, payloadFields, FieldKind.accepts, decodeString_ok_iff,
      decodeFloat64_ok_iff, decodeMetadata_ok_iff]
  · have hm : (JSON.object members).members = .error jsonDepthError := by
      unfold JSON.members
      rw [if_pos (not_le.1 hd)]
    rcases ht with rfl | rfl | rfl | rfl | rfl | rfl | rfl | rfl | rfl | rfl <;>
    simp [ParseEvent, hm, hd, Except_isOk_bind]

/-- Every other event type is rejected. -/
theorem ParseEvent_unknown (parseDuration : String → Option Int) (now : Nat)
    (t : String) (ht : t ∉ eventTypes) (payload : JSON) :
    ParseEvent parseDuration now t payload = .error (.msg ("unknown event type: " ++ t)) := by
  unfold ParseEvent
  split <;> first | rfl | exact absurd (by decide) ht

/-- A map in `Except` that returns a value. -/
theorem Except_map_ok_iff {α β : Type} (x : Except Error α) (g : α → β) (b : β) :
    (g <$> x) = .ok b ↔ ∃ a, x = .ok a ∧ g a = b := by
  cases x <;> simp [Functor.map, Except.map]

/-- The event that `ParseEvent` returns has the event type asked for. -/
theorem ParseEvent_EventType (parseDuration : String → Option Int) (now : Nat)
    (t : String) (payload : JSON) (e : Event)
    (h : ParseEvent parseDuration now t payload = .ok e) : e.EventType = t := by
  unfold ParseEvent at h
  split at h <;>
    first
    | cases h
    | (simp only [Except_bind_ok_iff, Except_pure_ok_iff, Except_map_ok_iff] at h
       repeat (obtain ⟨_, _, h⟩ := h)
       rfl)

/-- C35, as amended: `ParseEvent t payload` returns an error for every event type
`t` that is not one of the ten of the payload schema; for each of the ten and a
JSON object payload it returns an event exactly when the payload nests no deeper
than the decoder allows and the members that it decodes hold values of the
types of their fields (strings, numbers within the range of `float64`, the
metadata object with its strings and its map of strings; `null` and missing
members are accepted), and the event it returns has the event type `t`. -/
theorem C35_parse_event (parseDuration : String → Option Int) (now : Nat) :
    (∀ t payload, t ∉ eventTypes → ∃ err, ParseEvent parseDuration now t payload = .error err) ∧
    (∀ t ∈ eventTypes, ∀ members,
      (∃ e, ParseEvent parseDuration now t (.object members) = .ok e) ↔
        ((JSON.object members).depth ≤ maxNestingDepth ∧
          payloadConforms t members = true)) ∧
    (∀ t payload e, ParseEvent parseDuration now t payload = .ok e → e.EventType = t) :=
  ⟨fun t payload ht => ⟨_, ParseEvent_unknown parseDuration now t ht payload⟩,
    fun t ht members => ParseEvent_conforms parseDuration now t ht members,
    ParseEvent_EventType parseDuration now⟩

/-- C35 as stated fails: the payload is a well-formed JSON object whose member
`amount` is the string "100"; `ParseEvent` for PaymentRequested returns the error
of `json.Unmarshal`, not an event.  The empty object is accepted. -/
theorem C35_mistyped_amount_rejected :
    ParseEvent sampleParseDuration 7 "PaymentRequested"
        (.object [("paymentID", .string "123e4567-e89b-12d3-a456-426614174000"),
          ("amount", .string "100")]) = .error jsonTypeError ∧
    ParseEvent sampleParseDuration 7 "PaymentRequested" (.object []) =
      .ok (NewPaymentRequestedEvent "" "" 0 "" "" "" Metadata.zeroValue 7) :=
  ⟨rfl, rfl⟩

/-! ### C36 -/

/-- An assignment to a key that the map does not hold. -/
theorem setEntry_append (m : List (String × String)) (key value : String)
    (h : key ∉ m.map Prod.fst) : setEntry m key value = m ++ [(key, value)] := by
  induction m with
  | nil => rfl
  | cons entry rest ih =>
    simp only [List.map_cons, List.mem_cons, not_or] at h
    simp [setEntry, Ne.symm h.1, ih h.2]

/-- Decoding the members written for a map of strings with distinct keys. -/
theorem decodeEntries_encoded (extra cur : List (String × String))
    (h : (cur.map Prod.fst ++ extra.map Prod.fst).Nodup) :
    decodeEntries cur (extra.map fun entry => (entry.1, JSON.string entry.2)) =
      .ok (cur ++ extra) := by
  induction extra generalizing cur with
  | nil => simp [decodeEntries]
  | cons entry rest ih =>
    obtain ⟨key, value⟩ := entry
    have hk : key ∉ cur.map Prod.fst := by
      intro hmem
      rw [List.nodup_append] at h
      exact h.2.2 hmem (by simp)
    have h2 : ((cur ++ [(key, value)]).map Prod.fst ++ rest.map Prod.fst).Nodup := by
      simpa [List.append_assoc] using h
    simp only [List.map_cons, decodeEntries]
    rw [setEntry_append cur key value hk, ih _ h2]
    simp

/-- The values written for a map of strings do not nest. -/
theorem depthOfMembers_strings (extra : List (String × String)) :
    JSON.depthOfMembers (extra.map fun entry => (entry.1, JSON.string entry.2)) = 0 := by
  induction extra with
  | nil => rfl
  | cons entry rest ih => simp [JSON.depthOfMembers, JSON.depth, ih]

/-- The object written for an event nests three deep at most. -/
theorem messageBytes_depth (formatTime : Nat → String) (durationString : Int → String)
    (e : Event) :
    (SNSPublisher.messageBytes formatTime durationString e).depth ≤ maxNestingDepth := by
  have h3 : (SNSPublisher.messageBytes formatTime durationString e).depth ≤ 3 := by
    cases e <;>
    · simp only [SNSPublisher.messageBytes, encodeMetadata]
      split <;>
      simp [JSON.depth, JSON.depthOfMembers, depthOfMembers_strings]
  exact h3.trans (by decide)

/-- Decoding the object written for a `Metadata`. -/
theorem decodeMetadata_encoded (m : Metadata) (h : (m.Extra.map Prod.fst).Nodup) :
    decodeMetadata Metadata.zeroValue [encodeMetadata m] = .ok m := by
  obtain ⟨clientID, requestID, source, extra⟩ := m
  cases extra with
  | nil => rfl
  | cons entry rest =>
    have he := decodeEntries_encoded (entry :: rest) [] (by simpa using h)
    have hsm : decodeStringMap [] [JSON.object
        ((entry :: rest).map fun entry => (entry.1, JSON.string entry.2))] =
        .ok (entry :: rest) := by
      simp only [decodeStringMap, he, List.nil_append]
    show (match decodeStringMap [] [JSON.object
        ((entry :: rest).map fun entry => (entry.1, JSON.string entry.2))] with
      | Except.error err => (Except.error err : Except Error Metadata)
      | Except.ok extra => decodeMetadata ⟨clientID, requestID, source, extra⟩ []) = _
    rw [hsm]
    rfl

/-- C36: the event codec round-trips.  For every event `e` of one of the ten Go
types (its event type is the one its constructor sets, the keys of its metadata
map are distinct), `ParseEvent` applied to the event type of `e` and to the JSON
object that the publisher builds for `e` succeeds and returns `e` with a new
instant of occurrence: the same Go type, event type, metadata and type-specific
fields; for ExternalPaymentTimeout the duration goes through its string form
(`time.ParseDuration` inverts `time.Duration.String` on it). -/
theorem C36_codec_round_trip (formatTime : Nat → String) (durationString : Int → String)
    (parseDuration : String → Option Int) (now : Nat) (e : Event)
    (htype : e.EventType = e.typeName)
    (hextra : (e.Metadata.Extra.map Prod.fst).Nodup)
    (hdur : ∀ b paymentID d, e = .externalPaymentTimeout b paymentID d →
      parseDuration (durationString d) = some d) :
    ParseEvent parseDuration now e.EventType
        (SNSPublisher.messageBytes formatTime durationString e) =
      .ok (e.withBase (NewBaseEvent e.EventType e.Metadata now)) ∧
    (e.withBase (NewBaseEvent e.EventType e.Metadata now)).typeName = e.typeName ∧
    (e.withBase (NewBaseEvent e.EventType e.Metadata now)).EventType = e.EventType ∧
    (e.withBase (NewBaseEvent e.EventType e.Metadata now)).Metadata = e.Metadata ∧
    (e.withBase (NewBaseEvent e.EventType e.Metadata now)).withBase e.base = e := by
  have hmd := decodeMetadata_encoded e.Metadata hextra
  refine ⟨?_, by cases e <;> rfl, by cases e <;> rfl, by cases e <;> rfl,
    by cases e <;> rfl⟩
  cases e with
  | paymentRequested b paymentID userID amount currency serviceID idempotencyKey =>
    obtain ⟨eventType, t, m⟩ := b
    have ht : eventType = "PaymentRequested" := htype
    subst ht
    show (JSON.members _ >>= _) = _
    rw [JSON_members_of_depth _ (messageBytes_depth formatTime durationString _)]
    show (fun metadata => NewPaymentRequestedEvent paymentID userID amount currency serviceID
        idempotencyKey metadata now) <$>
      decodeMetadata Metadata.zeroValue [encodeMetadata m] = _
    rw [show decodeMetadata Metadata.zeroValue [encodeMetadata m] = .ok m from hmd]
    rfl
  | walletDebited b paymentID userID amount prevBalance newBalance =>
    obtain ⟨eventType, t, m⟩ := b
    have ht : eventType = "WalletDebited" := htype
    subst ht
    show (JSON.members _ >>= _) = _
    rw [JSON_members_of_depth _ (messageBytes_depth formatTime durationString _)]
    show (fun metadata => NewWalletDebitedEvent paymentID userID amount prevBalance
        newBalance metadata now) <$>
      decodeMetadata Metadata.zeroValue [encodeMetadata m] = _
    rw [show decodeMetadata Metadata.zeroValue [encodeMetadata m] = .ok m from hmd]
    rfl
  | walletCredited b paymentID userID amount prevBalance newBalance reason =>
    obtain ⟨eventType, t, m⟩ := b
    have ht : eventType = "WalletCredited" := htype
    subst ht
    show (JSON.members _ >>= _) = _
    rw [JSON_members_of_depth _ (messageBytes_depth formatTime durationString _)]
    show (fun metadata => NewWalletCreditedEvent paymentID userID amount prevBalance
        newBalance reason metadata now) <$>
      decodeMetadata Metadata.zeroValue [encodeMetadata m] = _
    rw [show decodeMetadata Metadata.zeroValue [encodeMetadata m] = .ok m from hmd]
    rfl
  | externalPaymentRequested b paymentID userID amount currency serviceID =>
    obtain ⟨eventType, t, m⟩ := b
    have ht : eventType = "ExternalPaymentRequested" := htype
    subst ht
    show (JSON.members _ >>= _) = _
    rw [JSON_members_of_depth _ (messageBytes_depth formatTime durationString _)]
    show (fun metadata => NewExternalPaymentRequestedEvent paymentID userID amount currency
        serviceID metadata now) <$>
      decodeMetadata Metadata.zeroValue [encodeMetadata m] = _
    rw [show decodeMetadata Metadata.zeroValue [encodeMetadata m] = .ok m from hmd]
    rfl
  | externalPaymentSucceeded b paymentID externalTransactionID =>
    obtain ⟨eventType, t, m⟩ := b
    have ht : eventType = "ExternalPaymentSucceeded" := htype
    subst ht
    show (JSON.members _ >>= _) = _
    rw [JSON_members_of_depth _ (messageBytes_depth formatTime durationString _)]
    show (fun metadata => NewExternalPaymentSucceededEvent paymentID externalTransactionID
        metadata now) <$>
      decodeMetadata Metadata.zeroValue [encodeMetadata m] = _
    rw [show decodeMetadata Metadata.zeroValue [encodeMetadata m] = .ok m from hmd]
    rfl
  | externalPaymentFailed b paymentID reason errorCode =>
    obtain ⟨eventType, t, m⟩ := b
    have ht : eventType = "ExternalPaymentFailed" := htype
    subst ht
    show (JSON.members _ >>= _) = _
    rw [JSON_members_of_depth _ (messageBytes_depth formatTime durationString _)]
    show (fun metadata => NewExternalPaymentFailedEvent paymentID reason errorCode
        metadata now) <$>
      decodeMetadata Metadata.zeroValue [encodeMetadata m] = _
    rw [show decodeMetadata Metadata.zeroValue [encodeMetadata m] = .ok m from hmd]
    rfl
  | externalPaymentTimeout b paymentID timeoutDuration =>
    obtain ⟨eventType, t, m⟩ := b
    have ht : eventType = "ExternalPaymentTimeout" := htype
    subst ht
    have hd := hdur _ _ _ rfl
    show (JSON.members _ >>= _) = _
    rw [JSON_members_of_depth _ (messageBytes_depth formatTime durationString _)]
    show (fun metadata => NewExternalPaymentTimeoutEvent paymentID
        ((parseDuration (durationString timeoutDuration)).getD 0) metadata now) <$>
      decodeMetadata Metadata.zeroValue [encodeMetadata m] = _
    rw [show decodeMetadata Metadata.zeroValue [encodeMetadata m] = .ok m from hmd, hd]
    rfl
  | paymentCompleted b paymentID userID amount externalTransactionID =>
    obtain ⟨eventType, t, m⟩ := b
    have ht : eventType = "PaymentCompleted" := htype
    subst ht
    show (JSON.members _ >>= _) = _
    rw [JSON_members_of_depth _ (messageBytes_depth formatTime durationString _)]
    show (fun metadata => NewPaymentCompletedEvent paymentID userID amount
        externalTransactionID metadata now) <$>
      decodeMetadata Metadata.zeroValue [encodeMetadata m] = _
    rw [show decodeMetadata Metadata.zeroValue [encodeMetadata m] = .ok m from hmd]
    rfl
  | paymentFailed b paymentID userID amount reason =>
    obtain ⟨eventType, t, m⟩ := b
    have ht : eventType = "PaymentFailed" := htype
    subst ht
    show (JSON.members _ >>= _) = _
    rw [JSON_members_of_depth _ (messageBytes_depth formatTime durationString _)]
    show (fun metadata => NewPaymentFailedEvent paymentID userID amount reason
        metadata now) <$>
      decodeMetadata Metadata.zeroValue [encodeMetadata m] = _
    rw [show decodeMetadata Metadata.zeroValue [encodeMetadata m] = .ok m from hmd]
    rfl
  | paymentRefundRequested b paymentID userID amount reason =>
    obtain ⟨eventType, t, m⟩ := b
    have ht : eventType = "PaymentRefundRequested" := htype
    subst ht
    show (JSON.members _ >>= _) = _
    rw [JSON_members_of_depth _ (messageBytes_depth formatTime durationString _)]
    show (fun metadata => NewPaymentRefundRequestedEvent paymentID userID amount reason
        metadata now) <$>
      decodeMetadata Metadata.zeroValue [encodeMetadata m] = _
    rw [show decodeMetadata Metadata.zeroValue [encodeMetadata m] = .ok m from hmd]
    rfl

/-- C36 at the ExternalPaymentTimeout event of the samples, with a duration of
30 ns, decoded at the instant 9. -/
theorem C36_codec_round_trip_witness :
    (sampleGatewayTimeout.EventType = sampleGatewayTimeout.typeName ∧
      (sampleGatewayTimeout.Metadata.Extra.map Prod.fst).Nodup ∧
      sampleParseDuration (sampleDurationString 30) = some 30) ∧
    ParseEvent sampleParseDuration 9 "ExternalPaymentTimeout"
        (SNSPublisher.messageBytes sampleFormatTime sampleDurationString
          sampleGatewayTimeout) =
      .ok (.externalPaymentTimeout ⟨"ExternalPaymentTimeout", 9, sampleMetadata⟩
        "123e4567-e89b-12d3-a456-426614174000" 30) :=
  ⟨⟨rfl, by decide, by decide⟩,
    (C36_codec_round_trip sampleFormatTime sampleDurationString sampleParseDuration 9
      sampleGatewayTimeout rfl (by decide)
      (fun b paymentID d h => by
        have hd : (30 : Int) = d := by
          unfold sampleGatewayTimeout at h
          injection h
        rw [← hd]
        decide)).1⟩

/-! ### C38 -/

/-- One call changes neither the identifiers nor the money nor the instant of
creation of a payment, and keeps its status among the three declared ones. -/
theorem Payment_call_frame (p : Payment) (c : PaymentCall) :
    (p.call c).id = p.id ∧ (p.call c).userID = p.userID ∧
    (p.call c).serviceID = p.serviceID ∧ (p.call c).idempotencyKey = p.idempotencyKey ∧
    (p.call c).money = p.money ∧ (p.call c).createdAt = p.createdAt ∧
    (p.status.Declared → (p.call c).status.Declared) := by
  cases c with
  | markCompleted x now =>
    show (p.MarkCompleted x now).2.id = p.id ∧ (p.MarkCompleted x now).2.userID = p.userID ∧
      (p.MarkCompleted x now).2.serviceID = p.serviceID ∧
      (p.MarkCompleted x now).2.idempotencyKey = p.idempotencyKey ∧
      (p.MarkCompleted x now).2.money = p.money ∧
      (p.MarkCompleted x now).2.createdAt = p.createdAt ∧
      (p.status.Declared → (p.MarkCompleted x now).2.status.Declared)
    unfold Payment.MarkCompleted
    split
    · exact ⟨rfl, rfl, rfl, rfl, rfl, rfl, id⟩
    · split
      · exact ⟨rfl, rfl, rfl, rfl, rfl, rfl, id⟩
      · exact ⟨rfl, rfl, rfl, rfl, rfl, rfl, fun _ => Or.inr (Or.inl rfl)⟩
  | markFailed r now =>
    show (p.MarkFailed r now).2.id = p.id ∧ (p.MarkFailed r now).2.userID = p.userID ∧
      (p.MarkFailed r now).2.serviceID = p.serviceID ∧
      (p.MarkFailed r now).2.idempotencyKey = p.idempotencyKey ∧
      (p.MarkFailed r now).2.money = p.money ∧
      (p.MarkFailed r now).2.createdAt = p.createdAt ∧
      (p.status.Declared → (p.MarkFailed r now).2.status.Declared)
    unfold Payment.MarkFailed
    split
    · exact ⟨rfl, rfl, rfl, rfl, rfl, rfl, id⟩
    · split
      · exact ⟨rfl, rfl, rfl, rfl, rfl, rfl, id⟩
      · exact ⟨rfl, rfl, rfl, rfl, rfl, rfl, fun _ => Or.inr (Or.inr rfl)⟩

/-- The same for a sequence of calls. -/
theorem Payment_calls_frame (cs : List PaymentCall) (p : Payment) :
    (p.calls cs).id = p.id ∧ (p.calls cs).userID = p.userID ∧
    (p.calls cs).serviceID = p.serviceID ∧ (p.calls cs).idempotencyKey = p.idempotencyKey ∧
    (p.calls cs).money = p.money ∧ (p.calls cs).createdAt = p.createdAt ∧
    (p.status.Declared → (p.calls cs).status.Declared) := by
  induction cs generalizing p with
  | nil => exact ⟨rfl, rfl, rfl, rfl, rfl, rfl, id⟩
  | cons c cs ih =>
    obtain ⟨h1, h2, h3, h4, h5, h6, h7⟩ := ih (p.call c)
    obtain ⟨g1, g2, g3, g4, g5, g6, g7⟩ := Payment_call_frame p c
    exact ⟨h1.trans g1, h2.trans g2, h3.trans g3, h4.trans g4, h5.trans g5, h6.trans g6,
      fun hd => h7 (g7 hd)⟩

/-- `ParsePaymentStatus` inverts `String` on the three declared statuses. -/
theorem ParsePaymentStatus_String (s : PaymentStatus) (h : s.Declared) :
    ParsePaymentStatus s.String = .ok s := by
  rcases h with rfl | rfl | rfl <;> rfl

/-- The mapping of a payment whose value objects are values of their
constructors and whose status is declared. -/
theorem PaymentMapper_round_trip (parseUUID : String → Bool) (upperTrim : String → String)
    (lib : MapperLibrary) (p : Payment)
    (hid : NewPaymentID parseUUID p.id.value = .ok p.id)
    (huser : NewUserID p.userID.value = .ok p.userID)
    (hservice : NewServiceID p.serviceID.value = .ok p.serviceID)
    (hkey : NewIdempotencyKey p.idempotencyKey.value = .ok p.idempotencyKey)
    (hcur : NewCurrency upperTrim p.money.currency.code = .ok p.money.currency)
    (hmoney : NewMoney p.money.amount p.money.currency = .ok p.money)
    (hstatus : p.status.Declared)
    (hdec : lib.parseDecimal (lib.decimalString p.money.amount) = some p.money.amount)
    (c u : Nat) (hc : lib.parseTime (lib.formatTime p.createdAt) = some c)
    (hu : lib.parseTime (lib.formatTime p.updatedAt) = some u) :
    (PaymentMapper.ToDBModel lib p >>= PaymentMapper.ToDomain parseUUID upperTrim lib) =
      .ok { p with createdAt := c, updatedAt := u } := by
  show PaymentMapper.ToDomain parseUUID upperTrim lib _ = _
  simp only [PaymentMapper.ToDomain, hid, huser, hservice, hkey, hdec, hcur, hmoney,
    ParsePaymentStatus_String p.status hstatus, hc, hu, ReconstructPayment]

/-- C38: the payment persistence mapping round-trips.  The payment comes from
`NewPayment`, applied to value objects that their constructors return
(`NewPaymentID`, `NewUserID`, `NewServiceID`, `NewIdempotencyKey`, `NewMoney`
with a currency of `NewCurrency`), by any sequence of `MarkCompleted` and
`MarkFailed` calls; the library functions invert one another on its amount
(`decimal.NewFromString` on `Decimal.String`) and `time.Parse` reads what
`Format` writes.  Then `ToDomain (ToDBModel p)` succeeds and yields a payment
equal to `p` in id, userID, serviceID, money, idempotencyKey, status,
failureReason and externalTxID. -/
theorem C38_payment_mapping_round_trip (parseUUID : String → Bool)
    (upperTrim : String → String) (lib : MapperLibrary)
    (id : PaymentID) (userID : UserID) (serviceID : ServiceID) (money : Money)
    (idempotencyKey : IdempotencyKey) (now : Nat) (p0 : Payment) (cs : List PaymentCall)
    (hnew : NewPayment id userID serviceID money idempotencyKey now = .ok p0)
    (hid : NewPaymentID parseUUID id.value = .ok id)
    (huser : NewUserID userID.value = .ok userID)
    (hservice : NewServiceID serviceID.value = .ok serviceID)
    (hkey : NewIdempotencyKey idempotencyKey.value = .ok idempotencyKey)
    (hcur : NewCurrency upperTrim money.currency.code = .ok money.currency)
    (hmoney : NewMoney money.amount money.currency = .ok money)
    (hdec : lib.parseDecimal (lib.decimalString money.amount) = some money.amount)
    (htime : ∀ t, ∃ t1, lib.parseTime (lib.formatTime t) = some t1) :
    ∃ q, (PaymentMapper.ToDBModel lib (p0.calls cs) >>=
        PaymentMapper.ToDomain parseUUID upperTrim lib) = .ok q ∧
      q.id = (p0.calls cs).id ∧ q.userID = (p0.calls cs).userID ∧
      q.serviceID = (p0.calls cs).serviceID ∧ q.money = (p0.calls cs).money ∧
      q.idempotencyKey = (p0.calls cs).idempotencyKey ∧
      q.status = (p0.calls cs).status ∧ q.failureReason = (p0.calls cs).failureReason ∧
      q.externalTxID = (p0.calls cs).externalTxID := by
  obtain ⟨hp0, _⟩ := NewPayment_ok id userID serviceID money idempotencyKey now p0 hnew
  obtain ⟨h1, h2, h3, h4, h5, _, h7⟩ := Payment_calls_frame cs p0
  have e1 : (p0.calls cs).id = id := by rw [h1, hp0]
  have e2 : (p0.calls cs).userID = userID := by rw [h2, hp0]
  have e3 : (p0.calls cs).serviceID = serviceID := by rw [h3, hp0]
  have e4 : (p0.calls cs).idempotencyKey = idempotencyKey := by rw [h4, hp0]
  have e5 : (p0.calls cs).money = money := by rw [h5, hp0]
  have e7 : (p0.calls cs).status.Declared := h7 (by rw [hp0]; exact Or.inl rfl)
  obtain ⟨c, hc⟩ := htime (p0.calls cs).createdAt
  obtain ⟨u, hu⟩ := htime (p0.calls cs).updatedAt
  refine ⟨{ p0.calls cs with createdAt := c, updatedAt := u }, ?_, rfl, rfl, rfl, rfl, rfl,
    rfl, rfl, rfl⟩
  exact PaymentMapper_round_trip parseUUID upperTrim lib (p0.calls cs)
    (by rw [e1]; exact hid) (by rw [e2]; exact huser) (by rw [e3]; exact hservice)
    (by rw [e4]; exact hkey) (by rw [e5]; exact hcur) (by rw [e5]; exact hmoney) e7
    (by rw [e5]; exact hdec) c u hc hu

/-- C38 at the payment of the samples (100 ARS), created at the instant 1000,
then marked completed, then (without effect) marked failed. -/
theorem C38_payment_mapping_round_trip_witness :
    (NewPayment ⟨"123e4567-e89b-12d3-a456-426614174000"⟩ ⟨"user-123"⟩ ⟨"service-123"⟩
        ⟨100, ⟨"ARS"⟩⟩ ⟨"key-123"⟩ 1000 =
          .ok { samplePayment with createdAt := 1000, updatedAt := 1000 } ∧
      NewPaymentID canonicalUUID "123e4567-e89b-12d3-a456-426614174000" =
        .ok ⟨"123e4567-e89b-12d3-a456-426614174000"⟩ ∧
      NewCurrency asciiUpperTrim "ARS" = .ok ⟨"ARS"⟩ ∧
      NewMoney 100 ⟨"ARS"⟩ = .ok ⟨100, ⟨"ARS"⟩⟩ ∧
      sampleMapperLibrary.parseDecimal (sampleMapperLibrary.decimalString 100) = some 100 ∧
      (∀ t, ∃ t1, sampleMapperLibrary.parseTime (sampleMapperLibrary.formatTime t)
        = some t1)) ∧
    ∃ q, (PaymentMapper.ToDBModel sampleMapperLibrary
          (({ samplePayment with createdAt := 1000, updatedAt := 1000 } : Payment).calls
            [.markCompleted "external-tx-456" 1000, .markFailed "LATE" 1000]) >>=
        PaymentMapper.ToDomain canonicalUUID asciiUpperTrim sampleMapperLibrary) = .ok q ∧
      q.status = PaymentStatusCompleted ∧ q.externalTxID = "external-tx-456" ∧
      q.money = ⟨100, ⟨"ARS"⟩⟩ :=
  have htime : ∀ t, ∃ t1,
      sampleMapperLibrary.parseTime (sampleMapperLibrary.formatTime t) = some t1 := by
    intro t
    by_cases h : t = 1000
    · exact ⟨1000, by simp [sampleMapperLibrary, h]⟩
    · exact ⟨0, by simp [sampleMapperLibrary, h]⟩
  have hall := C38_payment_mapping_round_trip canonicalUUID asciiUpperTrim
    sampleMapperLibrary ⟨"123e4567-e89b-12d3-a456-426614174000"⟩ ⟨"user-123"⟩
    ⟨"service-123"⟩ ⟨100, ⟨"ARS"⟩⟩ ⟨"key-123"⟩ 1000
    { samplePayment with createdAt := 1000, updatedAt := 1000 }
    [.markCompleted "external-tx-456" 1000, .markFailed "LATE" 1000]
    (by rfl) (by rfl) (by rfl) (by rfl) (by rfl) (by rfl) (by rfl) (by rfl) htime
  ⟨⟨by rfl, by rfl, by rfl, by rfl, by rfl, htime⟩,
    hall.elim fun q h => ⟨q, h.1, h.2.2.2.2.2.2.1.trans (by rfl),
      h.2.2.2.2.2.2.2.2.trans (by rfl), h.2.2.2.2.1.trans (by rfl)⟩⟩

/-! ### C40 -/

/-- Unchanged stores are within every frame. -/
theorem FrameFor_of_eq (paymentID userID : String) (s out : Stores)
    (h1 : out.payments = s.payments) (h2 : out.wallets = s.wallets) :
    FrameFor paymentID userID s out :=
  ⟨fun k _ => by rw [h1], fun u _ => by rw [h2]⟩

/-- Two steps within the same frame. -/
theorem FrameFor_trans (paymentID userID : String) (s s1 s2 : Stores)
    (h1 : FrameFor paymentID userID s s1) (h2 : FrameFor paymentID userID s1 s2) :
    FrameFor paymentID userID s s2 :=
  ⟨fun k hk => (h2.1 k hk).trans (h1.1 k hk), fun u hu => (h2.2 u hu).trans (h1.2 u hu)⟩

/-- Unchanged payments and wallets are within the frame of every lookup. -/
theorem ChangesOnlyFor_of_eq (found : Option Payment) (s out : Stores)
    (h1 : out.payments = s.payments) (h2 : out.wallets = s.wallets) :
    ChangesOnlyFor found s out :=
  ⟨fun _ => ⟨h1, h2⟩, fun _ _ => FrameFor_of_eq _ _ s out h1 h2⟩

/-- The frame of a lookup that found a payment. -/
theorem ChangesOnlyFor_some (p : Payment) (s out : Stores)
    (h : FrameFor p.id.value p.userID.value s out) : ChangesOnlyFor (some p) s out :=
  ⟨fun hn => (by cases hn), fun q hq => (by cases hq; exact h)⟩

/-- A successful lookup of a payment returns the payment stored under the key. -/
theorem FindByID_ok (f : Bool) (s : Stores) (paymentID : String) (pmt : Payment)
    (h : PaymentRepository.FindByID f s paymentID = .ok pmt) :
    s.payments paymentID = some pmt := by
  unfold PaymentRepository.FindByID at h
  split at h
  · cases h
  · split at h
    · cases h
    · rename_i q hq
      rw [hq, Except.ok.inj h]

/-- A save of a payment changes the payment stored under its ID only. -/
theorem PaymentRepository_Save_within (f : Bool) (s : Stores) (pmt : Payment)
    (userID : String) : FrameFor pmt.id.value userID s (PaymentRepository.Save f s pmt).2 := by
  cases f
  · exact ⟨fun k hk => Function.update_noteq hk _ _, fun u _ => rfl⟩
  · exact FrameFor_of_eq _ _ _ _ rfl rfl

/-- A save of a wallet changes the wallet stored under its user ID only. -/
theorem WalletRepository_Save_within (f : Bool) (s : Stores) (wlt : Wallet)
    (paymentID : String) :
    FrameFor paymentID wlt.userID.value s (WalletRepository.Save f s wlt).2 := by
  cases f
  · exact ⟨fun k _ => rfl, fun u hu => Function.update_noteq hu _ _⟩
  · exact FrameFor_of_eq _ _ _ _ rfl rfl

/-- The helper `publishEvent` changes no payment and no wallet. -/
theorem publishEvent_within (env : Env) (k : Nat) (s : Stores) (event : Event)
    (paymentID : String) :
    (publishEvent env k s event paymentID).2.payments = s.payments ∧
    (publishEvent env k s event paymentID).2.wallets = s.wallets := by
  unfold publishEvent
  cases hf : env.fails (StoreCall.eventAppend k) <;>
    cases hg : env.fails (StoreCall.eventPublish k) <;>
    exact ⟨rfl, rfl⟩

/-- The helper `publishEvent` changes no payment and no wallet, from its result. -/
theorem publishEvent_within_eq (env : Env) (k : Nat) (s : Stores) (event : Event)
    (paymentID : String) (r : Option Error) (s2 : Stores)
    (heq : publishEvent env k s event paymentID = (r, s2)) :
    s2.payments = s.payments ∧ s2.wallets = s.wallets := by
  have h := publishEvent_within env k s event paymentID
  rw [heq] at h
  exact h

/-- The helper `failPayment` changes the payment it is given only. -/
theorem failPayment_within (env : Env) (s : Stores) (pmt : Payment) (reason : String) :
    FrameFor pmt.id.value pmt.userID.value s (failPayment env s pmt reason).2 := by
  have hid : (pmt.MarkFailed reason (env.clock 0)).2.id = pmt.id :=
    (Payment_call_frame pmt (.markFailed reason (env.clock 0))).1
  have hfr := PaymentRepository_Save_within (env.fails .paymentUpdate) s
    (pmt.MarkFailed reason (env.clock 0)).2 pmt.userID.value
  rw [hid] at hfr
  unfold failPayment
  simp only [PaymentRepository.Update]
  split
  · rename_i err s1 heq
    rw [heq] at hfr
    exact hfr
  · rename_i s1 heq
    rw [heq] at hfr
    obtain ⟨h1, h2⟩ := publishEvent_within env 0 s1
      (NewPaymentFailedEvent (pmt.MarkFailed reason (env.clock 0)).2.id.value
        (pmt.MarkFailed reason (env.clock 0)).2.userID.value
        ((pmt.MarkFailed reason (env.clock 0)).2.money.AmountFloat env.float64)
        reason Metadata.zeroValue
        (env.clock 1))
      (pmt.MarkFailed reason (env.clock 0)).2.id.value
    exact FrameFor_trans _ _ s s1 _ hfr (FrameFor_of_eq _ _ _ _ h1 h2)

/-- The helper `initiateRefund` changes the payment it looks up only. -/
theorem initiateRefund_within (env : Env) (s : Stores) (paymentID reason : String)
    (metadata : Metadata) :
    ChangesOnlyFor (s.payments paymentID) s
      (initiateRefund env s paymentID reason metadata).2 := by
  unfold initiateRefund
  split
  · exact ChangesOnlyFor_of_eq _ s s rfl rfl
  · rename_i pmt hfind
    rw [FindByID_ok _ s paymentID pmt hfind]
    apply ChangesOnlyFor_some
    have hid : (pmt.MarkFailed reason (env.clock 0)).2.id = pmt.id :=
      (Payment_call_frame pmt (.markFailed reason (env.clock 0))).1
    have hfr := PaymentRepository_Save_within (env.fails .paymentUpdate) s
      (pmt.MarkFailed reason (env.clock 0)).2 pmt.userID.value
    rw [hid] at hfr
    simp only [PaymentRepository.Update]
    split
    · rename_i err s1 heq
      rw [heq] at hfr
      exact hfr
    · rename_i s1 heq
      rw [heq] at hfr
      obtain ⟨h1, h2⟩ := publishEvent_within env 0 s1
        (NewPaymentRefundRequestedEvent (pmt.MarkFailed reason (env.clock 0)).2.id.value
          (pmt.MarkFailed reason (env.clock 0)).2.userID.value
          ((pmt.MarkFailed reason (env.clock 0)).2.money.AmountFloat env.float64) reason metadata
          (env.clock 1))
        (pmt.MarkFailed reason (env.clock 0)).2.id.value
      exact FrameFor_trans _ _ s s1 _ hfr (FrameFor_of_eq _ _ _ _ h1 h2)

/-- `Process` returns the payment it was given; when it debits, the wallet
belongs to the user of the payment and keeps its user ID. -/
theorem Process_within (pmt : Payment) (wlt : Wallet) (now : Nat) (result : ProcessResult)
    (pmt1 : Payment) (wlt1 : Wallet) (h : Process pmt wlt now = (.ok result, pmt1, wlt1)) :
    pmt1 = pmt ∧ (result.Success = true → wlt1.userID = pmt.userID) := by
  unfold Process at h
  split at h
  · cases (Prod.mk.inj h).1
  split at h
  · obtain ⟨h1, h2⟩ := Prod.mk.inj h
    rw [← Except.ok.inj h1]
    exact ⟨(Prod.mk.inj h2).1.symm, fun hs => by cases hs⟩
  split at h
  · obtain ⟨h1, h2⟩ := Prod.mk.inj h
    rw [← Except.ok.inj h1]
    exact ⟨(Prod.mk.inj h2).1.symm, fun hs => by cases hs⟩
  split at h
  · obtain ⟨h1, h2⟩ := Prod.mk.inj h
    rw [← Except.ok.inj h1]
    exact ⟨(Prod.mk.inj h2).1.symm, fun hs => by cases hs⟩
  rename_i _ hu _ hcd
  have hcd2 : wlt.CanDebit pmt.money = true := by simpa using hcd
  have hu2 : pmt.userID = wlt.userID := (UserID_Equals_iff _ _).1 (by simpa using hu)
  rw [Wallet_Debit_of_canDebit wlt pmt.money now hcd2] at h
  simp only at h
  obtain ⟨_, h2⟩ := Prod.mk.inj h
  obtain ⟨h3, h4⟩ := Prod.mk.inj h2
  refine ⟨h3.symm, fun _ => ?_⟩
  rw [← h4]
  exact hu2.symm

/-- A `Refund` that succeeds returns a wallet of the user of the payment. -/
theorem Refund_within (pmt : Payment) (wlt : Wallet) (now : Nat) (result : RefundResult)
    (pmt1 : Payment) (wlt1 : Wallet) (h : Refund pmt wlt now = (.ok result, pmt1, wlt1)) :
    wlt1.userID = pmt.userID := by
  unfold Refund at h
  split at h
  · cases (Prod.mk.inj h).1
  split at h
  · cases (Prod.mk.inj h).1
  rename_i _ hu
  have hu2 : pmt.userID = wlt.userID := (UserID_Equals_iff _ _).1 (by simpa using hu)
  have hw : (wlt.Credit pmt.money now).2.userID = wlt.userID := by
    unfold Wallet.Credit
    split
    · rfl
    split
    · rfl
    simp only
    split <;> rfl
  split at h
  · cases (Prod.mk.inj h).1
  · rename_i prev new wlt2 hcr
    rw [hcr] at hw
    rw [← (Prod.mk.inj (Prod.mk.inj h).2).2, hu2]
    exact hw

/-- The handler `HandlePaymentRequested` stays within the frame of the payment
of its event. -/
theorem HandlePaymentRequested_within (env : Env) (s : Stores) (event : Event) :
    ChangesOnlyFor (s.payments event.PaymentID) s (HandlePaymentRequested env s event).2 := by
  unfold HandlePaymentRequested
  split
  · rename_i b paymentID userID amount currency serviceID idempotencyKey
    show ChangesOnlyFor (s.payments paymentID) s _
    split
    · exact ChangesOnlyFor_of_eq _ s s rfl rfl
    · rename_i pmt hfind
      rw [FindByID_ok _ s paymentID pmt hfind]
      apply ChangesOnlyFor_some
      split
      · exact failPayment_within env s pmt _
      · split
        · exact FrameFor_of_eq _ _ s s rfl rfl
        · rename_i result pmt1 wlt1 hP
          obtain ⟨hp1, hw1⟩ := Process_within _ _ _ _ _ _ hP
          subst hp1
          split
          · exact failPayment_within env s pmt1 _
          · rename_i hsucc
            have hs : result.Success = true := by simpa using hsucc
            have hfr := WalletRepository_Save_within (env.fails .walletUpdate) s wlt1
              pmt1.id.value
            rw [hw1 hs] at hfr
            simp only [WalletRepository.Update]
            split
            · rename_i err s1 heq
              rw [heq] at hfr
              exact hfr
            · rename_i s1 heq
              rw [heq] at hfr
              apply FrameFor_trans _ _ s s1 _ hfr
              split
              · rename_i err s2 heq2
                have h2 := publishEvent_within_eq env 0 s1 _ _ _ s2 heq2
                exact FrameFor_of_eq _ _ _ _ h2.1 h2.2
              · rename_i s2 heq2
                have h2 := publishEvent_within_eq env 0 s1 _ _ _ s2 heq2
                have h3 := publishEvent_within env 1 s2
                  (NewExternalPaymentRequestedEvent pmt1.id.value pmt1.userID.value
                    (pmt1.money.AmountFloat env.float64)
                    pmt1.money.currency.code pmt1.serviceID.value
                    (Event.paymentRequested b paymentID userID amount currency serviceID
                      idempotencyKey).Metadata (env.clock 2)) pmt1.id.value
                exact FrameFor_of_eq _ _ _ _ (h3.1.trans h2.1) (h3.2.trans h2.2)
  · exact ChangesOnlyFor_of_eq _ s s rfl rfl

/-- The handler `HandleExternalPaymentSucceeded` stays within the frame of the
payment of its event. -/
theorem HandleExternalPaymentSucceeded_within (env : Env) (s : Stores) (event : Event) :
    ChangesOnlyFor (s.payments event.PaymentID) s
      (HandleExternalPaymentSucceeded env s event).2 := by
  unfold HandleExternalPaymentSucceeded
  split
  · rename_i b paymentID externalTransactionID
    show ChangesOnlyFor (s.payments paymentID) s _
    split
    · exact ChangesOnlyFor_of_eq _ s s rfl rfl
    · rename_i pmt hfind
      rw [FindByID_ok _ s paymentID pmt hfind]
      apply ChangesOnlyFor_some
      split
      · exact FrameFor_of_eq _ _ s s rfl rfl
      · rename_i pmt1 hm
        have hid : pmt1.id = pmt.id := by
          have h := (Payment_call_frame pmt
            (.markCompleted externalTransactionID (env.clock 0))).1
          have h2 : (pmt.MarkCompleted externalTransactionID (env.clock 0)).2 = pmt1 := by
            rw [hm]
          rw [← h2]
          exact h
        have hfr := PaymentRepository_Save_within (env.fails .paymentUpdate) s pmt1
          pmt.userID.value
        rw [hid] at hfr
        simp only [PaymentRepository.Update]
        split
        · rename_i err s1 heq
          rw [heq] at hfr
          exact hfr
        · rename_i s1 heq
          rw [heq] at hfr
          have h2 := publishEvent_within env 0 s1
            (NewPaymentCompletedEvent pmt1.id.value pmt1.userID.value
              (pmt1.money.AmountFloat env.float64)
              pmt1.externalTxID
              (Event.externalPaymentSucceeded b paymentID externalTransactionID).Metadata
              (env.clock 1)) pmt1.id.value
          exact FrameFor_trans _ _ s s1 _ hfr (FrameFor_of_eq _ _ _ _ h2.1 h2.2)
  · exact ChangesOnlyFor_of_eq _ s s rfl rfl

/-- The handler `HandleExternalPaymentFailed` stays within the frame of the
payment of its event. -/
theorem HandleExternalPaymentFailed_within (env : Env) (s : Stores) (event : Event) :
    ChangesOnlyFor (s.payments event.PaymentID) s
      (HandleExternalPaymentFailed env s event).2 := by
  unfold HandleExternalPaymentFailed
  split
  · exact initiateRefund_within env s _ _ _
  · exact ChangesOnlyFor_of_eq _ s s rfl rfl

/-- The handler `HandleExternalPaymentTimeout` stays within the frame of the
payment of its event. -/
theorem HandleExternalPaymentTimeout_within (env : Env) (s : Stores) (event : Event) :
    ChangesOnlyFor (s.payments event.PaymentID) s
      (HandleExternalPaymentTimeout env s event).2 := by
  unfold HandleExternalPaymentTimeout
  split
  · exact initiateRefund_within env s _ _ _
  · exact ChangesOnlyFor_of_eq _ s s rfl rfl

/-- The handler `HandlePaymentRefundRequested` changes no payment, and stays
within the frame of the payment it looks up: the payment of its event when the
payment ID of the event is one that `NewPaymentID` accepts. -/
theorem HandlePaymentRefundRequested_within (env : Env) (s : Stores) (event : Event) :
    (HandlePaymentRefundRequested env s event).2.payments = s.payments ∧
    (∃ key, ChangesOnlyFor (s.payments key) s (HandlePaymentRefundRequested env s event).2 ∧
      (∀ id, NewPaymentID env.parseUUID event.PaymentID = .ok id → key = event.PaymentID) ∧
      (key = event.PaymentID ∨ key = "")) := by
  unfold HandlePaymentRefundRequested
  split
  · rename_i b refundPaymentID refundUserID refundAmount reason
    simp only
    generalize hkey : (match NewPaymentID env.parseUUID refundPaymentID with
      | .ok id => id
      | .error _ => (⟨""⟩ : PaymentID)) = paymentID
    have hk : ∀ id, NewPaymentID env.parseUUID refundPaymentID = .ok id →
        paymentID.value = refundPaymentID := by
      intro id hid
      rw [hid] at hkey
      simp only at hkey
      rw [← hkey]
      unfold NewPaymentID at hid
      split at hid
      · cases hid
      split at hid
      · cases hid
      rw [← Except.ok.inj hid]
    have hk2 : paymentID.value = refundPaymentID ∨ paymentID.value = "" := by
      cases hnew : NewPaymentID env.parseUUID refundPaymentID with
      | ok id => exact Or.inl (hk id hnew)
      | error err =>
        rw [hnew] at hkey
        simp only at hkey
        rw [← hkey]
        exact Or.inr rfl
    split
    · exact ⟨rfl, paymentID.value, ChangesOnlyFor_of_eq _ s s rfl rfl, hk, hk2⟩
    · rename_i pmt hfind
      have hp := FindByID_ok _ s paymentID.value pmt hfind
      split
      · exact ⟨rfl, paymentID.value, ChangesOnlyFor_of_eq _ s s rfl rfl, hk, hk2⟩
      · split
        · exact ⟨rfl, paymentID.value, ChangesOnlyFor_of_eq _ s s rfl rfl, hk, hk2⟩
        · rename_i result pmt1 wlt1 hR
          have hw1 := Refund_within _ _ _ _ _ _ hR
          have hfr := WalletRepository_Save_within (env.fails .walletUpdate) s wlt1
            pmt.id.value
          rw [hw1] at hfr
          have hpay : (WalletRepository.Save (env.fails .walletUpdate) s wlt1).2.payments =
              s.payments := by
            cases env.fails StoreCall.walletUpdate <;> rfl
          simp only [WalletRepository.Update]
          split
          · rename_i err s1 heq
            rw [heq] at hfr hpay
            exact ⟨hpay, paymentID.value, by rw [hp]; exact ChangesOnlyFor_some pmt s s1 hfr,
              hk, hk2⟩
          · rename_i s1 heq
            rw [heq] at hfr hpay
            have h2 := publishEvent_within env 0 s1
              (NewWalletCreditedEvent refundPaymentID refundUserID refundAmount
                (result.PreviousBalance.AmountFloat env.float64)
                (result.NewBalance.AmountFloat env.float64) "REFUND"
                (Event.paymentRefundRequested b refundPaymentID refundUserID refundAmount
                  reason).Metadata (env.clock 1)) refundPaymentID
            refine ⟨h2.1.trans hpay, paymentID.value, ?_, hk, hk2⟩
            rw [hp]
            exact ChangesOnlyFor_some pmt s _
              (FrameFor_trans _ _ s s1 _ hfr (FrameFor_of_eq _ _ _ _ h2.1 h2.2))
  · exact ⟨rfl, event.PaymentID, ChangesOnlyFor_of_eq _ s s rfl rfl, fun _ _ => rfl,
      Or.inl rfl⟩

/-- With every wallet stored under its own user ID, changes confined to the
payment found give the frame of a handler. -/
theorem HandlerFrame_of_changesOnlyFor (found : Option Payment) (s out : Stores)
    (hinv : ∀ u w, s.wallets u = some w → w.userID.value = u)
    (h : ChangesOnlyFor found s out) : HandlerFrame found s out := by
  refine ⟨h, ?_, ?_⟩
  · intro u w hw hne
    cases found with
    | none => rw [(h.1 rfl).2]; exact hw
    | some p =>
      have hu : u ≠ p.userID.value := by
        intro hu
        apply hne p rfl
        have hv : w.userID.value = p.userID.value := (hinv u w hw).trans hu
        cases hwu : w.userID
        cases hpu : p.userID
        rw [hwu, hpu] at hv
        simp only at hv
        rw [hv]
      rw [(h.2 p rfl).2 u hu]
      exact hw
  · intro u1 u2 h1 h2
    cases found with
    | none =>
      rw [(h.1 rfl).2] at h1
      exact absurd rfl h1
    | some p =>
      have e1 : u1 = p.userID.value := by
        by_contra hne
        exact h1 ((h.2 p rfl).2 u1 hne)
      have e2 : u2 = p.userID.value := by
        by_contra hne
        exact h2 ((h.2 p rfl).2 u2 hne)
      rw [e1, e2]

/-- With every payment stored under its own ID, the frame of the payment found
under the payment ID of the event is the frame told from that ID. -/
theorem EventFrame_of_handlerFrame (key : String) (s out : Stores)
    (hkeyed : PaymentsKeyed s) (h : HandlerFrame (s.payments key) s out) :
    EventFrame key s out := by
  refine ⟨?_, h.2.1, h.2.2⟩
  intro k hk
  cases hf : s.payments key with
  | none => rw [(h.1.1 hf).1]
  | some p =>
    have hid : p.id.value = key := (hkeyed key p hf).1
    exact (h.1.2 p hf).1 k (by rw [hid]; exact hk)

/-- An invocation that changes no payment and no wallet keeps every frame. -/
theorem EventFrame_of_unchanged (paymentID : String) (s out : Stores)
    (hp : out.payments = s.payments) (hw : out.wallets = s.wallets) :
    EventFrame paymentID s out := by
  refine ⟨fun k _ => by rw [hp], fun u w h _ => by rw [hw]; exact h, ?_⟩
  intro u1 u2 h1
  rw [hw] at h1
  exact absurd rfl h1

/-- C40: for every store state in which each wallet is stored under its own
userID, for every event and every behaviour of the collaborators, each of the
five coordinator handlers changes at most one stored wallet, and only the one
stored for the user of the stored payment that the event refers to (the payment
it looks up by the payment ID of the event), whatever userID the event names;
the wallets of all other users are unchanged, and so are the payments other
than that one.  When the lookup finds no payment, no payment and no wallet is
changed.  `HandlePaymentRefundRequested` changes no payment at all; it looks
the payment up under the payment ID of the event whenever that ID is one
`NewPaymentID` accepts, and under the empty ID otherwise.  Where every payment
is stored under its own, non-empty ID, this reads from the event alone: the
payments stored under IDs other than the payment ID of the event are unchanged,
every wallet that does not belong to the user of the payment stored under that
ID is unchanged, and at most one stored wallet is changed. -/
theorem C40_handler_frame (env : Env) (s : Stores) (event : Event)
    (hinv : ∀ u w, s.wallets u = some w → w.userID.value = u) :
    HandlerFrame (s.payments event.PaymentID) s (HandlePaymentRequested env s event).2 ∧
    HandlerFrame (s.payments event.PaymentID) s
      (HandleExternalPaymentSucceeded env s event).2 ∧
    HandlerFrame (s.payments event.PaymentID) s (HandleExternalPaymentFailed env s event).2 ∧
    HandlerFrame (s.payments event.PaymentID) s
      (HandleExternalPaymentTimeout env s event).2 ∧
    (HandlePaymentRefundRequested env s event).2.payments = s.payments ∧
    (∃ key, HandlerFrame (s.payments key) s (HandlePaymentRefundRequested env s event).2 ∧
      (∀ id, NewPaymentID env.parseUUID event.PaymentID = .ok id → key = event.PaymentID) ∧
      (key = event.PaymentID ∨ key = "")) ∧
    (PaymentsKeyed s →
      EventFrame event.PaymentID s (HandlePaymentRequested env s event).2 ∧
      EventFrame event.PaymentID s (HandleExternalPaymentSucceeded env s event).2 ∧
      EventFrame event.PaymentID s (HandleExternalPaymentFailed env s event).2 ∧
      EventFrame event.PaymentID s (HandleExternalPaymentTimeout env s event).2 ∧
      EventFrame event.PaymentID s (HandlePaymentRefundRequested env s event).2) := by
  obtain ⟨hpay, key, hkey, hid, hor⟩ := HandlePaymentRefundRequested_within env s event
  have h1 := HandlerFrame_of_changesOnlyFor _ s _ hinv
    (HandlePaymentRequested_within env s event)
  have h2 := HandlerFrame_of_changesOnlyFor _ s _ hinv
    (HandleExternalPaymentSucceeded_within env s event)
  have h3 := HandlerFrame_of_changesOnlyFor _ s _ hinv
    (HandleExternalPaymentFailed_within env s event)
  have h4 := HandlerFrame_of_changesOnlyFor _ s _ hinv
    (HandleExternalPaymentTimeout_within env s event)
  have h5 := HandlerFrame_of_changesOnlyFor _ s _ hinv hkey
  refine ⟨h1, h2, h3, h4, hpay, ⟨key, h5, hid, hor⟩, fun hkeyed => ?_⟩
  refine ⟨EventFrame_of_handlerFrame _ s _ hkeyed h1, EventFrame_of_handlerFrame _ s _ hkeyed h2,
    EventFrame_of_handlerFrame _ s _ hkeyed h3, EventFrame_of_handlerFrame _ s _ hkeyed h4, ?_⟩
  rcases hor with hor | hor
  · rw [hor] at h5
    exact EventFrame_of_handlerFrame _ s _ hkeyed h5
  · have hnone : s.payments key = none := by
      cases hf : s.payments key with
      | none => rfl
      | some p => exact absurd hor (hkeyed key p hf).2
    exact EventFrame_of_unchanged _ s _ hpay (h5.1.1 hnone).2

/-- C40 at the stores of the unit tests (the payment of 100 ARS, the wallet of
user-123 with 500 ARS, each stored under its own key) and the PaymentRequested
event of the payment. -/
theorem C40_handler_frame_witness :
    (∀ u w, (storesWith samplePayment (sampleWallet 500)).wallets u = some w →
      w.userID.value = u) ∧
    PaymentsKeyed (storesWith samplePayment (sampleWallet 500)) ∧
    HandlerFrame
      ((storesWith samplePayment (sampleWallet 500)).payments sampleRequested.PaymentID)
      (storesWith samplePayment (sampleWallet 500))
      (HandlePaymentRequested sampleEnv (storesWith samplePayment (sampleWallet 500))
        sampleRequested).2 ∧
    EventFrame sampleRequested.PaymentID (storesWith samplePayment (sampleWallet 500))
      (HandlePaymentRequested sampleEnv (storesWith samplePayment (sampleWallet 500))
        sampleRequested).2 :=
  have hinv : ∀ u w, (storesWith samplePayment (sampleWallet 500)).wallets u = some w →
      w.userID.value = u := by
    intro u w hw
    by_cases hu : u = (sampleWallet 500).userID.value
    · have hw2 : some (sampleWallet 500) = some w := by
        rw [← hw]
        simp [storesWith, hu]
      rw [← Option.some.inj hw2, hu]
    · have hw2 : (none : Option Wallet) = some w := by
        rw [← hw]
        simp [storesWith, hu]
      cases hw2
  have hkeyed : PaymentsKeyed (storesWith samplePayment (sampleWallet 500)) := by
    intro k p hp
    by_cases hk : k = samplePayment.id.value
    · have hp2 : some samplePayment = some p := by
        rw [← hp]
        simp [storesWith, hk]
      rw [← Option.some.inj hp2, hk]
      exact ⟨rfl, by decide⟩
    · have hp2 : (none : Option Payment) = some p := by
        rw [← hp]
        simp [storesWith, hk]
      cases hp2
  ⟨hinv, hkeyed,
    (C40_handler_frame sampleEnv (storesWith samplePayment (sampleWallet 500))
      sampleRequested hinv).1,
    ((C40_handler_frame sampleEnv (storesWith samplePayment (sampleWallet 500))
      sampleRequested hinv).2.2.2.2.2.2 hkeyed).1⟩

/-! ### C37 -/

/-- The two phases make up the handler. -/
theorem HandlePaymentRequested_phases (env : Env) (s : Stores) (event : Event) :
    HandlePaymentRequested env s event =
      match HandlePaymentRequested.readPhase env s event with
      | .inl out => out
      | .inr held => HandlePaymentRequested.writePhase env s event held := by
  unfold HandlePaymentRequested HandlePaymentRequested.readPhase
  split
  · split
    · rfl
    · split
      · rfl
      · split
        · rfl
        · split
          · rfl
          · rfl
  · rfl

/-- The helper `failPayment` changes no wallet. -/
theorem failPayment_wallets (env : Env) (s : Stores) (pmt : Payment) (reason : String) :
    (failPayment env s pmt reason).2.wallets = s.wallets := by
  have hfr : (PaymentRepository.Save (env.fails .paymentUpdate) s
      (pmt.MarkFailed reason (env.clock 0)).2).2.wallets = s.wallets := by
    cases env.fails StoreCall.paymentUpdate <;> rfl
  unfold failPayment
  simp only [PaymentRepository.Update]
  split
  · rename_i err s1 heq
    rw [heq] at hfr
    exact hfr
  · rename_i s1 heq
    rw [heq] at hfr
    exact ((publishEvent_within env 0 s1 _ _).2).trans hfr

/-- A successful lookup of a wallet returns the wallet stored under the key. -/
theorem GetByUserID_ok (f : Bool) (s : Stores) (userID : String) (wlt : Wallet)
    (h : WalletRepository.GetByUserID f s userID = .ok wlt) :
    s.wallets userID = some wlt := by
  unfold WalletRepository.GetByUserID at h
  split at h
  · cases h
  · split at h
    · cases h
    · rename_i q hq
      rw [hq, Except.ok.inj h]

/-- A `Process` that succeeds: the wallet belongs to the user of the payment,
its balance covers the amount, and the wallet returned is the debited one. -/
theorem Process_success (pmt : Payment) (wlt : Wallet) (now : Nat) (result : ProcessResult)
    (pmt1 : Payment) (wlt1 : Wallet) (h : Process pmt wlt now = (.ok result, pmt1, wlt1))
    (hs : result.Success = true) :
    pmt1 = pmt ∧ pmt.userID = wlt.userID ∧ pmt.money.amount ≤ wlt.balance.amount ∧
    wlt1 = { wlt with balance := ⟨wlt.balance.amount - pmt.money.amount, wlt.balance.currency⟩,
                      updatedAt := now } := by
  unfold Process at h
  split at h
  · cases (Prod.mk.inj h).1
  split at h
  · rw [← Except.ok.inj (Prod.mk.inj h).1] at hs
    cases hs
  split at h
  · rw [← Except.ok.inj (Prod.mk.inj h).1] at hs
    cases hs
  split at h
  · rw [← Except.ok.inj (Prod.mk.inj h).1] at hs
    cases hs
  rename_i _ hu _ hcd
  have hcd2 : wlt.CanDebit pmt.money = true := by simpa using hcd
  have hu2 : pmt.userID = wlt.userID := (UserID_Equals_iff _ _).1 (by simpa using hu)
  rw [Wallet_Debit_of_canDebit wlt pmt.money now hcd2] at h
  simp only at h
  obtain ⟨_, h2⟩ := Prod.mk.inj h
  obtain ⟨h3, h4⟩ := Prod.mk.inj h2
  exact ⟨h3.symm, hu2, ((Wallet_CanDebit_iff _ _).1 hcd2).2, h4.symm⟩

/-- A read phase that returns leaves the wallets as they were. -/
theorem readPhase_inl_wallets (env : Env) (s : Stores) (event : Event)
    (out : Option Error × Stores)
    (h : HandlePaymentRequested.readPhase env s event = .inl out) :
    out.2.wallets = s.wallets := by
  unfold HandlePaymentRequested.readPhase at h
  split at h
  · split at h
    · rw [← Sum.inl.inj h]
    · split at h
      · rw [← Sum.inl.inj h]
        exact failPayment_wallets env s _ _
      · split at h
        · rw [← Sum.inl.inj h]
        · split at h
          · rw [← Sum.inl.inj h]
            exact failPayment_wallets env s _ _
          · cases h
  · rw [← Sum.inl.inj h]

/-- A read phase that holds its values: the event is a PaymentRequested event,
the payment and the wallet are the stored ones, the wallet belongs to the user
of the payment and covers the amount, and the wallet held is the debited one. -/
theorem readPhase_inr (env : Env) (s : Stores) (event : Event)
    (held : Payment × Wallet × ProcessResult)
    (h : HandlePaymentRequested.readPhase env s event = .inr held) :
    ∃ userID wlt, s.payments event.PaymentID = some held.1 ∧
      s.wallets userID = some wlt ∧ held.1.userID = wlt.userID ∧
      held.1.money.amount ≤ wlt.balance.amount ∧
      held.2.1 = { wlt with
        balance := ⟨wlt.balance.amount - held.1.money.amount, wlt.balance.currency⟩,
        updatedAt := env.clock 0 } := by
  unfold HandlePaymentRequested.readPhase at h
  split at h
  · rename_i b paymentID userID amount currency serviceID idempotencyKey
    split at h
    · cases h
    · rename_i pmt hfind
      split at h
      · cases h
      · rename_i wlt hget
        split at h
        · cases h
        · rename_i result pmt1 wlt1 hP
          split at h
          · cases h
          · rename_i hsucc
            have hs : result.Success = true := by simpa using hsucc
            obtain ⟨h1, h2, h3, h4⟩ := Process_success _ _ _ _ _ _ hP hs
            subst h1
            rw [← Sum.inr.inj h]
            exact ⟨userID, wlt, FindByID_ok _ s paymentID pmt1 hfind,
              GetByUserID_ok _ s userID wlt hget, h2, h3, h4⟩
  · cases h

/-- The write phase changes no payment; it leaves the wallets as they were or
stores the wallet held under its user ID, and it has stored it when it returns
no error. -/
theorem writePhase_wallets (env : Env) (s : Stores) (event : Event)
    (held : Payment × Wallet × ProcessResult) :
    (HandlePaymentRequested.writePhase env s event held).2.payments = s.payments ∧
    ((HandlePaymentRequested.writePhase env s event held).2.wallets = s.wallets ∨
      (HandlePaymentRequested.writePhase env s event held).2.wallets =
        Function.update s.wallets held.2.1.userID.value (some held.2.1)) ∧
    ((HandlePaymentRequested.writePhase env s event held).1 = none →
      (HandlePaymentRequested.writePhase env s event held).2.wallets =
        Function.update s.wallets held.2.1.userID.value (some held.2.1)) := by
  unfold HandlePaymentRequested.writePhase
  simp only [WalletRepository.Update, WalletRepository.Save]
  cases hf : env.fails StoreCall.walletUpdate
  · simp only [Bool.false_eq_true, if_false]
    split
    · rename_i err s2 heq2
      have h2 := publishEvent_within_eq env 0 _ _ _ _ s2 heq2
      exact ⟨h2.1, Or.inr h2.2, fun hn => by cases hn⟩
    · rename_i s2 heq2
      have h2 := publishEvent_within_eq env 0 _ _ _ _ s2 heq2
      have h3 := publishEvent_within env 1 s2
        (NewExternalPaymentRequestedEvent held.1.id.value held.1.userID.value
          (held.1.money.AmountFloat env.float64) held.1.money.currency.code held.1.serviceID.value
          event.Metadata (env.clock 2)) held.1.id.value
      exact ⟨h3.1.trans h2.1, Or.inr (h3.2.trans h2.2), fun _ => h3.2.trans h2.2⟩
  · exact ⟨rfl, Or.inl rfl, fun hn => by cases hn⟩

/-- One step of an invocation keeps the stored balances and the balance it
holds in memory from being negative. -/
theorem stepHandler_nonneg (env : Env) (event : Event) (s : Stores) (phase : HandlerPhase)
    (hs : ∀ u w, s.wallets u = some w → 0 ≤ w.balance.amount)
    (hp : ∀ held, phase = .loaded held → 0 ≤ held.2.1.balance.amount) :
    (∀ u w, (stepHandler env event s phase).1.wallets u = some w → 0 ≤ w.balance.amount) ∧
    (∀ held, (stepHandler env event s phase).2 = .loaded held →
      0 ≤ held.2.1.balance.amount) := by
  cases phase with
  | start =>
    unfold stepHandler
    simp only
    cases hr : HandlePaymentRequested.readPhase env s event with
    | inl out =>
      simp only
      refine ⟨?_, fun held hh => by cases hh⟩
      rw [readPhase_inl_wallets env s event out hr]
      exact hs
    | inr held =>
      simp only
      refine ⟨hs, ?_⟩
      intro held2 hh
      have he : held = held2 := by
        injection hh
      subst he
      obtain ⟨userID, wlt, _, _, _, hle, hw⟩ := readPhase_inr env s event held hr
      rw [hw]
      show 0 ≤ wlt.balance.amount - held.1.money.amount
      linarith
  | loaded held =>
    unfold stepHandler
    simp only
    refine ⟨?_, fun held2 hh => by cases hh⟩
    intro u w hw
    rcases (writePhase_wallets env s event held).2.1 with h | h
    · rw [h] at hw
      exact hs u w hw
    · rw [h] at hw
      by_cases hu : u = held.2.1.userID.value
      · rw [hu, Function.update_same] at hw
        rw [← Option.some.inj hw]
        exact hp held rfl
      · rw [Function.update_noteq hu] at hw
        exact hs u w hw
  | returned err debitPath =>
    exact ⟨hs, fun held hh => by cases hh⟩

/-- Under every schedule the stored balances stay non-negative. -/
theorem runInterleaved_nonneg (envA : Env) (eventA : Event) (envB : Env) (eventB : Event)
    (schedule : List Bool) (state : Stores × HandlerPhase × HandlerPhase)
    (hs : ∀ u w, state.1.wallets u = some w → 0 ≤ w.balance.amount)
    (hA : ∀ held, state.2.1 = .loaded held → 0 ≤ held.2.1.balance.amount)
    (hB : ∀ held, state.2.2 = .loaded held → 0 ≤ held.2.1.balance.amount) :
    ∀ u w, (runInterleaved envA eventA envB eventB schedule state).1.wallets u = some w →
      0 ≤ w.balance.amount := by
  induction schedule generalizing state with
  | nil => exact hs
  | cons turn rest ih =>
    obtain ⟨s, phaseA, phaseB⟩ := state
    cases turn with
    | false =>
      have h := stepHandler_nonneg envA eventA s phaseA hs hA
      exact ih (_, _, phaseB) h.1 h.2 hB
    | true =>
      have h := stepHandler_nonneg envB eventB s phaseB hs hB
      exact ih (_, phaseA, _) h.1 hA h.2

/-- An invocation that runs its two steps in a row and reports a debit has
held its values and written them. -/
theorem stepHandler_twice_reports (env : Env) (event : Event) (s : Stores)
    (h : (stepHandler env event (stepHandler env event s .start).1
      (stepHandler env event s .start).2).2.ReportsDebit) :
    ∃ held, HandlePaymentRequested.readPhase env s event = .inr held ∧
      (HandlePaymentRequested.writePhase env s event held).1 = none ∧
      (stepHandler env event (stepHandler env event s .start).1
        (stepHandler env event s .start).2).1 =
        (HandlePaymentRequested.writePhase env s event held).2 := by
  cases hr : HandlePaymentRequested.readPhase env s event with
  | inl out =>
    have h1 : stepHandler env event s .start = (out.2, .returned out.1 false) := by
      simp only [stepHandler, hr]
    rw [h1] at h
    exact absurd h (by simp [stepHandler, HandlerPhase.ReportsDebit])
  | inr held =>
    have h1 : stepHandler env event s .start = (s, .loaded held) := by
      simp only [stepHandler, hr]
    rw [h1] at h ⊢
    refine ⟨held, rfl, ?_, rfl⟩
    cases hw : (HandlePaymentRequested.writePhase env s event held).1 with
    | none => rfl
    | some err =>
      exact absurd h (by simp [stepHandler, HandlerPhase.ReportsDebit, hw])

/-- An invocation that runs its two steps in a row on stores where every wallet
is stored under its own user ID, and reports a debit: the wallet of the user of
its payment is stored debited by the amount of the payment, nothing else is
changed in the wallets and the payments. -/
theorem stepHandler_twice_debits (env : Env) (event : Event) (s : Stores) (p : Payment)
    (w : Wallet) (hinv : ∀ u w, s.wallets u = some w → w.userID.value = u)
    (hp : s.payments event.PaymentID = some p) (hw : s.wallets p.userID.value = some w)
    (h : (stepHandler env event (stepHandler env event s .start).1
      (stepHandler env event s .start).2).2.ReportsDebit) :
    (stepHandler env event (stepHandler env event s .start).1
      (stepHandler env event s .start).2).1.payments = s.payments ∧
    (stepHandler env event (stepHandler env event s .start).1
      (stepHandler env event s .start).2).1.wallets =
      Function.update s.wallets p.userID.value
        (some { w with balance := ⟨w.balance.amount - p.money.amount, w.balance.currency⟩,
                       updatedAt := env.clock 0 }) := by
  obtain ⟨held, hr, hnone, hout⟩ := stepHandler_twice_reports env event s h
  obtain ⟨userID, wlt, hp2, hw2, hu, _, hheld⟩ := readPhase_inr env s event held hr
  have hpe : held.1 = p := Option.some.inj (hp2.symm.trans hp)
  rw [hpe] at hu hheld
  have hkey : userID = p.userID.value := by
    rw [← hinv userID wlt hw2, hu]
  rw [hkey] at hw2
  have hwe : wlt = w := Option.some.inj (hw2.symm.trans hw)
  rw [hwe] at hheld hu
  have hwu : held.2.1.userID.value = p.userID.value := by
    rw [hheld, hu]
  obtain ⟨h1, _, h3⟩ := writePhase_wallets env s event held
  rw [hout]
  refine ⟨h1, ?_⟩
  rw [h3 hnone, hwu, hheld]

/-- Two invocations for payments of the same user, one after the other, that
both report a debit: the wallet of the user is stored debited by both amounts. -/
theorem debits_in_sequence (env1 env2 : Env) (event1 event2 : Event) (s : Stores)
    (p1 p2 : Payment) (w : Wallet)
    (hinv : ∀ u w, s.wallets u = some w → w.userID.value = u)
    (hp1 : s.payments event1.PaymentID = some p1)
    (hp2 : s.payments event2.PaymentID = some p2)
    (hsame : p1.userID = p2.userID) (hw : s.wallets p1.userID.value = some w)
    (s1 : Stores)
    (hs1 : s1 = (stepHandler env1 event1 (stepHandler env1 event1 s .start).1
      (stepHandler env1 event1 s .start).2).1)
    (h1 : (stepHandler env1 event1 (stepHandler env1 event1 s .start).1
      (stepHandler env1 event1 s .start).2).2.ReportsDebit)
    (h2 : (stepHandler env2 event2 (stepHandler env2 event2 s1 .start).1
      (stepHandler env2 event2 s1 .start).2).2.ReportsDebit) :
    ∃ w2, (stepHandler env2 event2 (stepHandler env2 event2 s1 .start).1
        (stepHandler env2 event2 s1 .start).2).1.wallets p1.userID.value = some w2 ∧
      w2.balance.amount = w.balance.amount - (p1.money.amount + p2.money.amount) := by
  obtain ⟨e1, e2⟩ := stepHandler_twice_debits env1 event1 s p1 w hinv hp1 hw h1
  rw [← hs1] at e1 e2
  have hwu : w.userID.value = p1.userID.value := hinv _ w hw
  have hinv1 : ∀ u w, s1.wallets u = some w → w.userID.value = u := by
    intro u w1 hw1
    rw [e2] at hw1
    by_cases hu : u = p1.userID.value
    · rw [hu, Function.update_same] at hw1
      rw [← Option.some.inj hw1, hu]
      exact hwu
    · rw [Function.update_noteq hu] at hw1
      exact hinv u w1 hw1
  have hp2' : s1.payments event2.PaymentID = some p2 := by rw [e1]; exact hp2
  have hw' : s1.wallets p2.userID.value =
      some { w with balance := ⟨w.balance.amount - p1.money.amount, w.balance.currency⟩,
                    updatedAt := env1.clock 0 } := by
    rw [e2, ← hsame, Function.update_same]
  obtain ⟨_, f2⟩ := stepHandler_twice_debits env2 event2 s1 p2 _ hinv1 hp2' hw' h2
  refine ⟨_, by rw [f2, ← hsame, Function.update_same], ?_⟩
  show w.balance.amount - p1.money.amount - p2.money.amount = _
  ring

/-- The read phase on the debit path: a stored PENDING payment, the wallet of its
user in its currency, a balance that covers the amount. -/
theorem readPhase_debit (env : Env) (h : env.NoFaults) (s : Stores)
    (p : Payment) (w : Wallet) (b : BaseEvent) (amount : ℚ)
    (currency serviceID idempotencyKey : String)
    (hp : s.payments p.id.value = some p) (hs : p.status = PaymentStatusPending)
    (hw : s.wallets p.userID.value = some w) (hu : w.userID = p.userID)
    (hc : w.balance.currency = p.money.currency)
    (hle : p.money.amount ≤ w.balance.amount) :
    HandlePaymentRequested.readPhase env s
        (.paymentRequested b p.id.value p.userID.value amount currency serviceID
          idempotencyKey) =
      .inr (p,
        { w with balance := ⟨w.balance.amount - p.money.amount, w.balance.currency⟩,
                 updatedAt := env.clock 0 },
        { Success := true, WalletDebited := true, PreviousBalance := w.balance,
          NewBalance := ⟨w.balance.amount - p.money.amount, w.balance.currency⟩ }) := by
  have hP := Process_debit p w (env.clock 0) hs hu.symm hc hle
  simp [HandlePaymentRequested.readPhase, PaymentRepository.FindByID,
    WalletRepository.GetByUserID, h _, hp, hw, hP]

/-- The write phase with working collaborators returns no error and stores the
wallet held under its user ID. -/
theorem writePhase_noFaults (env : Env) (h : env.NoFaults) (s : Stores) (event : Event)
    (held : Payment × Wallet × ProcessResult) :
    (HandlePaymentRequested.writePhase env s event held).1 = none ∧
    (HandlePaymentRequested.writePhase env s event held).2.wallets =
      Function.update s.wallets held.2.1.userID.value (some held.2.1) ∧
    (HandlePaymentRequested.writePhase env s event held).2.payments = s.payments := by
  simp [HandlePaymentRequested.writePhase, WalletRepository.Update, WalletRepository.Save,
    h _, publishEvent_noFaults env h]

/-- The lost update: two invocations for PENDING payments of the same user, each
covered by the balance, read the wallet one after the other and then write it
one after the other.  Both report a debit, and the wallet is stored debited by
the amount of the invocation that wrote last only. -/
theorem interleaved_lost_update (envA envB : Env) (hA : envA.NoFaults) (hB : envB.NoFaults)
    (s : Stores) (pA pB : Payment) (w : Wallet) (bA bB : BaseEvent) (amountA amountB : ℚ)
    (currencyA serviceA keyA currencyB serviceB keyB : String)
    (hpA : s.payments pA.id.value = some pA) (hsA : pA.status = PaymentStatusPending)
    (hpB : s.payments pB.id.value = some pB) (hsB : pB.status = PaymentStatusPending)
    (hsame : pA.userID = pB.userID)
    (hw : s.wallets pA.userID.value = some w) (hu : w.userID = pA.userID)
    (hcA : w.balance.currency = pA.money.currency)
    (hcB : w.balance.currency = pB.money.currency)
    (hleA : pA.money.amount ≤ w.balance.amount)
    (hleB : pB.money.amount ≤ w.balance.amount) :
    (runInterleaved envA
        (.paymentRequested bA pA.id.value pA.userID.value amountA currencyA serviceA keyA)
        envB
        (.paymentRequested bB pB.id.value pB.userID.value amountB currencyB serviceB keyB)
        [false, true, false, true] (s, .start, .start)).2 =
      (.returned none true, .returned none true) ∧
    (runInterleaved envA
        (.paymentRequested bA pA.id.value pA.userID.value amountA currencyA serviceA keyA)
        envB
        (.paymentRequested bB pB.id.value pB.userID.value amountB currencyB serviceB keyB)
        [false, true, false, true] (s, .start, .start)).1.wallets pA.userID.value =
      some { w with balance := ⟨w.balance.amount - pB.money.amount, w.balance.currency⟩,
                    updatedAt := envB.clock 0 } := by
  have rA := readPhase_debit envA hA s pA w bA amountA currencyA serviceA keyA hpA hsA hw hu
    hcA hleA
  have rB := readPhase_debit envB hB s pB w bB amountB currencyB serviceB keyB hpB hsB
    (by rw [← hsame]; exact hw) (by rw [← hsame]; exact hu) hcB hleB
  have step1 : stepHandler envA
      (.paymentRequested bA pA.id.value pA.userID.value amountA currencyA serviceA keyA)
      s .start = (s, .loaded (pA,
        { w with balance := ⟨w.balance.amount - pA.money.amount, w.balance.currency⟩,
                 updatedAt := envA.clock 0 },
        { Success := true, WalletDebited := true, PreviousBalance := w.balance,
          NewBalance := ⟨w.balance.amount - pA.money.amount, w.balance.currency⟩ })) := by
    simp only [stepHandler, rA]
  have step2 : stepHandler envB
      (.paymentRequested bB pB.id.value pB.userID.value amountB currencyB serviceB keyB)
      s .start = (s, .loaded (pB,
        { w with balance := ⟨w.balance.amount - pB.money.amount, w.balance.currency⟩,
                 updatedAt := envB.clock 0 },
        { Success := true, WalletDebited := true, PreviousBalance := w.balance,
          NewBalance := ⟨w.balance.amount - pB.money.amount, w.balance.currency⟩ })) := by
    simp only [stepHandler, rB]
  simp only [runInterleaved, step1, step2]
  simp only [stepHandler]
  constructor
  · rw [(writePhase_noFaults envA hA _ _ _).1, (writePhase_noFaults envB hB _ _ _).1]
  · rw [(writePhase_noFaults envB hB _ _ _).2.1]
    simp only
    rw [hu, Function.update_same]

/-- Two invocations for PENDING payments of the same user, one after the other,
with working collaborators and a balance that covers both amounts: both report
a debit. -/
theorem serial_both_report (envA envB : Env) (hA : envA.NoFaults) (hB : envB.NoFaults)
    (s : Stores) (pA pB : Payment) (w : Wallet) (bA bB : BaseEvent) (amountA amountB : ℚ)
    (currencyA serviceA keyA currencyB serviceB keyB : String)
    (hpA : s.payments pA.id.value = some pA) (hsA : pA.status = PaymentStatusPending)
    (hpB : s.payments pB.id.value = some pB) (hsB : pB.status = PaymentStatusPending)
    (hsame : pA.userID = pB.userID)
    (hw : s.wallets pA.userID.value = some w) (hu : w.userID = pA.userID)
    (hcA : w.balance.currency = pA.money.currency)
    (hcB : w.balance.currency = pB.money.currency)
    (hnn : 0 ≤ pB.money.amount)
    (hle : pA.money.amount + pB.money.amount ≤ w.balance.amount) :
    (runInterleaved envA
        (.paymentRequested bA pA.id.value pA.userID.value amountA currencyA serviceA keyA)
        envB
        (.paymentRequested bB pB.id.value pB.userID.value amountB currencyB serviceB keyB)
        [false, false, true, true] (s, .start, .start)).2 =
      (.returned none true, .returned none true) := by
  have rA := readPhase_debit envA hA s pA w bA amountA currencyA serviceA keyA hpA hsA hw hu
    hcA (by linarith)
  have step1 : stepHandler envA
      (.paymentRequested bA pA.id.value pA.userID.value amountA currencyA serviceA keyA)
      s .start = (s, .loaded (pA,
        { w with balance := ⟨w.balance.amount - pA.money.amount, w.balance.currency⟩,
                 updatedAt := envA.clock 0 },
        { Success := true, WalletDebited := true, PreviousBalance := w.balance,
          NewBalance := ⟨w.balance.amount - pA.money.amount, w.balance.currency⟩ })) := by
    simp only [stepHandler, rA]
  obtain ⟨wA1, wA2, wA3⟩ := writePhase_noFaults envA hA s
    (.paymentRequested bA pA.id.value pA.userID.value amountA currencyA serviceA keyA)
    (pA, { w with balance := ⟨w.balance.amount - pA.money.amount, w.balance.currency⟩,
                  updatedAt := envA.clock 0 },
      { Success := true, WalletDebited := true, PreviousBalance := w.balance,
        NewBalance := ⟨w.balance.amount - pA.money.amount, w.balance.currency⟩ })
  simp only [runInterleaved, step1]
  simp only [stepHandler, wA1]
  generalize hs1 : (HandlePaymentRequested.writePhase envA s
    (.paymentRequested bA pA.id.value pA.userID.value amountA currencyA serviceA keyA)
    (pA, { w with balance := ⟨w.balance.amount - pA.money.amount, w.balance.currency⟩,
                  updatedAt := envA.clock 0 },
      { Success := true, WalletDebited := true, PreviousBalance := w.balance,
        NewBalance := ⟨w.balance.amount - pA.money.amount, w.balance.currency⟩ })).2 = s1
    at wA2 wA3
  simp only at wA2
  have hpB1 : s1.payments pB.id.value = some pB := by rw [wA3]; exact hpB
  have hwB1 : s1.wallets pB.userID.value =
      some { w with balance := ⟨w.balance.amount - pA.money.amount, w.balance.currency⟩,
                    updatedAt := envA.clock 0 } := by
    rw [wA2, hu, ← hsame, Function.update_same]
  have rB := readPhase_debit envB hB s1 pB
    { w with balance := ⟨w.balance.amount - pA.money.amount, w.balance.currency⟩,
             updatedAt := envA.clock 0 }
    bB amountB currencyB serviceB keyB hpB1 hsB hwB1 (by rw [← hsame]; exact hu) hcB
    (by show pB.money.amount ≤ w.balance.amount - pA.money.amount; linarith)
  simp only at rB
  simp only [rB]
  rw [(writePhase_noFaults envB hB _ _ _).1]

/-- C37, as amended: two PaymentRequested events for two payments of the same
user are handled at once, each invocation with its read phase and its write
phase, on stores where every wallet is stored under its own user ID with a
balance that is not negative.  Under every schedule of the steps the stored
balances stay non-negative.  When the two invocations run one after the other
(in either order) and both report a successful debit, the final stored balance
of the wallet of the user is the initial balance minus the sum of the two
amounts: no debit is lost. -/
theorem C37_concurrent_debits (envA envB : Env) (eventA eventB : Event) (s : Stores)
    (pA pB : Payment) (w : Wallet)
    (hinv : ∀ u w, s.wallets u = some w → w.userID.value = u)
    (hnn : ∀ u w, s.wallets u = some w → 0 ≤ w.balance.amount)
    (hpA : s.payments eventA.PaymentID = some pA)
    (hpB : s.payments eventB.PaymentID = some pB)
    (hsame : pA.userID = pB.userID) (hw : s.wallets pA.userID.value = some w) :
    (∀ schedule u w1,
      (runInterleaved envA eventA envB eventB schedule (s, .start, .start)).1.wallets u
        = some w1 → 0 ≤ w1.balance.amount) ∧
    (∀ schedule,
      schedule = [false, false, true, true] ∨ schedule = [true, true, false, false] →
      (runInterleaved envA eventA envB eventB schedule
        (s, .start, .start)).2.1.ReportsDebit →
      (runInterleaved envA eventA envB eventB schedule
        (s, .start, .start)).2.2.ReportsDebit →
      ∃ w1, (runInterleaved envA eventA envB eventB schedule
          (s, .start, .start)).1.wallets pA.userID.value = some w1 ∧
        w1.balance.amount = w.balance.amount - (pA.money.amount + pB.money.amount)) := by
  constructor
  · intro schedule
    exact runInterleaved_nonneg envA eventA envB eventB schedule (s, .start, .start) hnn
      (fun held hh => by cases hh) (fun held hh => by cases hh)
  · intro schedule hsched h1 h2
    rcases hsched with rfl | rfl
    · exact debits_in_sequence envA envB eventA eventB s pA pB w hinv hpA hpB hsame hw _ rfl
        h1 h2
    · obtain ⟨w1, hw1, hb⟩ := debits_in_sequence envB envA eventB eventA s pB pA w hinv hpB
        hpA hsame.symm (by rw [← hsame]; exact hw) _ rfl h2 h1
      refine ⟨w1, by rw [hsame]; exact hw1, ?_⟩
      rw [hb, add_comm]

/-- C37 (amended) at the payments of 100 ARS and of 200 ARS of user-123 and the
wallet of 500 ARS: handled one after the other, both report a debit and the
balance stored is 200 ARS. -/
theorem C37_concurrent_debits_witness :
    ((∀ u w, (storesWithTwo samplePayment sampleSecondPayment (sampleWallet 500)).wallets u
        = some w → w.userID.value = u) ∧
      (∀ u w, (storesWithTwo samplePayment sampleSecondPayment (sampleWallet 500)).wallets u
        = some w → 0 ≤ w.balance.amount) ∧
      (storesWithTwo samplePayment sampleSecondPayment (sampleWallet 500)).payments
        sampleRequested.PaymentID = some samplePayment ∧
      (storesWithTwo samplePayment sampleSecondPayment (sampleWallet 500)).payments
        sampleSecondRequested.PaymentID = some sampleSecondPayment ∧
      samplePayment.userID = sampleSecondPayment.userID ∧
      (storesWithTwo samplePayment sampleSecondPayment (sampleWallet 500)).wallets
        samplePayment.userID.value = some (sampleWallet 500)) ∧
    (runInterleaved sampleEnv sampleRequested sampleEnv sampleSecondRequested
      [false, false, true, true]
      (storesWithTwo samplePayment sampleSecondPayment (sampleWallet 500), .start,
        .start)).2 = (.returned none true, .returned none true) ∧
    ∃ w1, (runInterleaved sampleEnv sampleRequested sampleEnv sampleSecondRequested
        [false, false, true, true]
        (storesWithTwo samplePayment sampleSecondPayment (sampleWallet 500), .start,
          .start)).1.wallets "user-123" = some w1 ∧
      w1.balance.amount = 200 :=
  have hwal : ∀ u w,
      (storesWithTwo samplePayment sampleSecondPayment (sampleWallet 500)).wallets u
        = some w → w = sampleWallet 500 ∧ u = "user-123" := by
    intro u w hw
    by_cases hu : u = (sampleWallet 500).userID.value
    · have hw2 : some (sampleWallet 500) = some w := by
        rw [← hw]
        simp [storesWithTwo, hu]
      exact ⟨(Option.some.inj hw2).symm, hu⟩
    · have hw2 : (none : Option Wallet) = some w := by
        rw [← hw]
        simp [storesWithTwo, hu]
      cases hw2
  have hinv : ∀ u w,
      (storesWithTwo samplePayment sampleSecondPayment (sampleWallet 500)).wallets u
        = some w → w.userID.value = u := by
    intro u w hw
    obtain ⟨h1, h2⟩ := hwal u w hw
    rw [h1, h2]
    rfl
  have hnn : ∀ u w,
      (storesWithTwo samplePayment sampleSecondPayment (sampleWallet 500)).wallets u
        = some w → 0 ≤ w.balance.amount := by
    intro u w hw
    rw [(hwal u w hw).1]
    show (0 : ℚ) ≤ 500
    norm_num
  have hrep := serial_both_report sampleEnv sampleEnv sampleEnv_noFaults sampleEnv_noFaults
    (storesWithTwo samplePayment sampleSecondPayment (sampleWallet 500)) samplePayment
    sampleSecondPayment (sampleWallet 500) ⟨"PaymentRequested", 0, sampleMetadata⟩
    ⟨"PaymentRequested", 0, sampleMetadata⟩ 100 200 "ARS" "service-123" "key-123" "ARS"
    "service-123" "key-456" rfl rfl rfl rfl rfl rfl rfl rfl rfl
    (by show (0 : ℚ) ≤ 200; norm_num) (by show (100 : ℚ) + 200 ≤ 500; norm_num)
  have hrep2 : (runInterleaved sampleEnv sampleRequested sampleEnv sampleSecondRequested
      [false, false, true, true]
      (storesWithTwo samplePayment sampleSecondPayment (sampleWallet 500), .start,
        .start)).2 = (.returned none true, .returned none true) := hrep
  have hmain := (C37_concurrent_debits sampleEnv sampleEnv sampleRequested
    sampleSecondRequested
    (storesWithTwo samplePayment sampleSecondPayment (sampleWallet 500)) samplePayment
    sampleSecondPayment (sampleWallet 500) hinv hnn rfl rfl rfl rfl).2
    [false, false, true, true] (Or.inl rfl)
    (by rw [hrep2]; exact True.intro) (by rw [hrep2]; exact True.intro)
  ⟨⟨hinv, hnn, rfl, rfl, rfl, rfl⟩, hrep2,
    hmain.elim fun w1 h => ⟨w1, h.1, h.2.trans (by show (500 : ℚ) - (100 + 200) = 200; norm_num)⟩⟩

/-- C37 as stated fails: the payments of 100 ARS and of 200 ARS of user-123 and
the wallet of 500 ARS; invocation A reads the wallet, invocation B reads the
wallet, A writes, B writes.  Both report a successful debit, and the balance
stored at the end is 300 ARS, not 500 - (100 + 200) = 200 ARS: the debit of A
is lost. -/
theorem C37_interleaved_debit_lost :
    (runInterleaved sampleEnv sampleRequested sampleEnv sampleSecondRequested
      [false, true, false, true]
      (storesWithTwo samplePayment sampleSecondPayment (sampleWallet 500), .start,
        .start)).2.1.ReportsDebit ∧
    (runInterleaved sampleEnv sampleRequested sampleEnv sampleSecondRequested
      [false, true, false, true]
      (storesWithTwo samplePayment sampleSecondPayment (sampleWallet 500), .start,
        .start)).2.2.ReportsDebit ∧
    ∃ w1, (runInterleaved sampleEnv sampleRequested sampleEnv sampleSecondRequested
        [false, true, false, true]
        (storesWithTwo samplePayment sampleSecondPayment (sampleWallet 500), .start,
          .start)).1.wallets "user-123" = some w1 ∧
      w1.balance.amount = 300 ∧
      w1.balance.amount ≠
        (sampleWallet 500).balance.amount -
          (samplePayment.money.amount + sampleSecondPayment.money.amount) := by
  have h := interleaved_lost_update sampleEnv sampleEnv sampleEnv_noFaults sampleEnv_noFaults
    (storesWithTwo samplePayment sampleSecondPayment (sampleWallet 500)) samplePayment
    sampleSecondPayment (sampleWallet 500) ⟨"PaymentRequested", 0, sampleMetadata⟩
    ⟨"PaymentRequested", 0, sampleMetadata⟩ 100 200 "ARS" "service-123" "key-123" "ARS"
    "service-123" "key-456" rfl rfl rfl rfl rfl rfl rfl rfl rfl
    (by show (100 : ℚ) ≤ 500; norm_num) (by show (200 : ℚ) ≤ 500; norm_num)
  have h1 : (runInterleaved sampleEnv sampleRequested sampleEnv sampleSecondRequested
      [false, true, false, true]
      (storesWithTwo samplePayment sampleSecondPayment (sampleWallet 500), .start,
        .start)).2 = (.returned none true, .returned none true) := h.1
  have h2 : (runInterleaved sampleEnv sampleRequested sampleEnv sampleSecondRequested
      [false, true, false, true]
      (storesWithTwo samplePayment sampleSecondPayment (sampleWallet 500), .start,
        .start)).1.wallets "user-123" =
      some { sampleWallet 500 with balance := ⟨500 - 200, ⟨"ARS"⟩⟩, updatedAt := 1000 } :=
    h.2
  refine ⟨by rw [h1]; exact True.intro, by rw [h1]; exact True.intro, _, h2, ?_, ?_⟩
  · show (500 : ℚ) - 200 = 300
    norm_num
  · show (500 : ℚ) - 200 ≠ 500 - (100 + 200)
    norm_num

end PaymentApi
